import Mathlib

/-!
# CIP-15 / CIP-36 vote-key registration sub-machine of the Cardano Ledger app

Shallow embedding of `src/signTxCVoteRegistration.c`.

* The session (`cvote_registration_context_t`) is a record; the C code mutates it in
  place, the embedding threads a `World` through every function.
* A C function that can `THROW` returns an `Outcome`: the status (`returned` or
  `thrown e`) together with the world as it is at that point.  Writes made before a
  throw are therefore kept, exactly as in C.
* Everything the module does to its collaborators (hash accumulator, host responses,
  screens, policy consultations, signing) is appended, in program order, to
  `World.trace`.
* Collaborators whose code is not part of the module (policy oracle, key derivation,
  signer, path and destination parsers, hash digests, enum constants of headers) are
  fields of `Env`.
-/

namespace CVote

/-! ## Basic types -/

/-- One octet of wire data. -/
abbrev uint8_t := Fin 256

/-- Error codes the module can throw.  `ERR_ASSERT` is what a failed `ASSERT` raises
(`assert.c`), `ERR_NOT_ENOUGH_INPUT` is the buffer view's underrun failure, and
`ERR_OTHER` stands for whatever an external parser throws on its own. -/
inductive Err
  | ERR_INVALID_STATE
  | ERR_INVALID_DATA
  | ERR_NOT_IMPLEMENTED
  | ERR_REJECTED_BY_POLICY
  | ERR_REJECTED_BY_USER
  | ERR_NOT_ENOUGH_INPUT
  | ERR_ASSERT
  | ERR_OTHER (code : Nat)
  deriving DecidableEq, Repr

/-- The states of the sub-machine (`sign_tx_cvote_registration_state_t`). -/
inductive sign_tx_cvote_registration_state_t
  | STATE_CVOTE_REGISTRATION_INIT
  | STATE_CVOTE_REGISTRATION_VOTE_KEY
  | STATE_CVOTE_REGISTRATION_DELEGATIONS
  | STATE_CVOTE_REGISTRATION_STAKING_KEY
  | STATE_CVOTE_REGISTRATION_PAYMENT_ADDRESS
  | STATE_CVOTE_REGISTRATION_NONCE
  | STATE_CVOTE_REGISTRATION_VOTING_PURPOSE
  | STATE_CVOTE_REGISTRATION_CONFIRM
  | STATE_CVOTE_REGISTRATION_FINISHED
  deriving DecidableEq, Repr

export sign_tx_cvote_registration_state_t (STATE_CVOTE_REGISTRATION_INIT
  STATE_CVOTE_REGISTRATION_VOTE_KEY STATE_CVOTE_REGISTRATION_DELEGATIONS
  STATE_CVOTE_REGISTRATION_STAKING_KEY STATE_CVOTE_REGISTRATION_PAYMENT_ADDRESS
  STATE_CVOTE_REGISTRATION_NONCE STATE_CVOTE_REGISTRATION_VOTING_PURPOSE
  STATE_CVOTE_REGISTRATION_CONFIRM STATE_CVOTE_REGISTRATION_FINISHED)

/-- Outcomes of the security policy oracle (`security_policy_t`). -/
inductive security_policy_t
  | POLICY_DENY
  | POLICY_ALLOW_WITHOUT_PROMPT
  | POLICY_PROMPT_BEFORE_RESPONSE
  | POLICY_PROMPT_WARN_UNUSUAL
  | POLICY_SHOW_BEFORE_RESPONSE
  deriving DecidableEq, Repr

export security_policy_t (POLICY_DENY POLICY_ALLOW_WITHOUT_PROMPT
  POLICY_PROMPT_BEFORE_RESPONSE POLICY_PROMPT_WARN_UNUSUAL POLICY_SHOW_BEFORE_RESPONSE)

/-- A hierarchical derivation path, as the list of its indices; the zeroed path is
the empty one. -/
abbrev bip44_path_t := List Nat

/-- Parameters of a device-owned address, kept as the bytes that encode them. -/
abbrev addressParams_t := List uint8_t

/-- A payment destination (`tx_output_destination_storage_t`): a type tag, and either
derivation parameters or an address supplied by the host. -/
structure tx_output_destination_storage_t where
  type : Nat
  params : addressParams_t
  address : List uint8_t
  deriving DecidableEq, Repr

/-- The `delegation` member of `stateData`: type tag, raw key or key path, weight. -/
structure delegation_t where
  type : Nat
  votePubKey : List uint8_t
  votePubKeyPath : bip44_path_t
  weight : Nat
  deriving DecidableEq, Repr

/-- The `stateData` union of the session, as the member written last; `zeroed` is the
union right after `explicit_bzero`. -/
inductive stateData_t
  | zeroed
  | delegation (d : delegation_t)
  | paymentDestination (d : tx_output_destination_storage_t)
  | nonce (n : Nat)
  | votingPurpose (n : Nat)
  | registrationSignature (sig : List uint8_t)
  deriving DecidableEq, Repr

/-- The session, `cvote_registration_context_t`. -/
structure cvote_registration_context_t where
  state : sign_tx_cvote_registration_state_t
  ui_step : Nat
  format : Nat
  numDelegations : Nat
  currentDelegation : Nat
  stakingKeyPath : bip44_path_t
  auxDataHash : List uint8_t
  stateData : stateData_t
  deriving DecidableEq, Repr

/-! ## Observable actions -/

/-- Calls on the auxiliary data hash accumulator (`auxDataHashBuilder_*`). -/
inductive HashCall
  | enter (format : Nat)
  | enterPayload
  | addVoteKey (key : List uint8_t)
  | enterDelegations (numDelegations : Nat)
  | addDelegation (key : List uint8_t) (weight : Nat)
  | addStakingKey (key : List uint8_t)
  | addPaymentAddress (address : List uint8_t)
  | addNonce (nonce : Nat)
  | addVotingPurpose (votingPurpose : Nat)
  | finalizePayload
  | addSignature (sig : List uint8_t)
  | addAuxiliaryScripts
  | finalize
  deriving DecidableEq, Repr

/-- What is sent to the host. -/
inductive Response
  | successEmpty
  | success (data : List uint8_t)
  | userReject
  deriving DecidableEq, Repr

/-- Screens handed to the UI sequencer. -/
inductive Screen
  | paginatedText (header text : String)
  | bech32 (header hrp : String) (bytes : List uint8_t)
  | path (header : String) (p : bip44_path_t)
  | uint64 (header : String) (value : Nat)
  | stakingKey (p : bip44_path_t)
  | address (header : String) (bytes : List uint8_t)
  | prompt (header text : String)
  | hexBuffer (header : String) (bytes : List uint8_t)
  deriving DecidableEq, Repr

/-- The policy functions of `securityPolicy.h` that the module consults. -/
inductive PolicyQuery
  | voteKeyPath
  | voteKey
  | stakingKey
  | paymentDestination
  | nonce
  | votingPurpose
  | confirm
  deriving DecidableEq, Repr

/-- One observable action of the module. -/
inductive Effect
  | hash (c : HashCall)
  | respond (r : Response)
  | display (s : Screen)
  | policy (q : PolicyQuery)
  | sign (p : bip44_path_t) (payloadHash : List uint8_t)
  deriving DecidableEq, Repr

/-- The per-step UI drivers, as the callbacks a screen is given. -/
inductive ui_callback_fn_t
  | handleVoteKey_ui_runStep
  | handleDelegation_ui_runStep
  | handleStakingKey_ui_runStep
  | handlePaymentAddress_ui_runStep
  | handleNonce_ui_runStep
  | handleVotingPurpose_ui_runStep
  | handleConfirm_ui_runStep
  deriving DecidableEq, Repr

/-- The screen in flight: the callback that resumes the driver, and whether the
screen also offers `respond_with_user_reject`. -/
structure PendingScreen where
  callback : ui_callback_fn_t
  canReject : Bool
  deriving DecidableEq, Repr

/-- Everything the module reads and writes: the session, the log of observable
actions (oldest first) and the screen in flight, if any. -/
structure World where
  subctx : cvote_registration_context_t
  trace : List Effect
  pending : Option PendingScreen
  deriving DecidableEq, Repr

/-- Whether a C function returned or threw. -/
inductive Status
  | returned
  | thrown (e : Err)
  deriving DecidableEq, Repr

/-- Result of running a C function: its status and the world it leaves. -/
structure Outcome where
  status : Status
  world : World
  deriving DecidableEq, Repr

/-- External collaborators and header constants of the module. -/
structure Env where
  CIP15 : Nat
  CIP36 : Nat
  DELEGATION_KEY : Nat
  DELEGATION_PATH : Nat
  DESTINATION_DEVICE_OWNED : Nat
  DESTINATION_THIRD_PARTY : Nat
  BUFFER_SIZE_PARANOIA : Nat
  MAX_ADDRESS_SIZE : Nat
  networkId : Nat
  app_mode_expert : Bool
  signTx_parseIncluded : Nat → Except Err Bool
  bip44_parseFromWire : List uint8_t → Except Err (bip44_path_t × Nat)
  view_parseDestination :
    List uint8_t → Except Err (tx_output_destination_storage_t × List uint8_t)
  deriveExtendedPublicKey : bip44_path_t → List uint8_t
  deriveAddress : addressParams_t → List uint8_t
  getCVoteRegistrationSignature : bip44_path_t → List uint8_t → List uint8_t
  finalizePayloadDigest : List HashCall → List uint8_t
  finalizeDigest : List HashCall → List uint8_t
  policyForCVoteRegistrationVoteKeyPath : bip44_path_t → Nat → security_policy_t
  policyForCVoteRegistrationVoteKey : security_policy_t
  policyForCVoteRegistrationStakingKey : bip44_path_t → security_policy_t
  policyForCVoteRegistrationPaymentDestination :
    tx_output_destination_storage_t → Nat → security_policy_t
  policyForCVoteRegistrationNonce : security_policy_t
  policyForCVoteRegistrationVotingPurpose : security_policy_t
  policyForCVoteRegistrationConfirm : security_policy_t
  AUX_DATA_HASH_LENGTH : Nat
  CVOTE_REGISTRATION_PAYLOAD_HASH_LENGTH : Nat
  ED25519_SIGNATURE_LENGTH : Nat

/-! ## Small helpers -/

/-- The function returned normally. -/
def returned (w : World) : Outcome := ⟨Status.returned, w⟩

/-- The C macro `THROW(e)`: control leaves the handler, the world stays as it is. -/
def THROW (e : Err) (w : World) : Outcome := ⟨Status.thrown e, w⟩

/-- Append one observable action to the log. -/
def World.emit (w : World) (e : Effect) : World :=
  { w with trace := w.trace ++ [e] }

/-- Write `subctx->state`. -/
def World.setState (w : World) (st : sign_tx_cvote_registration_state_t) : World :=
  { w with subctx := { w.subctx with state := st } }

/-- Write `subctx->ui_step`. -/
def World.setUiStep (w : World) (n : Nat) : World :=
  { w with subctx := { w.subctx with ui_step := n } }

/-- Write `subctx->stateData`. -/
def World.setStateData (w : World) (d : stateData_t) : World :=
  { w with subctx := { w.subctx with stateData := d } }

/-- Hand a screen to the UI sequencer: it is rendered and the driver is suspended
until the user acts; `cb` is the callback that resumes it. -/
def World.display (w : World) (s : Screen) (cb : ui_callback_fn_t) (canReject : Bool) :
    World :=
  { w with trace := w.trace ++ [Effect.display s], pending := some ⟨cb, canReject⟩ }

/-- The hash-accumulator call carried by an action, if it is one. -/
def Effect.asHash : Effect → Option HashCall
  | Effect.hash c => some c
  | _ => none

/-- The response carried by an action, if it is one. -/
def Effect.asResponse : Effect → Option Response
  | Effect.respond r => some r
  | _ => none

/-- The screen carried by an action, if it is one. -/
def Effect.asScreen : Effect → Option Screen
  | Effect.display s => some s
  | _ => none

/-- The policy consultation carried by an action, if it is one. -/
def Effect.asPolicy : Effect → Option PolicyQuery
  | Effect.policy q => some q
  | _ => none

/-- The hash-accumulator calls of a log, in order. -/
def hashCalls (t : List Effect) : List HashCall := t.filterMap Effect.asHash

/-- The responses of a log, in order. -/
def responses (t : List Effect) : List Response := t.filterMap Effect.asResponse

/-- The screens of a log, in order. -/
def screens (t : List Effect) : List Screen := t.filterMap Effect.asScreen

/-- The policy consultations of a log, in order. -/
def policyQueries (t : List Effect) : List PolicyQuery := t.filterMap Effect.asPolicy

/-- Modelled from the spec: the raw vote public key is a fixed 32 bytes (the constant
`CVOTE_PUBLIC_KEY_LENGTH` is declared in a header that is not among the sources). -/
def CVOTE_PUBLIC_KEY_LENGTH : Nat := 32

/-- Width of the value `numDelegations` receives: the source casts the parsed count
with `(uint16_t)`. -/
def UINT16_RANGE : Nat := 2 ^ 16

/-- The `delegation` member of a zeroed `stateData`. -/
def zeroDelegation : delegation_t :=
  { type := 0, votePubKey := List.replicate CVOTE_PUBLIC_KEY_LENGTH 0,
    votePubKeyPath := [], weight := 0 }

/-- The `paymentDestination` member of a zeroed `stateData`. -/
def zeroDestination : tx_output_destination_storage_t :=
  { type := 0, params := [], address := [] }

/-- Read `stateData.delegation`.  The code reads this member only after it wrote it in
the same command; for a zeroed union the read gives the zero record. -/
def stateData_t.getDelegation : stateData_t → delegation_t
  | stateData_t.delegation d => d
  | _ => zeroDelegation

/-- Read `stateData.paymentDestination` (see `getDelegation`). -/
def stateData_t.getPaymentDestination : stateData_t → tx_output_destination_storage_t
  | stateData_t.paymentDestination d => d
  | _ => zeroDestination

/-- Read `stateData.nonce` (see `getDelegation`). -/
def stateData_t.getNonce : stateData_t → Nat
  | stateData_t.nonce n => n
  | _ => 0

/-- Read `stateData.votingPurpose` (see `getDelegation`). -/
def stateData_t.getVotingPurpose : stateData_t → Nat
  | stateData_t.votingPurpose n => n
  | _ => 0

/-- Read `stateData.registrationSignature` (see `getDelegation`). -/
def stateData_t.getRegistrationSignature : stateData_t → List uint8_t
  | stateData_t.registrationSignature s => s
  | _ => []

/-! ## Wire view parser

Modelled from the spec: `bufView.h` is not among the sources.  The spec describes the
view as a cursor offering bounds-checked fixed-width integer reads and raw-byte reads
that fails closed on underrun; a view is represented by the bytes still unread. -/

/-- The bytes of the view that are still unread. -/
abbrev read_view_t := List uint8_t

/-- Modelled from the spec: `make_read_view(begin, end)`, a cursor on the whole
payload. -/
def make_read_view (wireData : List uint8_t) : read_view_t := wireData

/-- Modelled from the spec: `view_remainingSize`, the number of unread bytes. -/
def view_remainingSize (view : read_view_t) : Nat := view.length

/-- Big-endian value of a byte string. -/
def beValue (bytes : List uint8_t) : Nat :=
  bytes.foldl (fun acc b => acc * 256 + b.val) 0

/-- Modelled from the spec: `view_parseBuffer`, a bounds-checked read of `n` raw
bytes. -/
def view_parseBuffer (view : read_view_t) (n : Nat) :
    Except Err (List uint8_t × read_view_t) :=
  if n ≤ view.length then Except.ok (view.take n, view.drop n)
  else Except.error Err.ERR_NOT_ENOUGH_INPUT

/-- Modelled from the spec: `view_skipBytes`, a bounds-checked skip of `n` bytes. -/
def view_skipBytes (view : read_view_t) (n : Nat) : Except Err read_view_t :=
  if n ≤ view.length then Except.ok (view.drop n)
  else Except.error Err.ERR_NOT_ENOUGH_INPUT

/-- Modelled from the spec: a bounds-checked big-endian read of `n` bytes. -/
def parse_be (n : Nat) (view : read_view_t) : Except Err (Nat × read_view_t) :=
  if n ≤ view.length then Except.ok (beValue (view.take n), view.drop n)
  else Except.error Err.ERR_NOT_ENOUGH_INPUT

/-- Modelled from the spec: `parse_u1be`, a bounds-checked 1-byte read. -/
def parse_u1be (view : read_view_t) : Except Err (Nat × read_view_t) := parse_be 1 view

/-- Modelled from the spec: `parse_u4be`, a bounds-checked 4-byte big-endian read. -/
def parse_u4be (view : read_view_t) : Except Err (Nat × read_view_t) := parse_be 4 view

/-- Modelled from the spec: `parse_u8be`, a bounds-checked 8-byte big-endian read. -/
def parse_u8be (view : read_view_t) : Except Err (Nat × read_view_t) := parse_be 8 view

/-- Modelled from the spec: `u8be_read`, the big-endian value of the first 8 bytes of
a buffer (no bounds check). -/
def u8be_read (buffer : List uint8_t) : Nat := beValue (buffer.take 8)

/-! ## State machine -/

/-- The function `signTxCVoteRegistration_isFinished`. -/
def signTxCVoteRegistration_isFinished (w : World) : Bool :=
  match w.subctx.state with
  | STATE_CVOTE_REGISTRATION_FINISHED => true
  | STATE_CVOTE_REGISTRATION_INIT => false
  | STATE_CVOTE_REGISTRATION_VOTE_KEY => false
  | STATE_CVOTE_REGISTRATION_DELEGATIONS => false
  | STATE_CVOTE_REGISTRATION_STAKING_KEY => false
  | STATE_CVOTE_REGISTRATION_PAYMENT_ADDRESS => false
  | STATE_CVOTE_REGISTRATION_NONCE => false
  | STATE_CVOTE_REGISTRATION_VOTING_PURPOSE => false
  | STATE_CVOTE_REGISTRATION_CONFIRM => false

/-- The session after `explicit_bzero` of the stage context. -/
def zeroSubctx : cvote_registration_context_t :=
  { state := STATE_CVOTE_REGISTRATION_INIT, ui_step := 0, format := 0,
    numDelegations := 0, currentDelegation := 0, stakingKeyPath := [],
    auxDataHash := [], stateData := stateData_t.zeroed }

/-- The function `signTxCVoteRegistration_init`: the stage context is zeroed, the hash
accumulator is initialised (no call made on it yet) and the state is set to Init. -/
def signTxCVoteRegistration_init : World :=
  { subctx := { zeroSubctx with state := STATE_CVOTE_REGISTRATION_INIT },
    trace := [], pending := none }

/-- The function `advanceState`. -/
def advanceState (w : World) : Outcome :=
  match w.subctx.state with
  | STATE_CVOTE_REGISTRATION_INIT =>
    if w.subctx.numDelegations > 0 then
      returned ((w.setState STATE_CVOTE_REGISTRATION_DELEGATIONS).emit
        (Effect.hash (HashCall.enterDelegations w.subctx.numDelegations)))
    else
      returned (w.setState STATE_CVOTE_REGISTRATION_VOTE_KEY)
  | STATE_CVOTE_REGISTRATION_DELEGATIONS =>
    if w.subctx.currentDelegation = w.subctx.numDelegations then
      returned (w.setState STATE_CVOTE_REGISTRATION_STAKING_KEY)
    else
      THROW Err.ERR_ASSERT w
  | STATE_CVOTE_REGISTRATION_VOTE_KEY =>
    returned (w.setState STATE_CVOTE_REGISTRATION_STAKING_KEY)
  | STATE_CVOTE_REGISTRATION_STAKING_KEY =>
    returned (w.setState STATE_CVOTE_REGISTRATION_PAYMENT_ADDRESS)
  | STATE_CVOTE_REGISTRATION_PAYMENT_ADDRESS =>
    returned (w.setState STATE_CVOTE_REGISTRATION_NONCE)
  | STATE_CVOTE_REGISTRATION_NONCE =>
    returned (w.setState STATE_CVOTE_REGISTRATION_VOTING_PURPOSE)
  | STATE_CVOTE_REGISTRATION_VOTING_PURPOSE =>
    returned (w.setState STATE_CVOTE_REGISTRATION_CONFIRM)
  | STATE_CVOTE_REGISTRATION_CONFIRM =>
    returned (w.setState STATE_CVOTE_REGISTRATION_FINISHED)
  | STATE_CVOTE_REGISTRATION_FINISHED =>
    THROW Err.ERR_ASSERT w

/-- The call `respondSuccessEmptyMsg()`. -/
def respondSuccessEmptyMsg (w : World) : World :=
  w.emit (Effect.respond Response.successEmpty)

/-- The tail shared by the `..._STEP_RESPOND` cases of the drivers that end with
`advanceState(); UI_STEP_END(invalid)`: once `advanceState` returns, the step is set
to the driver's invalid step. -/
def finishStep (invalidStep : Nat) (o : Outcome) : Outcome :=
  match o.status with
  | Status.returned => returned (o.world.setUiStep invalidStep)
  | Status.thrown e => THROW e o.world

/-- Write `subctx->format`. -/
def World.setFormat (w : World) (f : Nat) : World :=
  { w with subctx := { w.subctx with format := f } }

/-- Write `subctx->numDelegations`. -/
def World.setNumDelegations (w : World) (n : Nat) : World :=
  { w with subctx := { w.subctx with numDelegations := n } }

/-- Write `subctx->currentDelegation`. -/
def World.setCurrentDelegation (w : World) (n : Nat) : World :=
  { w with subctx := { w.subctx with currentDelegation := n } }

/-- Write `subctx->stakingKeyPath`. -/
def World.setStakingKeyPath (w : World) (p : bip44_path_t) : World :=
  { w with subctx := { w.subctx with stakingKeyPath := p } }

/-- Write `subctx->auxDataHash`. -/
def World.setAuxDataHash (w : World) (h : List uint8_t) : World :=
  { w with subctx := { w.subctx with auxDataHash := h } }

/-- Content of a byte array of `n` cells that received `bytes`: cut to `n` bytes,
filled with zeroes. -/
def fixed (n : Nat) (bytes : List uint8_t) : List uint8_t :=
  (bytes ++ List.replicate n 0).take n

/-! ### Init -/

/-- The function `signTxCVoteRegistration_handleInitAPDU`. -/
def signTxCVoteRegistration_handleInitAPDU (env : Env) (wireData : List uint8_t)
    (w : World) : Outcome :=
  if w.subctx.state ≠ STATE_CVOTE_REGISTRATION_INIT then THROW Err.ERR_INVALID_STATE w
  else if ¬ wireData.length < env.BUFFER_SIZE_PARANOIA then THROW Err.ERR_ASSERT w
  else
    let w1 := w.setStateData stateData_t.zeroed
    match parse_u1be (make_read_view wireData) with
    | Except.error e => THROW e w1
    | Except.ok (format, view1) =>
      let w2 := w1.setFormat format
      if w2.subctx.format ≠ env.CIP15 ∧ w2.subctx.format ≠ env.CIP36 then
        THROW Err.ERR_INVALID_DATA w2
      else
        match parse_u4be view1 with
        | Except.error e => THROW e w2
        | Except.ok (count, view2) =>
          let w3 := w2.setNumDelegations (count % UINT16_RANGE)
          if w3.subctx.format = env.CIP15 ∧ w3.subctx.numDelegations ≠ 0 then
            THROW Err.ERR_INVALID_DATA w3
          else if view_remainingSize view2 ≠ 0 then THROW Err.ERR_INVALID_DATA w3
          else
            let w4 := (w3.emit (Effect.hash (HashCall.enter w3.subctx.format))).emit
              (Effect.hash HashCall.enterPayload)
            advanceState (respondSuccessEmptyMsg w4)

/-! ### Vote key -/

/-- The function `_parseVoteKey`; returns the view as it is left. -/
def _parseVoteKey (env : Env) (view : read_view_t) (w : World) : Outcome × read_view_t :=
  match parse_u1be view with
  | Except.error e => (THROW e w, view)
  | Except.ok (type, view1) =>
    let d : delegation_t := { w.subctx.stateData.getDelegation with type := type }
    let w1 := w.setStateData (stateData_t.delegation d)
    if type = env.DELEGATION_KEY then
      match view_parseBuffer view1 CVOTE_PUBLIC_KEY_LENGTH with
      | Except.error e => (THROW e w1, view1)
      | Except.ok (key, view2) =>
        (returned (w1.setStateData (stateData_t.delegation { d with votePubKey := key })),
          view2)
    else if type = env.DELEGATION_PATH then
      match env.bip44_parseFromWire view1 with
      | Except.error e => (THROW e w1, view1)
      | Except.ok (path, size) =>
        let w2 := w1.setStateData (stateData_t.delegation { d with votePubKeyPath := path })
        match view_skipBytes view1 size with
        | Except.error e => (THROW e w2, view1)
        | Except.ok view2 => (returned w2, view2)
    else (THROW Err.ERR_INVALID_DATA w1, view1)

/-- The function `_determineVoteKeyPolicy`; `none` is its `ASSERT(false)`. -/
def _determineVoteKeyPolicy (env : Env) (w : World) : Option (security_policy_t × World) :=
  let d := w.subctx.stateData.getDelegation
  if d.type = env.DELEGATION_PATH then
    some (env.policyForCVoteRegistrationVoteKeyPath d.votePubKeyPath w.subctx.format,
      w.emit (Effect.policy PolicyQuery.voteKeyPath))
  else if d.type = env.DELEGATION_KEY then
    some (env.policyForCVoteRegistrationVoteKey, w.emit (Effect.policy PolicyQuery.voteKey))
  else none

/-- The function `_displayVoteKey`; `none` is its `ASSERT(false)`. -/
def _displayVoteKey (env : Env) (callback : ui_callback_fn_t) (w : World) : Option World :=
  let d := w.subctx.stateData.getDelegation
  if d.type = env.DELEGATION_KEY then
    some (w.display (Screen.bech32 "Vote public key" "cvote_vk"
      (fixed CVOTE_PUBLIC_KEY_LENGTH d.votePubKey)) callback false)
  else if d.type = env.DELEGATION_PATH then
    some (w.display (Screen.path "Vote public key" d.votePubKeyPath) callback false)
  else none

/-- Step numbers of the vote-key driver. -/
def HANDLE_VOTE_KEY_STEP_WARNING : Nat := 8200
/-- Step number (see `HANDLE_VOTE_KEY_STEP_WARNING`). -/
def HANDLE_VOTE_KEY_STEP_DISPLAY : Nat := 8201
/-- Step number (see `HANDLE_VOTE_KEY_STEP_WARNING`). -/
def HANDLE_VOTE_KEY_STEP_RESPOND : Nat := 8202
/-- Step number (see `HANDLE_VOTE_KEY_STEP_WARNING`). -/
def HANDLE_VOTE_KEY_STEP_INVALID : Nat := 8203

/-- The function `signTxCVoteRegistration_handleVoteKey_ui_runStep`.  Modelled from the
spec for the `UI_STEP_*` macros of `uiHelpers.h`: the driver switches on `ui_step`; a
step that renders a screen stores the next step and suspends; a step number that is
no case of the driver fails an assertion. -/
def signTxCVoteRegistration_handleVoteKey_ui_runStep (env : Env) (w : World) : Outcome :=
  let this_fn := ui_callback_fn_t.handleVoteKey_ui_runStep
  if w.subctx.ui_step = HANDLE_VOTE_KEY_STEP_WARNING then
    returned ((w.display (Screen.paginatedText "WARNING:" "unusual vote key") this_fn
      false).setUiStep HANDLE_VOTE_KEY_STEP_DISPLAY)
  else if w.subctx.ui_step = HANDLE_VOTE_KEY_STEP_DISPLAY then
    match _displayVoteKey env this_fn w with
    | none => THROW Err.ERR_ASSERT w
    | some w1 => returned (w1.setUiStep HANDLE_VOTE_KEY_STEP_RESPOND)
  else if w.subctx.ui_step = HANDLE_VOTE_KEY_STEP_RESPOND then
    finishStep HANDLE_VOTE_KEY_STEP_INVALID (advanceState (respondSuccessEmptyMsg w))
  else THROW Err.ERR_ASSERT w

/-- The function `signTxCVoteRegistration_handleVoteKeyAPDU`. -/
def signTxCVoteRegistration_handleVoteKeyAPDU (env : Env) (wireData : List uint8_t)
    (w : World) : Outcome :=
  if w.subctx.state ≠ STATE_CVOTE_REGISTRATION_VOTE_KEY then THROW Err.ERR_INVALID_STATE w
  else if ¬ wireData.length < env.BUFFER_SIZE_PARANOIA then THROW Err.ERR_ASSERT w
  else
    let w1 := w.setStateData stateData_t.zeroed
    match _parseVoteKey env (make_read_view wireData) w1 with
    | (parsed, view) =>
      match parsed.status with
      | Status.thrown e => THROW e parsed.world
      | Status.returned =>
        let w2 := parsed.world
        if view_remainingSize view ≠ 0 then THROW Err.ERR_INVALID_DATA w2
        else
          match _determineVoteKeyPolicy env w2 with
          | none => THROW Err.ERR_ASSERT w2
          | some (policy, w3) =>
            if policy = POLICY_DENY then THROW Err.ERR_REJECTED_BY_POLICY w3
            else
              let d := w3.subctx.stateData.getDelegation
              let hashed : Option World :=
                if d.type = env.DELEGATION_KEY then
                  some (w3.emit (Effect.hash (HashCall.addVoteKey
                    (fixed CVOTE_PUBLIC_KEY_LENGTH d.votePubKey))))
                else if d.type = env.DELEGATION_PATH then
                  some (w3.emit (Effect.hash (HashCall.addVoteKey
                    (env.deriveExtendedPublicKey d.votePubKeyPath))))
                else none
              match hashed with
              | none => THROW Err.ERR_ASSERT w3
              | some w4 =>
                match policy with
                | POLICY_PROMPT_WARN_UNUSUAL =>
                  signTxCVoteRegistration_handleVoteKey_ui_runStep env
                    (w4.setUiStep HANDLE_VOTE_KEY_STEP_WARNING)
                | POLICY_SHOW_BEFORE_RESPONSE =>
                  signTxCVoteRegistration_handleVoteKey_ui_runStep env
                    (w4.setUiStep HANDLE_VOTE_KEY_STEP_DISPLAY)
                | POLICY_ALLOW_WITHOUT_PROMPT =>
                  signTxCVoteRegistration_handleVoteKey_ui_runStep env
                    (w4.setUiStep HANDLE_VOTE_KEY_STEP_RESPOND)
                | _ => THROW Err.ERR_NOT_IMPLEMENTED w4

/-! ### Delegation -/

/-- Step numbers of the delegation driver. -/
def HANDLE_DELEGATION_STEP_WARNING : Nat := 8300
/-- Step number (see `HANDLE_DELEGATION_STEP_WARNING`). -/
def HANDLE_DELEGATION_STEP_VOTE_KEY : Nat := 8301
/-- Step number (see `HANDLE_DELEGATION_STEP_WARNING`). -/
def HANDLE_DELEGATION_STEP_WEIGHT : Nat := 8302
/-- Step number (see `HANDLE_DELEGATION_STEP_WARNING`). -/
def HANDLE_DELEGATION_STEP_RESPOND : Nat := 8303
/-- Step number (see `HANDLE_DELEGATION_STEP_WARNING`). -/
def HANDLE_DELEGATION_STEP_INVALID : Nat := 8304

/-- The function `signTxCVoteRegistration_handleDelegation_ui_runStep`; its first case
label is `HANDLE_VOTE_KEY_STEP_WARNING`, as in the source.  The increment of
`currentDelegation` is that of a 16-bit counter. -/
def signTxCVoteRegistration_handleDelegation_ui_runStep (env : Env) (w : World) : Outcome :=
  let this_fn := ui_callback_fn_t.handleDelegation_ui_runStep
  if w.subctx.ui_step = HANDLE_VOTE_KEY_STEP_WARNING then
    returned ((w.display (Screen.paginatedText "WARNING:" "unusual vote key") this_fn
      false).setUiStep HANDLE_DELEGATION_STEP_VOTE_KEY)
  else if w.subctx.ui_step = HANDLE_DELEGATION_STEP_VOTE_KEY then
    match _displayVoteKey env this_fn w with
    | none => THROW Err.ERR_ASSERT w
    | some w1 => returned (w1.setUiStep HANDLE_DELEGATION_STEP_WEIGHT)
  else if w.subctx.ui_step = HANDLE_DELEGATION_STEP_WEIGHT then
    returned ((w.display (Screen.uint64 "Weight" w.subctx.stateData.getDelegation.weight)
      this_fn false).setUiStep HANDLE_DELEGATION_STEP_RESPOND)
  else if w.subctx.ui_step = HANDLE_DELEGATION_STEP_RESPOND then
    let w1 := respondSuccessEmptyMsg w
    let w2 := w1.setCurrentDelegation ((w1.subctx.currentDelegation + 1) % UINT16_RANGE)
    if w2.subctx.currentDelegation = w2.subctx.numDelegations then
      finishStep HANDLE_DELEGATION_STEP_INVALID (advanceState w2)
    else returned (w2.setUiStep HANDLE_DELEGATION_STEP_INVALID)
  else THROW Err.ERR_ASSERT w

/-- The function `signTxCVoteRegistration_handleDelegationAPDU`. -/
def signTxCVoteRegistration_handleDelegationAPDU (env : Env) (wireData : List uint8_t)
    (w : World) : Outcome :=
  if w.subctx.state ≠ STATE_CVOTE_REGISTRATION_DELEGATIONS then
    THROW Err.ERR_INVALID_STATE w
  else if ¬ w.subctx.currentDelegation < w.subctx.numDelegations then THROW Err.ERR_ASSERT w
  else
    let w1 := w.setStateData stateData_t.zeroed
    match _parseVoteKey env (make_read_view wireData) w1 with
    | (parsed, view) =>
      match parsed.status with
      | Status.thrown e => THROW e parsed.world
      | Status.returned =>
        match parse_u4be view with
        | Except.error e => THROW e parsed.world
        | Except.ok (weight, view1) =>
          let w2 := parsed.world.setStateData (stateData_t.delegation
            { parsed.world.subctx.stateData.getDelegation with weight := weight })
          if view_remainingSize view1 ≠ 0 then THROW Err.ERR_INVALID_DATA w2
          else
            match _determineVoteKeyPolicy env w2 with
            | none => THROW Err.ERR_ASSERT w2
            | some (policy, w3) =>
              if policy = POLICY_DENY then THROW Err.ERR_REJECTED_BY_POLICY w3
              else
                let d := w3.subctx.stateData.getDelegation
                let hashed : Option World :=
                  if d.type = env.DELEGATION_KEY then
                    some (w3.emit (Effect.hash (HashCall.addDelegation
                      (fixed CVOTE_PUBLIC_KEY_LENGTH d.votePubKey) d.weight)))
                  else if d.type = env.DELEGATION_PATH then
                    some (w3.emit (Effect.hash (HashCall.addDelegation
                      (env.deriveExtendedPublicKey d.votePubKeyPath) d.weight)))
                  else none
                match hashed with
                | none => THROW Err.ERR_ASSERT w3
                | some w4 =>
                  match policy with
                  | POLICY_PROMPT_WARN_UNUSUAL =>
                    signTxCVoteRegistration_handleDelegation_ui_runStep env
                      (w4.setUiStep HANDLE_DELEGATION_STEP_WARNING)
                  | POLICY_SHOW_BEFORE_RESPONSE =>
                    signTxCVoteRegistration_handleDelegation_ui_runStep env
                      (w4.setUiStep HANDLE_DELEGATION_STEP_VOTE_KEY)
                  | POLICY_ALLOW_WITHOUT_PROMPT =>
                    signTxCVoteRegistration_handleDelegation_ui_runStep env
                      (w4.setUiStep HANDLE_DELEGATION_STEP_RESPOND)
                  | _ => THROW Err.ERR_NOT_IMPLEMENTED w4

/-! ### Staking key -/

/-- Step numbers of the staking-key driver. -/
def HANDLE_STAKING_KEY_STEP_WARNING : Nat := 8400
/-- Step number (see `HANDLE_STAKING_KEY_STEP_WARNING`). -/
def HANDLE_STAKING_KEY_STEP_DISPLAY : Nat := 8401
/-- Step number (see `HANDLE_STAKING_KEY_STEP_WARNING`). -/
def HANDLE_STAKING_KEY_STEP_RESPOND : Nat := 8402
/-- Step number (see `HANDLE_STAKING_KEY_STEP_WARNING`). -/
def HANDLE_STAKING_KEY_STEP_INVALID : Nat := 8403

/-- The function `signTxCVoteRegistration_handleStakingKey_ui_runStep`. -/
def signTxCVoteRegistration_handleStakingKey_ui_runStep (w : World) : Outcome :=
  let this_fn := ui_callback_fn_t.handleStakingKey_ui_runStep
  if w.subctx.ui_step = HANDLE_STAKING_KEY_STEP_WARNING then
    returned ((w.display (Screen.paginatedText "Unusual request" "Proceed with care")
      this_fn false).setUiStep HANDLE_STAKING_KEY_STEP_DISPLAY)
  else if w.subctx.ui_step = HANDLE_STAKING_KEY_STEP_DISPLAY then
    returned ((w.display (Screen.stakingKey w.subctx.stakingKeyPath) this_fn
      false).setUiStep HANDLE_STAKING_KEY_STEP_RESPOND)
  else if w.subctx.ui_step = HANDLE_STAKING_KEY_STEP_RESPOND then
    finishStep HANDLE_STAKING_KEY_STEP_INVALID (advanceState (respondSuccessEmptyMsg w))
  else THROW Err.ERR_ASSERT w

/-- The function `signTxCVoteRegistration_handleStakingKeyAPDU`.  Only
`stakingKeyPath` is zeroed before the parse; `stateData` is left as it is. -/
def signTxCVoteRegistration_handleStakingKeyAPDU (env : Env) (wireData : List uint8_t)
    (w : World) : Outcome :=
  if w.subctx.state ≠ STATE_CVOTE_REGISTRATION_STAKING_KEY then
    THROW Err.ERR_INVALID_STATE w
  else if ¬ wireData.length < env.BUFFER_SIZE_PARANOIA then THROW Err.ERR_ASSERT w
  else
    let w1 := w.setStakingKeyPath []
    let view := make_read_view wireData
    match env.bip44_parseFromWire view with
    | Except.error e => THROW e w1
    | Except.ok (path, size) =>
      let w2 := w1.setStakingKeyPath path
      match view_skipBytes view size with
      | Except.error e => THROW e w2
      | Except.ok view1 =>
        if view_remainingSize view1 ≠ 0 then THROW Err.ERR_INVALID_DATA w2
        else
          let policy := env.policyForCVoteRegistrationStakingKey w2.subctx.stakingKeyPath
          let w3 := w2.emit (Effect.policy PolicyQuery.stakingKey)
          if policy = POLICY_DENY then THROW Err.ERR_REJECTED_BY_POLICY w3
          else
            let w4 := w3.emit (Effect.hash (HashCall.addStakingKey
              (env.deriveExtendedPublicKey w3.subctx.stakingKeyPath)))
            match policy with
            | POLICY_PROMPT_WARN_UNUSUAL =>
              signTxCVoteRegistration_handleStakingKey_ui_runStep
                (w4.setUiStep HANDLE_STAKING_KEY_STEP_WARNING)
            | POLICY_SHOW_BEFORE_RESPONSE =>
              signTxCVoteRegistration_handleStakingKey_ui_runStep
                (w4.setUiStep HANDLE_STAKING_KEY_STEP_DISPLAY)
            | POLICY_ALLOW_WITHOUT_PROMPT =>
              signTxCVoteRegistration_handleStakingKey_ui_runStep
                (w4.setUiStep HANDLE_STAKING_KEY_STEP_RESPOND)
            | _ => THROW Err.ERR_NOT_IMPLEMENTED w4

/-! ### Payment address -/

/-- The function `_destinationToAddress`: the bytes written to the address buffer;
`none` is a failed `ASSERT`. -/
def _destinationToAddress (env : Env) (destination : tx_output_destination_storage_t)
    (addressBufferSize : Nat) : Option (List uint8_t) :=
  if destination.type = env.DESTINATION_DEVICE_OWNED then
    some (env.deriveAddress destination.params)
  else if destination.type = env.DESTINATION_THIRD_PARTY then
    if destination.address.length ≤ addressBufferSize then some destination.address
    else none
  else none

/-- Step numbers of the payment-address driver. -/
def HANDLE_PAYMENT_ADDRESS_PARAMS_STEP_WARNING : Nat := 8500
/-- Step number (see `HANDLE_PAYMENT_ADDRESS_PARAMS_STEP_WARNING`). -/
def HANDLE_PAYMENT_ADDRESS_PARAMS_STEP_DISPLAY_ADDRESS : Nat := 8501
/-- Step number (see `HANDLE_PAYMENT_ADDRESS_PARAMS_STEP_WARNING`). -/
def HANDLE_PAYMENT_ADDRESS_PARAMS_STEP_RESPOND : Nat := 8502
/-- Step number (see `HANDLE_PAYMENT_ADDRESS_PARAMS_STEP_WARNING`). -/
def HANDLE_PAYMENT_ADDRESS_PARAMS_STEP_INVALID : Nat := 8503

/-- The function `signTxCVoteRegistration_handlePaymentAddress_ui_runStep`. -/
def signTxCVoteRegistration_handlePaymentAddress_ui_runStep (env : Env) (w : World) :
    Outcome :=
  let this_fn := ui_callback_fn_t.handlePaymentAddress_ui_runStep
  if w.subctx.ui_step = HANDLE_PAYMENT_ADDRESS_PARAMS_STEP_WARNING then
    returned ((w.display (Screen.paginatedText "Unusual request" "Proceed with care")
      this_fn false).setUiStep HANDLE_PAYMENT_ADDRESS_PARAMS_STEP_DISPLAY_ADDRESS)
  else if w.subctx.ui_step = HANDLE_PAYMENT_ADDRESS_PARAMS_STEP_DISPLAY_ADDRESS then
    match _destinationToAddress env w.subctx.stateData.getPaymentDestination
      env.MAX_ADDRESS_SIZE with
    | none => THROW Err.ERR_ASSERT w
    | some address =>
      returned ((w.display (Screen.address "Rewards go to" address) this_fn
        false).setUiStep HANDLE_PAYMENT_ADDRESS_PARAMS_STEP_RESPOND)
  else if w.subctx.ui_step = HANDLE_PAYMENT_ADDRESS_PARAMS_STEP_RESPOND then
    finishStep HANDLE_PAYMENT_ADDRESS_PARAMS_STEP_INVALID
      (advanceState (respondSuccessEmptyMsg w))
  else THROW Err.ERR_ASSERT w

/-- The function `signTxCVoteRegistration_handlePaymentAddressAPDU`.  The member
`stateData.paymentDestination` is zeroed before the parse. -/
def signTxCVoteRegistration_handlePaymentAddressAPDU (env : Env) (wireData : List uint8_t)
    (w : World) : Outcome :=
  if w.subctx.state ≠ STATE_CVOTE_REGISTRATION_PAYMENT_ADDRESS then
    THROW Err.ERR_INVALID_STATE w
  else if ¬ wireData.length < env.BUFFER_SIZE_PARANOIA then THROW Err.ERR_ASSERT w
  else
    let w1 := w.setStateData (stateData_t.paymentDestination zeroDestination)
    match env.view_parseDestination (make_read_view wireData) with
    | Except.error e => THROW e w1
    | Except.ok (destination, view) =>
      let w2 := w1.setStateData (stateData_t.paymentDestination destination)
      if view_remainingSize view ≠ 0 then THROW Err.ERR_INVALID_DATA w2
      else
        let policy := env.policyForCVoteRegistrationPaymentDestination
          w2.subctx.stateData.getPaymentDestination env.networkId
        let w3 := w2.emit (Effect.policy PolicyQuery.paymentDestination)
        if policy = POLICY_DENY then THROW Err.ERR_REJECTED_BY_POLICY w3
        else
          match _destinationToAddress env w3.subctx.stateData.getPaymentDestination
            env.MAX_ADDRESS_SIZE with
          | none => THROW Err.ERR_ASSERT w3
          | some address =>
            let w4 := w3.emit (Effect.hash (HashCall.addPaymentAddress address))
            match policy with
            | POLICY_PROMPT_WARN_UNUSUAL =>
              signTxCVoteRegistration_handlePaymentAddress_ui_runStep env
                (w4.setUiStep HANDLE_PAYMENT_ADDRESS_PARAMS_STEP_WARNING)
            | POLICY_SHOW_BEFORE_RESPONSE =>
              signTxCVoteRegistration_handlePaymentAddress_ui_runStep env
                (w4.setUiStep HANDLE_PAYMENT_ADDRESS_PARAMS_STEP_DISPLAY_ADDRESS)
            | POLICY_ALLOW_WITHOUT_PROMPT =>
              signTxCVoteRegistration_handlePaymentAddress_ui_runStep env
                (w4.setUiStep HANDLE_PAYMENT_ADDRESS_PARAMS_STEP_RESPOND)
            | _ => THROW Err.ERR_NOT_IMPLEMENTED w4

/-! ### Nonce -/

/-- Step numbers of the nonce driver. -/
def HANDLE_NONCE_STEP_DISPLAY : Nat := 8600
/-- Step number (see `HANDLE_NONCE_STEP_DISPLAY`). -/
def HANDLE_NONCE_STEP_RESPOND : Nat := 8601
/-- Step number (see `HANDLE_NONCE_STEP_DISPLAY`). -/
def HANDLE_NONCE_STEP_INVALID : Nat := 8602

/-- The function `signTxCVoteRegistration_handleNonce_ui_runStep`. -/
def signTxCVoteRegistration_handleNonce_ui_runStep (w : World) : Outcome :=
  let this_fn := ui_callback_fn_t.handleNonce_ui_runStep
  if w.subctx.ui_step = HANDLE_NONCE_STEP_DISPLAY then
    returned ((w.display (Screen.uint64 "Nonce" w.subctx.stateData.getNonce) this_fn
      false).setUiStep HANDLE_NONCE_STEP_RESPOND)
  else if w.subctx.ui_step = HANDLE_NONCE_STEP_RESPOND then
    finishStep HANDLE_NONCE_STEP_INVALID (advanceState (respondSuccessEmptyMsg w))
  else THROW Err.ERR_ASSERT w

/-- The function `signTxCVoteRegistration_handleNonceAPDU`. -/
def signTxCVoteRegistration_handleNonceAPDU (env : Env) (wireData : List uint8_t)
    (w : World) : Outcome :=
  if w.subctx.state ≠ STATE_CVOTE_REGISTRATION_NONCE then THROW Err.ERR_INVALID_STATE w
  else if ¬ wireData.length < env.BUFFER_SIZE_PARANOIA then THROW Err.ERR_ASSERT w
  else
    let w1 := w.setStateData stateData_t.zeroed
    if wireData.length ≠ 8 then THROW Err.ERR_INVALID_DATA w1
    else
      let w2 := w1.setStateData (stateData_t.nonce (u8be_read wireData))
      let policy := env.policyForCVoteRegistrationNonce
      let w3 := w2.emit (Effect.policy PolicyQuery.nonce)
      if policy = POLICY_DENY then THROW Err.ERR_REJECTED_BY_POLICY w3
      else
        let w4 := w3.emit (Effect.hash (HashCall.addNonce w3.subctx.stateData.getNonce))
        match policy with
        | POLICY_SHOW_BEFORE_RESPONSE =>
          signTxCVoteRegistration_handleNonce_ui_runStep
            (w4.setUiStep HANDLE_NONCE_STEP_DISPLAY)
        | POLICY_ALLOW_WITHOUT_PROMPT =>
          signTxCVoteRegistration_handleNonce_ui_runStep
            (w4.setUiStep HANDLE_NONCE_STEP_RESPOND)
        | _ => THROW Err.ERR_NOT_IMPLEMENTED w4

/-! ### Voting purpose -/

/-- Step numbers of the voting-purpose driver. -/
def HANDLE_VOTING_PURPOSE_STEP_DISPLAY : Nat := 8700
/-- Step number (see `HANDLE_VOTING_PURPOSE_STEP_DISPLAY`). -/
def HANDLE_VOTING_PURPOSE_STEP_RESPOND : Nat := 8701
/-- Step number (see `HANDLE_VOTING_PURPOSE_STEP_DISPLAY`). -/
def HANDLE_VOTING_PURPOSE_STEP_INVALID : Nat := 8702

/-- The function `signTxCVoteRegistration_handleVotingPurpose_ui_runStep`. -/
def signTxCVoteRegistration_handleVotingPurpose_ui_runStep (w : World) : Outcome :=
  let this_fn := ui_callback_fn_t.handleVotingPurpose_ui_runStep
  if w.subctx.ui_step = HANDLE_VOTING_PURPOSE_STEP_DISPLAY then
    returned ((w.display (Screen.uint64 "Voting purpose" w.subctx.stateData.getVotingPurpose)
      this_fn false).setUiStep HANDLE_VOTING_PURPOSE_STEP_RESPOND)
  else if w.subctx.ui_step = HANDLE_VOTING_PURPOSE_STEP_RESPOND then
    finishStep HANDLE_VOTING_PURPOSE_STEP_INVALID (advanceState (respondSuccessEmptyMsg w))
  else THROW Err.ERR_ASSERT w

/-- The constant `DEFAULT_VOTING_PURPOSE`. -/
def DEFAULT_VOTING_PURPOSE : Nat := 0

/-- The function `signTxCVoteRegistration_handleVotingPurposeAPDU`. -/
def signTxCVoteRegistration_handleVotingPurposeAPDU (env : Env) (wireData : List uint8_t)
    (w : World) : Outcome :=
  if w.subctx.state ≠ STATE_CVOTE_REGISTRATION_VOTING_PURPOSE then
    THROW Err.ERR_INVALID_STATE w
  else if ¬ wireData.length < env.BUFFER_SIZE_PARANOIA then THROW Err.ERR_ASSERT w
  else
    let w1 := w.setStateData stateData_t.zeroed
    match parse_u1be (make_read_view wireData) with
    | Except.error e => THROW e w1
    | Except.ok (isIncluded, view1) =>
      match env.signTx_parseIncluded isIncluded with
      | Except.error e => THROW e w1
      | Except.ok isVotingPurposeIncluded =>
        if isVotingPurposeIncluded = true ∧ w1.subctx.format ≠ env.CIP36 then
          THROW Err.ERR_INVALID_DATA w1
        else
          let parsed : Except Err (Nat × read_view_t) :=
            if isVotingPurposeIncluded = true then parse_u8be view1
            else Except.ok (DEFAULT_VOTING_PURPOSE, view1)
          match parsed with
          | Except.error e => THROW e w1
          | Except.ok (votingPurpose, view2) =>
            let w2 := w1.setStateData (stateData_t.votingPurpose votingPurpose)
            if view_remainingSize view2 ≠ 0 then THROW Err.ERR_INVALID_DATA w2
            else if w2.subctx.format ≠ env.CIP36 then
              advanceState (respondSuccessEmptyMsg w2)
            else
              let policy := env.policyForCVoteRegistrationVotingPurpose
              let w3 := w2.emit (Effect.policy PolicyQuery.votingPurpose)
              if policy = POLICY_DENY then THROW Err.ERR_REJECTED_BY_POLICY w3
              else
                let w4 := w3.emit (Effect.hash
                  (HashCall.addVotingPurpose w3.subctx.stateData.getVotingPurpose))
                match policy with
                | POLICY_SHOW_BEFORE_RESPONSE =>
                  signTxCVoteRegistration_handleVotingPurpose_ui_runStep
                    (w4.setUiStep HANDLE_VOTING_PURPOSE_STEP_DISPLAY)
                | POLICY_ALLOW_WITHOUT_PROMPT =>
                  signTxCVoteRegistration_handleVotingPurpose_ui_runStep
                    (w4.setUiStep HANDLE_VOTING_PURPOSE_STEP_RESPOND)
                | _ => THROW Err.ERR_NOT_IMPLEMENTED w4

/-! ### Confirm -/

/-- Step numbers of the confirm driver. -/
def HANDLE_CONFIRM_STEP_FINAL_CONFIRM : Nat := 8800
/-- Step number (see `HANDLE_CONFIRM_STEP_FINAL_CONFIRM`). -/
def HANDLE_CONFIRM_STEP_DISPLAY_HASH : Nat := 8801
/-- Step number (see `HANDLE_CONFIRM_STEP_FINAL_CONFIRM`). -/
def HANDLE_CONFIRM_STEP_RESPOND : Nat := 8802
/-- Step number (see `HANDLE_CONFIRM_STEP_FINAL_CONFIRM`). -/
def HANDLE_CONFIRM_STEP_INVALID : Nat := 8803

/-- The case `HANDLE_CONFIRM_STEP_RESPOND` of the confirm driver: the wire response is
the hash array followed by the signature array. -/
def handleConfirm_respond (env : Env) (w : World) : Outcome :=
  let wireResponse := fixed env.AUX_DATA_HASH_LENGTH w.subctx.auxDataHash ++
    fixed env.ED25519_SIGNATURE_LENGTH w.subctx.stateData.getRegistrationSignature
  finishStep HANDLE_CONFIRM_STEP_INVALID
    (advanceState (w.emit (Effect.respond (Response.success wireResponse))))

/-- The function `signTxCVoteRegistration_handleConfirm_ui_runStep`.  The macro
`UI_STEP_JUMP` stores the target step and re-enters the driver at once. -/
def signTxCVoteRegistration_handleConfirm_ui_runStep (env : Env) (w : World) : Outcome :=
  let this_fn := ui_callback_fn_t.handleConfirm_ui_runStep
  if w.subctx.ui_step = HANDLE_CONFIRM_STEP_FINAL_CONFIRM then
    returned ((w.display (Screen.prompt "Confirm vote key" "registration?") this_fn
      true).setUiStep HANDLE_CONFIRM_STEP_DISPLAY_HASH)
  else if w.subctx.ui_step = HANDLE_CONFIRM_STEP_DISPLAY_HASH then
    if env.app_mode_expert = false then
      handleConfirm_respond env (w.setUiStep HANDLE_CONFIRM_STEP_RESPOND)
    else
      returned ((w.display (Screen.hexBuffer "Auxiliary data hash"
        (fixed env.AUX_DATA_HASH_LENGTH w.subctx.auxDataHash)) this_fn
        false).setUiStep HANDLE_CONFIRM_STEP_RESPOND)
  else if w.subctx.ui_step = HANDLE_CONFIRM_STEP_RESPOND then
    handleConfirm_respond env w
  else THROW Err.ERR_ASSERT w

/-- The function `signTxCVoteRegistration_handleConfirmAPDU`. -/
def signTxCVoteRegistration_handleConfirmAPDU (env : Env) (wireData : List uint8_t)
    (w : World) : Outcome :=
  if w.subctx.state ≠ STATE_CVOTE_REGISTRATION_CONFIRM then THROW Err.ERR_INVALID_STATE w
  else if ¬ wireData.length < env.BUFFER_SIZE_PARANOIA then THROW Err.ERR_ASSERT w
  else
    let w1 := w.setStateData stateData_t.zeroed
    if wireData.length ≠ 0 then THROW Err.ERR_INVALID_DATA w1
    else
      let policy := env.policyForCVoteRegistrationConfirm
      let w2 := w1.emit (Effect.policy PolicyQuery.confirm)
      if policy = POLICY_DENY then THROW Err.ERR_REJECTED_BY_POLICY w2
      else
        let payloadHashBuffer := fixed env.CVOTE_REGISTRATION_PAYLOAD_HASH_LENGTH
          (fixed env.AUX_DATA_HASH_LENGTH (env.finalizePayloadDigest (hashCalls w2.trace)))
        let w3 := w2.emit (Effect.hash HashCall.finalizePayload)
        let signature := fixed env.ED25519_SIGNATURE_LENGTH
          (env.getCVoteRegistrationSignature w3.subctx.stakingKeyPath payloadHashBuffer)
        let w4 := (w3.emit (Effect.sign w3.subctx.stakingKeyPath payloadHashBuffer)).setStateData
          (stateData_t.registrationSignature signature)
        let w5 := (w4.emit (Effect.hash (HashCall.addSignature
          w4.subctx.stateData.getRegistrationSignature))).emit
          (Effect.hash HashCall.addAuxiliaryScripts)
        let w6 := (w5.setAuxDataHash (fixed env.AUX_DATA_HASH_LENGTH
          (env.finalizeDigest (hashCalls w5.trace)))).emit (Effect.hash HashCall.finalize)
        match policy with
        | POLICY_PROMPT_BEFORE_RESPONSE =>
          signTxCVoteRegistration_handleConfirm_ui_runStep env
            (w6.setUiStep HANDLE_CONFIRM_STEP_FINAL_CONFIRM)
        | POLICY_ALLOW_WITHOUT_PROMPT =>
          signTxCVoteRegistration_handleConfirm_ui_runStep env
            (w6.setUiStep HANDLE_CONFIRM_STEP_RESPOND)
        | _ => THROW Err.ERR_NOT_IMPLEMENTED w6

/-! ### Dispatch -/

/-- Instruction codes (`p2`). -/
def APDU_INSTRUCTION_INIT : Nat := 0x36
/-- Instruction code (see `APDU_INSTRUCTION_INIT`). -/
def APDU_INSTRUCTION_VOTE_KEY : Nat := 0x30
/-- Instruction code (see `APDU_INSTRUCTION_INIT`). -/
def APDU_INSTRUCTION_DELEGATION : Nat := 0x37
/-- Instruction code (see `APDU_INSTRUCTION_INIT`). -/
def APDU_INSTRUCTION_STAKING_KEY : Nat := 0x31
/-- Instruction code (see `APDU_INSTRUCTION_INIT`). -/
def APDU_INSTRUCTION_PAYMENT_ADDRESS : Nat := 0x32
/-- Instruction code (see `APDU_INSTRUCTION_INIT`). -/
def APDU_INSTRUCTION_NONCE : Nat := 0x33
/-- Instruction code (see `APDU_INSTRUCTION_INIT`). -/
def APDU_INSTRUCTION_VOTING_PURPOSE : Nat := 0x35
/-- Instruction code (see `APDU_INSTRUCTION_INIT`). -/
def APDU_INSTRUCTION_CONFIRM : Nat := 0x34

/-- The function `signTxCVoteRegistration_isValidInstruction`. -/
def signTxCVoteRegistration_isValidInstruction (p2 : uint8_t) : Bool :=
  if p2.val = APDU_INSTRUCTION_INIT then true
  else if p2.val = APDU_INSTRUCTION_VOTE_KEY then true
  else if p2.val = APDU_INSTRUCTION_DELEGATION then true
  else if p2.val = APDU_INSTRUCTION_STAKING_KEY then true
  else if p2.val = APDU_INSTRUCTION_PAYMENT_ADDRESS then true
  else if p2.val = APDU_INSTRUCTION_NONCE then true
  else if p2.val = APDU_INSTRUCTION_VOTING_PURPOSE then true
  else if p2.val = APDU_INSTRUCTION_CONFIRM then true
  else false

/-- The function `signTxCVoteRegistration_handleAPDU`. -/
def signTxCVoteRegistration_handleAPDU (env : Env) (p2 : uint8_t) (wireData : List uint8_t)
    (w : World) : Outcome :=
  if ¬ wireData.length < env.BUFFER_SIZE_PARANOIA then THROW Err.ERR_ASSERT w
  else if p2.val = APDU_INSTRUCTION_INIT then
    signTxCVoteRegistration_handleInitAPDU env wireData w
  else if p2.val = APDU_INSTRUCTION_VOTE_KEY then
    signTxCVoteRegistration_handleVoteKeyAPDU env wireData w
  else if p2.val = APDU_INSTRUCTION_DELEGATION then
    signTxCVoteRegistration_handleDelegationAPDU env wireData w
  else if p2.val = APDU_INSTRUCTION_STAKING_KEY then
    signTxCVoteRegistration_handleStakingKeyAPDU env wireData w
  else if p2.val = APDU_INSTRUCTION_PAYMENT_ADDRESS then
    signTxCVoteRegistration_handlePaymentAddressAPDU env wireData w
  else if p2.val = APDU_INSTRUCTION_NONCE then
    signTxCVoteRegistration_handleNonceAPDU env wireData w
  else if p2.val = APDU_INSTRUCTION_VOTING_PURPOSE then
    signTxCVoteRegistration_handleVotingPurposeAPDU env wireData w
  else if p2.val = APDU_INSTRUCTION_CONFIRM then
    signTxCVoteRegistration_handleConfirmAPDU env wireData w
  else THROW Err.ERR_ASSERT w

/-! ## Wire commands and UI resumptions

The module is driven by two kinds of events: a wire command handed to
`signTxCVoteRegistration_handleAPDU`, and the user acting on the screen in flight, which
makes the UI sequencer call the callback the screen was given.  The sequencer has a
single screen in flight, and the next wire command is taken only when the UI tail of
the previous one has ended (spec, section 5). -/

/-- Modelled from the spec: the signing operation that owns the registration session.
Its code is not under src/: the caller of `signTxCVoteRegistration_handleAPDU`, to
which the handlers throw, and the UI helpers.  The operation is running on its session,
or it has been aborted.  "The session and all its secrets are destroyed (zeroed) [...]
when the operation aborts" (specification, section 3): of an aborted operation only the
log of what was observed is left. -/
inductive Operation
  | running (w : World)
  | aborted (trace : List Effect)
  deriving DecidableEq, Repr

/-- The log of an operation. -/
def Operation.trace : Operation → List Effect
  | Operation.running w => w.trace
  | Operation.aborted t => t

/-- The state of the operation's session; an aborted operation has no session. -/
def Operation.state : Operation → Option sign_tx_cvote_registration_state_t
  | Operation.running w => some w.subctx.state
  | Operation.aborted _ => none

/-- The transient step data of the operation's session (it holds
`registrationSignature` after the Confirm handler has signed); zeroed with the session
when the operation is aborted. -/
def Operation.stateData : Operation → stateData_t
  | Operation.running w => w.subctx.stateData
  | Operation.aborted _ => stateData_t.zeroed

/-- Modelled from the spec: the abort of the operation, which is not under src/.  The
session is destroyed (zeroed); the log stays. -/
def Operation.abort (w : World) : Operation := Operation.aborted w.trace

/-- Modelled from the spec: `respond_with_user_reject` of `uiHelpers.h`, the reject
callback of the confirm prompt.  "A user rejection at any confirmation screen must
short-circuit directly to an explicit-deny response and leave the overall operation
aborted (not merely this step)" (specification, section 4.2): the explicit-deny
response is sent to the host and the operation is aborted. -/
def respond_with_user_reject (w : World) : Operation :=
  Operation.abort (w.emit (Effect.respond Response.userReject))

/-- What can happen to the module. -/
inductive Event
  | apdu (p2 : uint8_t) (wireData : List uint8_t)
  | uiConfirm
  | uiReject
  deriving DecidableEq, Repr

/-- The driver behind a callback. -/
def runCallback (env : Env) (cb : ui_callback_fn_t) (w : World) : Outcome :=
  match cb with
  | ui_callback_fn_t.handleVoteKey_ui_runStep =>
    signTxCVoteRegistration_handleVoteKey_ui_runStep env w
  | ui_callback_fn_t.handleDelegation_ui_runStep =>
    signTxCVoteRegistration_handleDelegation_ui_runStep env w
  | ui_callback_fn_t.handleStakingKey_ui_runStep =>
    signTxCVoteRegistration_handleStakingKey_ui_runStep w
  | ui_callback_fn_t.handlePaymentAddress_ui_runStep =>
    signTxCVoteRegistration_handlePaymentAddress_ui_runStep env w
  | ui_callback_fn_t.handleNonce_ui_runStep =>
    signTxCVoteRegistration_handleNonce_ui_runStep w
  | ui_callback_fn_t.handleVotingPurpose_ui_runStep =>
    signTxCVoteRegistration_handleVotingPurpose_ui_runStep w
  | ui_callback_fn_t.handleConfirm_ui_runStep =>
    signTxCVoteRegistration_handleConfirm_ui_runStep env w

/-- One event on the session.  `none` means the event cannot happen in this world: a
wire command while a screen is in flight, or a user action when there is no screen (or
no reject button).  `step` follows the session also past a throw and past a rejection,
which the operation does not survive (see `Operation.step`): a rejection logs what
`respond_with_user_reject` logs and the session is kept as it was, so the sessions of a
running operation are among those that `step` reaches. -/
def step (env : Env) (w : World) : Event → Option Outcome
  | Event.apdu p2 wireData =>
    match w.pending with
    | none => some (signTxCVoteRegistration_handleAPDU env p2 wireData w)
    | some _ => none
  | Event.uiConfirm =>
    match w.pending with
    | none => none
    | some p => some (runCallback env p.callback { w with pending := none })
  | Event.uiReject =>
    match w.pending with
    | none => none
    | some p =>
      if p.canReject = true then
        some (returned { subctx := w.subctx,
                         trace := (respond_with_user_reject { w with pending := none }).trace,
                         pending := none })
      else none

/-- Worlds reachable from `signTxCVoteRegistration_init` by any sequence of events,
whether the event's handler returned or threw. -/
inductive Reachable (env : Env) : World → Prop
  | init : Reachable env signTxCVoteRegistration_init
  | step (w : World) (ev : Event) (o : Outcome) :
      Reachable env w → step env w ev = some o → Reachable env o.world

/-- Run a sequence of events in which nothing is refused: every event can happen, its
handler returns without throwing, and the user never rejects.  `none` if some event
is refused. -/
def runAccepted (env : Env) : World → List Event → Option World
  | w, [] => some w
  | w, ev :: evs =>
    if ev = Event.uiReject then none
    else
      match step env w ev with
      | none => none
      | some o =>
        match o.status with
        | Status.returned => runAccepted env o.world evs
        | Status.thrown _ => none

/-- Run a sequence of events, whatever their outcome, and keep the last world; an
event that cannot happen is skipped. -/
def runEvents (env : Env) : World → List Event → World
  | w, [] => w
  | w, ev :: evs =>
    match step env w ev with
    | none => runEvents env w evs
    | some o => runEvents env o.world evs

/-- How an event ends for the host: the handler returned; or it threw `e`, which aborts
the operation; or the operation had been aborted before, and the command is refused
without being handled. -/
inductive Verdict
  | handled
  | failed (e : Err)
  | refused
  deriving DecidableEq, Repr

/-- Result of one event of the operation. -/
structure OperationOutcome where
  verdict : Verdict
  operation : Operation
  deriving DecidableEq, Repr

/-- Modelled from the spec: one event of the signing operation, whose code is not under
src/.  A running operation hands a wire command to `signTxCVoteRegistration_handleAPDU`
and a confirmation to the callback of the screen in flight; when the handler returns
the operation goes on with the session as the handler left it, and when it throws,
"every failure aborts the current multi-step operation" (specification, section 7).  A
rejection runs `respond_with_user_reject`.  An aborted operation handles nothing: "the
session becomes unusable for further commands" (section 8), every wire command is
refused, and there is no screen to act on.  `none` means the event cannot happen, as
for `step`. -/
def Operation.step (env : Env) : Operation → Event → Option OperationOutcome
  | Operation.aborted t, Event.apdu _ _ => some ⟨Verdict.refused, Operation.aborted t⟩
  | Operation.aborted _, Event.uiConfirm => none
  | Operation.aborted _, Event.uiReject => none
  | Operation.running w, Event.uiReject =>
    match w.pending with
    | none => none
    | some p =>
      if p.canReject = true then
        some ⟨Verdict.handled, respond_with_user_reject { w with pending := none }⟩
      else none
  | Operation.running w, Event.apdu p2 wireData =>
    match CVote.step env w (Event.apdu p2 wireData) with
    | none => none
    | some o =>
      match o.status with
      | Status.returned => some ⟨Verdict.handled, Operation.running o.world⟩
      | Status.thrown e => some ⟨Verdict.failed e, Operation.abort o.world⟩
  | Operation.running w, Event.uiConfirm =>
    match CVote.step env w Event.uiConfirm with
    | none => none
    | some o =>
      match o.status with
      | Status.returned => some ⟨Verdict.handled, Operation.running o.world⟩
      | Status.thrown e => some ⟨Verdict.failed e, Operation.abort o.world⟩

/-- Run a sequence of events on an operation and keep the last operation; an event
that cannot happen is skipped. -/
def Operation.run (env : Env) : Operation → List Event → Operation
  | op, [] => op
  | op, ev :: evs =>
    match Operation.step env op ev with
    | none => Operation.run env op evs
    | some r => Operation.run env r.operation evs

/-- The verdicts of a sequence of events on an operation, in order; an event that
cannot happen is skipped. -/
def Operation.verdicts (env : Env) : Operation → List Event → List Verdict
  | _, [] => []
  | op, ev :: evs =>
    match Operation.step env op ev with
    | none => Operation.verdicts env op evs
    | some r => r.verdict :: Operation.verdicts env r.operation evs

/-! ## A concrete environment

A small, fully computable set of collaborators, used to run the handlers on concrete
payloads. -/

/-- Inclusion flag decoder of the sample environment: 1 is "not included", 2 is
"included". -/
def sampleParseIncluded (value : Nat) : Except Err Bool :=
  if value = 2 then Except.ok true
  else if value = 1 then Except.ok false
  else Except.error Err.ERR_INVALID_DATA

/-- Path decoder of the sample environment: one length byte `n`, then `n` index
bytes. -/
def sampleParsePath (bytes : List uint8_t) : Except Err (bip44_path_t × Nat) :=
  match bytes with
  | [] => Except.error Err.ERR_INVALID_DATA
  | n :: rest =>
    if n.val ≤ rest.length then Except.ok ((rest.take n.val).map Fin.val, n.val + 1)
    else Except.error Err.ERR_INVALID_DATA

/-- Destination decoder of the sample environment: one type byte, then the address
(third party, tag 1) or the parameters (device owned, tag 2); it reads the whole
view. -/
def sampleParseDestination (bytes : List uint8_t) :
    Except Err (tx_output_destination_storage_t × List uint8_t) :=
  match bytes with
  | [] => Except.error Err.ERR_INVALID_DATA
  | t :: rest =>
    if t.val = 1 then Except.ok ({ type := 1, params := [], address := rest }, [])
    else if t.val = 2 then Except.ok ({ type := 2, params := rest, address := [] }, [])
    else Except.error Err.ERR_INVALID_DATA

/-- The sample environment; every policy allows without prompt. -/
def sampleEnv : Env :=
  { CIP15 := 1
    CIP36 := 2
    DELEGATION_KEY := 1
    DELEGATION_PATH := 2
    DESTINATION_DEVICE_OWNED := 2
    DESTINATION_THIRD_PARTY := 1
    BUFFER_SIZE_PARANOIA := 1024
    MAX_ADDRESS_SIZE := 128
    networkId := 1
    app_mode_expert := false
    signTx_parseIncluded := sampleParseIncluded
    bip44_parseFromWire := sampleParsePath
    view_parseDestination := sampleParseDestination
    deriveExtendedPublicKey := fun p => List.replicate 32 (Fin.ofNat p.length)
    deriveAddress := fun params => params
    getCVoteRegistrationSignature := fun _ h => h ++ h
    finalizePayloadDigest := fun calls => List.replicate 32 (Fin.ofNat calls.length)
    finalizeDigest := fun calls => List.replicate 32 (Fin.ofNat calls.length)
    policyForCVoteRegistrationVoteKeyPath := fun _ _ => POLICY_ALLOW_WITHOUT_PROMPT
    policyForCVoteRegistrationVoteKey := POLICY_ALLOW_WITHOUT_PROMPT
    policyForCVoteRegistrationStakingKey := fun _ => POLICY_ALLOW_WITHOUT_PROMPT
    policyForCVoteRegistrationPaymentDestination := fun _ _ => POLICY_ALLOW_WITHOUT_PROMPT
    policyForCVoteRegistrationNonce := POLICY_ALLOW_WITHOUT_PROMPT
    policyForCVoteRegistrationVotingPurpose := POLICY_ALLOW_WITHOUT_PROMPT
    policyForCVoteRegistrationConfirm := POLICY_ALLOW_WITHOUT_PROMPT
    AUX_DATA_HASH_LENGTH := 32
    CVOTE_REGISTRATION_PAYLOAD_HASH_LENGTH := 32
    ED25519_SIGNATURE_LENGTH := 64 }

/-- The sample environment with the policies that need the user: vote keys and
delegations are shown, the final confirmation is prompted. -/
def sampleEnvShow : Env :=
  { sampleEnv with
    policyForCVoteRegistrationVoteKey := POLICY_SHOW_BEFORE_RESPONSE
    policyForCVoteRegistrationVotingPurpose := POLICY_SHOW_BEFORE_RESPONSE
    policyForCVoteRegistrationConfirm := POLICY_PROMPT_BEFORE_RESPONSE }

/-- A raw 32-byte vote key used in examples. -/
def sampleKey : List uint8_t := List.replicate 32 7

/-! ## Specification-side definitions -/

/-- The table of the state-check contract, in the specification's words: the state
that the handler of each instruction code expects. -/
def specExpectedState (p2 : uint8_t) : Option sign_tx_cvote_registration_state_t :=
  if p2.val = 0x36 then some STATE_CVOTE_REGISTRATION_INIT
  else if p2.val = 0x30 then some STATE_CVOTE_REGISTRATION_VOTE_KEY
  else if p2.val = 0x37 then some STATE_CVOTE_REGISTRATION_DELEGATIONS
  else if p2.val = 0x31 then some STATE_CVOTE_REGISTRATION_STAKING_KEY
  else if p2.val = 0x32 then some STATE_CVOTE_REGISTRATION_PAYMENT_ADDRESS
  else if p2.val = 0x33 then some STATE_CVOTE_REGISTRATION_NONCE
  else if p2.val = 0x35 then some STATE_CVOTE_REGISTRATION_VOTING_PURPOSE
  else if p2.val = 0x34 then some STATE_CVOTE_REGISTRATION_CONFIRM
  else none

/-- The transition table in the specification's words: the successor of a state, given
the declared delegation count and the progress counter.  From Delegations the successor
is StakingKey "only once `currentDelegation == numDelegations`; otherwise Delegations →
Delegations (self-loop)"; `none` where the table has no transition (Finished is
terminal). -/
def specTransition (st : sign_tx_cvote_registration_state_t)
    (numDelegations currentDelegation : Nat) :
    Option sign_tx_cvote_registration_state_t :=
  match st with
  | STATE_CVOTE_REGISTRATION_INIT =>
    if numDelegations > 0 then some STATE_CVOTE_REGISTRATION_DELEGATIONS
    else some STATE_CVOTE_REGISTRATION_VOTE_KEY
  | STATE_CVOTE_REGISTRATION_VOTE_KEY => some STATE_CVOTE_REGISTRATION_STAKING_KEY
  | STATE_CVOTE_REGISTRATION_DELEGATIONS =>
    if currentDelegation = numDelegations then some STATE_CVOTE_REGISTRATION_STAKING_KEY
    else some STATE_CVOTE_REGISTRATION_DELEGATIONS
  | STATE_CVOTE_REGISTRATION_STAKING_KEY => some STATE_CVOTE_REGISTRATION_PAYMENT_ADDRESS
  | STATE_CVOTE_REGISTRATION_PAYMENT_ADDRESS => some STATE_CVOTE_REGISTRATION_NONCE
  | STATE_CVOTE_REGISTRATION_NONCE => some STATE_CVOTE_REGISTRATION_VOTING_PURPOSE
  | STATE_CVOTE_REGISTRATION_VOTING_PURPOSE => some STATE_CVOTE_REGISTRATION_CONFIRM
  | STATE_CVOTE_REGISTRATION_CONFIRM => some STATE_CVOTE_REGISTRATION_FINISHED
  | STATE_CVOTE_REGISTRATION_FINISHED => none

/-- The hash-accumulator calls the table attaches to a transition: entering the
delegations from Init, nothing otherwise. -/
def specTransitionCalls (st : sign_tx_cvote_registration_state_t) (numDelegations : Nat) :
    List Effect :=
  if st = STATE_CVOTE_REGISTRATION_INIT ∧ numDelegations > 0 then
    [Effect.hash (HashCall.enterDelegations numDelegations)]
  else []

/-- The session right after the accepted command Init(CIP36, 1 delegation) in the sample
environment: state Delegations, one delegation declared, none received yet. -/
def delegationsOpenWorld : World :=
  (signTxCVoteRegistration_handleInitAPDU sampleEnv [2, 0, 0, 0, 1]
    signTxCVoteRegistration_init).world

/-- The sample commands up to and including Nonce, for a session without
delegations whose Init payload carries the format tag `format`. -/
def sampleCommandsToNonce (format : uint8_t) : List Event :=
  [Event.apdu 0x36 [format, 0, 0, 0, 0], Event.apdu 0x30 (1 :: sampleKey),
   Event.apdu 0x31 [2, 1, 2], Event.apdu 0x32 [2, 9, 9],
   Event.apdu 0x33 [0, 0, 0, 0, 0, 0, 1, 0]]

/-- A CIP15 session of the sample environment that waits for the VotingPurpose
command. -/
def cip15VotingPurposeWorld : World :=
  runEvents sampleEnv signTxCVoteRegistration_init (sampleCommandsToNonce 1)

/-- A CIP36 session of the sample environment that waits for the VotingPurpose
command. -/
def cip36VotingPurposeWorld : World :=
  runEvents sampleEnv signTxCVoteRegistration_init (sampleCommandsToNonce 2)

/-- Position of a state in the order Init < VoteKey, Delegations < StakingKey <
PaymentAddress < Nonce < VotingPurpose < Confirm < Finished. -/
def stateRank : sign_tx_cvote_registration_state_t → Nat
  | STATE_CVOTE_REGISTRATION_INIT => 0
  | STATE_CVOTE_REGISTRATION_VOTE_KEY => 1
  | STATE_CVOTE_REGISTRATION_DELEGATIONS => 1
  | STATE_CVOTE_REGISTRATION_STAKING_KEY => 2
  | STATE_CVOTE_REGISTRATION_PAYMENT_ADDRESS => 3
  | STATE_CVOTE_REGISTRATION_NONCE => 4
  | STATE_CVOTE_REGISTRATION_VOTING_PURPOSE => 5
  | STATE_CVOTE_REGISTRATION_CONFIRM => 6
  | STATE_CVOTE_REGISTRATION_FINISHED => 7

/-- The state whose handler starts a driver. -/
def driverState : ui_callback_fn_t → sign_tx_cvote_registration_state_t
  | ui_callback_fn_t.handleVoteKey_ui_runStep => STATE_CVOTE_REGISTRATION_VOTE_KEY
  | ui_callback_fn_t.handleDelegation_ui_runStep => STATE_CVOTE_REGISTRATION_DELEGATIONS
  | ui_callback_fn_t.handleStakingKey_ui_runStep => STATE_CVOTE_REGISTRATION_STAKING_KEY
  | ui_callback_fn_t.handlePaymentAddress_ui_runStep =>
    STATE_CVOTE_REGISTRATION_PAYMENT_ADDRESS
  | ui_callback_fn_t.handleNonce_ui_runStep => STATE_CVOTE_REGISTRATION_NONCE
  | ui_callback_fn_t.handleVotingPurpose_ui_runStep => STATE_CVOTE_REGISTRATION_VOTING_PURPOSE
  | ui_callback_fn_t.handleConfirm_ui_runStep => STATE_CVOTE_REGISTRATION_CONFIRM

/-- The steps at which a driver can be waiting for the user: the steps stored after a
screen was rendered. -/
def resumeSteps : ui_callback_fn_t → List Nat
  | ui_callback_fn_t.handleVoteKey_ui_runStep =>
    [HANDLE_VOTE_KEY_STEP_DISPLAY, HANDLE_VOTE_KEY_STEP_RESPOND]
  | ui_callback_fn_t.handleDelegation_ui_runStep =>
    [HANDLE_DELEGATION_STEP_VOTE_KEY, HANDLE_DELEGATION_STEP_WEIGHT,
     HANDLE_DELEGATION_STEP_RESPOND]
  | ui_callback_fn_t.handleStakingKey_ui_runStep =>
    [HANDLE_STAKING_KEY_STEP_DISPLAY, HANDLE_STAKING_KEY_STEP_RESPOND]
  | ui_callback_fn_t.handlePaymentAddress_ui_runStep =>
    [HANDLE_PAYMENT_ADDRESS_PARAMS_STEP_DISPLAY_ADDRESS,
     HANDLE_PAYMENT_ADDRESS_PARAMS_STEP_RESPOND]
  | ui_callback_fn_t.handleNonce_ui_runStep => [HANDLE_NONCE_STEP_RESPOND]
  | ui_callback_fn_t.handleVotingPurpose_ui_runStep => [HANDLE_VOTING_PURPOSE_STEP_RESPOND]
  | ui_callback_fn_t.handleConfirm_ui_runStep =>
    [HANDLE_CONFIRM_STEP_DISPLAY_HASH, HANDLE_CONFIRM_STEP_RESPOND]

/-- The screen in flight, if any, belongs to the driver of the current state, and the
stored step is one at which that driver waits. -/
def PendingInv (w : World) : Prop :=
  match w.pending with
  | none => True
  | some p =>
    w.subctx.state = driverState p.callback ∧ w.subctx.ui_step ∈ resumeSteps p.callback

/-- Invariant of the session: the delegation counter is bounded by the declared count,
it is 0 before Init is accepted, no delegation is declared in the VoteKey state, some
delegation is still missing in the Delegations state, none is missing from StakingKey
on, and the screen in flight fits the state. -/
def SessionInv (w : World) : Prop :=
  w.subctx.currentDelegation ≤ w.subctx.numDelegations ∧
  w.subctx.numDelegations < UINT16_RANGE ∧
  (w.subctx.state = STATE_CVOTE_REGISTRATION_INIT → w.subctx.currentDelegation = 0) ∧
  (w.subctx.state = STATE_CVOTE_REGISTRATION_VOTE_KEY → w.subctx.numDelegations = 0) ∧
  (w.subctx.state = STATE_CVOTE_REGISTRATION_DELEGATIONS →
    w.subctx.currentDelegation < w.subctx.numDelegations) ∧
  (2 ≤ stateRank w.subctx.state → w.subctx.currentDelegation = w.subctx.numDelegations) ∧
  PendingInv w

/-- Two worlds agree on the state, the format, both delegation counters and the
screen in flight. -/
def SameCore (w w' : World) : Prop :=
  w'.subctx.state = w.subctx.state ∧ w'.subctx.format = w.subctx.format ∧
  w'.subctx.numDelegations = w.subctx.numDelegations ∧
  w'.subctx.currentDelegation = w.subctx.currentDelegation ∧ w'.pending = w.pending

/-- The driver `cb` rendered a screen and is suspended: the world is `W` with that
screen in flight and the next step stored. -/
def Suspended (cb : ui_callback_fn_t) (W W' : World) : Prop :=
  ∃ s r k, k ∈ resumeSteps cb ∧ W' = (W.display s cb r).setUiStep k

/-- The driver ran its last step from `W`: one response was sent, no hash call was
made and the state is now `next`; format, counters and screen in flight are as in
`W`. -/
def Completed (next : sign_tx_cvote_registration_state_t) (W W' : World) : Prop :=
  W'.subctx.state = next ∧ W'.subctx.format = W.subctx.format ∧
  W'.subctx.numDelegations = W.subctx.numDelegations ∧
  W'.subctx.currentDelegation = W.subctx.currentDelegation ∧ W'.pending = W.pending ∧
  hashCalls W'.trace = hashCalls W.trace ∧
  ∃ r, responses W'.trace = responses W.trace ++ [r]

/-- The delegation driver ran its last step from `W`: one response was sent, no hash
call was made, the delegation counter grew by one, and the state is StakingKey if the
counter reached the declared count and Delegations otherwise. -/
def DelegationCompleted (W W' : World) : Prop :=
  W'.subctx.currentDelegation = W.subctx.currentDelegation + 1 ∧
  W'.subctx.state =
    (if W.subctx.currentDelegation + 1 = W.subctx.numDelegations then
      STATE_CVOTE_REGISTRATION_STAKING_KEY
    else STATE_CVOTE_REGISTRATION_DELEGATIONS) ∧
  W'.subctx.format = W.subctx.format ∧
  W'.subctx.numDelegations = W.subctx.numDelegations ∧ W'.pending = W.pending ∧
  hashCalls W'.trace = hashCalls W.trace ∧
  responses W'.trace = responses W.trace ++ [Response.successEmpty]

/-- A change of state from `s` to `s'` is a forward move made by the transition
function: `s'` is strictly later than `s` in the order of the states, and
`advanceState` run in state `s` returns with state `s'`. -/
def MovedForward (s s' : sign_tx_cvote_registration_state_t) : Prop :=
  stateRank s < stateRank s' ∧
  ∃ v : World, v.subctx.state = s ∧ (advanceState v).status = Status.returned ∧
    (advanceState v).world.subctx.state = s'

/-- Sample events: a CIP36 registration with two delegations, up to the moment the
second delegation's weight is on screen. -/
def sampleRunToSecondDelegation : List Event :=
  [Event.apdu 0x36 [2, 0, 0, 0, 2], Event.apdu 0x37 (1 :: sampleKey ++ [0, 0, 0, 5]),
   Event.uiConfirm, Event.uiConfirm, Event.apdu 0x37 (1 :: sampleKey ++ [0, 0, 1, 0]),
   Event.uiConfirm]

/-- The key part of the claimed call sequence: one vote key when no delegation is
declared, else `enterDelegations(n)` followed by the delegations in order. -/
def specKeyCalls (n : Nat) (key : List uint8_t) (dels : List (List uint8_t × Nat)) :
    List HashCall :=
  if n = 0 then [HashCall.addVoteKey key]
  else HashCall.enterDelegations n :: dels.map (fun d => HashCall.addDelegation d.1 d.2)

/-- The voting-purpose part of the claimed call sequence: present exactly under
CIP36. -/
def specVotingPurposeCalls (cip36 format votingPurpose : Nat) : List HashCall :=
  if format = cip36 then [HashCall.addVotingPurpose votingPurpose] else []

/-- The call sequence of a complete registration, in the specification's words. -/
def specRegistrationCalls (cip36 format n : Nat) (key : List uint8_t)
    (dels : List (List uint8_t × Nat)) (stakingKey address : List uint8_t)
    (nonce votingPurpose : Nat) (sig : List uint8_t) : List HashCall :=
  [HashCall.enter format, HashCall.enterPayload] ++ specKeyCalls n key dels ++
    [HashCall.addStakingKey stakingKey, HashCall.addPaymentAddress address,
     HashCall.addNonce nonce] ++
    specVotingPurposeCalls cip36 format votingPurpose ++
    [HashCall.finalizePayload, HashCall.addSignature sig, HashCall.addAuxiliaryScripts,
     HashCall.finalize]

/-- The key part is complete: it is `specKeyCalls` for as many delegations as were
declared. -/
def KeysDone (n : Nat) (K : List HashCall) : Prop :=
  ∃ key dels, dels.length = n ∧ K = specKeyCalls n key dels

/-- The calls made after the key part, when `stage` of the later steps have made
their call: staking key, payment address, nonce, voting purpose, confirm. -/
def TailAt (cip36 format : Nat) (stage : Nat) (T : List HashCall) : Prop :=
  match stage with
  | 0 => T = []
  | 1 => ∃ sk, T = [HashCall.addStakingKey sk]
  | 2 => ∃ sk pa, T = [HashCall.addStakingKey sk, HashCall.addPaymentAddress pa]
  | 3 => ∃ sk pa nonce,
      T = [HashCall.addStakingKey sk, HashCall.addPaymentAddress pa, HashCall.addNonce nonce]
  | 4 => ∃ sk pa nonce vp,
      T = [HashCall.addStakingKey sk, HashCall.addPaymentAddress pa, HashCall.addNonce nonce]
        ++ specVotingPurposeCalls cip36 format vp
  | 5 => ∃ sk pa nonce vp sig,
      T = [HashCall.addStakingKey sk, HashCall.addPaymentAddress pa, HashCall.addNonce nonce]
        ++ specVotingPurposeCalls cip36 format vp ++
        [HashCall.finalizePayload, HashCall.addSignature sig, HashCall.addAuxiliaryScripts,
         HashCall.finalize]
  | _ => False

/-- Number of later steps that have made their hash call, by state; `busy` tells
whether the current step has already made its call (its UI tail is running). -/
def stageOf (st : sign_tx_cvote_registration_state_t) (busy : Bool) : Nat :=
  match st with
  | STATE_CVOTE_REGISTRATION_STAKING_KEY => if busy then 1 else 0
  | STATE_CVOTE_REGISTRATION_PAYMENT_ADDRESS => if busy then 2 else 1
  | STATE_CVOTE_REGISTRATION_NONCE => if busy then 3 else 2
  | STATE_CVOTE_REGISTRATION_VOTING_PURPOSE => if busy then 4 else 3
  | STATE_CVOTE_REGISTRATION_CONFIRM => if busy then 5 else 4
  | STATE_CVOTE_REGISTRATION_FINISHED => 5
  | _ => 0

/-- Shape of the hash-accumulator calls made so far in a run in which every event was
accepted, by state. -/
def HashInvB (env : Env) (busy : Bool) (w : World) : Prop :=
  match w.subctx.state with
  | STATE_CVOTE_REGISTRATION_INIT => hashCalls w.trace = []
  | STATE_CVOTE_REGISTRATION_VOTE_KEY =>
    w.subctx.numDelegations = 0 ∧
    if busy then
      ∃ key, hashCalls w.trace =
        [HashCall.enter w.subctx.format, HashCall.enterPayload, HashCall.addVoteKey key]
    else hashCalls w.trace = [HashCall.enter w.subctx.format, HashCall.enterPayload]
  | STATE_CVOTE_REGISTRATION_DELEGATIONS =>
    ∃ dels : List (List uint8_t × Nat),
      dels.length = w.subctx.currentDelegation + (if busy then 1 else 0) ∧
      hashCalls w.trace =
        [HashCall.enter w.subctx.format, HashCall.enterPayload,
         HashCall.enterDelegations w.subctx.numDelegations] ++
        dels.map (fun d => HashCall.addDelegation d.1 d.2)
  | st =>
    ∃ K T, KeysDone w.subctx.numDelegations K ∧
      TailAt env.CIP36 w.subctx.format (stageOf st busy) T ∧
      hashCalls w.trace = [HashCall.enter w.subctx.format, HashCall.enterPayload] ++ K ++ T

/-- The shape invariant, with `busy` read off the screen in flight. -/
def HashInv (env : Env) (w : World) : Prop := HashInvB env w.pending.isSome w

/-- Sample events: a complete CIP36 registration with one vote key. -/
def sampleCompleteRun : List Event :=
  sampleCommandsToNonce 2 ++ [Event.apdu 0x35 [1], Event.apdu 0x34 []]

/-- The signing request carried by an action, if it is one. -/
def Effect.asSign : Effect → Option (bip44_path_t × List uint8_t)
  | Effect.sign p h => some (p, h)
  | _ => none

/-- The signing requests of a log, in order: the key path and the payload hash. -/
def signCalls (t : List Effect) : List (bip44_path_t × List uint8_t) :=
  t.filterMap Effect.asSign

/-- The handler left before its hash-accumulator call: state, UI step, delegation
counter, stored hash and screen in flight are as before, and the only actions logged
are policy consultations. -/
def LeftEarly (w w' : World) : Prop :=
  w'.subctx.state = w.subctx.state ∧ w'.subctx.ui_step = w.subctx.ui_step ∧
  w'.subctx.currentDelegation = w.subctx.currentDelegation ∧
  w'.subctx.auxDataHash = w.subctx.auxDataHash ∧ w'.pending = w.pending ∧
  ∃ qs : List PolicyQuery, w'.trace = w.trace ++ qs.map Effect.policy

/-- The command failed with a data-invalid error or with a policy denial. -/
def FailedDataOrPolicy (o : Outcome) : Prop :=
  o.status = Status.thrown Err.ERR_INVALID_DATA ∨
  o.status = Status.thrown Err.ERR_REJECTED_BY_POLICY

/-- The staking-key policy of the sample environment replaced by a denial. -/
def sampleEnvDenyStakingKey : Env :=
  { sampleEnv with policyForCVoteRegistrationStakingKey := fun _ => POLICY_DENY }

/-- A session of the sample environment that waits for the StakingKey command. -/
def stakingKeyWorld : World :=
  runEvents sampleEnv signTxCVoteRegistration_init
    [Event.apdu 0x36 [2, 0, 0, 0, 0], Event.apdu 0x30 (1 :: sampleKey)]

/-- Whether a hash-accumulator call belongs to the delegation list: `enterDelegations`
or `addDelegation`. -/
def HashCall.isDelegationCall : HashCall → Bool
  | HashCall.enterDelegations _ => true
  | HashCall.addDelegation _ _ => true
  | _ => false

/-- Whether a response carries a payload. -/
def Response.hasPayload : Response → Bool
  | Response.success _ => true
  | _ => false

/-- What a UI driver may do when it is resumed: it leaves the format and the declared
delegation count alone, makes no hash-accumulator call and no signing request, and
the actions it logs are screens and responses; a response with a payload comes from
the confirm driver only. -/
def DriverFrame (cb : ui_callback_fn_t) (W W' : World) : Prop :=
  W'.subctx.format = W.subctx.format ∧ W'.subctx.numDelegations = W.subctx.numDelegations ∧
  ∃ ext, W'.trace = W.trace ++ ext ∧ hashCalls ext = [] ∧ signCalls ext = [] ∧
    ∀ r ∈ responses ext, r.hasPayload = true → cb = ui_callback_fn_t.handleConfirm_ui_runStep

/-- What one event may do to the session: once the Init state is left, the format and
the declared delegation count stay as they are; the actions are appended to the log; a
hash-accumulator call of the delegation list is made only from the Init or the
Delegations state, and a response with a payload is sent only from the Confirm
state. -/
def StepFrame (w w' : World) : Prop :=
  (w.subctx.state ≠ STATE_CVOTE_REGISTRATION_INIT →
    w'.subctx.format = w.subctx.format ∧
    w'.subctx.numDelegations = w.subctx.numDelegations) ∧
  ∃ ext, w'.trace = w.trace ++ ext ∧
    (∀ c ∈ hashCalls ext, c.isDelegationCall = true →
      w.subctx.state = STATE_CVOTE_REGISTRATION_INIT ∨
      w.subctx.state = STATE_CVOTE_REGISTRATION_DELEGATIONS) ∧
    (∀ r ∈ responses ext, r.hasPayload = true →
      w.subctx.state = STATE_CVOTE_REGISTRATION_CONFIRM)

/-- Invariant behind the CIP15 rule: before Init is accepted no hash-accumulator call
has been made; afterwards, a session whose format is CIP15 has no delegation declared
and has made no call of the delegation list. -/
def Cip15Inv (env : Env) (w : World) : Prop :=
  (w.subctx.state = STATE_CVOTE_REGISTRATION_INIT → hashCalls w.trace = []) ∧
  (w.subctx.state ≠ STATE_CVOTE_REGISTRATION_INIT → w.subctx.format = env.CIP15 →
    w.subctx.numDelegations = 0 ∧ ∀ c ∈ hashCalls w.trace, c.isDelegationCall = false)

/-- The payload hash of the Confirm step, in the specification's words: the result of
`finalizePayload` on the calls made so far, held in the payload-hash buffer. -/
def confirmPayloadHash (env : Env) (w : World) : List uint8_t :=
  fixed env.CVOTE_REGISTRATION_PAYLOAD_HASH_LENGTH
    (fixed env.AUX_DATA_HASH_LENGTH (env.finalizePayloadDigest (hashCalls w.trace)))

/-- The signature of the Confirm step, in the specification's words:
`sign(stakingKeyPath, payloadHash)`. -/
def confirmSignature (env : Env) (w : World) : List uint8_t :=
  fixed env.ED25519_SIGNATURE_LENGTH
    (env.getCVoteRegistrationSignature w.subctx.stakingKeyPath (confirmPayloadHash env w))

/-- The auxiliary data hash of the Confirm step, in the specification's words: the
result of `finalize` taken after `finalizePayload`, `addSignature(signature)` and
`addAuxiliaryScripts`. -/
def confirmAuxDataHash (env : Env) (w : World) : List uint8_t :=
  fixed env.AUX_DATA_HASH_LENGTH
    (env.finalizeDigest (hashCalls w.trace ++
      [HashCall.finalizePayload, HashCall.addSignature (confirmSignature env w),
       HashCall.addAuxiliaryScripts]))

/-- The session once the Confirm handler has signed and finalized, before its UI step is
selected. -/
def confirmSigned (env : Env) (w : World) : World :=
  { subctx := { w.subctx with
      stateData := stateData_t.registrationSignature (confirmSignature env w)
      auxDataHash := confirmAuxDataHash env w }
    trace := w.trace ++
      [Effect.policy PolicyQuery.confirm, Effect.hash HashCall.finalizePayload,
       Effect.sign w.subctx.stakingKeyPath (confirmPayloadHash env w),
       Effect.hash (HashCall.addSignature (confirmSignature env w)),
       Effect.hash HashCall.addAuxiliaryScripts, Effect.hash HashCall.finalize]
    pending := w.pending }

/-- The events of a Confirm step that runs to completion: the command, then the user
confirming each screen the policy asks for (the prompt, and the hash screen in expert
mode). -/
def confirmEvents (env : Env) : List Event :=
  Event.apdu 0x34 [] ::
    (if env.policyForCVoteRegistrationConfirm = POLICY_PROMPT_BEFORE_RESPONSE then
      (if env.app_mode_expert = true then [Event.uiConfirm, Event.uiConfirm]
       else [Event.uiConfirm])
     else [])

/-- The screens of a Confirm step that runs to completion: the prompt when the policy
asks for it, followed by the auxiliary data hash in expert mode. -/
def confirmScreens (env : Env) (w : World) : List Effect :=
  if env.policyForCVoteRegistrationConfirm = POLICY_PROMPT_BEFORE_RESPONSE then
    Effect.display (Screen.prompt "Confirm vote key" "registration?") ::
      (if env.app_mode_expert = true then
        [Effect.display (Screen.hexBuffer "Auxiliary data hash" (confirmAuxDataHash env w))]
       else [])
  else []

/-- The response of the Confirm step, in the specification's words: the auxiliary data
hash followed by the signature. -/
def confirmResponse (env : Env) (w : World) : Response :=
  Response.success (confirmAuxDataHash env w ++ confirmSignature env w)

/-- The session after a Confirm step that ran to completion. -/
def confirmFinished (env : Env) (w : World) : World :=
  { subctx := { (confirmSigned env w).subctx with
      state := STATE_CVOTE_REGISTRATION_FINISHED
      ui_step := HANDLE_CONFIRM_STEP_INVALID }
    trace := (confirmSigned env w).trace ++ confirmScreens env w ++
      [Effect.respond (confirmResponse env w)]
    pending := none }

/-- The session waiting at the Confirm prompt: signed and finalized, the prompt on
screen with its reject button, the next step stored. -/
def confirmPrompted (env : Env) (w : World) : World :=
  (((confirmSigned env w).setUiStep HANDLE_CONFIRM_STEP_FINAL_CONFIRM).display
    (Screen.prompt "Confirm vote key" "registration?")
    ui_callback_fn_t.handleConfirm_ui_runStep true).setUiStep HANDLE_CONFIRM_STEP_DISPLAY_HASH

/-- The session showing the auxiliary data hash (expert mode), after the prompt was
confirmed. -/
def confirmHashShown (env : Env) (w : World) : World :=
  (World.display { confirmPrompted env w with pending := none }
    (Screen.hexBuffer "Auxiliary data hash" (confirmAuxDataHash env w))
    ui_callback_fn_t.handleConfirm_ui_runStep false).setUiStep HANDLE_CONFIRM_STEP_RESPOND

/-- A CIP36 session of the sample environment that waits for the Confirm command. -/
def sampleConfirmWorld : World :=
  runEvents sampleEnv signTxCVoteRegistration_init
    (sampleCommandsToNonce 2 ++ [Event.apdu 0x35 [1]])

/-- The prompt of the Confirm step, as a logged action. -/
def confirmPromptShown : Effect :=
  Effect.display (Screen.prompt "Confirm vote key" "registration?")

/-- Whenever a screen of the confirm driver is in flight, the prompt has been shown. -/
def PromptInv (w : World) : Prop :=
  ∀ p, w.pending = some p → p.callback = ui_callback_fn_t.handleConfirm_ui_runStep →
    confirmPromptShown ∈ w.trace

/-- The hash screen of the Confirm step, as a logged action. -/
def confirmHashScreen (env : Env) (w : World) : Effect :=
  Effect.display (Screen.hexBuffer "Auxiliary data hash" (confirmAuxDataHash env w))

/-- A CIP36 session of the prompting sample environment that waits for the Confirm
command: the vote key and the voting purpose were shown and confirmed. -/
def samplePromptWorld : World :=
  runEvents sampleEnvShow signTxCVoteRegistration_init
    [Event.apdu 0x36 [2, 0, 0, 0, 0], Event.apdu 0x30 (1 :: sampleKey), Event.uiConfirm,
     Event.apdu 0x31 [2, 1, 2], Event.apdu 0x32 [2, 9, 9],
     Event.apdu 0x33 [0, 0, 0, 0, 0, 0, 1, 0], Event.apdu 0x35 [1], Event.uiConfirm]

/-- The sample environment with a vote-key-path policy that warns before showing the
path (an unusual path). -/
def sampleEnvWarn : Env :=
  { sampleEnv with
    policyForCVoteRegistrationVoteKeyPath := fun _ _ => POLICY_PROMPT_WARN_UNUSUAL }

/-- A Delegation payload of the sample environment: the key given as the path `[9]`,
weight 5. -/
def sampleDelegationByPath : List uint8_t := [2, 1, 9, 0, 0, 0, 5]

/-- A session of the sample environment that waits for the Nonce command. -/
def nonceWorld : World :=
  runEvents sampleEnv signTxCVoteRegistration_init
    [Event.apdu 0x36 [2, 0, 0, 0, 0], Event.apdu 0x30 (1 :: sampleKey),
     Event.apdu 0x31 [2, 1, 2], Event.apdu 0x32 [2, 9, 9]]

/-- The policy outcomes for which a step has no UI mapping, in the words of the
specification: prompt-before-response for VoteKey, Delegation, StakingKey and
PaymentAddress; warn-then-show and prompt-before-response for Nonce and
VotingPurpose; show-before-response and warn-then-show for Confirm. -/
def specNoUiMapping (p2 : uint8_t) (q : security_policy_t) : Prop :=
  ((p2.val = 0x30 ∨ p2.val = 0x37 ∨ p2.val = 0x31 ∨ p2.val = 0x32) ∧
    q = POLICY_PROMPT_BEFORE_RESPONSE) ∨
  ((p2.val = 0x33 ∨ p2.val = 0x35) ∧
    (q = POLICY_PROMPT_WARN_UNUSUAL ∨ q = POLICY_PROMPT_BEFORE_RESPONSE)) ∨
  (p2.val = 0x34 ∧ (q = POLICY_SHOW_BEFORE_RESPONSE ∨ q = POLICY_PROMPT_WARN_UNUSUAL))

/-- The policy oracle answers `q` when it is consulted for the command `p2` with
payload `wireData` in the session `w`: for a vote key or delegation, whichever of the
two vote-key policies is asked; for the staking key and the payment address, the
policy of the value parsed from the payload. -/
def OracleAnswers (env : Env) (p2 : uint8_t) (wireData : List uint8_t) (w : World)
    (q : security_policy_t) : Prop :=
  ((p2.val = APDU_INSTRUCTION_VOTE_KEY ∨ p2.val = APDU_INSTRUCTION_DELEGATION) →
    env.policyForCVoteRegistrationVoteKey = q ∧
    ∀ path, env.policyForCVoteRegistrationVoteKeyPath path w.subctx.format = q) ∧
  (p2.val = APDU_INSTRUCTION_STAKING_KEY → ∀ path size,
    env.bip44_parseFromWire (make_read_view wireData) = Except.ok (path, size) →
    env.policyForCVoteRegistrationStakingKey path = q) ∧
  (p2.val = APDU_INSTRUCTION_PAYMENT_ADDRESS → ∀ destination view,
    env.view_parseDestination (make_read_view wireData) = Except.ok (destination, view) →
    env.policyForCVoteRegistrationPaymentDestination destination env.networkId = q) ∧
  (p2.val = APDU_INSTRUCTION_NONCE → env.policyForCVoteRegistrationNonce = q) ∧
  (p2.val = APDU_INSTRUCTION_VOTING_PURPOSE →
    env.policyForCVoteRegistrationVotingPurpose = q) ∧
  (p2.val = APDU_INSTRUCTION_CONFIRM → env.policyForCVoteRegistrationConfirm = q)

/-- How a command ends when the oracle's outcome has no UI mapping: if the oracle was
consulted, the handler threw, no response was sent, no screen was rendered and the
state is as before; if the step's hash call was made (the selection of the UI steps
was reached), the error is `ERR_NOT_IMPLEMENTED`. -/
def UnmappedFailure (w : World) (o : Outcome) : Prop :=
  (policyQueries o.world.trace ≠ policyQueries w.trace →
    (∃ e, o.status = Status.thrown e) ∧ responses o.world.trace = responses w.trace ∧
    screens o.world.trace = screens w.trace ∧ o.world.subctx.state = w.subctx.state ∧
    o.world.pending = w.pending) ∧
  (hashCalls o.world.trace ≠ hashCalls w.trace →
    o.status = Status.thrown Err.ERR_NOT_IMPLEMENTED)

/-- The sample environment with a nonce policy that has no UI mapping. -/
def sampleEnvNonceWarn : Env :=
  { sampleEnv with policyForCVoteRegistrationNonce := POLICY_PROMPT_WARN_UNUSUAL }

/-- The command was rejected: the handler threw, no response was sent and the state is
as before. -/
def Rejected (w : World) (o : Outcome) : Prop :=
  (∃ e, o.status = Status.thrown e) ∧ responses o.world.trace = responses w.trace ∧
  o.world.subctx.state = w.subctx.state

/-- The length of the encoded fields of a command, in the words of the specification,
for the steps whose fields fix it: Init 5 bytes; VoteKey with a raw key 33; Delegation
with a raw key 37; StakingKey the size of the encoded path; Nonce 8; VotingPurpose 1
when the flag says "not included" and 9 when it says "included"; Confirm 0. -/
def specExactLength (env : Env) (p2 : uint8_t) (wireData : List uint8_t) : Option Nat :=
  if p2.val = 0x36 then some 5
  else if p2.val = 0x30 then
    match wireData with
    | t :: _ => if t.val = env.DELEGATION_KEY then some 33 else none
    | [] => none
  else if p2.val = 0x37 then
    match wireData with
    | t :: _ => if t.val = env.DELEGATION_KEY then some 37 else none
    | [] => none
  else if p2.val = 0x31 then
    match env.bip44_parseFromWire wireData with
    | Except.ok (_, size) => some size
    | Except.error _ => none
  else if p2.val = 0x33 then some 8
  else if p2.val = 0x35 then
    match wireData with
    | flag :: _ =>
      match env.signTx_parseIncluded flag.val with
      | Except.ok true => some 9
      | Except.ok false => some 1
      | Except.error _ => none
    | [] => none
  else if p2.val = 0x34 then some 0
  else none

/-- The UI step a three-screen driver is entered at, by policy outcome: the warning
for warn-then-show, the display for show-before-response, the response otherwise. -/
def uiEntry (warning display respond : Nat) (policy : security_policy_t) : Nat :=
  match policy with
  | POLICY_PROMPT_WARN_UNUSUAL => warning
  | POLICY_SHOW_BEFORE_RESPONSE => display
  | _ => respond

/-- The policy outcome is one that the three-screen drivers map to a UI step. -/
def Mapped3 (policy : security_policy_t) : Prop :=
  policy = POLICY_PROMPT_WARN_UNUSUAL ∨ policy = POLICY_SHOW_BEFORE_RESPONSE ∨
    policy = POLICY_ALLOW_WITHOUT_PROMPT

/-- What `_parseVoteKey` returns for a VoteKey or Delegation payload: it runs on the
session with `stateData` zeroed. -/
def voteKeyParse (env : Env) (wireData : List uint8_t) (w : World) : Outcome × read_view_t :=
  _parseVoteKey env (make_read_view wireData) (w.setStateData stateData_t.zeroed)

/-- The policy function `_determineVoteKeyPolicy` asks, for a parsed vote key. -/
def voteKeyQuery (env : Env) (d : delegation_t) : PolicyQuery :=
  if d.type = env.DELEGATION_PATH then PolicyQuery.voteKeyPath else PolicyQuery.voteKey

/-- The outcome `_determineVoteKeyPolicy` returns, for a parsed vote key. -/
def voteKeyOutcome (env : Env) (d : delegation_t) (format : Nat) : security_policy_t :=
  if d.type = env.DELEGATION_PATH then
    env.policyForCVoteRegistrationVoteKeyPath d.votePubKeyPath format
  else env.policyForCVoteRegistrationVoteKey

/-- The key bytes handed to the hash accumulator, for a parsed vote key: the raw key,
or the key derived from the path. -/
def voteKeyBytes (env : Env) (d : delegation_t) : List uint8_t :=
  if d.type = env.DELEGATION_KEY then fixed CVOTE_PUBLIC_KEY_LENGTH d.votePubKey
  else env.deriveExtendedPublicKey d.votePubKeyPath

/-- The session once the VoteKey handler has parsed, consulted the policy and made its
hash call, before its UI step is selected. -/
def voteKeyHashed (env : Env) (wireData : List uint8_t) (w : World) : World :=
  (((voteKeyParse env wireData w).1.world.emit (Effect.policy (voteKeyQuery env
      (voteKeyParse env wireData w).1.world.subctx.stateData.getDelegation))).emit
    (Effect.hash (HashCall.addVoteKey (voteKeyBytes env
      (voteKeyParse env wireData w).1.world.subctx.stateData.getDelegation))))

/-- The session once the Delegation handler has parsed the vote key and the weight. -/
def delegationParsed (env : Env) (wireData : List uint8_t) (w : World) : World :=
  match parse_u4be (voteKeyParse env wireData w).2 with
  | Except.ok (weight, _) =>
    (voteKeyParse env wireData w).1.world.setStateData (stateData_t.delegation
      { (voteKeyParse env wireData w).1.world.subctx.stateData.getDelegation with
        weight := weight })
  | Except.error _ => (voteKeyParse env wireData w).1.world

/-- The session once the Delegation handler has parsed, consulted the policy and made
its hash call, before its UI step is selected. -/
def delegationHashed (env : Env) (wireData : List uint8_t) (w : World) : World :=
  (((delegationParsed env wireData w).emit (Effect.policy (voteKeyQuery env
      (delegationParsed env wireData w).subctx.stateData.getDelegation))).emit
    (Effect.hash (HashCall.addDelegation
      (voteKeyBytes env (delegationParsed env wireData w).subctx.stateData.getDelegation)
      (delegationParsed env wireData w).subctx.stateData.getDelegation.weight)))

/-- The `delegation` record a raw-key payload parses to: the tag, the 32 key bytes, no
path, and the weight (0 for a lone vote key). -/
def rawKeyRecord (t : uint8_t) (key : List uint8_t) (weight : Nat) : delegation_t :=
  { type := t.val, votePubKey := key, votePubKeyPath := [], weight := weight }

/-- A CIP36 session of the sample environment that waits for the VoteKey command. -/
def voteKeyWorld : World :=
  runEvents sampleEnv signTxCVoteRegistration_init [Event.apdu 0x36 [2, 0, 0, 0, 0]]

/-- The screens a three-screen driver shows, by policy outcome, as a suffix of the
fixed sequence `all` (warning, then display): all of it for warn-then-show, the
display alone for show-before-response, nothing otherwise. -/
def shownFor (policy : security_policy_t) (all : List Screen) : List Screen :=
  match policy with
  | POLICY_PROMPT_WARN_UNUSUAL => all
  | POLICY_SHOW_BEFORE_RESPONSE => all.drop 1
  | _ => []

/-- The session after a step ran to completion from `X` (the session as it is after the
hash call): the screens `shown` were rendered, then one empty success response was
sent, then the state was advanced to `next`; no screen is in flight. -/
def stepFinished (X : World) (shown : List Screen)
    (next : sign_tx_cvote_registration_state_t) (invalidStep : Nat) : World :=
  { subctx := { X.subctx with state := next, ui_step := invalidStep }
    trace := X.trace ++ shown.map Effect.display ++ [Effect.respond Response.successEmpty]
    pending := none }

/-- The screen `_displayVoteKey` renders for a parsed vote key. -/
def voteKeyScreen (env : Env) (d : delegation_t) : Screen :=
  if d.type = env.DELEGATION_KEY then
    Screen.bech32 "Vote public key" "cvote_vk" (fixed CVOTE_PUBLIC_KEY_LENGTH d.votePubKey)
  else Screen.path "Vote public key" d.votePubKeyPath

/-- The fixed screen sequence of the VoteKey step: the warning, then the key. -/
def voteKeyScreens (env : Env) (X : World) : List Screen :=
  [Screen.paginatedText "WARNING:" "unusual vote key",
   voteKeyScreen env X.subctx.stateData.getDelegation]

/-- The path a StakingKey payload parses to (the zeroed path if it does not parse). -/
def stakingKeyParsed (env : Env) (wireData : List uint8_t) : bip44_path_t :=
  match env.bip44_parseFromWire (make_read_view wireData) with
  | Except.ok (path, _) => path
  | Except.error _ => []

/-- The session once the StakingKey handler has parsed, consulted the policy and made
its hash call, before its UI step is selected. -/
def stakingKeyHashed (env : Env) (wireData : List uint8_t) (w : World) : World :=
  ((w.setStakingKeyPath (stakingKeyParsed env wireData)).emit
      (Effect.policy PolicyQuery.stakingKey)).emit
    (Effect.hash (HashCall.addStakingKey
      (env.deriveExtendedPublicKey (stakingKeyParsed env wireData))))

/-- The fixed screen sequence of the StakingKey step: the warning, then the key path. -/
def stakingKeyScreens (X : World) : List Screen :=
  [Screen.paginatedText "Unusual request" "Proceed with care",
   Screen.stakingKey X.subctx.stakingKeyPath]

/-- The destination a PaymentAddress payload parses to (the zeroed record if it does
not parse). -/
def paymentAddressParsed (env : Env) (wireData : List uint8_t) :
    tx_output_destination_storage_t :=
  match env.view_parseDestination (make_read_view wireData) with
  | Except.ok (destination, _) => destination
  | Except.error _ => zeroDestination

/-- The address bytes `_destinationToAddress` gives for a destination (empty where its
assertion fails). -/
def addressBytes (env : Env) (destination : tx_output_destination_storage_t) :
    List uint8_t :=
  (_destinationToAddress env destination env.MAX_ADDRESS_SIZE).getD []

/-- The session once the PaymentAddress handler has parsed, consulted the policy and
made its hash call, before its UI step is selected. -/
def paymentAddressHashed (env : Env) (wireData : List uint8_t) (w : World) : World :=
  ((w.setStateData (stateData_t.paymentDestination
      (paymentAddressParsed env wireData))).emit
      (Effect.policy PolicyQuery.paymentDestination)).emit
    (Effect.hash (HashCall.addPaymentAddress
      (addressBytes env (paymentAddressParsed env wireData))))

/-- The fixed screen sequence of the PaymentAddress step: the warning, then the
address. -/
def paymentAddressScreens (env : Env) (X : World) : List Screen :=
  [Screen.paginatedText "Unusual request" "Proceed with care",
   Screen.address "Rewards go to"
     (addressBytes env X.subctx.stateData.getPaymentDestination)]

/-- The command `p2` with payload `wireData`, sent to the session `w` and followed by
the user confirming each screen, runs to completion: the screens rendered are
`shownFor policy all`, one empty success response is sent, it is the last action, and
the state is then `next` with no screen in flight. -/
def StepRan (env : Env) (w : World) (p2 : uint8_t) (wireData : List uint8_t)
    (policy : security_policy_t) (all : List Screen)
    (next : sign_tx_cvote_registration_state_t) : Prop :=
  ∃ W, runAccepted env w (Event.apdu p2 wireData ::
      List.replicate (shownFor policy all).length Event.uiConfirm) = some W ∧
    screens W.trace = screens w.trace ++ shownFor policy all ∧
    responses W.trace = responses w.trace ++ [Response.successEmpty] ∧
    (∃ pre, W.trace = pre ++ [Effect.respond Response.successEmpty]) ∧
    W.subctx.state = next ∧ W.pending = none

/-- The sample environment with every three-screen policy set to warn-then-show. -/
def sampleEnvWarnAll : Env :=
  { sampleEnv with
    policyForCVoteRegistrationVoteKey := POLICY_PROMPT_WARN_UNUSUAL
    policyForCVoteRegistrationStakingKey := fun _ => POLICY_PROMPT_WARN_UNUSUAL
    policyForCVoteRegistrationPaymentDestination := fun _ _ => POLICY_PROMPT_WARN_UNUSUAL }

/-- The sample environment with the policies of the displayed values set to
show-before-response. -/
def sampleEnvShowAll : Env :=
  { sampleEnv with
    policyForCVoteRegistrationVoteKey := POLICY_SHOW_BEFORE_RESPONSE
    policyForCVoteRegistrationPaymentDestination := fun _ _ => POLICY_SHOW_BEFORE_RESPONSE }

/-- A session of the sample environment that waits for the PaymentAddress command. -/
def paymentAddressWorld : World :=
  runEvents sampleEnv signTxCVoteRegistration_init
    [Event.apdu 0x36 [2, 0, 0, 0, 0], Event.apdu 0x30 (1 :: sampleKey),
     Event.apdu 0x31 [2, 1, 2]]

/-- What a session has accumulated, apart from where it stands in the protocol and on
the screen: the format, the declared delegation count, the staking key path, the
stored hash, the transient step data and the calls made on the hash accumulator. -/
structure Content where
  format : Nat
  numDelegations : Nat
  stakingKeyPath : bip44_path_t
  auxDataHash : List uint8_t
  stateData : stateData_t
  calls : List HashCall

/-- The content of a session. -/
def contentOf (w : World) : Content :=
  { format := w.subctx.format
    numDelegations := w.subctx.numDelegations
    stakingKeyPath := w.subctx.stakingKeyPath
    auxDataHash := w.subctx.auxDataHash
    stateData := w.subctx.stateData
    calls := hashCalls w.trace }

/-- The transient data a VoteKey payload parses to; `_parseVoteKey` starts from zeroed
step data, whatever the session. -/
def voteKeyData (env : Env) (wireData : List uint8_t) : stateData_t :=
  (voteKeyParse env wireData signTxCVoteRegistration_init).1.world.subctx.stateData

/-- The transient data a Delegation payload parses to. -/
def delegationData (env : Env) (wireData : List uint8_t) : stateData_t :=
  (delegationParsed env wireData signTxCVoteRegistration_init).subctx.stateData

/-- The value a VotingPurpose payload parses to: the 8 bytes after an "included" flag,
the default otherwise. -/
def votingPurposeParsed (env : Env) (wireData : List uint8_t) : Nat :=
  match parse_u1be (make_read_view wireData) with
  | Except.error _ => DEFAULT_VOTING_PURPOSE
  | Except.ok (isIncluded, view1) =>
    match env.signTx_parseIncluded isIncluded with
    | Except.error _ => DEFAULT_VOTING_PURPOSE
    | Except.ok isVotingPurposeIncluded =>
      match (if isVotingPurposeIncluded = true then parse_u8be view1
        else Except.ok (DEFAULT_VOTING_PURPOSE, view1)) with
      | Except.error _ => DEFAULT_VOTING_PURPOSE
      | Except.ok (votingPurpose, _) => votingPurpose

/-- The format and the number of delegations an Init payload parses to (zeroes if it
does not parse). -/
def initParsed (wireData : List uint8_t) : Nat × Nat :=
  match parse_u1be (make_read_view wireData) with
  | Except.ok (format, view1) =>
    match parse_u4be view1 with
    | Except.ok (count, _) => (format, count % UINT16_RANGE)
    | Except.error _ => (format, 0)
  | Except.error _ => (0, 0)

/-- The content after an accepted Init command. -/
def contentAfterInit (wireData : List uint8_t) (c : Content) : Content :=
  { c with
    format := (initParsed wireData).1
    numDelegations := (initParsed wireData).2
    stateData := stateData_t.zeroed
    calls := c.calls ++
      [HashCall.enter (initParsed wireData).1, HashCall.enterPayload] ++
      (if (initParsed wireData).2 > 0 then
        [HashCall.enterDelegations (initParsed wireData).2]
       else []) }

/-- The content after an accepted VoteKey command. -/
def contentAfterVoteKey (env : Env) (wireData : List uint8_t) (c : Content) : Content :=
  { c with
    stateData := voteKeyData env wireData
    calls := c.calls ++
      [HashCall.addVoteKey (voteKeyBytes env (voteKeyData env wireData).getDelegation)] }

/-- The content after an accepted Delegation command. -/
def contentAfterDelegation (env : Env) (wireData : List uint8_t) (c : Content) : Content :=
  { c with
    stateData := delegationData env wireData
    calls := c.calls ++
      [HashCall.addDelegation (voteKeyBytes env (delegationData env wireData).getDelegation)
        (delegationData env wireData).getDelegation.weight] }

/-- The content after an accepted StakingKey command. -/
def contentAfterStakingKey (env : Env) (wireData : List uint8_t) (c : Content) : Content :=
  { c with
    stakingKeyPath := stakingKeyParsed env wireData
    calls := c.calls ++
      [HashCall.addStakingKey (env.deriveExtendedPublicKey (stakingKeyParsed env wireData))] }

/-- The content after an accepted PaymentAddress command. -/
def contentAfterPaymentAddress (env : Env) (wireData : List uint8_t) (c : Content) :
    Content :=
  { c with
    stateData := stateData_t.paymentDestination (paymentAddressParsed env wireData)
    calls := c.calls ++
      [HashCall.addPaymentAddress (addressBytes env (paymentAddressParsed env wireData))] }

/-- The content after an accepted Nonce command. -/
def contentAfterNonce (wireData : List uint8_t) (c : Content) : Content :=
  { c with
    stateData := stateData_t.nonce (u8be_read wireData)
    calls := c.calls ++ [HashCall.addNonce (u8be_read wireData)] }

/-- The content after an accepted VotingPurpose command: the hash call is made under
CIP36 only. -/
def contentAfterVotingPurpose (env : Env) (wireData : List uint8_t) (c : Content) :
    Content :=
  { c with
    stateData := stateData_t.votingPurpose (votingPurposeParsed env wireData)
    calls := c.calls ++
      (if c.format = env.CIP36 then
        [HashCall.addVotingPurpose (votingPurposeParsed env wireData)]
       else []) }

/-- The signature the Confirm step computes from a content. -/
def contentSignature (env : Env) (c : Content) : List uint8_t :=
  fixed env.ED25519_SIGNATURE_LENGTH
    (env.getCVoteRegistrationSignature c.stakingKeyPath
      (fixed env.CVOTE_REGISTRATION_PAYLOAD_HASH_LENGTH
        (fixed env.AUX_DATA_HASH_LENGTH (env.finalizePayloadDigest c.calls))))

/-- The content after an accepted Confirm command. -/
def contentAfterConfirm (env : Env) (c : Content) : Content :=
  { c with
    stateData := stateData_t.registrationSignature (contentSignature env c)
    auxDataHash := fixed env.AUX_DATA_HASH_LENGTH
      (env.finalizeDigest (c.calls ++
        [HashCall.finalizePayload, HashCall.addSignature (contentSignature env c),
         HashCall.addAuxiliaryScripts]))
    calls := c.calls ++
      [HashCall.finalizePayload, HashCall.addSignature (contentSignature env c),
       HashCall.addAuxiliaryScripts, HashCall.finalize] }

/-- The content after an accepted command, by instruction code.  It depends on the
payload, on the content before, and on the parsers, the key derivation, the signer and
the digests of the environment; it does not depend on any policy outcome. -/
def contentAfter (env : Env) (p2 : uint8_t) (wireData : List uint8_t) (c : Content) :
    Content :=
  if p2.val = APDU_INSTRUCTION_INIT then contentAfterInit wireData c
  else if p2.val = APDU_INSTRUCTION_VOTE_KEY then contentAfterVoteKey env wireData c
  else if p2.val = APDU_INSTRUCTION_DELEGATION then contentAfterDelegation env wireData c
  else if p2.val = APDU_INSTRUCTION_STAKING_KEY then contentAfterStakingKey env wireData c
  else if p2.val = APDU_INSTRUCTION_PAYMENT_ADDRESS then
    contentAfterPaymentAddress env wireData c
  else if p2.val = APDU_INSTRUCTION_NONCE then contentAfterNonce wireData c
  else if p2.val = APDU_INSTRUCTION_VOTING_PURPOSE then
    contentAfterVotingPurpose env wireData c
  else if p2.val = APDU_INSTRUCTION_CONFIRM then contentAfterConfirm env c
  else c

/-- The policy outcomes and the expert-mode flag: the part of the environment that
decides what the user sees. -/
structure Policies where
  policyForCVoteRegistrationVoteKeyPath : bip44_path_t → Nat → security_policy_t
  policyForCVoteRegistrationVoteKey : security_policy_t
  policyForCVoteRegistrationStakingKey : bip44_path_t → security_policy_t
  policyForCVoteRegistrationPaymentDestination :
    tx_output_destination_storage_t → Nat → security_policy_t
  policyForCVoteRegistrationNonce : security_policy_t
  policyForCVoteRegistrationVotingPurpose : security_policy_t
  policyForCVoteRegistrationConfirm : security_policy_t
  app_mode_expert : Bool

/-- The environment `env` with its policy outcomes and its expert-mode flag replaced;
the parsers, the key derivation, the signer and the digests are those of `env`. -/
def Env.withPolicies (env : Env) (P : Policies) : Env :=
  { env with
    policyForCVoteRegistrationVoteKeyPath := P.policyForCVoteRegistrationVoteKeyPath
    policyForCVoteRegistrationVoteKey := P.policyForCVoteRegistrationVoteKey
    policyForCVoteRegistrationStakingKey := P.policyForCVoteRegistrationStakingKey
    policyForCVoteRegistrationPaymentDestination :=
      P.policyForCVoteRegistrationPaymentDestination
    policyForCVoteRegistrationNonce := P.policyForCVoteRegistrationNonce
    policyForCVoteRegistrationVotingPurpose := P.policyForCVoteRegistrationVotingPurpose
    policyForCVoteRegistrationConfirm := P.policyForCVoteRegistrationConfirm
    app_mode_expert := P.app_mode_expert }

/-- The wire command of an event, if it is one. -/
def Event.asCommand : Event → Option (uint8_t × List uint8_t)
  | Event.apdu p2 wireData => some (p2, wireData)
  | _ => none

/-- The wire commands of a sequence of events, in order: instruction code and payload. -/
def commands (evs : List Event) : List (uint8_t × List uint8_t) :=
  evs.filterMap Event.asCommand

/-- The content after a sequence of accepted commands. -/
def contentAfterAll (env : Env) (cmds : List (uint8_t × List uint8_t)) (c : Content) :
    Content :=
  cmds.foldl (fun acc cmd => contentAfter env cmd.1 cmd.2 acc) c

/-- The response of the Confirm step, from the content: the hash array followed by the
signature array. -/
def contentResponse (env : Env) (c : Content) : Response :=
  Response.success (fixed env.AUX_DATA_HASH_LENGTH c.auxDataHash ++
    fixed env.ED25519_SIGNATURE_LENGTH c.stateData.getRegistrationSignature)

/-- In the Finished state the last response sent is the Confirm response of the
content. -/
def FinalInv (env : Env) (w : World) : Prop :=
  w.subctx.state = STATE_CVOTE_REGISTRATION_FINISHED →
    (responses w.trace).getLast? = some (contentResponse env (contentOf w))

/-- Sample policies: nothing is shown, expert mode is off. -/
def samplePoliciesSilent : Policies :=
  { policyForCVoteRegistrationVoteKeyPath := fun _ _ => POLICY_ALLOW_WITHOUT_PROMPT
    policyForCVoteRegistrationVoteKey := POLICY_ALLOW_WITHOUT_PROMPT
    policyForCVoteRegistrationStakingKey := fun _ => POLICY_ALLOW_WITHOUT_PROMPT
    policyForCVoteRegistrationPaymentDestination := fun _ _ => POLICY_ALLOW_WITHOUT_PROMPT
    policyForCVoteRegistrationNonce := POLICY_ALLOW_WITHOUT_PROMPT
    policyForCVoteRegistrationVotingPurpose := POLICY_ALLOW_WITHOUT_PROMPT
    policyForCVoteRegistrationConfirm := POLICY_ALLOW_WITHOUT_PROMPT
    app_mode_expert := false }

/-- Sample policies: the vote key is shown after a warning, every other value is
shown, the final confirmation is prompted, expert mode is on. -/
def samplePoliciesShown : Policies :=
  { policyForCVoteRegistrationVoteKeyPath := fun _ _ => POLICY_SHOW_BEFORE_RESPONSE
    policyForCVoteRegistrationVoteKey := POLICY_PROMPT_WARN_UNUSUAL
    policyForCVoteRegistrationStakingKey := fun _ => POLICY_SHOW_BEFORE_RESPONSE
    policyForCVoteRegistrationPaymentDestination := fun _ _ => POLICY_SHOW_BEFORE_RESPONSE
    policyForCVoteRegistrationNonce := POLICY_SHOW_BEFORE_RESPONSE
    policyForCVoteRegistrationVotingPurpose := POLICY_SHOW_BEFORE_RESPONSE
    policyForCVoteRegistrationConfirm := POLICY_PROMPT_BEFORE_RESPONSE
    app_mode_expert := true }

/-- The sample complete run with the user confirming each screen of
`samplePoliciesShown`: two screens for the vote key, one for each of the staking key,
the address, the nonce and the voting purpose, two for the confirmation. -/
def sampleCompleteRunShown : List Event :=
  [Event.apdu 0x36 [2, 0, 0, 0, 0],
   Event.apdu 0x30 (1 :: sampleKey), Event.uiConfirm, Event.uiConfirm,
   Event.apdu 0x31 [2, 1, 2], Event.uiConfirm,
   Event.apdu 0x32 [2, 9, 9], Event.uiConfirm,
   Event.apdu 0x33 [0, 0, 0, 0, 0, 0, 1, 0], Event.uiConfirm,
   Event.apdu 0x35 [1], Event.uiConfirm,
   Event.apdu 0x34 [], Event.uiConfirm, Event.uiConfirm]

/-- The session of `delegationsOpenWorld` once its one declared delegation has been
counted: state Delegations with `currentDelegation = numDelegations = 1`, as at the call
of `advanceState` in the delegation driver. -/
def delegationsDoneWorld : World :=
  delegationsOpenWorld.setCurrentDelegation 1

/-- The instruction code that a state expects. -/
def stateCode : sign_tx_cvote_registration_state_t → Nat
  | STATE_CVOTE_REGISTRATION_INIT => APDU_INSTRUCTION_INIT
  | STATE_CVOTE_REGISTRATION_VOTE_KEY => APDU_INSTRUCTION_VOTE_KEY
  | STATE_CVOTE_REGISTRATION_DELEGATIONS => APDU_INSTRUCTION_DELEGATION
  | STATE_CVOTE_REGISTRATION_STAKING_KEY => APDU_INSTRUCTION_STAKING_KEY
  | STATE_CVOTE_REGISTRATION_PAYMENT_ADDRESS => APDU_INSTRUCTION_PAYMENT_ADDRESS
  | STATE_CVOTE_REGISTRATION_NONCE => APDU_INSTRUCTION_NONCE
  | STATE_CVOTE_REGISTRATION_VOTING_PURPOSE => APDU_INSTRUCTION_VOTING_PURPOSE
  | STATE_CVOTE_REGISTRATION_CONFIRM => APDU_INSTRUCTION_CONFIRM
  | STATE_CVOTE_REGISTRATION_FINISHED => 0

/-- The instruction codes of the key commands of a registration with `n` declared
delegations: one VoteKey command, or `n` Delegation commands. -/
def keyCodes (n : Nat) : List Nat :=
  if n = 0 then [APDU_INSTRUCTION_VOTE_KEY] else List.replicate n APDU_INSTRUCTION_DELEGATION

/-- The instruction codes of the commands whose step is complete, by state. -/
def doneCodes (st : sign_tx_cvote_registration_state_t) (cur n : Nat) : List Nat :=
  match st with
  | STATE_CVOTE_REGISTRATION_INIT => []
  | STATE_CVOTE_REGISTRATION_VOTE_KEY => [APDU_INSTRUCTION_INIT]
  | STATE_CVOTE_REGISTRATION_DELEGATIONS =>
    APDU_INSTRUCTION_INIT :: List.replicate cur APDU_INSTRUCTION_DELEGATION
  | STATE_CVOTE_REGISTRATION_STAKING_KEY => APDU_INSTRUCTION_INIT :: keyCodes n
  | STATE_CVOTE_REGISTRATION_PAYMENT_ADDRESS =>
    APDU_INSTRUCTION_INIT :: keyCodes n ++ [APDU_INSTRUCTION_STAKING_KEY]
  | STATE_CVOTE_REGISTRATION_NONCE =>
    APDU_INSTRUCTION_INIT :: keyCodes n ++
      [APDU_INSTRUCTION_STAKING_KEY, APDU_INSTRUCTION_PAYMENT_ADDRESS]
  | STATE_CVOTE_REGISTRATION_VOTING_PURPOSE =>
    APDU_INSTRUCTION_INIT :: keyCodes n ++
      [APDU_INSTRUCTION_STAKING_KEY, APDU_INSTRUCTION_PAYMENT_ADDRESS,
       APDU_INSTRUCTION_NONCE]
  | STATE_CVOTE_REGISTRATION_CONFIRM =>
    APDU_INSTRUCTION_INIT :: keyCodes n ++
      [APDU_INSTRUCTION_STAKING_KEY, APDU_INSTRUCTION_PAYMENT_ADDRESS,
       APDU_INSTRUCTION_NONCE, APDU_INSTRUCTION_VOTING_PURPOSE]
  | STATE_CVOTE_REGISTRATION_FINISHED =>
    APDU_INSTRUCTION_INIT :: keyCodes n ++
      [APDU_INSTRUCTION_STAKING_KEY, APDU_INSTRUCTION_PAYMENT_ADDRESS,
       APDU_INSTRUCTION_NONCE, APDU_INSTRUCTION_VOTING_PURPOSE, APDU_INSTRUCTION_CONFIRM]

/-- The instruction codes of the commands accepted so far in a session reached by
accepted events: those whose step is complete, and the command of the current state
while one of its screens is in flight. -/
def codesOf (w : World) : List Nat :=
  doneCodes w.subctx.state w.subctx.currentDelegation w.subctx.numDelegations ++
    (if w.pending.isSome then [stateCode w.subctx.state] else [])

/-- The wire commands of a complete registration in the specification's order: Init,
then one VoteKey command (no delegation declared) or the Delegation commands,
StakingKey, PaymentAddress, Nonce, VotingPurpose, Confirm; each with its payload. -/
def registrationCommands (n : Nat) (dInit dKey : List uint8_t) (dDels : List (List uint8_t))
    (dSk dPa dN dVp dC : List uint8_t) : List (uint8_t × List uint8_t) :=
  (0x36, dInit) :: (if n = 0 then [(0x30, dKey)] else dDels.map (fun d => (0x37, d))) ++
    [(0x31, dSk), (0x32, dPa), (0x33, dN), (0x35, dVp), (0x34, dC)]

/-- The key that a VoteKey payload contributes to the hash: the parsed raw key, or the
key derived from the parsed path. -/
def hashedVoteKey (env : Env) (wireData : List uint8_t) : List uint8_t :=
  voteKeyBytes env (voteKeyData env wireData).getDelegation

/-- The key and the weight that a Delegation payload contributes to the hash. -/
def hashedDelegation (env : Env) (wireData : List uint8_t) : List uint8_t × Nat :=
  (voteKeyBytes env (delegationData env wireData).getDelegation,
    (delegationData env wireData).getDelegation.weight)

/-- The calls of the payload part of a registration, from the payloads of its
commands: everything before `finalizePayload`. -/
def registrationPayloadCalls (env : Env) (dInit dKey : List uint8_t)
    (dDels : List (List uint8_t)) (dSk dPa dN dVp : List uint8_t) : List HashCall :=
  [HashCall.enter (initParsed dInit).1, HashCall.enterPayload] ++
    specKeyCalls (initParsed dInit).2 (hashedVoteKey env dKey)
      (dDels.map (hashedDelegation env)) ++
    [HashCall.addStakingKey (env.deriveExtendedPublicKey (stakingKeyParsed env dSk)),
     HashCall.addPaymentAddress (addressBytes env (paymentAddressParsed env dPa)),
     HashCall.addNonce (u8be_read dN)] ++
    specVotingPurposeCalls env.CIP36 (initParsed dInit).1 (votingPurposeParsed env dVp)

/-- The signature of a registration, from the payloads of its commands: the signer's
result for the staking key path and the digest of the payload part. -/
def registrationSignatureOf (env : Env) (dInit dKey : List uint8_t)
    (dDels : List (List uint8_t)) (dSk dPa dN dVp : List uint8_t) : List uint8_t :=
  fixed env.ED25519_SIGNATURE_LENGTH
    (env.getCVoteRegistrationSignature (stakingKeyParsed env dSk)
      (fixed env.CVOTE_REGISTRATION_PAYLOAD_HASH_LENGTH
        (fixed env.AUX_DATA_HASH_LENGTH
          (env.finalizePayloadDigest
            (registrationPayloadCalls env dInit dKey dDels dSk dPa dN dVp)))))

/-- Sample events: a complete CIP36 registration with two delegations, the first to a
raw key with weight 5, the second to a derivation path with weight 256 (scenario B of
the specification), with the voting purpose 7 included. -/
def sampleDelegationsRun : List Event :=
  [Event.apdu 0x36 [2, 0, 0, 0, 2],
   Event.apdu 0x37 (1 :: sampleKey ++ [0, 0, 0, 5]),
   Event.apdu 0x37 [2, 1, 9, 0, 0, 1, 0],
   Event.apdu 0x31 [2, 1, 2], Event.apdu 0x32 [2, 9, 9],
   Event.apdu 0x33 [0, 0, 0, 0, 0, 0, 1, 0],
   Event.apdu 0x35 [2, 0, 0, 0, 0, 0, 0, 0, 7], Event.apdu 0x34 []]

/-! ## Theorems -/

/-! ### Dispatch lemmas -/

/-- With `p2 = 0x36` the dispatcher runs the Init handler. -/
theorem handleAPDU_dispatch_Init (env : Env) (p2 : uint8_t) (d : List uint8_t) (w : World)
    (hlen : d.length < env.BUFFER_SIZE_PARANOIA) (h : p2.val = 0x36) :
    signTxCVoteRegistration_handleAPDU env p2 d w =
      signTxCVoteRegistration_handleInitAPDU env d w := by
  unfold signTxCVoteRegistration_handleAPDU
  have e : ∀ k : Nat, k ≠ 0x36 → ¬ p2.val = k := fun k hk hp => hk (hp.symm.trans h)
  rw [if_neg (not_not.mpr hlen),
    if_pos (show p2.val = APDU_INSTRUCTION_INIT from h)]

/-- The Init handler starts with `CHECK_STATE`: in any other state it throws
`ERR_INVALID_STATE` before touching anything. -/
theorem handleInitAPDU_wrong_state (env : Env) (d : List uint8_t) (w : World)
    (hne : w.subctx.state ≠ STATE_CVOTE_REGISTRATION_INIT) :
    signTxCVoteRegistration_handleInitAPDU env d w = THROW Err.ERR_INVALID_STATE w := by
  unfold signTxCVoteRegistration_handleInitAPDU
  rw [if_pos hne]

/-- With `p2 = 0x30` the dispatcher runs the VoteKey handler. -/
theorem handleAPDU_dispatch_VoteKey (env : Env) (p2 : uint8_t) (d : List uint8_t) (w : World)
    (hlen : d.length < env.BUFFER_SIZE_PARANOIA) (h : p2.val = 0x30) :
    signTxCVoteRegistration_handleAPDU env p2 d w =
      signTxCVoteRegistration_handleVoteKeyAPDU env d w := by
  unfold signTxCVoteRegistration_handleAPDU
  have e : ∀ k : Nat, k ≠ 0x30 → ¬ p2.val = k := fun k hk hp => hk (hp.symm.trans h)
  rw [if_neg (not_not.mpr hlen),
    if_neg (show ¬ p2.val = APDU_INSTRUCTION_INIT from e _ (by decide)),
    if_pos (show p2.val = APDU_INSTRUCTION_VOTE_KEY from h)]

/-- The VoteKey handler starts with `CHECK_STATE`: in any other state it throws
`ERR_INVALID_STATE` before touching anything. -/
theorem handleVoteKeyAPDU_wrong_state (env : Env) (d : List uint8_t) (w : World)
    (hne : w.subctx.state ≠ STATE_CVOTE_REGISTRATION_VOTE_KEY) :
    signTxCVoteRegistration_handleVoteKeyAPDU env d w = THROW Err.ERR_INVALID_STATE w := by
  unfold signTxCVoteRegistration_handleVoteKeyAPDU
  rw [if_pos hne]

/-- With `p2 = 0x37` the dispatcher runs the Delegation handler. -/
theorem handleAPDU_dispatch_Delegation (env : Env) (p2 : uint8_t) (d : List uint8_t) (w : World)
    (hlen : d.length < env.BUFFER_SIZE_PARANOIA) (h : p2.val = 0x37) :
    signTxCVoteRegistration_handleAPDU env p2 d w =
      signTxCVoteRegistration_handleDelegationAPDU env d w := by
  unfold signTxCVoteRegistration_handleAPDU
  have e : ∀ k : Nat, k ≠ 0x37 → ¬ p2.val = k := fun k hk hp => hk (hp.symm.trans h)
  rw [if_neg (not_not.mpr hlen),
    if_neg (show ¬ p2.val = APDU_INSTRUCTION_INIT from e _ (by decide)),
    if_neg (show ¬ p2.val = APDU_INSTRUCTION_VOTE_KEY from e _ (by decide)),
    if_pos (show p2.val = APDU_INSTRUCTION_DELEGATION from h)]

/-- The Delegation handler starts with `CHECK_STATE`: in any other state it throws
`ERR_INVALID_STATE` before touching anything. -/
theorem handleDelegationAPDU_wrong_state (env : Env) (d : List uint8_t) (w : World)
    (hne : w.subctx.state ≠ STATE_CVOTE_REGISTRATION_DELEGATIONS) :
    signTxCVoteRegistration_handleDelegationAPDU env d w = THROW Err.ERR_INVALID_STATE w := by
  unfold signTxCVoteRegistration_handleDelegationAPDU
  rw [if_pos hne]

/-- With `p2 = 0x31` the dispatcher runs the StakingKey handler. -/
theorem handleAPDU_dispatch_StakingKey (env : Env) (p2 : uint8_t) (d : List uint8_t) (w : World)
    (hlen : d.length < env.BUFFER_SIZE_PARANOIA) (h : p2.val = 0x31) :
    signTxCVoteRegistration_handleAPDU env p2 d w =
      signTxCVoteRegistration_handleStakingKeyAPDU env d w := by
  unfold signTxCVoteRegistration_handleAPDU
  have e : ∀ k : Nat, k ≠ 0x31 → ¬ p2.val = k := fun k hk hp => hk (hp.symm.trans h)
  rw [if_neg (not_not.mpr hlen),
    if_neg (show ¬ p2.val = APDU_INSTRUCTION_INIT from e _ (by decide)),
    if_neg (show ¬ p2.val = APDU_INSTRUCTION_VOTE_KEY from e _ (by decide)),
    if_neg (show ¬ p2.val = APDU_INSTRUCTION_DELEGATION from e _ (by decide)),
    if_pos (show p2.val = APDU_INSTRUCTION_STAKING_KEY from h)]

/-- The StakingKey handler starts with `CHECK_STATE`: in any other state it throws
`ERR_INVALID_STATE` before touching anything. -/
theorem handleStakingKeyAPDU_wrong_state (env : Env) (d : List uint8_t) (w : World)
    (hne : w.subctx.state ≠ STATE_CVOTE_REGISTRATION_STAKING_KEY) :
    signTxCVoteRegistration_handleStakingKeyAPDU env d w = THROW Err.ERR_INVALID_STATE w := by
  unfold signTxCVoteRegistration_handleStakingKeyAPDU
  rw [if_pos hne]

/-- With `p2 = 0x32` the dispatcher runs the PaymentAddress handler. -/
theorem handleAPDU_dispatch_PaymentAddress (env : Env) (p2 : uint8_t) (d : List uint8_t) (w : World)
    (hlen : d.length < env.BUFFER_SIZE_PARANOIA) (h : p2.val = 0x32) :
    signTxCVoteRegistration_handleAPDU env p2 d w =
      signTxCVoteRegistration_handlePaymentAddressAPDU env d w := by
  unfold signTxCVoteRegistration_handleAPDU
  have e : ∀ k : Nat, k ≠ 0x32 → ¬ p2.val = k := fun k hk hp => hk (hp.symm.trans h)
  rw [if_neg (not_not.mpr hlen),
    if_neg (show ¬ p2.val = APDU_INSTRUCTION_INIT from e _ (by decide)),
    if_neg (show ¬ p2.val = APDU_INSTRUCTION_VOTE_KEY from e _ (by decide)),
    if_neg (show ¬ p2.val = APDU_INSTRUCTION_DELEGATION from e _ (by decide)),
    if_neg (show ¬ p2.val = APDU_INSTRUCTION_STAKING_KEY from e _ (by decide)),
    if_pos (show p2.val = APDU_INSTRUCTION_PAYMENT_ADDRESS from h)]

/-- The PaymentAddress handler starts with `CHECK_STATE`: in any other state it throws
`ERR_INVALID_STATE` before touching anything. -/
theorem handlePaymentAddressAPDU_wrong_state (env : Env) (d : List uint8_t) (w : World)
    (hne : w.subctx.state ≠ STATE_CVOTE_REGISTRATION_PAYMENT_ADDRESS) :
    signTxCVoteRegistration_handlePaymentAddressAPDU env d w = THROW Err.ERR_INVALID_STATE w := by
  unfold signTxCVoteRegistration_handlePaymentAddressAPDU
  rw [if_pos hne]

/-- With `p2 = 0x33` the dispatcher runs the Nonce handler. -/
theorem handleAPDU_dispatch_Nonce (env : Env) (p2 : uint8_t) (d : List uint8_t) (w : World)
    (hlen : d.length < env.BUFFER_SIZE_PARANOIA) (h : p2.val = 0x33) :
    signTxCVoteRegistration_handleAPDU env p2 d w =
      signTxCVoteRegistration_handleNonceAPDU env d w := by
  unfold signTxCVoteRegistration_handleAPDU
  have e : ∀ k : Nat, k ≠ 0x33 → ¬ p2.val = k := fun k hk hp => hk (hp.symm.trans h)
  rw [if_neg (not_not.mpr hlen),
    if_neg (show ¬ p2.val = APDU_INSTRUCTION_INIT from e _ (by decide)),
    if_neg (show ¬ p2.val = APDU_INSTRUCTION_VOTE_KEY from e _ (by decide)),
    if_neg (show ¬ p2.val = APDU_INSTRUCTION_DELEGATION from e _ (by decide)),
    if_neg (show ¬ p2.val = APDU_INSTRUCTION_STAKING_KEY from e _ (by decide)),
    if_neg (show ¬ p2.val = APDU_INSTRUCTION_PAYMENT_ADDRESS from e _ (by decide)),
    if_pos (show p2.val = APDU_INSTRUCTION_NONCE from h)]

/-- The Nonce handler starts with `CHECK_STATE`: in any other state it throws
`ERR_INVALID_STATE` before touching anything. -/
theorem handleNonceAPDU_wrong_state (env : Env) (d : List uint8_t) (w : World)
    (hne : w.subctx.state ≠ STATE_CVOTE_REGISTRATION_NONCE) :
    signTxCVoteRegistration_handleNonceAPDU env d w = THROW Err.ERR_INVALID_STATE w := by
  unfold signTxCVoteRegistration_handleNonceAPDU
  rw [if_pos hne]

/-- With `p2 = 0x35` the dispatcher runs the VotingPurpose handler. -/
theorem handleAPDU_dispatch_VotingPurpose (env : Env) (p2 : uint8_t) (d : List uint8_t) (w : World)
    (hlen : d.length < env.BUFFER_SIZE_PARANOIA) (h : p2.val = 0x35) :
    signTxCVoteRegistration_handleAPDU env p2 d w =
      signTxCVoteRegistration_handleVotingPurposeAPDU env d w := by
  unfold signTxCVoteRegistration_handleAPDU
  have e : ∀ k : Nat, k ≠ 0x35 → ¬ p2.val = k := fun k hk hp => hk (hp.symm.trans h)
  rw [if_neg (not_not.mpr hlen),
    if_neg (show ¬ p2.val = APDU_INSTRUCTION_INIT from e _ (by decide)),
    if_neg (show ¬ p2.val = APDU_INSTRUCTION_VOTE_KEY from e _ (by decide)),
    if_neg (show ¬ p2.val = APDU_INSTRUCTION_DELEGATION from e _ (by decide)),
    if_neg (show ¬ p2.val = APDU_INSTRUCTION_STAKING_KEY from e _ (by decide)),
    if_neg (show ¬ p2.val = APDU_INSTRUCTION_PAYMENT_ADDRESS from e _ (by decide)),
    if_neg (show ¬ p2.val = APDU_INSTRUCTION_NONCE from e _ (by decide)),
    if_pos (show p2.val = APDU_INSTRUCTION_VOTING_PURPOSE from h)]

/-- The VotingPurpose handler starts with `CHECK_STATE`: in any other state it throws
`ERR_INVALID_STATE` before touching anything. -/
theorem handleVotingPurposeAPDU_wrong_state (env : Env) (d : List uint8_t) (w : World)
    (hne : w.subctx.state ≠ STATE_CVOTE_REGISTRATION_VOTING_PURPOSE) :
    signTxCVoteRegistration_handleVotingPurposeAPDU env d w = THROW Err.ERR_INVALID_STATE w := by
  unfold signTxCVoteRegistration_handleVotingPurposeAPDU
  rw [if_pos hne]

/-- With `p2 = 0x34` the dispatcher runs the Confirm handler. -/
theorem handleAPDU_dispatch_Confirm (env : Env) (p2 : uint8_t) (d : List uint8_t) (w : World)
    (hlen : d.length < env.BUFFER_SIZE_PARANOIA) (h : p2.val = 0x34) :
    signTxCVoteRegistration_handleAPDU env p2 d w =
      signTxCVoteRegistration_handleConfirmAPDU env d w := by
  unfold signTxCVoteRegistration_handleAPDU
  have e : ∀ k : Nat, k ≠ 0x34 → ¬ p2.val = k := fun k hk hp => hk (hp.symm.trans h)
  rw [if_neg (not_not.mpr hlen),
    if_neg (show ¬ p2.val = APDU_INSTRUCTION_INIT from e _ (by decide)),
    if_neg (show ¬ p2.val = APDU_INSTRUCTION_VOTE_KEY from e _ (by decide)),
    if_neg (show ¬ p2.val = APDU_INSTRUCTION_DELEGATION from e _ (by decide)),
    if_neg (show ¬ p2.val = APDU_INSTRUCTION_STAKING_KEY from e _ (by decide)),
    if_neg (show ¬ p2.val = APDU_INSTRUCTION_PAYMENT_ADDRESS from e _ (by decide)),
    if_neg (show ¬ p2.val = APDU_INSTRUCTION_NONCE from e _ (by decide)),
    if_neg (show ¬ p2.val = APDU_INSTRUCTION_VOTING_PURPOSE from e _ (by decide)),
    if_pos (show p2.val = APDU_INSTRUCTION_CONFIRM from h)]

/-- The Confirm handler starts with `CHECK_STATE`: in any other state it throws
`ERR_INVALID_STATE` before touching anything. -/
theorem handleConfirmAPDU_wrong_state (env : Env) (d : List uint8_t) (w : World)
    (hne : w.subctx.state ≠ STATE_CVOTE_REGISTRATION_CONFIRM) :
    signTxCVoteRegistration_handleConfirmAPDU env d w = THROW Err.ERR_INVALID_STATE w := by
  unfold signTxCVoteRegistration_handleConfirmAPDU
  rw [if_pos hne]

/-- Case analysis of the state-check table. -/
theorem specExpectedState_cases (p2 : uint8_t) (st : sign_tx_cvote_registration_state_t)
    (h : specExpectedState p2 = some st) :
    (p2.val = 0x36 ∧ st = STATE_CVOTE_REGISTRATION_INIT) ∨
    (p2.val = 0x30 ∧ st = STATE_CVOTE_REGISTRATION_VOTE_KEY) ∨
    (p2.val = 0x37 ∧ st = STATE_CVOTE_REGISTRATION_DELEGATIONS) ∨
    (p2.val = 0x31 ∧ st = STATE_CVOTE_REGISTRATION_STAKING_KEY) ∨
    (p2.val = 0x32 ∧ st = STATE_CVOTE_REGISTRATION_PAYMENT_ADDRESS) ∨
    (p2.val = 0x33 ∧ st = STATE_CVOTE_REGISTRATION_NONCE) ∨
    (p2.val = 0x35 ∧ st = STATE_CVOTE_REGISTRATION_VOTING_PURPOSE) ∨
    (p2.val = 0x34 ∧ st = STATE_CVOTE_REGISTRATION_CONFIRM) := by
  unfold specExpectedState at h
  split_ifs at h with h1 h2 h3 h4 h5 h6 h7 h8
  · exact Or.inl ⟨h1, (Option.some.inj h).symm⟩
  · exact Or.inr (Or.inl ⟨h2, (Option.some.inj h).symm⟩)
  · exact Or.inr (Or.inr (Or.inl ⟨h3, (Option.some.inj h).symm⟩))
  · exact Or.inr (Or.inr (Or.inr (Or.inl ⟨h4, (Option.some.inj h).symm⟩)))
  · exact Or.inr (Or.inr (Or.inr (Or.inr (Or.inl ⟨h5, (Option.some.inj h).symm⟩))))
  · exact Or.inr (Or.inr (Or.inr (Or.inr (Or.inr (Or.inl ⟨h6, (Option.some.inj h).symm⟩)))))
  · exact Or.inr (Or.inr (Or.inr (Or.inr (Or.inr (Or.inr
      (Or.inl ⟨h7, (Option.some.inj h).symm⟩))))))
  · exact Or.inr (Or.inr (Or.inr (Or.inr (Or.inr (Or.inr
      (Or.inr ⟨h8, (Option.some.inj h).symm⟩))))))

set_option maxRecDepth 100000 in
/-- Every valid instruction code has an entry in the state-check table. -/
theorem specExpectedState_of_valid (p2 : uint8_t)
    (h : signTxCVoteRegistration_isValidInstruction p2 = true) :
    ∃ st, specExpectedState p2 = some st := by
  have hsome : signTxCVoteRegistration_isValidInstruction p2 = true →
      (specExpectedState p2).isSome = true := by
    revert p2
    decide
  exact Option.isSome_iff_exists.mp (hsome h)

/-- No entry of the state-check table is the Finished state. -/
theorem specExpectedState_ne_finished (p2 : uint8_t) :
    specExpectedState p2 ≠ some STATE_CVOTE_REGISTRATION_FINISHED := by
  intro h
  rcases specExpectedState_cases p2 _ h with h | h | h | h | h | h | h | h <;>
    exact absurd h.2 (by decide)

/-! ### C1 -/

/-- C1: for a valid instruction code, a payload below the paranoia bound and a session
whose state is not the one the instruction's handler expects, the dispatcher throws
`ERR_INVALID_STATE` and leaves the world (session, log of hash calls, responses and
screens) exactly as it was; this holds for every instruction in the Finished state. -/
theorem handleAPDU_state_mismatch (env : Env) (p2 : uint8_t) (wireData : List uint8_t)
    (w : World) (hvalid : signTxCVoteRegistration_isValidInstruction p2 = true)
    (hlen : wireData.length < env.BUFFER_SIZE_PARANOIA) :
    (∃ st, specExpectedState p2 = some st) ∧
    (∀ st, specExpectedState p2 = some st → w.subctx.state ≠ st →
      signTxCVoteRegistration_handleAPDU env p2 wireData w = THROW Err.ERR_INVALID_STATE w) ∧
    (w.subctx.state = STATE_CVOTE_REGISTRATION_FINISHED →
      signTxCVoteRegistration_handleAPDU env p2 wireData w = THROW Err.ERR_INVALID_STATE w) := by
  have key : ∀ st, specExpectedState p2 = some st → w.subctx.state ≠ st →
      signTxCVoteRegistration_handleAPDU env p2 wireData w = THROW Err.ERR_INVALID_STATE w := by
    intro st hst hne
    rcases specExpectedState_cases p2 st hst with
      ⟨hp, rfl⟩ | ⟨hp, rfl⟩ | ⟨hp, rfl⟩ | ⟨hp, rfl⟩ | ⟨hp, rfl⟩ | ⟨hp, rfl⟩ | ⟨hp, rfl⟩ | ⟨hp, rfl⟩
    · rw [handleAPDU_dispatch_Init env p2 _ w hlen hp]
      exact handleInitAPDU_wrong_state env _ w hne
    · rw [handleAPDU_dispatch_VoteKey env p2 _ w hlen hp]
      exact handleVoteKeyAPDU_wrong_state env _ w hne
    · rw [handleAPDU_dispatch_Delegation env p2 _ w hlen hp]
      exact handleDelegationAPDU_wrong_state env _ w hne
    · rw [handleAPDU_dispatch_StakingKey env p2 _ w hlen hp]
      exact handleStakingKeyAPDU_wrong_state env _ w hne
    · rw [handleAPDU_dispatch_PaymentAddress env p2 _ w hlen hp]
      exact handlePaymentAddressAPDU_wrong_state env _ w hne
    · rw [handleAPDU_dispatch_Nonce env p2 _ w hlen hp]
      exact handleNonceAPDU_wrong_state env _ w hne
    · rw [handleAPDU_dispatch_VotingPurpose env p2 _ w hlen hp]
      exact handleVotingPurposeAPDU_wrong_state env _ w hne
    · rw [handleAPDU_dispatch_Confirm env p2 _ w hlen hp]
      exact handleConfirmAPDU_wrong_state env _ w hne
  have hex := specExpectedState_of_valid p2 hvalid
  refine ⟨hex, key, ?_⟩
  intro hfin
  obtain ⟨st, hst⟩ := hex
  apply key st hst
  rw [hfin]
  intro h
  exact specExpectedState_ne_finished p2 (h ▸ hst)

/-- C1, at a concrete input: the Nonce command (0x33) sent to a fresh session. -/
theorem handleAPDU_state_mismatch_witness :
    signTxCVoteRegistration_handleAPDU sampleEnv 0x33 [0, 0, 0, 0, 0, 0, 0, 1]
        signTxCVoteRegistration_init =
      THROW Err.ERR_INVALID_STATE signTxCVoteRegistration_init :=
  (handleAPDU_state_mismatch sampleEnv 0x33 [0, 0, 0, 0, 0, 0, 0, 1]
    signTxCVoteRegistration_init (by decide) (by decide)).2.1
    STATE_CVOTE_REGISTRATION_NONCE (by decide) (by decide)

/-! ### Projections of the elementary writes -/

@[simp] theorem setState_state (w : World) (st : sign_tx_cvote_registration_state_t) :
    (w.setState st).subctx.state = st := rfl

@[simp] theorem setState_ui_step (w : World) (st : sign_tx_cvote_registration_state_t) :
    (w.setState st).subctx.ui_step = w.subctx.ui_step := rfl

@[simp] theorem setState_format (w : World) (st : sign_tx_cvote_registration_state_t) :
    (w.setState st).subctx.format = w.subctx.format := rfl

@[simp] theorem setState_numDelegations (w : World) (st : sign_tx_cvote_registration_state_t) :
    (w.setState st).subctx.numDelegations = w.subctx.numDelegations := rfl

@[simp] theorem setState_currentDelegation (w : World) (st : sign_tx_cvote_registration_state_t) :
    (w.setState st).subctx.currentDelegation = w.subctx.currentDelegation := rfl

@[simp] theorem setState_stakingKeyPath (w : World) (st : sign_tx_cvote_registration_state_t) :
    (w.setState st).subctx.stakingKeyPath = w.subctx.stakingKeyPath := rfl

@[simp] theorem setState_auxDataHash (w : World) (st : sign_tx_cvote_registration_state_t) :
    (w.setState st).subctx.auxDataHash = w.subctx.auxDataHash := rfl

@[simp] theorem setState_stateData (w : World) (st : sign_tx_cvote_registration_state_t) :
    (w.setState st).subctx.stateData = w.subctx.stateData := rfl

@[simp] theorem setState_trace (w : World) (st : sign_tx_cvote_registration_state_t) : (w.setState st).trace = w.trace := rfl

@[simp] theorem setState_pending (w : World) (st : sign_tx_cvote_registration_state_t) :
    (w.setState st).pending = w.pending := rfl

@[simp] theorem setUiStep_state (w : World) (k : Nat) :
    (w.setUiStep k).subctx.state = w.subctx.state := rfl

@[simp] theorem setUiStep_ui_step (w : World) (k : Nat) :
    (w.setUiStep k).subctx.ui_step = k := rfl

@[simp] theorem setUiStep_format (w : World) (k : Nat) :
    (w.setUiStep k).subctx.format = w.subctx.format := rfl

@[simp] theorem setUiStep_numDelegations (w : World) (k : Nat) :
    (w.setUiStep k).subctx.numDelegations = w.subctx.numDelegations := rfl

@[simp] theorem setUiStep_currentDelegation (w : World) (k : Nat) :
    (w.setUiStep k).subctx.currentDelegation = w.subctx.currentDelegation := rfl

@[simp] theorem setUiStep_stakingKeyPath (w : World) (k : Nat) :
    (w.setUiStep k).subctx.stakingKeyPath = w.subctx.stakingKeyPath := rfl

@[simp] theorem setUiStep_auxDataHash (w : World) (k : Nat) :
    (w.setUiStep k).subctx.auxDataHash = w.subctx.auxDataHash := rfl

@[simp] theorem setUiStep_stateData (w : World) (k : Nat) :
    (w.setUiStep k).subctx.stateData = w.subctx.stateData := rfl

@[simp] theorem setUiStep_trace (w : World) (k : Nat) : (w.setUiStep k).trace = w.trace := rfl

@[simp] theorem setUiStep_pending (w : World) (k : Nat) :
    (w.setUiStep k).pending = w.pending := rfl

@[simp] theorem setStateData_state (w : World) (sd : stateData_t) :
    (w.setStateData sd).subctx.state = w.subctx.state := rfl

@[simp] theorem setStateData_ui_step (w : World) (sd : stateData_t) :
    (w.setStateData sd).subctx.ui_step = w.subctx.ui_step := rfl

@[simp] theorem setStateData_format (w : World) (sd : stateData_t) :
    (w.setStateData sd).subctx.format = w.subctx.format := rfl

@[simp] theorem setStateData_numDelegations (w : World) (sd : stateData_t) :
    (w.setStateData sd).subctx.numDelegations = w.subctx.numDelegations := rfl

@[simp] theorem setStateData_currentDelegation (w : World) (sd : stateData_t) :
    (w.setStateData sd).subctx.currentDelegation = w.subctx.currentDelegation := rfl

@[simp] theorem setStateData_stakingKeyPath (w : World) (sd : stateData_t) :
    (w.setStateData sd).subctx.stakingKeyPath = w.subctx.stakingKeyPath := rfl

@[simp] theorem setStateData_auxDataHash (w : World) (sd : stateData_t) :
    (w.setStateData sd).subctx.auxDataHash = w.subctx.auxDataHash := rfl

@[simp] theorem setStateData_stateData (w : World) (sd : stateData_t) :
    (w.setStateData sd).subctx.stateData = sd := rfl

@[simp] theorem setStateData_trace (w : World) (sd : stateData_t) : (w.setStateData sd).trace = w.trace := rfl

@[simp] theorem setStateData_pending (w : World) (sd : stateData_t) :
    (w.setStateData sd).pending = w.pending := rfl

@[simp] theorem setFormat_state (w : World) (f : Nat) :
    (w.setFormat f).subctx.state = w.subctx.state := rfl

@[simp] theorem setFormat_ui_step (w : World) (f : Nat) :
    (w.setFormat f).subctx.ui_step = w.subctx.ui_step := rfl

@[simp] theorem setFormat_format (w : World) (f : Nat) :
    (w.setFormat f).subctx.format = f := rfl

@[simp] theorem setFormat_numDelegations (w : World) (f : Nat) :
    (w.setFormat f).subctx.numDelegations = w.subctx.numDelegations := rfl

@[simp] theorem setFormat_currentDelegation (w : World) (f : Nat) :
    (w.setFormat f).subctx.currentDelegation = w.subctx.currentDelegation := rfl

@[simp] theorem setFormat_stakingKeyPath (w : World) (f : Nat) :
    (w.setFormat f).subctx.stakingKeyPath = w.subctx.stakingKeyPath := rfl

@[simp] theorem setFormat_auxDataHash (w : World) (f : Nat) :
    (w.setFormat f).subctx.auxDataHash = w.subctx.auxDataHash := rfl

@[simp] theorem setFormat_stateData (w : World) (f : Nat) :
    (w.setFormat f).subctx.stateData = w.subctx.stateData := rfl

@[simp] theorem setFormat_trace (w : World) (f : Nat) : (w.setFormat f).trace = w.trace := rfl

@[simp] theorem setFormat_pending (w : World) (f : Nat) :
    (w.setFormat f).pending = w.pending := rfl

@[simp] theorem setNumDelegations_state (w : World) (n : Nat) :
    (w.setNumDelegations n).subctx.state = w.subctx.state := rfl

@[simp] theorem setNumDelegations_ui_step (w : World) (n : Nat) :
    (w.setNumDelegations n).subctx.ui_step = w.subctx.ui_step := rfl

@[simp] theorem setNumDelegations_format (w : World) (n : Nat) :
    (w.setNumDelegations n).subctx.format = w.subctx.format := rfl

@[simp] theorem setNumDelegations_numDelegations (w : World) (n : Nat) :
    (w.setNumDelegations n).subctx.numDelegations = n := rfl

@[simp] theorem setNumDelegations_currentDelegation (w : World) (n : Nat) :
    (w.setNumDelegations n).subctx.currentDelegation = w.subctx.currentDelegation := rfl

@[simp] theorem setNumDelegations_stakingKeyPath (w : World) (n : Nat) :
    (w.setNumDelegations n).subctx.stakingKeyPath = w.subctx.stakingKeyPath := rfl

@[simp] theorem setNumDelegations_auxDataHash (w : World) (n : Nat) :
    (w.setNumDelegations n).subctx.auxDataHash = w.subctx.auxDataHash := rfl

@[simp] theorem setNumDelegations_stateData (w : World) (n : Nat) :
    (w.setNumDelegations n).subctx.stateData = w.subctx.stateData := rfl

@[simp] theorem setNumDelegations_trace (w : World) (n : Nat) : (w.setNumDelegations n).trace = w.trace := rfl

@[simp] theorem setNumDelegations_pending (w : World) (n : Nat) :
    (w.setNumDelegations n).pending = w.pending := rfl

@[simp] theorem setCurrentDelegation_state (w : World) (n : Nat) :
    (w.setCurrentDelegation n).subctx.state = w.subctx.state := rfl

@[simp] theorem setCurrentDelegation_ui_step (w : World) (n : Nat) :
    (w.setCurrentDelegation n).subctx.ui_step = w.subctx.ui_step := rfl

@[simp] theorem setCurrentDelegation_format (w : World) (n : Nat) :
    (w.setCurrentDelegation n).subctx.format = w.subctx.format := rfl

@[simp] theorem setCurrentDelegation_numDelegations (w : World) (n : Nat) :
    (w.setCurrentDelegation n).subctx.numDelegations = w.subctx.numDelegations := rfl

@[simp] theorem setCurrentDelegation_currentDelegation (w : World) (n : Nat) :
    (w.setCurrentDelegation n).subctx.currentDelegation = n := rfl

@[simp] theorem setCurrentDelegation_stakingKeyPath (w : World) (n : Nat) :
    (w.setCurrentDelegation n).subctx.stakingKeyPath = w.subctx.stakingKeyPath := rfl

@[simp] theorem setCurrentDelegation_auxDataHash (w : World) (n : Nat) :
    (w.setCurrentDelegation n).subctx.auxDataHash = w.subctx.auxDataHash := rfl

@[simp] theorem setCurrentDelegation_stateData (w : World) (n : Nat) :
    (w.setCurrentDelegation n).subctx.stateData = w.subctx.stateData := rfl

@[simp] theorem setCurrentDelegation_trace (w : World) (n : Nat) : (w.setCurrentDelegation n).trace = w.trace := rfl

@[simp] theorem setCurrentDelegation_pending (w : World) (n : Nat) :
    (w.setCurrentDelegation n).pending = w.pending := rfl

@[simp] theorem setStakingKeyPath_state (w : World) (sp : bip44_path_t) :
    (w.setStakingKeyPath sp).subctx.state = w.subctx.state := rfl

@[simp] theorem setStakingKeyPath_ui_step (w : World) (sp : bip44_path_t) :
    (w.setStakingKeyPath sp).subctx.ui_step = w.subctx.ui_step := rfl

@[simp] theorem setStakingKeyPath_format (w : World) (sp : bip44_path_t) :
    (w.setStakingKeyPath sp).subctx.format = w.subctx.format := rfl

@[simp] theorem setStakingKeyPath_numDelegations (w : World) (sp : bip44_path_t) :
    (w.setStakingKeyPath sp).subctx.numDelegations = w.subctx.numDelegations := rfl

@[simp] theorem setStakingKeyPath_currentDelegation (w : World) (sp : bip44_path_t) :
    (w.setStakingKeyPath sp).subctx.currentDelegation = w.subctx.currentDelegation := rfl

@[simp] theorem setStakingKeyPath_stakingKeyPath (w : World) (sp : bip44_path_t) :
    (w.setStakingKeyPath sp).subctx.stakingKeyPath = sp := rfl

@[simp] theorem setStakingKeyPath_auxDataHash (w : World) (sp : bip44_path_t) :
    (w.setStakingKeyPath sp).subctx.auxDataHash = w.subctx.auxDataHash := rfl

@[simp] theorem setStakingKeyPath_stateData (w : World) (sp : bip44_path_t) :
    (w.setStakingKeyPath sp).subctx.stateData = w.subctx.stateData := rfl

@[simp] theorem setStakingKeyPath_trace (w : World) (sp : bip44_path_t) : (w.setStakingKeyPath sp).trace = w.trace := rfl

@[simp] theorem setStakingKeyPath_pending (w : World) (sp : bip44_path_t) :
    (w.setStakingKeyPath sp).pending = w.pending := rfl

@[simp] theorem setAuxDataHash_state (w : World) (h : List uint8_t) :
    (w.setAuxDataHash h).subctx.state = w.subctx.state := rfl

@[simp] theorem setAuxDataHash_ui_step (w : World) (h : List uint8_t) :
    (w.setAuxDataHash h).subctx.ui_step = w.subctx.ui_step := rfl

@[simp] theorem setAuxDataHash_format (w : World) (h : List uint8_t) :
    (w.setAuxDataHash h).subctx.format = w.subctx.format := rfl

@[simp] theorem setAuxDataHash_numDelegations (w : World) (h : List uint8_t) :
    (w.setAuxDataHash h).subctx.numDelegations = w.subctx.numDelegations := rfl

@[simp] theorem setAuxDataHash_currentDelegation (w : World) (h : List uint8_t) :
    (w.setAuxDataHash h).subctx.currentDelegation = w.subctx.currentDelegation := rfl

@[simp] theorem setAuxDataHash_stakingKeyPath (w : World) (h : List uint8_t) :
    (w.setAuxDataHash h).subctx.stakingKeyPath = w.subctx.stakingKeyPath := rfl

@[simp] theorem setAuxDataHash_auxDataHash (w : World) (h : List uint8_t) :
    (w.setAuxDataHash h).subctx.auxDataHash = h := rfl

@[simp] theorem setAuxDataHash_stateData (w : World) (h : List uint8_t) :
    (w.setAuxDataHash h).subctx.stateData = w.subctx.stateData := rfl

@[simp] theorem setAuxDataHash_trace (w : World) (h : List uint8_t) : (w.setAuxDataHash h).trace = w.trace := rfl

@[simp] theorem setAuxDataHash_pending (w : World) (h : List uint8_t) :
    (w.setAuxDataHash h).pending = w.pending := rfl

@[simp] theorem emit_subctx (w : World) (e : Effect) : (w.emit e).subctx = w.subctx := rfl

@[simp] theorem emit_trace (w : World) (e : Effect) : (w.emit e).trace = w.trace ++ [e] := rfl

@[simp] theorem emit_pending (w : World) (e : Effect) : (w.emit e).pending = w.pending := rfl

@[simp] theorem display_subctx (w : World) (s : Screen) (cb : ui_callback_fn_t) (r : Bool) :
    (w.display s cb r).subctx = w.subctx := rfl

@[simp] theorem display_trace (w : World) (s : Screen) (cb : ui_callback_fn_t) (r : Bool) :
    (w.display s cb r).trace = w.trace ++ [Effect.display s] := rfl

@[simp] theorem display_pending (w : World) (s : Screen) (cb : ui_callback_fn_t) (r : Bool) :
    (w.display s cb r).pending = some ⟨cb, r⟩ := rfl

@[simp] theorem respondSuccessEmptyMsg_subctx (w : World) :
    (respondSuccessEmptyMsg w).subctx = w.subctx := rfl

@[simp] theorem respondSuccessEmptyMsg_trace (w : World) :
    (respondSuccessEmptyMsg w).trace = w.trace ++ [Effect.respond Response.successEmpty] := rfl

@[simp] theorem respondSuccessEmptyMsg_pending (w : World) :
    (respondSuccessEmptyMsg w).pending = w.pending := rfl

@[simp] theorem returned_status (w : World) : (returned w).status = Status.returned := rfl

@[simp] theorem returned_world (w : World) : (returned w).world = w := rfl

@[simp] theorem THROW_status (e : Err) (w : World) : (THROW e w).status = Status.thrown e := rfl

@[simp] theorem THROW_world (e : Err) (w : World) : (THROW e w).world = w := rfl

@[simp] theorem finishStep_returned (k : Nat) (w : World) :
    finishStep k (returned w) = returned (w.setUiStep k) := rfl

@[simp] theorem finishStep_THROW (k : Nat) (e : Err) (w : World) :
    finishStep k (THROW e w) = THROW e w := rfl

@[simp] theorem getDelegation_delegation (d : delegation_t) :
    (stateData_t.delegation d).getDelegation = d := rfl

@[simp] theorem getPaymentDestination_paymentDestination (d : tx_output_destination_storage_t) :
    (stateData_t.paymentDestination d).getPaymentDestination = d := rfl

@[simp] theorem getNonce_nonce (n : Nat) : (stateData_t.nonce n).getNonce = n := rfl

@[simp] theorem getVotingPurpose_votingPurpose (n : Nat) :
    (stateData_t.votingPurpose n).getVotingPurpose = n := rfl

@[simp] theorem getRegistrationSignature_registrationSignature (sig : List uint8_t) :
    (stateData_t.registrationSignature sig).getRegistrationSignature = sig := rfl

/-! ### Simplification lemmas -/

@[simp] theorem hashCalls_append (a b : List Effect) :
    hashCalls (a ++ b) = hashCalls a ++ hashCalls b := by
  simp [hashCalls]

@[simp] theorem hashCalls_nil : hashCalls [] = [] := rfl

@[simp] theorem hashCalls_cons_hash (c : HashCall) (t : List Effect) :
    hashCalls (Effect.hash c :: t) = c :: hashCalls t := rfl

@[simp] theorem hashCalls_cons_respond (r : Response) (t : List Effect) :
    hashCalls (Effect.respond r :: t) = hashCalls t := rfl

@[simp] theorem hashCalls_cons_display (s : Screen) (t : List Effect) :
    hashCalls (Effect.display s :: t) = hashCalls t := rfl

@[simp] theorem hashCalls_cons_policy (q : PolicyQuery) (t : List Effect) :
    hashCalls (Effect.policy q :: t) = hashCalls t := rfl

@[simp] theorem hashCalls_cons_sign (p : bip44_path_t) (h : List uint8_t) (t : List Effect) :
    hashCalls (Effect.sign p h :: t) = hashCalls t := rfl

/-! ### C9 -/

/-- C9: in the VotingPurpose state of a CIP15 session, a payload whose inclusion flag
says "included" makes the handler throw `ERR_INVALID_DATA`; the log gets no entry (no
hash-accumulator call, no response) and the state stays VotingPurpose.  The only write
is the zeroing of the transient step data. -/
theorem handleVotingPurposeAPDU_cip15_included (env : Env) (w : World) (b : uint8_t)
    (rest : List uint8_t)
    (hstate : w.subctx.state = STATE_CVOTE_REGISTRATION_VOTING_PURPOSE)
    (hfmt : w.subctx.format = env.CIP15) (hdist : env.CIP15 ≠ env.CIP36)
    (hlen : (b :: rest).length < env.BUFFER_SIZE_PARANOIA)
    (hinc : env.signTx_parseIncluded b.val = Except.ok true) :
    signTxCVoteRegistration_handleVotingPurposeAPDU env (b :: rest) w =
      THROW Err.ERR_INVALID_DATA (w.setStateData stateData_t.zeroed) ∧
    hashCalls (signTxCVoteRegistration_handleVotingPurposeAPDU env (b :: rest) w).world.trace =
      hashCalls w.trace ∧
    (signTxCVoteRegistration_handleVotingPurposeAPDU env (b :: rest) w).world.trace = w.trace ∧
    (signTxCVoteRegistration_handleVotingPurposeAPDU env (b :: rest) w).world.subctx.state =
      STATE_CVOTE_REGISTRATION_VOTING_PURPOSE := by
  have key : signTxCVoteRegistration_handleVotingPurposeAPDU env (b :: rest) w =
      THROW Err.ERR_INVALID_DATA (w.setStateData stateData_t.zeroed) := by
    unfold signTxCVoteRegistration_handleVotingPurposeAPDU
    rw [if_neg (not_not.mpr hstate), if_neg (not_not.mpr hlen)]
    simp [parse_u1be, parse_be, make_read_view, beValue, hinc, hfmt, hdist]
  rw [key]
  simp [hstate]

/-- C9, at a concrete input: scenario C of the specification. -/
theorem handleVotingPurposeAPDU_cip15_included_witness :
    signTxCVoteRegistration_handleVotingPurposeAPDU sampleEnv [2, 0, 0, 0, 0, 0, 0, 0, 3]
        cip15VotingPurposeWorld =
      THROW Err.ERR_INVALID_DATA (cip15VotingPurposeWorld.setStateData stateData_t.zeroed) :=
  (handleVotingPurposeAPDU_cip15_included sampleEnv cip15VotingPurposeWorld 2
    [0, 0, 0, 0, 0, 0, 0, 3] (by decide) (by decide) (by decide) (by decide) rfl).1

/-! ### C10 -/

/-- C10: an accepted VotingPurpose command carries a flag byte that decodes.  Under
CIP15 the flag says "not included", nothing follows it, and the handler only appends
one success response to the log (so it consults no policy and makes no hash call)
and moves the state to Confirm.  Under CIP36 the handler makes exactly one hash call,
`addVotingPurpose`, with the big-endian value of the 8 bytes that follow the flag
when it says "included" and with 0 (nothing following) when it says "not included";
the UI driver of the step, run in the VotingPurpose state, makes no hash call. -/
theorem handleVotingPurposeAPDU_accepted (env : Env) (w : World) (wireData : List uint8_t)
    (o : Outcome) (hdist : env.CIP15 ≠ env.CIP36)
    (ho : signTxCVoteRegistration_handleVotingPurposeAPDU env wireData w = o)
    (hret : o.status = Status.returned) :
    (∃ b rest inc, wireData = b :: rest ∧ env.signTx_parseIncluded b.val = Except.ok inc ∧
      (w.subctx.format = env.CIP15 →
        inc = false ∧ rest = [] ∧
        o.world.trace = w.trace ++ [Effect.respond Response.successEmpty] ∧
        o.world.subctx.state = STATE_CVOTE_REGISTRATION_CONFIRM) ∧
      (w.subctx.format = env.CIP36 →
        (inc = true → rest.length = 8) ∧ (inc = false → rest = []) ∧
        hashCalls o.world.trace =
          hashCalls w.trace ++
            [HashCall.addVotingPurpose (if inc = true then beValue rest else 0)])) ∧
    (∀ v : World, v.subctx.state = STATE_CVOTE_REGISTRATION_VOTING_PURPOSE →
      hashCalls (signTxCVoteRegistration_handleVotingPurpose_ui_runStep v).world.trace =
        hashCalls v.trace) := by
  refine ⟨?_, ?_⟩
  swap
  · intro v hv
    obtain ⟨⟨st, ui, f, n, c, sk, ah, sd⟩, t, p⟩ := v
    simp only at hv
    subst hv
    unfold signTxCVoteRegistration_handleVotingPurpose_ui_runStep
    simp [advanceState]
    split_ifs <;> simp
  have hdist2 : env.CIP36 ≠ env.CIP15 := Ne.symm hdist
  unfold signTxCVoteRegistration_handleVotingPurposeAPDU at ho
  by_cases hstate : w.subctx.state = STATE_CVOTE_REGISTRATION_VOTING_PURPOSE
  swap
  · simp [hstate] at ho
    subst ho
    simp at hret
  by_cases hlen : wireData.length < env.BUFFER_SIZE_PARANOIA
  swap
  · simp [hstate, hlen] at ho
    subst ho
    simp at hret
  rcases wireData with _ | ⟨b, rest⟩
  · simp [hstate, hlen, parse_u1be, parse_be, make_read_view] at ho
    subst ho
    split at hret <;> simp at hret
  cases hinc : env.signTx_parseIncluded b.val with
  | error e =>
    simp [hstate, hlen, parse_u1be, parse_be, make_read_view, beValue, hinc] at ho
    subst ho
    split at hret <;> simp at hret
  | ok inc =>
    obtain ⟨⟨st, ui, f, n, c, sk, ah, sd⟩, t, p⟩ := w
    simp only [hstate, hlen, parse_u1be, parse_be, make_read_view, beValue, hinc] at ho
    simp at ho hstate
    subst hstate
    refine ⟨b, rest, inc, rfl, hinc, ?_⟩
    cases inc
    · simp [hinc, DEFAULT_VOTING_PURPOSE, view_remainingSize] at ho
      rcases rest with _ | ⟨r, rest⟩
      · simp at ho
        by_cases hf : f = env.CIP36
        · simp [hf] at ho
          cases hpol : env.policyForCVoteRegistrationVotingPurpose <;>
            simp [hpol, signTxCVoteRegistration_handleVotingPurpose_ui_runStep,
              HANDLE_VOTING_PURPOSE_STEP_DISPLAY, HANDLE_VOTING_PURPOSE_STEP_RESPOND,
              HANDLE_VOTING_PURPOSE_STEP_INVALID, advanceState] at ho <;>
            subst ho <;> simp_all
        · simp [hf, advanceState] at ho
          subst ho
          simp_all
      · simp at ho
        subst ho
        simp at hret
    · simp [hinc, parse_u8be, parse_be, view_remainingSize] at ho
      by_cases hf : f = env.CIP36
      swap
      · simp [hf] at ho
        subst ho
        simp at hret
      by_cases h8 : 8 ≤ rest.length
      swap
      · simp [hf, h8] at ho
        subst ho
        simp at hret
      by_cases h8' : rest.length ≤ 8
      swap
      · simp [hf, h8, h8'] at ho
        subst ho
        simp at hret
      have hl : rest.length = 8 := le_antisymm h8' h8
      have htake : List.take 8 rest = rest := List.take_of_length_le h8'
      simp [hf, h8, h8', htake] at ho
      cases hpol : env.policyForCVoteRegistrationVotingPurpose <;>
        simp [hpol, signTxCVoteRegistration_handleVotingPurpose_ui_runStep,
          HANDLE_VOTING_PURPOSE_STEP_DISPLAY, HANDLE_VOTING_PURPOSE_STEP_RESPOND,
          HANDLE_VOTING_PURPOSE_STEP_INVALID, advanceState] at ho <;>
        subst ho <;> simp_all [beValue]

/-- C10, at a concrete input: a CIP36 session receives "included, purpose 3". -/
theorem handleVotingPurposeAPDU_accepted_witness :
    ∃ b rest inc, [2, 0, 0, 0, 0, 0, 0, 0, 3] = b :: rest ∧
      sampleEnv.signTx_parseIncluded b.val = Except.ok inc ∧
      (cip36VotingPurposeWorld.subctx.format = sampleEnv.CIP36 →
        (inc = true → rest.length = 8) ∧ (inc = false → rest = []) ∧
        hashCalls (signTxCVoteRegistration_handleVotingPurposeAPDU sampleEnv
            [2, 0, 0, 0, 0, 0, 0, 0, 3] cip36VotingPurposeWorld).world.trace =
          hashCalls cip36VotingPurposeWorld.trace ++
            [HashCall.addVotingPurpose (if inc = true then beValue rest else 0)]) := by
  obtain ⟨b, rest, inc, h1, h2, -, h3⟩ :=
    (handleVotingPurposeAPDU_accepted sampleEnv cip36VotingPurposeWorld
      [2, 0, 0, 0, 0, 0, 0, 0, 3] _ (by decide) rfl (by decide)).1
  exact ⟨b, rest, inc, h1, h2, h3⟩

/-! ### Init -/

/-- An accepted Init command has a 5-byte payload with a known format tag; the session
then holds that tag and the declared count reduced modulo 2^16, which is 0 under CIP15;
the log gets `enter`, `enterPayload`, the success response and, when the stored count
is positive, `enterDelegations`. -/
theorem handleInitAPDU_accepted (env : Env) (w : World) (wireData : List uint8_t) (o : Outcome)
    (ho : signTxCVoteRegistration_handleInitAPDU env wireData w = o)
    (hret : o.status = Status.returned) :
    ∃ f a b c d, wireData = [f, a, b, c, d] ∧
      w.subctx.state = STATE_CVOTE_REGISTRATION_INIT ∧
      (f.val = env.CIP15 ∨ f.val = env.CIP36) ∧
      o.world.subctx.format = f.val ∧
      o.world.subctx.numDelegations = beValue [a, b, c, d] % UINT16_RANGE ∧
      (f.val = env.CIP15 → o.world.subctx.numDelegations = 0) ∧
      o.world.subctx.state =
        (if o.world.subctx.numDelegations > 0 then STATE_CVOTE_REGISTRATION_DELEGATIONS
         else STATE_CVOTE_REGISTRATION_VOTE_KEY) ∧
      o.world.subctx.currentDelegation = w.subctx.currentDelegation ∧
      o.world.pending = w.pending ∧
      o.world.trace = w.trace ++
        ([Effect.hash (HashCall.enter f.val), Effect.hash HashCall.enterPayload,
          Effect.respond Response.successEmpty] ++
         (if o.world.subctx.numDelegations > 0 then
            [Effect.hash (HashCall.enterDelegations o.world.subctx.numDelegations)]
          else [])) := by
  unfold signTxCVoteRegistration_handleInitAPDU at ho
  by_cases hstate : w.subctx.state = STATE_CVOTE_REGISTRATION_INIT
  swap
  · simp [hstate] at ho
    subst ho
    simp at hret
  by_cases hlen : wireData.length < env.BUFFER_SIZE_PARANOIA
  swap
  · simp [hstate, hlen] at ho
    subst ho
    simp at hret
  rw [if_neg (not_not.mpr hstate), if_neg (not_not.mpr hlen)] at ho
  obtain ⟨⟨st, ui, fmt, n, cur, sk, ah, sd⟩, t, p⟩ := w
  simp only at hstate
  subst hstate
  rcases wireData with _ | ⟨f, _ | ⟨a, _ | ⟨b, _ | ⟨c, _ | ⟨d, _ | ⟨e, rest⟩⟩⟩⟩⟩⟩ <;>
    simp [parse_u1be, parse_u4be, parse_be, make_read_view, view_remainingSize,
      beValue, advanceState] at ho
  all_goals first
    | (subst ho; exact absurd hret (by simp))
    | (split_ifs at ho <;> subst ho <;> simp_all [beValue] <;>
        refine ⟨f, a, b, c, d, ?_⟩ <;> simp_all <;> omega)

/-! ### C4 -/

/-- C4, the code at the failing input: an Init payload with the CIP15 tag and the
declared delegation count 65536 (bytes 00 01 00 00) is accepted in a session in the
Init state: the handler returns, stores `numDelegations = 0` and moves to VoteKey. -/
theorem handleInitAPDU_cip15_65536 (env : Env) (w : World) (f : uint8_t)
    (hstate : w.subctx.state = STATE_CVOTE_REGISTRATION_INIT) (hf : f.val = env.CIP15)
    (hlen : 5 < env.BUFFER_SIZE_PARANOIA) :
    beValue [0, 1, 0, 0] = 65536 ∧
    (signTxCVoteRegistration_handleInitAPDU env [f, 0, 1, 0, 0] w).status = Status.returned ∧
    (signTxCVoteRegistration_handleInitAPDU env [f, 0, 1, 0, 0] w).world.subctx.numDelegations
      = 0 ∧
    (signTxCVoteRegistration_handleInitAPDU env [f, 0, 1, 0, 0] w).world.subctx.state =
      STATE_CVOTE_REGISTRATION_VOTE_KEY := by
  obtain ⟨⟨st, ui, fmt, n, cur, sk, ah, sd⟩, t, p⟩ := w
  simp only at hstate
  subst hstate
  refine ⟨by decide, ?_⟩
  simp [signTxCVoteRegistration_handleInitAPDU, hlen, parse_u1be, parse_u4be, parse_be,
    make_read_view, view_remainingSize, beValue, advanceState, hf, UINT16_RANGE]

/-- C4 at the failing input, in the sample environment and a fresh session. -/
theorem handleInitAPDU_cip15_65536_witness :
    (signTxCVoteRegistration_handleInitAPDU sampleEnv [1, 0, 1, 0, 0]
      signTxCVoteRegistration_init).status = Status.returned :=
  (handleInitAPDU_cip15_65536 sampleEnv signTxCVoteRegistration_init 1 rfl rfl
    (by decide)).2.1

/-! ### C5 -/

/-- C5, the code at the failing input: an Init payload with the CIP36 tag and the
declared delegation count 65537 (bytes 00 01 00 01) is accepted, and the session's
`numDelegations` is 1, not 65537: the state becomes Delegations and the hash
accumulator receives `enterDelegations(1)`. -/
theorem handleInitAPDU_cip36_65537 (env : Env) (w : World) (f : uint8_t)
    (hstate : w.subctx.state = STATE_CVOTE_REGISTRATION_INIT) (hf : f.val = env.CIP36)
    (hdist : env.CIP36 ≠ env.CIP15) (hlen : 5 < env.BUFFER_SIZE_PARANOIA) :
    beValue [0, 1, 0, 1] = 65537 ∧
    (signTxCVoteRegistration_handleInitAPDU env [f, 0, 1, 0, 1] w).status = Status.returned ∧
    (signTxCVoteRegistration_handleInitAPDU env [f, 0, 1, 0, 1] w).world.subctx.numDelegations
      = 1 ∧
    (signTxCVoteRegistration_handleInitAPDU env [f, 0, 1, 0, 1] w).world.subctx.state =
      STATE_CVOTE_REGISTRATION_DELEGATIONS ∧
    hashCalls (signTxCVoteRegistration_handleInitAPDU env [f, 0, 1, 0, 1] w).world.trace =
      hashCalls w.trace ++
        [HashCall.enter env.CIP36, HashCall.enterPayload, HashCall.enterDelegations 1] := by
  obtain ⟨⟨st, ui, fmt, n, cur, sk, ah, sd⟩, t, p⟩ := w
  simp only at hstate
  subst hstate
  refine ⟨by decide, ?_⟩
  simp [signTxCVoteRegistration_handleInitAPDU, hlen, parse_u1be, parse_u4be, parse_be,
    make_read_view, view_remainingSize, beValue, advanceState, hf, hdist, UINT16_RANGE]

/-- C5 at the failing input, in the sample environment and a fresh session. -/
theorem handleInitAPDU_cip36_65537_witness :
    (signTxCVoteRegistration_handleInitAPDU sampleEnv [2, 0, 1, 0, 1]
      signTxCVoteRegistration_init).world.subctx.numDelegations = 1 :=
  (handleInitAPDU_cip36_65537 sampleEnv signTxCVoteRegistration_init 2 rfl rfl
    (by decide) (by decide)).2.2.1

/-! ### C7 -/

/-- C7, the code at the failing input: after the accepted command Init(CIP36, 65537
delegations) the first accepted Delegation command already moves the state to
StakingKey, with `currentDelegation = 1`, although 65536 more delegations were
declared. -/
theorem delegations_65537_first_reaches_stakingKey :
    beValue [0, 1, 0, 1] = 65537 ∧
    (runAccepted sampleEnv signTxCVoteRegistration_init
        [Event.apdu 0x36 [2, 0, 1, 0, 1]]).map
      (fun w => (w.subctx.state, w.subctx.currentDelegation, w.subctx.numDelegations)) =
      some (STATE_CVOTE_REGISTRATION_DELEGATIONS, 0, 1) ∧
    (runAccepted sampleEnv signTxCVoteRegistration_init
        [Event.apdu 0x36 [2, 0, 1, 0, 1],
         Event.apdu 0x37 (1 :: sampleKey ++ [0, 0, 0, 5])]).map
      (fun w => (w.subctx.state, w.subctx.currentDelegation, responses w.trace)) =
      some (STATE_CVOTE_REGISTRATION_STAKING_KEY, 1,
        [Response.successEmpty, Response.successEmpty]) := by
  decide




/-! ### Frames of the parsing helpers and summaries of the handlers

Each handler either throws, leaving state, format, counters and screen in flight as
they were, or makes its hash-accumulator call and enters its UI driver. -/

theorem SameCore_refl (w : World) : SameCore w w := ⟨rfl, rfl, rfl, rfl, rfl⟩

theorem parseVoteKey_frame (env : Env) (view : read_view_t) (w : World) :
    ∃ sd, (_parseVoteKey env view w).1.world = w.setStateData sd := by
  unfold _parseVoteKey
  repeat' split
  all_goals exact ⟨_, rfl⟩

theorem determineVoteKeyPolicy_frame (env : Env) (w w' : World) (pol : security_policy_t)
    (h : _determineVoteKeyPolicy env w = some (pol, w')) :
    ∃ q, w' = w.emit (Effect.policy q) := by
  unfold _determineVoteKeyPolicy at h
  simp only at h
  split_ifs at h
  · exact ⟨_, (Prod.mk.inj (Option.some.inj h)).2.symm⟩
  · exact ⟨_, (Prod.mk.inj (Option.some.inj h)).2.symm⟩

theorem displayVoteKey_frame (env : Env) (cb : ui_callback_fn_t) (w w' : World)
    (h : _displayVoteKey env cb w = some w') :
    ∃ s, w' = w.display s cb false := by
  unfold _displayVoteKey at h
  simp only at h
  split_ifs at h
  · exact ⟨_, (Option.some.inj h).symm⟩
  · exact ⟨_, (Option.some.inj h).symm⟩

theorem handleVoteKeyAPDU_summary (env : Env) (d : List uint8_t) (w : World) (o : Outcome)
    (ho : signTxCVoteRegistration_handleVoteKeyAPDU env d w = o) :
    (∃ e, o.status = Status.thrown e ∧ SameCore w o.world) ∨
    (∃ W, SameCore w W ∧ w.subctx.state = STATE_CVOTE_REGISTRATION_VOTE_KEY ∧
      (∃ key, hashCalls W.trace = hashCalls w.trace ++ [HashCall.addVoteKey key]) ∧
      W.subctx.ui_step ∈ [HANDLE_VOTE_KEY_STEP_WARNING, HANDLE_VOTE_KEY_STEP_DISPLAY,
        HANDLE_VOTE_KEY_STEP_RESPOND] ∧
      o = signTxCVoteRegistration_handleVoteKey_ui_runStep env W) := by
  unfold signTxCVoteRegistration_handleVoteKeyAPDU at ho
  by_cases hstate : w.subctx.state = STATE_CVOTE_REGISTRATION_VOTE_KEY
  swap
  · rw [if_pos hstate] at ho
    subst ho
    exact Or.inl ⟨_, rfl, SameCore_refl w⟩
  by_cases hlen : d.length < env.BUFFER_SIZE_PARANOIA
  swap
  · rw [if_neg (not_not.mpr hstate), if_pos hlen] at ho
    subst ho
    exact Or.inl ⟨_, rfl, SameCore_refl w⟩
  rw [if_neg (not_not.mpr hstate), if_neg (not_not.mpr hlen)] at ho
  dsimp only at ho
  obtain ⟨sd, hsd⟩ := parseVoteKey_frame env (make_read_view d)
    (w.setStateData stateData_t.zeroed)
  generalize _parseVoteKey env (make_read_view d) (w.setStateData stateData_t.zeroed) = r
    at ho hsd
  obtain ⟨⟨pst, pw⟩, view⟩ := r
  dsimp only at ho hsd
  subst hsd
  cases pst with
  | thrown e =>
    dsimp only at ho
    subst ho
    exact Or.inl ⟨_, rfl, by simp [SameCore]⟩
  | returned =>
    dsimp only at ho
    split_ifs at ho with hrem
    · subst ho
      exact Or.inl ⟨_, rfl, by simp [SameCore]⟩
    · cases hpol : _determineVoteKeyPolicy env
          ((w.setStateData stateData_t.zeroed).setStateData sd) with
      | none =>
        rw [hpol] at ho
        dsimp only at ho
        subst ho
        exact Or.inl ⟨_, rfl, by simp [SameCore]⟩
      | some pr =>
        obtain ⟨policy, w3⟩ := pr
        obtain ⟨q, rfl⟩ := determineVoteKeyPolicy_frame _ _ _ _ hpol
        rw [hpol] at ho
        dsimp only at ho
        split_ifs at ho with hdeny hkey hpath
        all_goals try (subst ho; exact Or.inl ⟨_, rfl, by simp [SameCore]⟩)
        all_goals
          dsimp only at ho
          cases policy
          all_goals dsimp only at ho
          all_goals first
            | (subst ho; exact Or.inl ⟨_, rfl, by simp [SameCore]⟩)
            | (subst ho
               refine Or.inr ⟨_, ?_, hstate, ?_, ?_, rfl⟩
               · simp [SameCore]
               · simp only [setUiStep_trace, emit_trace, hashCalls_append, hashCalls_cons_policy,
                   hashCalls_cons_hash, hashCalls_nil, List.append_nil, setStateData_trace]
                 exact ⟨_, rfl⟩
               · simp)
theorem handleStakingKeyAPDU_summary (env : Env) (d : List uint8_t) (w : World) (o : Outcome)
    (ho : signTxCVoteRegistration_handleStakingKeyAPDU env d w = o) :
    (∃ e, o.status = Status.thrown e ∧ SameCore w o.world) ∨
    (∃ W, SameCore w W ∧ w.subctx.state = STATE_CVOTE_REGISTRATION_STAKING_KEY ∧
      (∃ key, hashCalls W.trace = hashCalls w.trace ++ [HashCall.addStakingKey key]) ∧
      W.subctx.ui_step ∈ [HANDLE_STAKING_KEY_STEP_WARNING, HANDLE_STAKING_KEY_STEP_DISPLAY,
        HANDLE_STAKING_KEY_STEP_RESPOND] ∧
      o = signTxCVoteRegistration_handleStakingKey_ui_runStep W) := by
  unfold signTxCVoteRegistration_handleStakingKeyAPDU at ho
  by_cases hstate : w.subctx.state = STATE_CVOTE_REGISTRATION_STAKING_KEY
  swap
  · rw [if_pos hstate] at ho
    subst ho
    exact Or.inl ⟨_, rfl, SameCore_refl w⟩
  rw [if_neg (not_not.mpr hstate)] at ho
  repeat' (first | split at ho | dsimp only at ho)
  all_goals subst ho
  all_goals first
    | exact Or.inl ⟨_, rfl, by simp [SameCore]⟩
    | (refine Or.inr ⟨_, ?_, hstate, ?_, ?_, rfl⟩
       · simp [SameCore]
       · simp only [setUiStep_trace, emit_trace, hashCalls_append, hashCalls_cons_policy,
           hashCalls_cons_hash, hashCalls_nil, List.append_nil, setStateData_trace,
           setStakingKeyPath_trace]
         exact ⟨_, rfl⟩
       · simp)

theorem handlePaymentAddressAPDU_summary (env : Env) (d : List uint8_t) (w : World) (o : Outcome)
    (ho : signTxCVoteRegistration_handlePaymentAddressAPDU env d w = o) :
    (∃ e, o.status = Status.thrown e ∧ SameCore w o.world) ∨
    (∃ W, SameCore w W ∧ w.subctx.state = STATE_CVOTE_REGISTRATION_PAYMENT_ADDRESS ∧
      (∃ a, hashCalls W.trace = hashCalls w.trace ++ [HashCall.addPaymentAddress a]) ∧
      W.subctx.ui_step ∈ [HANDLE_PAYMENT_ADDRESS_PARAMS_STEP_WARNING,
        HANDLE_PAYMENT_ADDRESS_PARAMS_STEP_DISPLAY_ADDRESS,
        HANDLE_PAYMENT_ADDRESS_PARAMS_STEP_RESPOND] ∧
      o = signTxCVoteRegistration_handlePaymentAddress_ui_runStep env W) := by
  unfold signTxCVoteRegistration_handlePaymentAddressAPDU at ho
  by_cases hstate : w.subctx.state = STATE_CVOTE_REGISTRATION_PAYMENT_ADDRESS
  swap
  · rw [if_pos hstate] at ho
    subst ho
    exact Or.inl ⟨_, rfl, SameCore_refl w⟩
  rw [if_neg (not_not.mpr hstate)] at ho
  repeat' (first | split at ho | dsimp only at ho)
  all_goals subst ho
  all_goals first
    | exact Or.inl ⟨_, rfl, by simp [SameCore]⟩
    | (refine Or.inr ⟨_, ?_, hstate, ?_, ?_, rfl⟩
       · simp [SameCore]
       · simp only [setUiStep_trace, emit_trace, hashCalls_append, hashCalls_cons_policy,
           hashCalls_cons_hash, hashCalls_cons_sign, hashCalls_nil, List.append_nil,
           setStateData_trace, setStakingKeyPath_trace, setAuxDataHash_trace,
           List.append_assoc, List.cons_append, List.nil_append]
         exact ⟨_, rfl⟩
       · simp)

theorem handleNonceAPDU_summary (env : Env) (d : List uint8_t) (w : World) (o : Outcome)
    (ho : signTxCVoteRegistration_handleNonceAPDU env d w = o) :
    (∃ e, o.status = Status.thrown e ∧ SameCore w o.world) ∨
    (∃ W, SameCore w W ∧ w.subctx.state = STATE_CVOTE_REGISTRATION_NONCE ∧
      (∃ n, hashCalls W.trace = hashCalls w.trace ++ [HashCall.addNonce n]) ∧
      W.subctx.ui_step ∈ [HANDLE_NONCE_STEP_DISPLAY, HANDLE_NONCE_STEP_RESPOND] ∧
      o = signTxCVoteRegistration_handleNonce_ui_runStep W) := by
  unfold signTxCVoteRegistration_handleNonceAPDU at ho
  by_cases hstate : w.subctx.state = STATE_CVOTE_REGISTRATION_NONCE
  swap
  · rw [if_pos hstate] at ho
    subst ho
    exact Or.inl ⟨_, rfl, SameCore_refl w⟩
  rw [if_neg (not_not.mpr hstate)] at ho
  repeat' (first | split at ho | dsimp only at ho)
  all_goals subst ho
  all_goals first
    | exact Or.inl ⟨_, rfl, by simp [SameCore]⟩
    | (refine Or.inr ⟨_, ?_, hstate, ?_, ?_, rfl⟩
       · simp [SameCore]
       · simp only [setUiStep_trace, emit_trace, hashCalls_append, hashCalls_cons_policy,
           hashCalls_cons_hash, hashCalls_cons_sign, hashCalls_nil, List.append_nil,
           setStateData_trace, setStakingKeyPath_trace, setAuxDataHash_trace,
           List.append_assoc, List.cons_append, List.nil_append]
         exact ⟨_, rfl⟩
       · simp)

theorem handleConfirmAPDU_summary (env : Env) (d : List uint8_t) (w : World) (o : Outcome)
    (ho : signTxCVoteRegistration_handleConfirmAPDU env d w = o) :
    (∃ e, o.status = Status.thrown e ∧ SameCore w o.world) ∨
    (∃ W, SameCore w W ∧ w.subctx.state = STATE_CVOTE_REGISTRATION_CONFIRM ∧
      (∃ sig, hashCalls W.trace = hashCalls w.trace ++
        [HashCall.finalizePayload, HashCall.addSignature sig, HashCall.addAuxiliaryScripts,
         HashCall.finalize]) ∧
      W.subctx.ui_step ∈ [HANDLE_CONFIRM_STEP_FINAL_CONFIRM, HANDLE_CONFIRM_STEP_RESPOND] ∧
      o = signTxCVoteRegistration_handleConfirm_ui_runStep env W) := by
  unfold signTxCVoteRegistration_handleConfirmAPDU at ho
  by_cases hstate : w.subctx.state = STATE_CVOTE_REGISTRATION_CONFIRM
  swap
  · rw [if_pos hstate] at ho
    subst ho
    exact Or.inl ⟨_, rfl, SameCore_refl w⟩
  rw [if_neg (not_not.mpr hstate)] at ho
  repeat' (first | split at ho | dsimp only at ho)
  all_goals subst ho
  all_goals first
    | exact Or.inl ⟨_, rfl, by simp [SameCore]⟩
    | (refine Or.inr ⟨_, ?_, hstate, ?_, ?_, rfl⟩
       · simp [SameCore]
       · simp only [setUiStep_trace, emit_trace, hashCalls_append, hashCalls_cons_policy,
           hashCalls_cons_hash, hashCalls_cons_sign, hashCalls_nil, List.append_nil,
           setStateData_trace, setStakingKeyPath_trace, setAuxDataHash_trace,
           List.append_assoc, List.cons_append, List.nil_append]
         exact ⟨_, rfl⟩
       · simp)


theorem handleVotingPurposeAPDU_summary (env : Env) (d : List uint8_t) (w : World) (o : Outcome)
    (ho : signTxCVoteRegistration_handleVotingPurposeAPDU env d w = o) :
    (∃ e, o.status = Status.thrown e ∧ SameCore w o.world) ∨
    (∃ W, SameCore w W ∧ w.subctx.state = STATE_CVOTE_REGISTRATION_VOTING_PURPOSE ∧
      w.subctx.format = env.CIP36 ∧
      (∃ v, hashCalls W.trace = hashCalls w.trace ++ [HashCall.addVotingPurpose v]) ∧
      W.subctx.ui_step ∈ [HANDLE_VOTING_PURPOSE_STEP_DISPLAY,
        HANDLE_VOTING_PURPOSE_STEP_RESPOND] ∧
      o = signTxCVoteRegistration_handleVotingPurpose_ui_runStep W) ∨
    (∃ W, SameCore w W ∧ w.subctx.state = STATE_CVOTE_REGISTRATION_VOTING_PURPOSE ∧
      w.subctx.format ≠ env.CIP36 ∧ hashCalls W.trace = hashCalls w.trace ∧
      responses W.trace = responses w.trace ++ [Response.successEmpty] ∧
      o = advanceState W) := by
  unfold signTxCVoteRegistration_handleVotingPurposeAPDU at ho
  by_cases hstate : w.subctx.state = STATE_CVOTE_REGISTRATION_VOTING_PURPOSE
  swap
  · rw [if_pos hstate] at ho
    subst ho
    exact Or.inl ⟨_, rfl, SameCore_refl w⟩
  rw [if_neg (not_not.mpr hstate)] at ho
  by_cases hfmt : w.subctx.format = env.CIP36
  · repeat' (first | split at ho | dsimp only at ho)
    all_goals subst ho
    all_goals first
      | exact Or.inl ⟨_, rfl, by simp [SameCore]⟩
      | (refine Or.inr (Or.inl ⟨_, ?_, hstate, hfmt, ?_, ?_, rfl⟩)
         · simp [SameCore]
         · simp only [setUiStep_trace, emit_trace, hashCalls_append, hashCalls_cons_policy,
             hashCalls_cons_hash, hashCalls_nil, List.append_nil, setStateData_trace]
           exact ⟨_, rfl⟩
         · simp)
      | (exfalso; simp_all)
  · repeat' (first | split at ho | dsimp only at ho)
    all_goals subst ho
    all_goals first
      | exact Or.inl ⟨_, rfl, by simp [SameCore]⟩
      | (refine Or.inr (Or.inr ⟨_, ?_, hstate, hfmt, ?_, ?_, rfl⟩)
         · simp [SameCore]
         · simp
         · simp [responses, Effect.asResponse])
      | (exfalso; simp_all)

theorem handleInitAPDU_thrown (env : Env) (d : List uint8_t) (w : World) (o : Outcome)
    (ho : signTxCVoteRegistration_handleInitAPDU env d w = o) :
    o.status = Status.returned ∨
    (o.world.subctx.state = w.subctx.state ∧
      o.world.subctx.currentDelegation = w.subctx.currentDelegation ∧
      o.world.pending = w.pending ∧ o.world.trace = w.trace ∧
      (o.world.subctx.numDelegations = w.subctx.numDelegations ∨
        o.world.subctx.numDelegations < UINT16_RANGE)) := by
  unfold signTxCVoteRegistration_handleInitAPDU at ho
  by_cases hstate : w.subctx.state = STATE_CVOTE_REGISTRATION_INIT
  swap
  · rw [if_pos hstate] at ho
    subst ho
    exact Or.inr ⟨rfl, rfl, rfl, rfl, Or.inl rfl⟩
  rw [if_neg (not_not.mpr hstate)] at ho
  repeat' (first | split at ho | dsimp only at ho)
  all_goals subst ho
  all_goals first
    | (refine Or.inr ⟨?_, ?_, ?_, ?_, ?_⟩ <;> simp <;>
        exact Or.inr (Nat.mod_lt _ (by decide)))
    | (left
       unfold advanceState
       simp [hstate]
       split_ifs <;> simp)


theorem handleDelegationAPDU_summary (env : Env) (d : List uint8_t) (w : World) (o : Outcome)
    (ho : signTxCVoteRegistration_handleDelegationAPDU env d w = o) :
    (∃ e, o.status = Status.thrown e ∧ SameCore w o.world) ∨
    (∃ W, SameCore w W ∧ w.subctx.state = STATE_CVOTE_REGISTRATION_DELEGATIONS ∧
      w.subctx.currentDelegation < w.subctx.numDelegations ∧
      (∃ key weight,
        hashCalls W.trace = hashCalls w.trace ++ [HashCall.addDelegation key weight]) ∧
      W.subctx.ui_step ∈ [HANDLE_DELEGATION_STEP_WARNING, HANDLE_DELEGATION_STEP_VOTE_KEY,
        HANDLE_DELEGATION_STEP_RESPOND] ∧
      o = signTxCVoteRegistration_handleDelegation_ui_runStep env W) := by
  unfold signTxCVoteRegistration_handleDelegationAPDU at ho
  by_cases hstate : w.subctx.state = STATE_CVOTE_REGISTRATION_DELEGATIONS
  swap
  · rw [if_pos hstate] at ho
    subst ho
    exact Or.inl ⟨_, rfl, SameCore_refl w⟩
  by_cases hcur : w.subctx.currentDelegation < w.subctx.numDelegations
  swap
  · rw [if_neg (not_not.mpr hstate), if_pos hcur] at ho
    subst ho
    exact Or.inl ⟨_, rfl, SameCore_refl w⟩
  rw [if_neg (not_not.mpr hstate), if_neg (not_not.mpr hcur)] at ho
  dsimp only at ho
  obtain ⟨sd, hsd⟩ := parseVoteKey_frame env (make_read_view d)
    (w.setStateData stateData_t.zeroed)
  generalize _parseVoteKey env (make_read_view d) (w.setStateData stateData_t.zeroed) = r
    at ho hsd
  obtain ⟨⟨pst, pw⟩, view⟩ := r
  dsimp only at ho hsd
  subst hsd
  cases pst with
  | thrown e =>
    dsimp only at ho
    subst ho
    exact Or.inl ⟨_, rfl, by simp [SameCore]⟩
  | returned =>
    dsimp only at ho
    split at ho
    · subst ho
      exact Or.inl ⟨_, rfl, by simp [SameCore]⟩
    · split_ifs at ho with hrem
      · subst ho
        exact Or.inl ⟨_, rfl, by simp [SameCore]⟩
      · rename_i weight view1 hw
        cases hpol : _determineVoteKeyPolicy env
            (((w.setStateData stateData_t.zeroed).setStateData sd).setStateData
              (stateData_t.delegation
                { ((w.setStateData stateData_t.zeroed).setStateData
                    sd).subctx.stateData.getDelegation with weight := weight })) with
        | none =>
          rw [hpol] at ho
          dsimp only at ho
          subst ho
          exact Or.inl ⟨_, rfl, by simp [SameCore]⟩
        | some pr =>
          obtain ⟨policy, w3⟩ := pr
          obtain ⟨q, rfl⟩ := determineVoteKeyPolicy_frame _ _ _ _ hpol
          rw [hpol] at ho
          dsimp only at ho
          split_ifs at ho with hdeny hkey hpath
          all_goals try (subst ho; exact Or.inl ⟨_, rfl, by simp [SameCore]⟩)
          all_goals
            dsimp only at ho
            cases policy
            all_goals dsimp only at ho
            all_goals first
              | (subst ho
                 refine Or.inr ⟨_, ?_, hstate, hcur, ?_, ?_, rfl⟩
                 · simp [SameCore]
                 · simp only [setUiStep_trace, emit_trace, hashCalls_append,
                     hashCalls_cons_policy, hashCalls_cons_hash, hashCalls_nil,
                     List.append_nil, setStateData_trace]
                   exact ⟨_, _, rfl⟩
                 · simp)
              | (subst ho; exact Or.inl ⟨_, rfl, by simp [SameCore]⟩)


/-! ### Summaries of the UI drivers

A driver entered in its own state either fails an assertion and changes nothing, or
renders a screen and is suspended, or sends the response and advances the state. -/

@[simp] theorem responses_append (a b : List Effect) :
    responses (a ++ b) = responses a ++ responses b := by
  simp [responses]

@[simp] theorem responses_nil : responses [] = [] := rfl

@[simp] theorem responses_cons_hash (c : HashCall) (t : List Effect) :
    responses (Effect.hash c :: t) = responses t := rfl

@[simp] theorem responses_cons_respond (r : Response) (t : List Effect) :
    responses (Effect.respond r :: t) = r :: responses t := rfl

@[simp] theorem responses_cons_display (s : Screen) (t : List Effect) :
    responses (Effect.display s :: t) = responses t := rfl

@[simp] theorem responses_cons_policy (q : PolicyQuery) (t : List Effect) :
    responses (Effect.policy q :: t) = responses t := rfl

@[simp] theorem responses_cons_sign (p : bip44_path_t) (h : List uint8_t) (t : List Effect) :
    responses (Effect.sign p h :: t) = responses t := rfl

theorem advanceState_of_VOTE_KEY (w : World)
    (h : w.subctx.state = STATE_CVOTE_REGISTRATION_VOTE_KEY) :
    advanceState w = returned (w.setState STATE_CVOTE_REGISTRATION_STAKING_KEY) := by
  unfold advanceState
  rw [h]

theorem handleVoteKey_ui_runStep_summary (env : Env) (W : World) (o : Outcome)
    (ho : signTxCVoteRegistration_handleVoteKey_ui_runStep env W = o)
    (hst : W.subctx.state = STATE_CVOTE_REGISTRATION_VOTE_KEY) :
    (∃ e, o.status = Status.thrown e ∧ o.world = W) ∨
    (o.status = Status.returned ∧
      Suspended ui_callback_fn_t.handleVoteKey_ui_runStep W o.world) ∨
    (o.status = Status.returned ∧ Completed STATE_CVOTE_REGISTRATION_STAKING_KEY W o.world) := by
  unfold signTxCVoteRegistration_handleVoteKey_ui_runStep at ho
  dsimp only at ho
  rcases hd : _displayVoteKey env ui_callback_fn_t.handleVoteKey_ui_runStep W with _ | w1
  all_goals simp only [hd] at ho
  all_goals try obtain ⟨s, rfl⟩ := displayVoteKey_frame _ _ _ _ hd
  all_goals split_ifs at ho
  all_goals first
    | (subst ho; exact Or.inl ⟨_, rfl, rfl⟩)
    | (subst ho; exact Or.inr (Or.inl ⟨rfl, _, _, _, by simp [resumeSteps], rfl⟩))
    | (rw [advanceState_of_VOTE_KEY _ (by simpa using hst)] at ho
       subst ho
       exact Or.inr (Or.inr ⟨rfl, by simp [Completed]⟩))

theorem advanceState_of_STAKING_KEY (w : World)
    (h : w.subctx.state = STATE_CVOTE_REGISTRATION_STAKING_KEY) :
    advanceState w = returned (w.setState STATE_CVOTE_REGISTRATION_PAYMENT_ADDRESS) := by
  unfold advanceState
  rw [h]

theorem advanceState_of_PAYMENT_ADDRESS (w : World)
    (h : w.subctx.state = STATE_CVOTE_REGISTRATION_PAYMENT_ADDRESS) :
    advanceState w = returned (w.setState STATE_CVOTE_REGISTRATION_NONCE) := by
  unfold advanceState
  rw [h]

theorem advanceState_of_NONCE (w : World)
    (h : w.subctx.state = STATE_CVOTE_REGISTRATION_NONCE) :
    advanceState w = returned (w.setState STATE_CVOTE_REGISTRATION_VOTING_PURPOSE) := by
  unfold advanceState
  rw [h]

theorem advanceState_of_VOTING_PURPOSE (w : World)
    (h : w.subctx.state = STATE_CVOTE_REGISTRATION_VOTING_PURPOSE) :
    advanceState w = returned (w.setState STATE_CVOTE_REGISTRATION_CONFIRM) := by
  unfold advanceState
  rw [h]

theorem advanceState_of_CONFIRM (w : World)
    (h : w.subctx.state = STATE_CVOTE_REGISTRATION_CONFIRM) :
    advanceState w = returned (w.setState STATE_CVOTE_REGISTRATION_FINISHED) := by
  unfold advanceState
  rw [h]

theorem advanceState_of_DELEGATIONS (w : World)
    (h : w.subctx.state = STATE_CVOTE_REGISTRATION_DELEGATIONS)
    (hc : w.subctx.currentDelegation = w.subctx.numDelegations) :
    advanceState w = returned (w.setState STATE_CVOTE_REGISTRATION_STAKING_KEY) := by
  unfold advanceState
  rw [h]
  exact if_pos hc

theorem handleStakingKey_ui_runStep_summary (W : World) (o : Outcome)
    (ho : signTxCVoteRegistration_handleStakingKey_ui_runStep W = o)
    (hst : W.subctx.state = STATE_CVOTE_REGISTRATION_STAKING_KEY) :
    (∃ e, o.status = Status.thrown e ∧ o.world = W) ∨
    (o.status = Status.returned ∧
      Suspended ui_callback_fn_t.handleStakingKey_ui_runStep W o.world) ∨
    (o.status = Status.returned ∧ Completed STATE_CVOTE_REGISTRATION_PAYMENT_ADDRESS W o.world) := by
  unfold signTxCVoteRegistration_handleStakingKey_ui_runStep at ho
  dsimp only at ho
  repeat' (first | split at ho | dsimp only at ho)
  all_goals first
    | (subst ho; exact Or.inl ⟨_, rfl, rfl⟩)
    | (subst ho; exact Or.inr (Or.inl ⟨rfl, _, _, _, by simp [resumeSteps], rfl⟩))
    | (rw [advanceState_of_STAKING_KEY _ (by simpa using hst)] at ho
       subst ho
       exact Or.inr (Or.inr ⟨rfl, by simp [Completed]⟩))

theorem handlePaymentAddress_ui_runStep_summary (env : Env) (W : World) (o : Outcome)
    (ho : signTxCVoteRegistration_handlePaymentAddress_ui_runStep env W = o)
    (hst : W.subctx.state = STATE_CVOTE_REGISTRATION_PAYMENT_ADDRESS) :
    (∃ e, o.status = Status.thrown e ∧ o.world = W) ∨
    (o.status = Status.returned ∧
      Suspended ui_callback_fn_t.handlePaymentAddress_ui_runStep W o.world) ∨
    (o.status = Status.returned ∧ Completed STATE_CVOTE_REGISTRATION_NONCE W o.world) := by
  unfold signTxCVoteRegistration_handlePaymentAddress_ui_runStep at ho
  dsimp only at ho
  repeat' (first | split at ho | dsimp only at ho)
  all_goals first
    | (subst ho; exact Or.inl ⟨_, rfl, rfl⟩)
    | (subst ho; exact Or.inr (Or.inl ⟨rfl, _, _, _, by simp [resumeSteps], rfl⟩))
    | (rw [advanceState_of_PAYMENT_ADDRESS _ (by simpa using hst)] at ho
       subst ho
       exact Or.inr (Or.inr ⟨rfl, by simp [Completed]⟩))

theorem handleNonce_ui_runStep_summary (W : World) (o : Outcome)
    (ho : signTxCVoteRegistration_handleNonce_ui_runStep W = o)
    (hst : W.subctx.state = STATE_CVOTE_REGISTRATION_NONCE) :
    (∃ e, o.status = Status.thrown e ∧ o.world = W) ∨
    (o.status = Status.returned ∧
      Suspended ui_callback_fn_t.handleNonce_ui_runStep W o.world) ∨
    (o.status = Status.returned ∧ Completed STATE_CVOTE_REGISTRATION_VOTING_PURPOSE W o.world) := by
  unfold signTxCVoteRegistration_handleNonce_ui_runStep at ho
  dsimp only at ho
  repeat' (first | split at ho | dsimp only at ho)
  all_goals first
    | (subst ho; exact Or.inl ⟨_, rfl, rfl⟩)
    | (subst ho; exact Or.inr (Or.inl ⟨rfl, _, _, _, by simp [resumeSteps], rfl⟩))
    | (rw [advanceState_of_NONCE _ (by simpa using hst)] at ho
       subst ho
       exact Or.inr (Or.inr ⟨rfl, by simp [Completed]⟩))

theorem handleVotingPurpose_ui_runStep_summary (W : World) (o : Outcome)
    (ho : signTxCVoteRegistration_handleVotingPurpose_ui_runStep W = o)
    (hst : W.subctx.state = STATE_CVOTE_REGISTRATION_VOTING_PURPOSE) :
    (∃ e, o.status = Status.thrown e ∧ o.world = W) ∨
    (o.status = Status.returned ∧
      Suspended ui_callback_fn_t.handleVotingPurpose_ui_runStep W o.world) ∨
    (o.status = Status.returned ∧ Completed STATE_CVOTE_REGISTRATION_CONFIRM W o.world) := by
  unfold signTxCVoteRegistration_handleVotingPurpose_ui_runStep at ho
  dsimp only at ho
  repeat' (first | split at ho | dsimp only at ho)
  all_goals first
    | (subst ho; exact Or.inl ⟨_, rfl, rfl⟩)
    | (subst ho; exact Or.inr (Or.inl ⟨rfl, _, _, _, by simp [resumeSteps], rfl⟩))
    | (rw [advanceState_of_VOTING_PURPOSE _ (by simpa using hst)] at ho
       subst ho
       exact Or.inr (Or.inr ⟨rfl, by simp [Completed]⟩))

theorem handleConfirm_ui_runStep_summary (env : Env) (W : World) (o : Outcome)
    (ho : signTxCVoteRegistration_handleConfirm_ui_runStep env W = o)
    (hst : W.subctx.state = STATE_CVOTE_REGISTRATION_CONFIRM) :
    (∃ e, o.status = Status.thrown e ∧ o.world = W) ∨
    (o.status = Status.returned ∧
      Suspended ui_callback_fn_t.handleConfirm_ui_runStep W o.world) ∨
    (o.status = Status.returned ∧ Completed STATE_CVOTE_REGISTRATION_FINISHED W o.world) := by
  unfold signTxCVoteRegistration_handleConfirm_ui_runStep at ho
  dsimp only at ho
  repeat' (first | split at ho | dsimp only at ho)
  all_goals try (unfold handleConfirm_respond at ho; dsimp only at ho)
  all_goals first
    | (subst ho; exact Or.inl ⟨_, rfl, rfl⟩)
    | (subst ho; exact Or.inr (Or.inl ⟨rfl, _, _, _, by simp [resumeSteps], rfl⟩))
    | (rw [advanceState_of_CONFIRM _ (by simpa using hst)] at ho
       subst ho
       exact Or.inr (Or.inr ⟨rfl, by simp [Completed]⟩))

theorem handleDelegation_ui_runStep_summary (env : Env) (W : World) (o : Outcome)
    (ho : signTxCVoteRegistration_handleDelegation_ui_runStep env W = o)
    (hst : W.subctx.state = STATE_CVOTE_REGISTRATION_DELEGATIONS)
    (hcur : W.subctx.currentDelegation < W.subctx.numDelegations)
    (hnum : W.subctx.numDelegations < UINT16_RANGE) :
    (∃ e, o.status = Status.thrown e ∧ o.world = W) ∨
    (o.status = Status.returned ∧
      Suspended ui_callback_fn_t.handleDelegation_ui_runStep W o.world) ∨
    (o.status = Status.returned ∧ DelegationCompleted W o.world) := by
  have hmod : (W.subctx.currentDelegation + 1) % UINT16_RANGE = W.subctx.currentDelegation + 1 :=
    Nat.mod_eq_of_lt (by omega)
  have hmod2 : W.subctx.numDelegations % UINT16_RANGE = W.subctx.numDelegations :=
    Nat.mod_eq_of_lt hnum
  unfold signTxCVoteRegistration_handleDelegation_ui_runStep at ho
  dsimp only at ho
  rcases hd : _displayVoteKey env ui_callback_fn_t.handleDelegation_ui_runStep W with _ | w1
  all_goals simp only [hd] at ho
  all_goals try obtain ⟨s, rfl⟩ := displayVoteKey_frame _ _ _ _ hd
  all_goals split_ifs at ho with h1 h2 h3 h4 h5
  all_goals first
    | (subst ho; exact Or.inl ⟨_, rfl, rfl⟩)
    | (subst ho; exact Or.inr (Or.inl ⟨rfl, _, _, _, by simp [resumeSteps], rfl⟩))
    | (rw [advanceState_of_DELEGATIONS _ (by simpa using hst) h5] at ho
       subst ho
       simp only [setCurrentDelegation_currentDelegation, respondSuccessEmptyMsg_subctx,
         setCurrentDelegation_numDelegations, hmod] at h5
       exact Or.inr (Or.inr ⟨rfl, by simp [DelegationCompleted, hmod, hmod2, h5, hst]⟩))
    | (subst ho
       simp only [setCurrentDelegation_currentDelegation, respondSuccessEmptyMsg_subctx,
         setCurrentDelegation_numDelegations, hmod] at h5
       exact Or.inr (Or.inr ⟨rfl, by simp [DelegationCompleted, hmod, hmod2, h5, hst]⟩))




/-! ### The session invariant is preserved by every event -/

theorem SessionInv_of_SameCore (w w' : World) (h : SessionInv w) (hp : w.pending = none)
    (hc : SameCore w w') : SessionInv w' := by
  obtain ⟨h1, h2, h3, h4, h5, h6, -⟩ := h
  obtain ⟨c1, -, c3, c4, c5⟩ := hc
  refine ⟨?_, ?_, ?_, ?_, ?_, ?_, ?_⟩
  · rw [c3, c4]; exact h1
  · rw [c3]; exact h2
  · rw [c1, c4]; exact h3
  · rw [c1, c3]; exact h4
  · rw [c1, c3, c4]; exact h5
  · rw [c1, c3, c4]; exact h6
  · unfold PendingInv
    rw [c5, hp]
    trivial

theorem SessionInv_clear_pending (w : World) (h : SessionInv w) :
    SessionInv { w with pending := none } := by
  obtain ⟨h1, h2, h3, h4, h5, h6, -⟩ := h
  exact ⟨h1, h2, h3, h4, h5, h6, trivial⟩

theorem SessionInv_of_Suspended (cb : ui_callback_fn_t) (W W' : World) (h : SessionInv W)
    (hst : W.subctx.state = driverState cb) (hs : Suspended cb W W') : SessionInv W' := by
  obtain ⟨h1, h2, h3, h4, h5, h6, -⟩ := h
  obtain ⟨s, r, k, hk, rfl⟩ := hs
  refine ⟨h1, h2, h3, h4, h5, h6, ?_⟩
  exact ⟨hst, hk⟩

theorem SessionInv_of_Completed (next : sign_tx_cvote_registration_state_t) (W W' : World)
    (h : SessionInv W) (hp : W.pending = none) (hc : Completed next W W')
    (hr : 2 ≤ stateRank next)
    (heq : W.subctx.currentDelegation = W.subctx.numDelegations) : SessionInv W' := by
  obtain ⟨h1, h2, h3, h4, h5, h6, -⟩ := h
  obtain ⟨c1, -, c3, c4, c5, -, -⟩ := hc
  refine ⟨?_, ?_, ?_, ?_, ?_, ?_, ?_⟩
  · rw [c3, c4]; exact h1
  · rw [c3]; exact h2
  · intro hs
    rw [c1] at hs
    subst hs
    exact absurd hr (by decide)
  · intro hs
    rw [c1] at hs
    subst hs
    exact absurd hr (by decide)
  · intro hs
    rw [c1] at hs
    subst hs
    exact absurd hr (by decide)
  · intro _
    rw [c3, c4]
    exact heq
  · unfold PendingInv
    rw [c5, hp]
    trivial

theorem SessionInv_of_DelegationCompleted (W W' : World) (h : SessionInv W)
    (hp : W.pending = none) (hst : W.subctx.state = STATE_CVOTE_REGISTRATION_DELEGATIONS)
    (hc : DelegationCompleted W W') : SessionInv W' := by
  obtain ⟨h1, h2, h3, h4, h5, h6, -⟩ := h
  obtain ⟨c1, c2, -, c4, c5, -, -⟩ := hc
  have hlt := h5 hst
  refine ⟨?_, ?_, ?_, ?_, ?_, ?_, ?_⟩
  · rw [c1, c4]; omega
  · rw [c4]; exact h2
  · intro hs
    rw [c2] at hs
    split_ifs at hs
  · intro hs
    rw [c2] at hs
    split_ifs at hs
  · intro hs
    rw [c2] at hs
    rw [c1, c4]
    split_ifs at hs with hh
    omega
  · intro hs
    rw [c2] at hs
    rw [c1, c4]
    split_ifs at hs with hh
    · exact hh
    · exact absurd hs (by decide)
  · unfold PendingInv
    rw [c5, hp]
    trivial

theorem runCallback_SessionInv (env : Env) (cb : ui_callback_fn_t) (W : World)
    (h : SessionInv W) (hp : W.pending = none) (hst : W.subctx.state = driverState cb) :
    SessionInv (runCallback env cb W).world := by
  have hle := h.1
  have hvk := h.2.2.2.1
  have hlater := h.2.2.2.2.2.1
  cases cb
  case handleVoteKey_ui_runStep =>
    have heq : W.subctx.currentDelegation = W.subctx.numDelegations := by
      have := hvk hst
      omega
    rcases handleVoteKey_ui_runStep_summary env W _ rfl hst with
      ⟨e, -, hw⟩ | ⟨-, hs⟩ | ⟨-, hc⟩
    · exact hw.symm ▸ h
    · exact SessionInv_of_Suspended _ W _ h hst hs
    · exact SessionInv_of_Completed _ W _ h hp hc (by decide) heq
  case handleDelegation_ui_runStep =>
    rcases handleDelegation_ui_runStep_summary env W _ rfl hst (h.2.2.2.2.1 hst) h.2.1 with
      ⟨e, -, hw⟩ | ⟨-, hs⟩ | ⟨-, hc⟩
    · exact hw.symm ▸ h
    · exact SessionInv_of_Suspended _ W _ h hst hs
    · exact SessionInv_of_DelegationCompleted W _ h hp hst hc
  case handleStakingKey_ui_runStep =>
    have heq := hlater (by rw [hst]; decide)
    rcases handleStakingKey_ui_runStep_summary W _ rfl hst with
      ⟨e, -, hw⟩ | ⟨-, hs⟩ | ⟨-, hc⟩
    · exact hw.symm ▸ h
    · exact SessionInv_of_Suspended _ W _ h hst hs
    · exact SessionInv_of_Completed _ W _ h hp hc (by decide) heq
  case handlePaymentAddress_ui_runStep =>
    have heq := hlater (by rw [hst]; decide)
    rcases handlePaymentAddress_ui_runStep_summary env W _ rfl hst with
      ⟨e, -, hw⟩ | ⟨-, hs⟩ | ⟨-, hc⟩
    · exact hw.symm ▸ h
    · exact SessionInv_of_Suspended _ W _ h hst hs
    · exact SessionInv_of_Completed _ W _ h hp hc (by decide) heq
  case handleNonce_ui_runStep =>
    have heq := hlater (by rw [hst]; decide)
    rcases handleNonce_ui_runStep_summary W _ rfl hst with
      ⟨e, -, hw⟩ | ⟨-, hs⟩ | ⟨-, hc⟩
    · exact hw.symm ▸ h
    · exact SessionInv_of_Suspended _ W _ h hst hs
    · exact SessionInv_of_Completed _ W _ h hp hc (by decide) heq
  case handleVotingPurpose_ui_runStep =>
    have heq := hlater (by rw [hst]; decide)
    rcases handleVotingPurpose_ui_runStep_summary W _ rfl hst with
      ⟨e, -, hw⟩ | ⟨-, hs⟩ | ⟨-, hc⟩
    · exact hw.symm ▸ h
    · exact SessionInv_of_Suspended _ W _ h hst hs
    · exact SessionInv_of_Completed _ W _ h hp hc (by decide) heq
  case handleConfirm_ui_runStep =>
    have heq := hlater (by rw [hst]; decide)
    rcases handleConfirm_ui_runStep_summary env W _ rfl hst with
      ⟨e, -, hw⟩ | ⟨-, hs⟩ | ⟨-, hc⟩
    · exact hw.symm ▸ h
    · exact SessionInv_of_Suspended _ W _ h hst hs
    · exact SessionInv_of_Completed _ W _ h hp hc (by decide) heq


theorem handleInitAPDU_SessionInv (env : Env) (d : List uint8_t) (w : World)
    (h : SessionInv w) (hp : w.pending = none) :
    SessionInv (signTxCVoteRegistration_handleInitAPDU env d w).world := by
  by_cases hstate : w.subctx.state = STATE_CVOTE_REGISTRATION_INIT
  swap
  · rw [handleInitAPDU_wrong_state env d w hstate]
    exact h
  obtain ⟨h1, h2, h3, h4, h5, h6, -⟩ := h
  have hc0 := h3 hstate
  rcases handleInitAPDU_thrown env d w _ rfl with hret | ⟨t1, t2, t3, -, t5⟩
  · obtain ⟨f, a, b, c, e, -, -, -, -, a5, -, a7, a8, a9, -⟩ :=
      handleInitAPDU_accepted env w d _ rfl hret
    have hn : (signTxCVoteRegistration_handleInitAPDU env d w).world.subctx.numDelegations <
        UINT16_RANGE := by
      rw [a5]
      exact Nat.mod_lt _ (by decide)
    refine ⟨?_, hn, ?_, ?_, ?_, ?_, ?_⟩
    · rw [a8, hc0]; exact Nat.zero_le _
    · intro hs
      rw [a7] at hs
      split_ifs at hs
    · intro hs
      rw [a7] at hs
      split_ifs at hs with hh
      omega
    · intro hs
      rw [a7] at hs
      rw [a8, hc0]
      split_ifs at hs with hh
      exact hh
    · intro hs
      rw [a7] at hs
      split_ifs at hs <;> exact absurd hs (by decide)
    · unfold PendingInv
      rw [a9, hp]
      trivial
  · refine ⟨?_, ?_, ?_, ?_, ?_, ?_, ?_⟩
    · rw [t2, hc0]; exact Nat.zero_le _
    · rcases t5 with t5 | t5
      · rw [t5]; exact h2
      · exact t5
    · intro _
      rw [t2]
      exact hc0
    · intro hs
      rw [t1, hstate] at hs
      exact absurd hs (by decide)
    · intro hs
      rw [t1, hstate] at hs
      exact absurd hs (by decide)
    · intro hs
      rw [t1, hstate] at hs
      exact absurd hs (by decide)
    · unfold PendingInv
      rw [t3, hp]
      trivial

theorem handleVoteKeyAPDU_SessionInv (env : Env) (d : List uint8_t) (w : World)
    (h : SessionInv w) (hp : w.pending = none) :
    SessionInv (signTxCVoteRegistration_handleVoteKeyAPDU env d w).world := by
  rcases handleVoteKeyAPDU_summary env d w _ rfl with ⟨e, -, hc⟩ | ⟨W, hc, hst, -, -, ho⟩
  · exact SessionInv_of_SameCore w _ h hp hc
  · rw [ho]
    exact runCallback_SessionInv env ui_callback_fn_t.handleVoteKey_ui_runStep W
      (SessionInv_of_SameCore w W h hp hc) (hc.2.2.2.2.trans hp) (hc.1.trans hst)

theorem handleDelegationAPDU_SessionInv (env : Env) (d : List uint8_t) (w : World)
    (h : SessionInv w) (hp : w.pending = none) :
    SessionInv (signTxCVoteRegistration_handleDelegationAPDU env d w).world := by
  rcases handleDelegationAPDU_summary env d w _ rfl with
    ⟨e, -, hc⟩ | ⟨W, hc, hst, -, -, -, ho⟩
  · exact SessionInv_of_SameCore w _ h hp hc
  · rw [ho]
    exact runCallback_SessionInv env ui_callback_fn_t.handleDelegation_ui_runStep W
      (SessionInv_of_SameCore w W h hp hc) (hc.2.2.2.2.trans hp) (hc.1.trans hst)

theorem handleStakingKeyAPDU_SessionInv (env : Env) (d : List uint8_t) (w : World)
    (h : SessionInv w) (hp : w.pending = none) :
    SessionInv (signTxCVoteRegistration_handleStakingKeyAPDU env d w).world := by
  rcases handleStakingKeyAPDU_summary env d w _ rfl with ⟨e, -, hc⟩ | ⟨W, hc, hst, -, -, ho⟩
  · exact SessionInv_of_SameCore w _ h hp hc
  · rw [ho]
    exact runCallback_SessionInv env ui_callback_fn_t.handleStakingKey_ui_runStep W
      (SessionInv_of_SameCore w W h hp hc) (hc.2.2.2.2.trans hp) (hc.1.trans hst)

theorem handlePaymentAddressAPDU_SessionInv (env : Env) (d : List uint8_t) (w : World)
    (h : SessionInv w) (hp : w.pending = none) :
    SessionInv (signTxCVoteRegistration_handlePaymentAddressAPDU env d w).world := by
  rcases handlePaymentAddressAPDU_summary env d w _ rfl with ⟨e, -, hc⟩ | ⟨W, hc, hst, -, -, ho⟩
  · exact SessionInv_of_SameCore w _ h hp hc
  · rw [ho]
    exact runCallback_SessionInv env ui_callback_fn_t.handlePaymentAddress_ui_runStep W
      (SessionInv_of_SameCore w W h hp hc) (hc.2.2.2.2.trans hp) (hc.1.trans hst)

theorem handleNonceAPDU_SessionInv (env : Env) (d : List uint8_t) (w : World)
    (h : SessionInv w) (hp : w.pending = none) :
    SessionInv (signTxCVoteRegistration_handleNonceAPDU env d w).world := by
  rcases handleNonceAPDU_summary env d w _ rfl with ⟨e, -, hc⟩ | ⟨W, hc, hst, -, -, ho⟩
  · exact SessionInv_of_SameCore w _ h hp hc
  · rw [ho]
    exact runCallback_SessionInv env ui_callback_fn_t.handleNonce_ui_runStep W
      (SessionInv_of_SameCore w W h hp hc) (hc.2.2.2.2.trans hp) (hc.1.trans hst)

theorem handleConfirmAPDU_SessionInv (env : Env) (d : List uint8_t) (w : World)
    (h : SessionInv w) (hp : w.pending = none) :
    SessionInv (signTxCVoteRegistration_handleConfirmAPDU env d w).world := by
  rcases handleConfirmAPDU_summary env d w _ rfl with ⟨e, -, hc⟩ | ⟨W, hc, hst, -, -, ho⟩
  · exact SessionInv_of_SameCore w _ h hp hc
  · rw [ho]
    exact runCallback_SessionInv env ui_callback_fn_t.handleConfirm_ui_runStep W
      (SessionInv_of_SameCore w W h hp hc) (hc.2.2.2.2.trans hp) (hc.1.trans hst)

theorem handleVotingPurposeAPDU_SessionInv (env : Env) (d : List uint8_t) (w : World)
    (h : SessionInv w) (hp : w.pending = none) :
    SessionInv (signTxCVoteRegistration_handleVotingPurposeAPDU env d w).world := by
  rcases handleVotingPurposeAPDU_summary env d w _ rfl with
    ⟨e, -, hc⟩ | ⟨W, hc, hst, -, -, -, ho⟩ | ⟨W, hc, hst, -, -, -, ho⟩
  · exact SessionInv_of_SameCore w _ h hp hc
  · rw [ho]
    exact runCallback_SessionInv env ui_callback_fn_t.handleVotingPurpose_ui_runStep W
      (SessionInv_of_SameCore w W h hp hc) (hc.2.2.2.2.trans hp) (hc.1.trans hst)
  · rw [ho, advanceState_of_VOTING_PURPOSE W (hc.1.trans hst)]
    have hW := SessionInv_of_SameCore w W h hp hc
    obtain ⟨h1, h2, h3, h4, h5, h6, -⟩ := hW
    have heq := h6 (by rw [hc.1.trans hst]; decide)
    refine ⟨h1, h2, ?_, ?_, ?_, fun _ => heq, ?_⟩
    · intro hs
      exact absurd hs (by simp)
    · intro hs
      exact absurd hs (by simp)
    · intro hs
      exact absurd hs (by simp)
    · unfold PendingInv
      simp [hc.2.2.2.2.trans hp]

theorem handleAPDU_cases (env : Env) (p2 : uint8_t) (d : List uint8_t) (w : World) :
    signTxCVoteRegistration_handleAPDU env p2 d w = THROW Err.ERR_ASSERT w ∨
    signTxCVoteRegistration_handleAPDU env p2 d w =
      signTxCVoteRegistration_handleInitAPDU env d w ∨
    signTxCVoteRegistration_handleAPDU env p2 d w =
      signTxCVoteRegistration_handleVoteKeyAPDU env d w ∨
    signTxCVoteRegistration_handleAPDU env p2 d w =
      signTxCVoteRegistration_handleDelegationAPDU env d w ∨
    signTxCVoteRegistration_handleAPDU env p2 d w =
      signTxCVoteRegistration_handleStakingKeyAPDU env d w ∨
    signTxCVoteRegistration_handleAPDU env p2 d w =
      signTxCVoteRegistration_handlePaymentAddressAPDU env d w ∨
    signTxCVoteRegistration_handleAPDU env p2 d w =
      signTxCVoteRegistration_handleNonceAPDU env d w ∨
    signTxCVoteRegistration_handleAPDU env p2 d w =
      signTxCVoteRegistration_handleVotingPurposeAPDU env d w ∨
    signTxCVoteRegistration_handleAPDU env p2 d w =
      signTxCVoteRegistration_handleConfirmAPDU env d w := by
  unfold signTxCVoteRegistration_handleAPDU
  split_ifs
  all_goals first
    | exact Or.inl rfl
    | exact Or.inr (Or.inl rfl)
    | exact Or.inr (Or.inr (Or.inl rfl))
    | exact Or.inr (Or.inr (Or.inr (Or.inl rfl)))
    | exact Or.inr (Or.inr (Or.inr (Or.inr (Or.inl rfl))))
    | exact Or.inr (Or.inr (Or.inr (Or.inr (Or.inr (Or.inl rfl)))))
    | exact Or.inr (Or.inr (Or.inr (Or.inr (Or.inr (Or.inr (Or.inl rfl))))))
    | exact Or.inr (Or.inr (Or.inr (Or.inr (Or.inr (Or.inr (Or.inr (Or.inl rfl)))))))
    | exact Or.inr (Or.inr (Or.inr (Or.inr (Or.inr (Or.inr (Or.inr (Or.inr rfl)))))))

theorem handleAPDU_SessionInv (env : Env) (p2 : uint8_t) (d : List uint8_t) (w : World)
    (h : SessionInv w) (hp : w.pending = none) :
    SessionInv (signTxCVoteRegistration_handleAPDU env p2 d w).world := by
  rcases handleAPDU_cases env p2 d w with e | e | e | e | e | e | e | e | e <;> rw [e]
  · exact h
  · exact handleInitAPDU_SessionInv env d w h hp
  · exact handleVoteKeyAPDU_SessionInv env d w h hp
  · exact handleDelegationAPDU_SessionInv env d w h hp
  · exact handleStakingKeyAPDU_SessionInv env d w h hp
  · exact handlePaymentAddressAPDU_SessionInv env d w h hp
  · exact handleNonceAPDU_SessionInv env d w h hp
  · exact handleVotingPurposeAPDU_SessionInv env d w h hp
  · exact handleConfirmAPDU_SessionInv env d w h hp

/-- The session invariant is preserved by every event, whatever its outcome. -/
theorem step_SessionInv (env : Env) (w : World) (ev : Event) (o : Outcome)
    (h : SessionInv w) (hs : step env w ev = some o) : SessionInv o.world := by
  cases ev with
  | apdu p2 d =>
    unfold step at hs
    cases hp : w.pending with
    | none =>
      rw [hp] at hs
      cases hs
      exact handleAPDU_SessionInv env p2 d w h hp
    | some p =>
      rw [hp] at hs
      cases hs
  | uiConfirm =>
    unfold step at hs
    cases hp : w.pending with
    | none =>
      rw [hp] at hs
      cases hs
    | some p =>
      rw [hp] at hs
      cases hs
      have hpi := h.2.2.2.2.2.2
      unfold PendingInv at hpi
      rw [hp] at hpi
      exact runCallback_SessionInv env p.callback _ (SessionInv_clear_pending w h) rfl hpi.1
  | uiReject =>
    unfold step at hs
    cases hp : w.pending with
    | none =>
      rw [hp] at hs
      cases hs
    | some p =>
      rw [hp] at hs
      dsimp only at hs
      split_ifs at hs
      cases hs
      exact SessionInv_of_SameCore _ _ (SessionInv_clear_pending w h) rfl
        ⟨rfl, rfl, rfl, rfl, rfl⟩

/-- The fresh session satisfies the invariant. -/
theorem init_SessionInv : SessionInv signTxCVoteRegistration_init := by
  refine ⟨Nat.le_refl _, by decide, fun _ => rfl, fun _ => rfl, ?_, ?_, trivial⟩
  · intro hs
    exact absurd hs (by decide)
  · intro hs
    exact absurd hs (by decide)

/-- Every reachable world satisfies the session invariant. -/
theorem Reachable_SessionInv (env : Env) (w : World) (h : Reachable env w) : SessionInv w := by
  induction h with
  | init => exact init_SessionInv
  | step w ev o _ hs ih => exact step_SessionInv env w ev o ih hs


/-! ### C6 -/

/-- Running events from a reachable world gives a reachable world. -/
theorem Reachable_runEvents (env : Env) (evs : List Event) :
    ∀ w, Reachable env w → Reachable env (runEvents env w evs) := by
  induction evs with
  | nil => intro w h; exact h
  | cons ev evs ih =>
    intro w h
    unfold runEvents
    cases hs : step env w ev with
    | none => exact ih w h
    | some o => exact ih o.world (Reachable.step w ev o h hs)

/-- C6: in every world reachable from `signTxCVoteRegistration_init` by wire commands and
UI resumptions (accepted or failed), `0 ≤ currentDelegation ≤ numDelegations`, and in
the states StakingKey, PaymentAddress, Nonce, VotingPurpose, Confirm and Finished
`currentDelegation = numDelegations`; in particular this holds in Confirm. -/
theorem reachable_currentDelegation_bounds (env : Env) (w : World) (h : Reachable env w) :
    0 ≤ w.subctx.currentDelegation ∧
    w.subctx.currentDelegation ≤ w.subctx.numDelegations ∧
    ((w.subctx.state = STATE_CVOTE_REGISTRATION_STAKING_KEY ∨
      w.subctx.state = STATE_CVOTE_REGISTRATION_PAYMENT_ADDRESS ∨
      w.subctx.state = STATE_CVOTE_REGISTRATION_NONCE ∨
      w.subctx.state = STATE_CVOTE_REGISTRATION_VOTING_PURPOSE ∨
      w.subctx.state = STATE_CVOTE_REGISTRATION_CONFIRM ∨
      w.subctx.state = STATE_CVOTE_REGISTRATION_FINISHED) →
      w.subctx.currentDelegation = w.subctx.numDelegations) ∧
    (w.subctx.state = STATE_CVOTE_REGISTRATION_CONFIRM →
      ¬ w.subctx.currentDelegation ≠ w.subctx.numDelegations) := by
  have hinv := Reachable_SessionInv env w h
  obtain ⟨h1, -, -, -, -, h6, -⟩ := hinv
  refine ⟨Nat.zero_le _, h1, ?_, ?_⟩
  · intro hs
    apply h6
    rcases hs with hs | hs | hs | hs | hs | hs <;> rw [hs] <;> decide
  · intro hs hne
    exact hne (h6 (by rw [hs]; decide))

/-- C6, at a concrete reachable world: two delegations declared, the second being
shown. -/
theorem reachable_currentDelegation_bounds_witness :
    (runEvents sampleEnvShow signTxCVoteRegistration_init
        sampleRunToSecondDelegation).subctx.currentDelegation ≤
      (runEvents sampleEnvShow signTxCVoteRegistration_init
        sampleRunToSecondDelegation).subctx.numDelegations :=
  (reachable_currentDelegation_bounds sampleEnvShow
    (runEvents sampleEnvShow signTxCVoteRegistration_init sampleRunToSecondDelegation)
    (Reachable_runEvents sampleEnvShow sampleRunToSecondDelegation _ Reachable.init)).2.1



/-! ### C8 -/

theorem advanceState_forward (v : World) :
    (advanceState v).world.subctx.state = v.subctx.state ∨
    MovedForward v.subctx.state (advanceState v).world.subctx.state := by
  by_cases hret : (advanceState v).status = Status.returned
  · right
    refine ⟨?_, v, rfl, hret, rfl⟩
    obtain ⟨⟨st, ui, f, n, c, sk, ah, sd⟩, t, p⟩ := v
    cases st <;> simp [advanceState, stateRank] at hret ⊢ <;> split_ifs <;> simp_all [stateRank]
  · left
    obtain ⟨⟨st, ui, f, n, c, sk, ah, sd⟩, t, p⟩ := v
    cases st <;> simp [advanceState] at hret ⊢ <;> split_ifs at hret ⊢ <;> simp_all

theorem finishStep_state (k : Nat) (o : Outcome) :
    (finishStep k o).world.subctx.state = o.world.subctx.state := by
  obtain ⟨st, w⟩ := o
  cases st <;> rfl

theorem finishStep_advanceState_forward (k : Nat) (v : World) :
    (finishStep k (advanceState v)).world.subctx.state = v.subctx.state ∨
    MovedForward v.subctx.state (finishStep k (advanceState v)).world.subctx.state := by
  rw [finishStep_state]
  exact advanceState_forward v

theorem runCallback_forward (env : Env) (cb : ui_callback_fn_t) (W : World) :
    (runCallback env cb W).world.subctx.state = W.subctx.state ∨
    MovedForward W.subctx.state (runCallback env cb W).world.subctx.state := by
  cases cb
  all_goals
    unfold runCallback
    dsimp only
  all_goals first
    | unfold signTxCVoteRegistration_handleVoteKey_ui_runStep
    | unfold signTxCVoteRegistration_handleDelegation_ui_runStep
    | unfold signTxCVoteRegistration_handleStakingKey_ui_runStep
    | unfold signTxCVoteRegistration_handlePaymentAddress_ui_runStep
    | unfold signTxCVoteRegistration_handleNonce_ui_runStep
    | unfold signTxCVoteRegistration_handleVotingPurpose_ui_runStep
    | unfold signTxCVoteRegistration_handleConfirm_ui_runStep
  all_goals dsimp only
  all_goals repeat' (first | split | dsimp only)
  all_goals try unfold handleConfirm_respond
  all_goals first
    | exact Or.inl rfl
    | exact finishStep_advanceState_forward _ _
    | (rename_i heq
       obtain ⟨s, rfl⟩ := displayVoteKey_frame _ _ _ _ heq
       exact Or.inl rfl)

theorem SameCore_forward (w w' : World) (h : SameCore w w') :
    w'.subctx.state = w.subctx.state ∨ MovedForward w.subctx.state w'.subctx.state :=
  Or.inl h.1

theorem driver_after_handler_forward (w W : World) (o : Outcome) (hc : SameCore w W)
    (h : o.world.subctx.state = W.subctx.state ∨
      MovedForward W.subctx.state o.world.subctx.state) :
    o.world.subctx.state = w.subctx.state ∨
      MovedForward w.subctx.state o.world.subctx.state := by
  rw [← hc.1]
  exact h

theorem handleAPDU_forward (env : Env) (p2 : uint8_t) (d : List uint8_t) (w : World) :
    (signTxCVoteRegistration_handleAPDU env p2 d w).world.subctx.state = w.subctx.state ∨
    MovedForward w.subctx.state
      (signTxCVoteRegistration_handleAPDU env p2 d w).world.subctx.state := by
  rcases handleAPDU_cases env p2 d w with e | e | e | e | e | e | e | e | e <;> rw [e]
  · exact Or.inl rfl
  · rcases handleInitAPDU_thrown env d w _ rfl with hret | ⟨t1, -⟩
    · obtain ⟨f, a, b, c, e, -, hst, -, -, -, -, a7, -⟩ :=
        handleInitAPDU_accepted env w d _ rfl hret
      right
      rw [hst]
      refine ⟨?_, { w with subctx := { w.subctx with
          numDelegations :=
            (signTxCVoteRegistration_handleInitAPDU env d w).world.subctx.numDelegations } },
        hst, ?_, ?_⟩
      · rw [a7]
        split_ifs <;> decide
      · simp only [advanceState, hst]
        split_ifs <;> rfl
      · rw [a7]
        simp only [advanceState, hst]
        split_ifs <;> rfl
    · exact Or.inl t1
  · rcases handleVoteKeyAPDU_summary env d w _ rfl with ⟨e, -, hc⟩ | ⟨W, hc, -, -, -, ho⟩
    · exact Or.inl hc.1
    · rw [ho]
      exact driver_after_handler_forward w W _ hc
        (runCallback_forward env ui_callback_fn_t.handleVoteKey_ui_runStep W)
  · rcases handleDelegationAPDU_summary env d w _ rfl with
      ⟨e, -, hc⟩ | ⟨W, hc, -, -, -, -, ho⟩
    · exact Or.inl hc.1
    · rw [ho]
      exact driver_after_handler_forward w W _ hc
        (runCallback_forward env ui_callback_fn_t.handleDelegation_ui_runStep W)
  · rcases handleStakingKeyAPDU_summary env d w _ rfl with ⟨e, -, hc⟩ | ⟨W, hc, -, -, -, ho⟩
    · exact Or.inl hc.1
    · rw [ho]
      exact driver_after_handler_forward w W _ hc
        (runCallback_forward env ui_callback_fn_t.handleStakingKey_ui_runStep W)
  · rcases handlePaymentAddressAPDU_summary env d w _ rfl with
      ⟨e, -, hc⟩ | ⟨W, hc, -, -, -, ho⟩
    · exact Or.inl hc.1
    · rw [ho]
      exact driver_after_handler_forward w W _ hc
        (runCallback_forward env ui_callback_fn_t.handlePaymentAddress_ui_runStep W)
  · rcases handleNonceAPDU_summary env d w _ rfl with ⟨e, -, hc⟩ | ⟨W, hc, -, -, -, ho⟩
    · exact Or.inl hc.1
    · rw [ho]
      exact driver_after_handler_forward w W _ hc
        (runCallback_forward env ui_callback_fn_t.handleNonce_ui_runStep W)
  · rcases handleVotingPurposeAPDU_summary env d w _ rfl with
      ⟨e, -, hc⟩ | ⟨W, hc, -, -, -, -, ho⟩ | ⟨W, hc, -, -, -, -, ho⟩
    · exact Or.inl hc.1
    · rw [ho]
      exact driver_after_handler_forward w W _ hc
        (runCallback_forward env ui_callback_fn_t.handleVotingPurpose_ui_runStep W)
    · rw [ho]
      exact driver_after_handler_forward w W _ hc (advanceState_forward W)
  · rcases handleConfirmAPDU_summary env d w _ rfl with ⟨e, -, hc⟩ | ⟨W, hc, -, -, -, ho⟩
    · exact Or.inl hc.1
    · rw [ho]
      exact driver_after_handler_forward w W _ hc
        (runCallback_forward env ui_callback_fn_t.handleConfirm_ui_runStep W)

/-- C8: whatever the world, an event (wire command or UI resumption) either leaves the
session state as it is or moves it strictly forward in the order Init < VoteKey,
Delegations < StakingKey < PaymentAddress < Nonce < VotingPurpose < Confirm < Finished,
to the state that `advanceState` yields from the old one; the state never moves
backward. -/
theorem step_state_forward (env : Env) (w : World) (ev : Event) (o : Outcome)
    (hs : step env w ev = some o) :
    (o.world.subctx.state = w.subctx.state ∨
      MovedForward w.subctx.state o.world.subctx.state) ∧
    stateRank w.subctx.state ≤ stateRank o.world.subctx.state := by
  have key : o.world.subctx.state = w.subctx.state ∨
      MovedForward w.subctx.state o.world.subctx.state := by
    cases ev with
    | apdu p2 d =>
      unfold step at hs
      cases hp : w.pending with
      | none =>
        rw [hp] at hs
        cases hs
        exact handleAPDU_forward env p2 d w
      | some p =>
        rw [hp] at hs
        cases hs
    | uiConfirm =>
      unfold step at hs
      cases hp : w.pending with
      | none =>
        rw [hp] at hs
        cases hs
      | some p =>
        rw [hp] at hs
        cases hs
        exact runCallback_forward env p.callback { w with pending := none }
    | uiReject =>
      unfold step at hs
      cases hp : w.pending with
      | none =>
        rw [hp] at hs
        cases hs
      | some p =>
        rw [hp] at hs
        dsimp only at hs
        split_ifs at hs
        cases hs
        exact Or.inl rfl
  refine ⟨key, ?_⟩
  rcases key with h | h
  · rw [h]
  · exact Nat.le_of_lt h.1

/-- C8, at a concrete event: the Init command on a fresh session. -/
theorem step_state_forward_witness :
    stateRank signTxCVoteRegistration_init.subctx.state ≤
      stateRank (signTxCVoteRegistration_handleAPDU sampleEnv 0x36 [2, 0, 0, 0, 2]
        signTxCVoteRegistration_init).world.subctx.state :=
  (step_state_forward sampleEnv signTxCVoteRegistration_init
    (Event.apdu 0x36 [2, 0, 0, 0, 2]) _ rfl).2



/-! ### The shape of the hash-accumulator calls -/

theorem HashInvB_congr (env : Env) (b : Bool) (W W' : World)
    (h1 : W'.subctx.state = W.subctx.state) (h2 : W'.subctx.format = W.subctx.format)
    (h3 : W'.subctx.numDelegations = W.subctx.numDelegations)
    (h4 : W'.subctx.currentDelegation = W.subctx.currentDelegation)
    (h5 : hashCalls W'.trace = hashCalls W.trace) (h : HashInvB env b W) :
    HashInvB env b W' := by
  unfold HashInvB at h ⊢
  rw [h1, h2, h3, h4, h5]
  exact h

theorem HashInv_of_Suspended (env : Env) (cb : ui_callback_fn_t) (W W' : World)
    (h : HashInvB env true W) (hs : Suspended cb W W') : HashInv env W' := by
  obtain ⟨s, r, k, -, rfl⟩ := hs
  unfold HashInv
  have : ((W.display s cb r).setUiStep k).pending.isSome = true := rfl
  rw [this]
  exact HashInvB_congr env true W _ rfl rfl rfl rfl (by simp) h


theorem HashInvB_later (env : Env) (b : Bool) (w : World)
    (hr : 2 ≤ stateRank w.subctx.state) :
    HashInvB env b w ↔
      ∃ K T, KeysDone w.subctx.numDelegations K ∧
        TailAt env.CIP36 w.subctx.format (stageOf w.subctx.state b) T ∧
        hashCalls w.trace =
          [HashCall.enter w.subctx.format, HashCall.enterPayload] ++ K ++ T := by
  obtain ⟨⟨st, ui, f, n, c, sk, ah, sd⟩, t, p⟩ := w
  cases st
  case STATE_CVOTE_REGISTRATION_INIT => exact absurd hr (by simp [stateRank])
  case STATE_CVOTE_REGISTRATION_VOTE_KEY => exact absurd hr (by simp [stateRank])
  case STATE_CVOTE_REGISTRATION_DELEGATIONS => exact absurd hr (by simp [stateRank])
  all_goals exact Iff.rfl

theorem HashInv_of_Completed_voteKey (env : Env) (W W' : World)
    (hX : W.subctx.state = STATE_CVOTE_REGISTRATION_VOTE_KEY) (h : HashInvB env true W)
    (hp : W.pending = none) (hc : Completed STATE_CVOTE_REGISTRATION_STAKING_KEY W W') :
    HashInv env W' := by
  obtain ⟨c1, c2, c3, c4, c5, c6, -⟩ := hc
  unfold HashInv
  rw [c5, hp]
  rw [HashInvB_later env _ W' (by rw [c1]; decide)]
  unfold HashInvB at h
  rw [hX] at h
  obtain ⟨hn, key, hH⟩ := h
  refine ⟨[HashCall.addVoteKey key], [], ⟨key, [], ?_, ?_⟩, ?_, ?_⟩
  · rw [c3, hn]; rfl
  · rw [c3, hn]; rfl
  · rw [c1]; rfl
  · rw [c6, c2, hH]; rfl

theorem HashInv_of_Completed_later (env : Env) (next : sign_tx_cvote_registration_state_t)
    (W W' : World) (hrX : 2 ≤ stateRank W.subctx.state) (hrN : 2 ≤ stateRank next)
    (hstage : stageOf W.subctx.state true = stageOf next false)
    (h : HashInvB env true W) (hp : W.pending = none) (hc : Completed next W W') :
    HashInv env W' := by
  obtain ⟨c1, c2, c3, c4, c5, c6, -⟩ := hc
  unfold HashInv
  rw [c5, hp]
  rw [HashInvB_later env _ W' (by rw [c1]; exact hrN)]
  rw [HashInvB_later env _ W hrX] at h
  obtain ⟨K, T, hK, hT, hH⟩ := h
  refine ⟨K, T, ?_, ?_, ?_⟩
  · rw [c3]; exact hK
  · rw [c1, c2]
    show TailAt env.CIP36 W.subctx.format (stageOf next false) T
    rw [← hstage]
    exact hT
  · rw [c6, c2, hH]

theorem HashInv_of_DelegationCompleted (env : Env) (W W' : World)
    (hX : W.subctx.state = STATE_CVOTE_REGISTRATION_DELEGATIONS) (h : HashInvB env true W)
    (hp : W.pending = none) (hc : DelegationCompleted W W') : HashInv env W' := by
  obtain ⟨c1, c2, c3, c4, c5, c6, -⟩ := hc
  unfold HashInv
  rw [c5, hp]
  unfold HashInvB at h
  rw [hX] at h
  obtain ⟨dels, hlen, hH⟩ := h
  by_cases hdone : W.subctx.currentDelegation + 1 = W.subctx.numDelegations
  · rw [if_pos hdone] at c2
    rw [HashInvB_later env _ W' (by rw [c2]; decide)]
    refine ⟨HashCall.enterDelegations W.subctx.numDelegations ::
        dels.map (fun d => HashCall.addDelegation d.1 d.2), [], ⟨[], dels, ?_, ?_⟩, ?_, ?_⟩
    · rw [c4, hlen, ← hdone]; rfl
    · rw [c4]
      unfold specKeyCalls
      rw [if_neg (by omega)]
    · rw [c2]; rfl
    · rw [c6, c3, hH]
      simp
  · rw [if_neg hdone] at c2
    unfold HashInvB
    rw [c2]
    refine ⟨dels, ?_, ?_⟩
    · rw [c1, hlen]; rfl
    · rw [c6, c3, c4, hH]

/-- What the hash call of a step does to the shape: the step becomes busy. -/
theorem HashInvB_busy_voteKey (env : Env) (w W : World) (key : List uint8_t)
    (hst : w.subctx.state = STATE_CVOTE_REGISTRATION_VOTE_KEY) (hc : SameCore w W)
    (hH : hashCalls W.trace = hashCalls w.trace ++ [HashCall.addVoteKey key])
    (h : HashInvB env false w) : HashInvB env true W := by
  obtain ⟨c1, c2, c3, c4, -⟩ := hc
  unfold HashInvB at h ⊢
  rw [hst] at h
  rw [c1, hst]
  obtain ⟨hn, hbase⟩ := h
  refine ⟨by rw [c3]; exact hn, key, ?_⟩
  rw [hH, c2]
  simp only [Bool.false_eq_true, if_false] at hbase
  rw [hbase]
  rfl

theorem HashInvB_busy_delegation (env : Env) (w W : World) (key : List uint8_t) (weight : Nat)
    (hst : w.subctx.state = STATE_CVOTE_REGISTRATION_DELEGATIONS) (hc : SameCore w W)
    (hH : hashCalls W.trace = hashCalls w.trace ++ [HashCall.addDelegation key weight])
    (h : HashInvB env false w) : HashInvB env true W := by
  obtain ⟨c1, c2, c3, c4, -⟩ := hc
  unfold HashInvB at h ⊢
  rw [hst] at h
  rw [c1, hst]
  obtain ⟨dels, hlen, hbase⟩ := h
  refine ⟨dels ++ [(key, weight)], ?_, ?_⟩
  · rw [c4]
    simp at hlen ⊢
    exact hlen
  · rw [hH, c2, c3, hbase]
    simp

theorem HashInvB_busy_later (env : Env) (w W : World) (calls : List HashCall)
    (hr : 2 ≤ stateRank w.subctx.state) (hc : SameCore w W)
    (hH : hashCalls W.trace = hashCalls w.trace ++ calls)
    (hT : ∀ T, TailAt env.CIP36 w.subctx.format (stageOf w.subctx.state false) T →
      TailAt env.CIP36 w.subctx.format (stageOf w.subctx.state true) (T ++ calls))
    (h : HashInvB env false w) : HashInvB env true W := by
  obtain ⟨c1, c2, c3, c4, -⟩ := hc
  rw [HashInvB_later env _ w hr] at h
  rw [HashInvB_later env _ W (by rw [c1]; exact hr)]
  obtain ⟨K, T, hK, hTail, hbase⟩ := h
  refine ⟨K, T ++ calls, by rw [c3]; exact hK, ?_, ?_⟩
  · rw [c1, c2]
    exact hT T hTail
  · rw [hH, c2, hbase]
    simp


theorem runCallback_HashInv (env : Env) (cb : ui_callback_fn_t) (W : World)
    (hinv : SessionInv W) (hp : W.pending = none) (hst : W.subctx.state = driverState cb)
    (h : HashInvB env true W) (hret : (runCallback env cb W).status = Status.returned) :
    HashInv env (runCallback env cb W).world := by
  cases cb
  case handleVoteKey_ui_runStep =>
    rcases handleVoteKey_ui_runStep_summary env W _ rfl hst with
      ⟨e, he, -⟩ | ⟨-, hs⟩ | ⟨-, hc⟩
    · exact absurd (he.symm.trans hret) (by simp)
    · exact HashInv_of_Suspended env _ W _ h hs
    · exact HashInv_of_Completed_voteKey env W _ hst h hp hc
  case handleDelegation_ui_runStep =>
    rcases handleDelegation_ui_runStep_summary env W _ rfl hst (hinv.2.2.2.2.1 hst)
      hinv.2.1 with ⟨e, he, -⟩ | ⟨-, hs⟩ | ⟨-, hc⟩
    · exact absurd (he.symm.trans hret) (by simp)
    · exact HashInv_of_Suspended env _ W _ h hs
    · exact HashInv_of_DelegationCompleted env W _ hst h hp hc
  case handleStakingKey_ui_runStep =>
    rcases handleStakingKey_ui_runStep_summary W _ rfl hst with
      ⟨e, he, -⟩ | ⟨-, hs⟩ | ⟨-, hc⟩
    · exact absurd (he.symm.trans hret) (by simp)
    · exact HashInv_of_Suspended env _ W _ h hs
    · exact HashInv_of_Completed_later env _ W _ (by rw [hst]; decide) (by decide)
        (by rw [hst]; rfl) h hp hc
  case handlePaymentAddress_ui_runStep =>
    rcases handlePaymentAddress_ui_runStep_summary env W _ rfl hst with
      ⟨e, he, -⟩ | ⟨-, hs⟩ | ⟨-, hc⟩
    · exact absurd (he.symm.trans hret) (by simp)
    · exact HashInv_of_Suspended env _ W _ h hs
    · exact HashInv_of_Completed_later env _ W _ (by rw [hst]; decide) (by decide)
        (by rw [hst]; rfl) h hp hc
  case handleNonce_ui_runStep =>
    rcases handleNonce_ui_runStep_summary W _ rfl hst with
      ⟨e, he, -⟩ | ⟨-, hs⟩ | ⟨-, hc⟩
    · exact absurd (he.symm.trans hret) (by simp)
    · exact HashInv_of_Suspended env _ W _ h hs
    · exact HashInv_of_Completed_later env _ W _ (by rw [hst]; decide) (by decide)
        (by rw [hst]; rfl) h hp hc
  case handleVotingPurpose_ui_runStep =>
    rcases handleVotingPurpose_ui_runStep_summary W _ rfl hst with
      ⟨e, he, -⟩ | ⟨-, hs⟩ | ⟨-, hc⟩
    · exact absurd (he.symm.trans hret) (by simp)
    · exact HashInv_of_Suspended env _ W _ h hs
    · exact HashInv_of_Completed_later env _ W _ (by rw [hst]; decide) (by decide)
        (by rw [hst]; rfl) h hp hc
  case handleConfirm_ui_runStep =>
    rcases handleConfirm_ui_runStep_summary env W _ rfl hst with
      ⟨e, he, -⟩ | ⟨-, hs⟩ | ⟨-, hc⟩
    · exact absurd (he.symm.trans hret) (by simp)
    · exact HashInv_of_Suspended env _ W _ h hs
    · exact HashInv_of_Completed_later env _ W _ (by rw [hst]; decide) (by decide)
        (by rw [hst]; rfl) h hp hc

theorem HashInv_idle (env : Env) (w : World) (hp : w.pending = none) (h : HashInv env w) :
    HashInvB env false w := by
  unfold HashInv at h
  rw [hp] at h
  exact h

theorem handleInitAPDU_HashInv (env : Env) (d : List uint8_t) (w : World)
    (hinv : SessionInv w) (hp : w.pending = none) (h : HashInv env w)
    (hret : (signTxCVoteRegistration_handleInitAPDU env d w).status = Status.returned) :
    HashInv env (signTxCVoteRegistration_handleInitAPDU env d w).world := by
  obtain ⟨f, a, b, c, e, -, hst, -, a4, -, -, a7, a8, a9, a10⟩ :=
    handleInitAPDU_accepted env w d _ rfl hret
  have hc0 := hinv.2.2.1 hst
  have h0 := HashInv_idle env w hp h
  unfold HashInvB at h0
  rw [hst] at h0
  dsimp only at h0
  unfold HashInv
  rw [a9, hp]
  by_cases hn : (signTxCVoteRegistration_handleInitAPDU env d w).world.subctx.numDelegations > 0
  · have hs : (signTxCVoteRegistration_handleInitAPDU env d w).world.subctx.state =
        STATE_CVOTE_REGISTRATION_DELEGATIONS := by rw [a7, if_pos hn]
    unfold HashInvB
    rw [hs]
    dsimp only
    refine ⟨[], ?_, ?_⟩
    · rw [a8, hc0]; rfl
    · rw [a10, if_pos hn, a4]
      simp [h0]
  · have hs : (signTxCVoteRegistration_handleInitAPDU env d w).world.subctx.state =
        STATE_CVOTE_REGISTRATION_VOTE_KEY := by rw [a7, if_neg hn]
    unfold HashInvB
    rw [hs]
    dsimp only
    refine ⟨by omega, ?_⟩
    rw [a10, if_neg hn, a4]
    simp [h0]


theorem handleVoteKeyAPDU_HashInv (env : Env) (d : List uint8_t) (w : World)
    (hinv : SessionInv w) (hp : w.pending = none) (h : HashInv env w)
    (hret : (signTxCVoteRegistration_handleVoteKeyAPDU env d w).status = Status.returned) :
    HashInv env (signTxCVoteRegistration_handleVoteKeyAPDU env d w).world := by
  rcases handleVoteKeyAPDU_summary env d w _ rfl with
    ⟨e, he, -⟩ | ⟨W, hc, hst, ⟨key, hH⟩, -, ho⟩
  · exact absurd (he.symm.trans hret) (by simp)
  · rw [ho] at hret ⊢
    exact runCallback_HashInv env ui_callback_fn_t.handleVoteKey_ui_runStep W
      (SessionInv_of_SameCore w W hinv hp hc) (hc.2.2.2.2.trans hp) (hc.1.trans hst)
      (HashInvB_busy_voteKey env w W key hst hc hH (HashInv_idle env w hp h)) hret

theorem handleDelegationAPDU_HashInv (env : Env) (d : List uint8_t) (w : World)
    (hinv : SessionInv w) (hp : w.pending = none) (h : HashInv env w)
    (hret : (signTxCVoteRegistration_handleDelegationAPDU env d w).status = Status.returned) :
    HashInv env (signTxCVoteRegistration_handleDelegationAPDU env d w).world := by
  rcases handleDelegationAPDU_summary env d w _ rfl with
    ⟨e, he, -⟩ | ⟨W, hc, hst, -, ⟨key, weight, hH⟩, -, ho⟩
  · exact absurd (he.symm.trans hret) (by simp)
  · rw [ho] at hret ⊢
    exact runCallback_HashInv env ui_callback_fn_t.handleDelegation_ui_runStep W
      (SessionInv_of_SameCore w W hinv hp hc) (hc.2.2.2.2.trans hp) (hc.1.trans hst)
      (HashInvB_busy_delegation env w W key weight hst hc hH (HashInv_idle env w hp h)) hret

theorem handleStakingKeyAPDU_HashInv (env : Env) (d : List uint8_t) (w : World)
    (hinv : SessionInv w) (hp : w.pending = none) (h : HashInv env w)
    (hret : (signTxCVoteRegistration_handleStakingKeyAPDU env d w).status = Status.returned) :
    HashInv env (signTxCVoteRegistration_handleStakingKeyAPDU env d w).world := by
  rcases handleStakingKeyAPDU_summary env d w _ rfl with
    ⟨e, he, -⟩ | ⟨W, hc, hst, ⟨key, hH⟩, -, ho⟩
  · exact absurd (he.symm.trans hret) (by simp)
  · rw [ho] at hret ⊢
    refine runCallback_HashInv env ui_callback_fn_t.handleStakingKey_ui_runStep W
      (SessionInv_of_SameCore w W hinv hp hc) (hc.2.2.2.2.trans hp) (hc.1.trans hst)
      (HashInvB_busy_later env w W _ (by rw [hst]; decide) hc hH ?_
        (HashInv_idle env w hp h)) hret
    rw [hst]
    intro T hT
    have hT0 : T = [] := hT
    subst hT0
    exact ⟨key, rfl⟩

theorem handlePaymentAddressAPDU_HashInv (env : Env) (d : List uint8_t) (w : World)
    (hinv : SessionInv w) (hp : w.pending = none) (h : HashInv env w)
    (hret : (signTxCVoteRegistration_handlePaymentAddressAPDU env d w).status =
      Status.returned) :
    HashInv env (signTxCVoteRegistration_handlePaymentAddressAPDU env d w).world := by
  rcases handlePaymentAddressAPDU_summary env d w _ rfl with
    ⟨e, he, -⟩ | ⟨W, hc, hst, ⟨pa, hH⟩, -, ho⟩
  · exact absurd (he.symm.trans hret) (by simp)
  · rw [ho] at hret ⊢
    refine runCallback_HashInv env ui_callback_fn_t.handlePaymentAddress_ui_runStep W
      (SessionInv_of_SameCore w W hinv hp hc) (hc.2.2.2.2.trans hp) (hc.1.trans hst)
      (HashInvB_busy_later env w W _ (by rw [hst]; decide) hc hH ?_
        (HashInv_idle env w hp h)) hret
    rw [hst]
    intro T hT
    obtain ⟨sk, rfl⟩ : ∃ sk, T = [HashCall.addStakingKey sk] := hT
    exact ⟨sk, pa, rfl⟩

theorem handleNonceAPDU_HashInv (env : Env) (d : List uint8_t) (w : World)
    (hinv : SessionInv w) (hp : w.pending = none) (h : HashInv env w)
    (hret : (signTxCVoteRegistration_handleNonceAPDU env d w).status = Status.returned) :
    HashInv env (signTxCVoteRegistration_handleNonceAPDU env d w).world := by
  rcases handleNonceAPDU_summary env d w _ rfl with
    ⟨e, he, -⟩ | ⟨W, hc, hst, ⟨nonce, hH⟩, -, ho⟩
  · exact absurd (he.symm.trans hret) (by simp)
  · rw [ho] at hret ⊢
    refine runCallback_HashInv env ui_callback_fn_t.handleNonce_ui_runStep W
      (SessionInv_of_SameCore w W hinv hp hc) (hc.2.2.2.2.trans hp) (hc.1.trans hst)
      (HashInvB_busy_later env w W _ (by rw [hst]; decide) hc hH ?_
        (HashInv_idle env w hp h)) hret
    rw [hst]
    intro T hT
    obtain ⟨sk, pa, rfl⟩ :
      ∃ sk pa, T = [HashCall.addStakingKey sk, HashCall.addPaymentAddress pa] := hT
    exact ⟨sk, pa, nonce, rfl⟩

theorem handleVotingPurposeAPDU_HashInv (env : Env) (d : List uint8_t) (w : World)
    (hinv : SessionInv w) (hp : w.pending = none) (h : HashInv env w)
    (hret : (signTxCVoteRegistration_handleVotingPurposeAPDU env d w).status =
      Status.returned) :
    HashInv env (signTxCVoteRegistration_handleVotingPurposeAPDU env d w).world := by
  rcases handleVotingPurposeAPDU_summary env d w _ rfl with
    ⟨e, he, -⟩ | ⟨W, hc, hst, hfmt, ⟨vp, hH⟩, -, ho⟩ | ⟨W, hc, hst, hfmt, hH, -, ho⟩
  · exact absurd (he.symm.trans hret) (by simp)
  · rw [ho] at hret ⊢
    refine runCallback_HashInv env ui_callback_fn_t.handleVotingPurpose_ui_runStep W
      (SessionInv_of_SameCore w W hinv hp hc) (hc.2.2.2.2.trans hp) (hc.1.trans hst)
      (HashInvB_busy_later env w W _ (by rw [hst]; decide) hc hH ?_
        (HashInv_idle env w hp h)) hret
    rw [hst]
    intro T hT
    obtain ⟨sk, pa, nonce, rfl⟩ :
      ∃ sk pa nonce, T = [HashCall.addStakingKey sk, HashCall.addPaymentAddress pa,
        HashCall.addNonce nonce] := hT
    refine ⟨sk, pa, nonce, vp, ?_⟩
    unfold specVotingPurposeCalls
    rw [if_pos hfmt]
  · rw [ho]
    have hWst : W.subctx.state = STATE_CVOTE_REGISTRATION_VOTING_PURPOSE := hc.1.trans hst
    rw [advanceState_of_VOTING_PURPOSE W hWst]
    have h0 := HashInv_idle env w hp h
    rw [HashInvB_later env _ w (by rw [hst]; decide)] at h0
    obtain ⟨K, T, hK, hT, hbase⟩ := h0
    rw [hst] at hT
    obtain ⟨sk, pa, nonce, rfl⟩ :
      ∃ sk pa nonce, T = [HashCall.addStakingKey sk, HashCall.addPaymentAddress pa,
        HashCall.addNonce nonce] := hT
    unfold HashInv
    have hpW : (returned (W.setState STATE_CVOTE_REGISTRATION_CONFIRM)).world.pending = none :=
      hc.2.2.2.2.trans hp
    rw [hpW]
    rw [HashInvB_later env _ _ (by simp [stateRank])]
    refine ⟨K, _, ?_, ⟨sk, pa, nonce, 0, rfl⟩, ?_⟩
    · simp only [returned_world, setState_numDelegations]
      rw [hc.2.2.1]
      exact hK
    · simp only [returned_world, setState_trace, setState_format]
      rw [hH, hc.2.1, hbase]
      unfold specVotingPurposeCalls
      rw [if_neg hfmt]
      simp

theorem handleConfirmAPDU_HashInv (env : Env) (d : List uint8_t) (w : World)
    (hinv : SessionInv w) (hp : w.pending = none) (h : HashInv env w)
    (hret : (signTxCVoteRegistration_handleConfirmAPDU env d w).status = Status.returned) :
    HashInv env (signTxCVoteRegistration_handleConfirmAPDU env d w).world := by
  rcases handleConfirmAPDU_summary env d w _ rfl with
    ⟨e, he, -⟩ | ⟨W, hc, hst, ⟨sig, hH⟩, -, ho⟩
  · exact absurd (he.symm.trans hret) (by simp)
  · rw [ho] at hret ⊢
    refine runCallback_HashInv env ui_callback_fn_t.handleConfirm_ui_runStep W
      (SessionInv_of_SameCore w W hinv hp hc) (hc.2.2.2.2.trans hp) (hc.1.trans hst)
      (HashInvB_busy_later env w W _ (by rw [hst]; decide) hc hH ?_
        (HashInv_idle env w hp h)) hret
    rw [hst]
    intro T hT
    obtain ⟨sk, pa, nonce, vp, rfl⟩ :
      ∃ sk pa nonce vp, T = [HashCall.addStakingKey sk, HashCall.addPaymentAddress pa,
        HashCall.addNonce nonce] ++ specVotingPurposeCalls env.CIP36 w.subctx.format vp := hT
    exact ⟨sk, pa, nonce, vp, sig, rfl⟩

theorem handleAPDU_HashInv (env : Env) (p2 : uint8_t) (d : List uint8_t) (w : World)
    (hinv : SessionInv w) (hp : w.pending = none) (h : HashInv env w)
    (hret : (signTxCVoteRegistration_handleAPDU env p2 d w).status = Status.returned) :
    HashInv env (signTxCVoteRegistration_handleAPDU env p2 d w).world := by
  rcases handleAPDU_cases env p2 d w with e | e | e | e | e | e | e | e | e <;>
    rw [e] at hret ⊢
  · exact absurd hret (by simp)
  · exact handleInitAPDU_HashInv env d w hinv hp h hret
  · exact handleVoteKeyAPDU_HashInv env d w hinv hp h hret
  · exact handleDelegationAPDU_HashInv env d w hinv hp h hret
  · exact handleStakingKeyAPDU_HashInv env d w hinv hp h hret
  · exact handlePaymentAddressAPDU_HashInv env d w hinv hp h hret
  · exact handleNonceAPDU_HashInv env d w hinv hp h hret
  · exact handleVotingPurposeAPDU_HashInv env d w hinv hp h hret
  · exact handleConfirmAPDU_HashInv env d w hinv hp h hret

/-- An accepted event that is not a rejection preserves the shape invariant. -/
theorem step_HashInv (env : Env) (w : World) (ev : Event) (o : Outcome)
    (hinv : SessionInv w) (h : HashInv env w) (hne : ev ≠ Event.uiReject)
    (hs : step env w ev = some o) (hret : o.status = Status.returned) :
    HashInv env o.world := by
  cases ev with
  | apdu p2 d =>
    unfold step at hs
    cases hp : w.pending with
    | none =>
      rw [hp] at hs
      cases hs
      exact handleAPDU_HashInv env p2 d w hinv hp h hret
    | some p =>
      rw [hp] at hs
      cases hs
  | uiConfirm =>
    unfold step at hs
    cases hp : w.pending with
    | none =>
      rw [hp] at hs
      cases hs
    | some p =>
      rw [hp] at hs
      cases hs
      have hpi := hinv.2.2.2.2.2.2
      unfold PendingInv at hpi
      rw [hp] at hpi
      have hb : HashInvB env true { w with pending := none } := by
        unfold HashInv at h
        rw [hp] at h
        exact h
      exact runCallback_HashInv env p.callback _ (SessionInv_clear_pending w hinv) rfl
        hpi.1 hb hret
  | uiReject => exact absurd rfl hne

/-- The fresh session has made no hash call. -/
theorem init_HashInv (env : Env) : HashInv env signTxCVoteRegistration_init := rfl

/-- Both invariants hold after every run in which every event was accepted. -/
theorem runAccepted_invariants (env : Env) (evs : List Event) :
    ∀ w w', SessionInv w → HashInv env w → runAccepted env w evs = some w' →
      SessionInv w' ∧ HashInv env w' := by
  induction evs with
  | nil =>
    intro w w' h1 h2 hr
    cases hr
    exact ⟨h1, h2⟩
  | cons ev evs ih =>
    intro w w' h1 h2 hr
    unfold runAccepted at hr
    split_ifs at hr with hrej
    cases hs : step env w ev with
    | none =>
      rw [hs] at hr
      cases hr
    | some o =>
      rw [hs] at hr
      dsimp only at hr
      cases hst : o.status with
      | thrown e =>
        rw [hst] at hr
        cases hr
      | returned =>
        rw [hst] at hr
        exact ih o.world w' (step_SessionInv env w ev o h1 hs)
          (step_HashInv env w ev o h1 h2 hrej hs hst) hr

/-! ### C11 -/

theorem advanceState_status (w : World) :
    (advanceState w).status = Status.returned ∨
    (advanceState w).status = Status.thrown Err.ERR_ASSERT := by
  unfold advanceState
  repeat' split
  all_goals simp

theorem finishStep_status (k : Nat) (o : Outcome) : (finishStep k o).status = o.status := by
  unfold finishStep
  split <;> simp [*]

theorem finishStep_advanceState_status (k : Nat) (w : World) :
    (finishStep k (advanceState w)).status = Status.returned ∨
    (finishStep k (advanceState w)).status = Status.thrown Err.ERR_ASSERT := by
  rw [finishStep_status]
  exact advanceState_status w

theorem runCallback_status (env : Env) (cb : ui_callback_fn_t) (W : World) :
    (runCallback env cb W).status = Status.returned ∨
    (runCallback env cb W).status = Status.thrown Err.ERR_ASSERT := by
  cases cb
  all_goals
    simp only [runCallback]
    first
      | unfold signTxCVoteRegistration_handleVoteKey_ui_runStep
      | unfold signTxCVoteRegistration_handleDelegation_ui_runStep
      | unfold signTxCVoteRegistration_handleStakingKey_ui_runStep
      | unfold signTxCVoteRegistration_handlePaymentAddress_ui_runStep
      | unfold signTxCVoteRegistration_handleNonce_ui_runStep
      | unfold signTxCVoteRegistration_handleVotingPurpose_ui_runStep
      | unfold signTxCVoteRegistration_handleConfirm_ui_runStep
    try unfold handleConfirm_respond
    repeat' (first | split | dsimp only)
    all_goals first
      | exact finishStep_advanceState_status _ _
      | simp

theorem not_FailedDataOrPolicy (o : Outcome)
    (h : o.status = Status.returned ∨ o.status = Status.thrown Err.ERR_ASSERT) :
    ¬ FailedDataOrPolicy o := by
  unfold FailedDataOrPolicy
  rcases h with h | h <;> simp [h]

theorem handleNonceAPDU_failure (env : Env) (d : List uint8_t) (w : World) (o : Outcome)
    (ho : signTxCVoteRegistration_handleNonceAPDU env d w = o) (hfail : FailedDataOrPolicy o) :
    LeftEarly w o.world ∧ o.world.subctx.format = w.subctx.format ∧
    o.world.subctx.numDelegations = w.subctx.numDelegations ∧
    o.world.subctx.stakingKeyPath = w.subctx.stakingKeyPath := by
  unfold signTxCVoteRegistration_handleNonceAPDU at ho
  repeat' (first | split at ho | dsimp only at ho)
  all_goals subst ho
  all_goals first
    | exact absurd hfail (not_FailedDataOrPolicy _
        (runCallback_status env ui_callback_fn_t.handleNonce_ui_runStep _))
    | exact absurd hfail (not_FailedDataOrPolicy _ (advanceState_status _))
    | (unfold LeftEarly
       exact ⟨⟨rfl, rfl, rfl, rfl, rfl, [], (List.append_nil _).symm⟩, rfl, rfl, rfl⟩)
    | (unfold LeftEarly
       exact ⟨⟨rfl, rfl, rfl, rfl, rfl, [PolicyQuery.nonce], rfl⟩, rfl, rfl, rfl⟩)
    | (exfalso; simp [FailedDataOrPolicy] at hfail)

theorem handleStakingKeyAPDU_failure (env : Env) (d : List uint8_t) (w : World) (o : Outcome)
    (ho : signTxCVoteRegistration_handleStakingKeyAPDU env d w = o) (hfail : FailedDataOrPolicy o) :
    LeftEarly w o.world ∧ o.world.subctx.format = w.subctx.format ∧
    o.world.subctx.numDelegations = w.subctx.numDelegations := by
  unfold signTxCVoteRegistration_handleStakingKeyAPDU at ho
  repeat' (first | split at ho | dsimp only at ho)
  all_goals subst ho
  all_goals first
    | exact absurd hfail (not_FailedDataOrPolicy _
        (runCallback_status env ui_callback_fn_t.handleStakingKey_ui_runStep _))
    | exact absurd hfail (not_FailedDataOrPolicy _ (advanceState_status _))
    | (unfold LeftEarly
       exact ⟨⟨rfl, rfl, rfl, rfl, rfl, [], (List.append_nil _).symm⟩, rfl, rfl⟩)
    | (unfold LeftEarly
       exact ⟨⟨rfl, rfl, rfl, rfl, rfl, [PolicyQuery.stakingKey], rfl⟩, rfl, rfl⟩)
    | (exfalso; simp [FailedDataOrPolicy] at hfail)

theorem handlePaymentAddressAPDU_failure (env : Env) (d : List uint8_t) (w : World) (o : Outcome)
    (ho : signTxCVoteRegistration_handlePaymentAddressAPDU env d w = o) (hfail : FailedDataOrPolicy o) :
    LeftEarly w o.world ∧ o.world.subctx.format = w.subctx.format ∧
    o.world.subctx.numDelegations = w.subctx.numDelegations ∧
    o.world.subctx.stakingKeyPath = w.subctx.stakingKeyPath := by
  unfold signTxCVoteRegistration_handlePaymentAddressAPDU at ho
  repeat' (first | split at ho | dsimp only at ho)
  all_goals subst ho
  all_goals first
    | exact absurd hfail (not_FailedDataOrPolicy _
        (runCallback_status env ui_callback_fn_t.handlePaymentAddress_ui_runStep _))
    | exact absurd hfail (not_FailedDataOrPolicy _ (advanceState_status _))
    | (unfold LeftEarly
       exact ⟨⟨rfl, rfl, rfl, rfl, rfl, [], (List.append_nil _).symm⟩, rfl, rfl, rfl⟩)
    | (unfold LeftEarly
       exact ⟨⟨rfl, rfl, rfl, rfl, rfl, [PolicyQuery.paymentDestination], rfl⟩, rfl, rfl, rfl⟩)
    | (exfalso; simp [FailedDataOrPolicy] at hfail)

theorem handleVotingPurposeAPDU_failure (env : Env) (d : List uint8_t) (w : World) (o : Outcome)
    (ho : signTxCVoteRegistration_handleVotingPurposeAPDU env d w = o) (hfail : FailedDataOrPolicy o) :
    LeftEarly w o.world ∧ o.world.subctx.format = w.subctx.format ∧
    o.world.subctx.numDelegations = w.subctx.numDelegations ∧
    o.world.subctx.stakingKeyPath = w.subctx.stakingKeyPath := by
  unfold signTxCVoteRegistration_handleVotingPurposeAPDU at ho
  repeat' (first | split at ho | dsimp only at ho)
  all_goals subst ho
  all_goals first
    | exact absurd hfail (not_FailedDataOrPolicy _
        (runCallback_status env ui_callback_fn_t.handleVotingPurpose_ui_runStep _))
    | exact absurd hfail (not_FailedDataOrPolicy _ (advanceState_status _))
    | (unfold LeftEarly
       exact ⟨⟨rfl, rfl, rfl, rfl, rfl, [], (List.append_nil _).symm⟩, rfl, rfl, rfl⟩)
    | (unfold LeftEarly
       exact ⟨⟨rfl, rfl, rfl, rfl, rfl, [PolicyQuery.votingPurpose], rfl⟩, rfl, rfl, rfl⟩)
    | (exfalso; simp [FailedDataOrPolicy] at hfail)

theorem handleConfirmAPDU_failure (env : Env) (d : List uint8_t) (w : World) (o : Outcome)
    (ho : signTxCVoteRegistration_handleConfirmAPDU env d w = o) (hfail : FailedDataOrPolicy o) :
    LeftEarly w o.world ∧ o.world.subctx.format = w.subctx.format ∧
    o.world.subctx.numDelegations = w.subctx.numDelegations ∧
    o.world.subctx.stakingKeyPath = w.subctx.stakingKeyPath := by
  unfold signTxCVoteRegistration_handleConfirmAPDU at ho
  repeat' (first | split at ho | dsimp only at ho)
  all_goals subst ho
  all_goals first
    | exact absurd hfail (not_FailedDataOrPolicy _
        (runCallback_status env ui_callback_fn_t.handleConfirm_ui_runStep _))
    | exact absurd hfail (not_FailedDataOrPolicy _ (advanceState_status _))
    | (unfold LeftEarly
       exact ⟨⟨rfl, rfl, rfl, rfl, rfl, [], (List.append_nil _).symm⟩, rfl, rfl, rfl⟩)
    | (unfold LeftEarly
       exact ⟨⟨rfl, rfl, rfl, rfl, rfl, [PolicyQuery.confirm], rfl⟩, rfl, rfl, rfl⟩)
    | (exfalso; simp [FailedDataOrPolicy] at hfail)

theorem handleInitAPDU_failure (env : Env) (d : List uint8_t) (w : World) (o : Outcome)
    (ho : signTxCVoteRegistration_handleInitAPDU env d w = o) (hfail : FailedDataOrPolicy o) :
    LeftEarly w o.world ∧ o.world.subctx.stakingKeyPath = w.subctx.stakingKeyPath := by
  unfold signTxCVoteRegistration_handleInitAPDU at ho
  repeat' (first | split at ho | dsimp only at ho)
  all_goals subst ho
  all_goals first
    | exact absurd hfail (not_FailedDataOrPolicy _ (advanceState_status _))
    | (unfold LeftEarly
       exact ⟨⟨rfl, rfl, rfl, rfl, rfl, [], (List.append_nil _).symm⟩, rfl⟩)

theorem handleVoteKeyAPDU_failure (env : Env) (d : List uint8_t) (w : World) (o : Outcome)
    (ho : signTxCVoteRegistration_handleVoteKeyAPDU env d w = o) (hfail : FailedDataOrPolicy o) :
    LeftEarly w o.world ∧ o.world.subctx.format = w.subctx.format ∧
    o.world.subctx.numDelegations = w.subctx.numDelegations ∧
    o.world.subctx.stakingKeyPath = w.subctx.stakingKeyPath := by
  unfold signTxCVoteRegistration_handleVoteKeyAPDU at ho
  split at ho
  · subst ho
    exact ⟨⟨rfl, rfl, rfl, rfl, rfl, [], (List.append_nil _).symm⟩, rfl, rfl, rfl⟩
  split at ho
  · subst ho
    exact ⟨⟨rfl, rfl, rfl, rfl, rfl, [], (List.append_nil _).symm⟩, rfl, rfl, rfl⟩
  dsimp only at ho
  obtain ⟨sd, hsd⟩ := parseVoteKey_frame env (make_read_view d)
    (w.setStateData stateData_t.zeroed)
  generalize _parseVoteKey env (make_read_view d) (w.setStateData stateData_t.zeroed) = r
    at ho hsd
  obtain ⟨⟨pst, pw⟩, view⟩ := r
  dsimp only at ho hsd
  subst hsd
  cases pst with
  | thrown e =>
    dsimp only at ho
    subst ho
    exact ⟨⟨rfl, rfl, rfl, rfl, rfl, [], (List.append_nil _).symm⟩, rfl, rfl, rfl⟩
  | returned =>
    dsimp only at ho
    split_ifs at ho with hrem
    · subst ho
      exact ⟨⟨rfl, rfl, rfl, rfl, rfl, [], (List.append_nil _).symm⟩, rfl, rfl, rfl⟩
    · cases hpol : _determineVoteKeyPolicy env
          ((w.setStateData stateData_t.zeroed).setStateData sd) with
      | none =>
        rw [hpol] at ho
        dsimp only at ho
        subst ho
        exact ⟨⟨rfl, rfl, rfl, rfl, rfl, [], (List.append_nil _).symm⟩, rfl, rfl, rfl⟩
      | some pr =>
        obtain ⟨policy, w3⟩ := pr
        obtain ⟨q, rfl⟩ := determineVoteKeyPolicy_frame _ _ _ _ hpol
        rw [hpol] at ho
        dsimp only at ho
        split_ifs at ho with hdeny hkey hpath
        · subst ho
          exact ⟨⟨rfl, rfl, rfl, rfl, rfl, [q], rfl⟩, rfl, rfl, rfl⟩
        all_goals
          dsimp only at ho
          try cases policy
          all_goals try dsimp only at ho
          all_goals subst ho
          all_goals first
            | exact absurd hfail (not_FailedDataOrPolicy _
                (runCallback_status env ui_callback_fn_t.handleVoteKey_ui_runStep _))
            | (exfalso; simp [FailedDataOrPolicy] at hfail)

theorem handleDelegationAPDU_failure (env : Env) (d : List uint8_t) (w : World) (o : Outcome)
    (ho : signTxCVoteRegistration_handleDelegationAPDU env d w = o)
    (hfail : FailedDataOrPolicy o) :
    LeftEarly w o.world ∧ o.world.subctx.format = w.subctx.format ∧
    o.world.subctx.numDelegations = w.subctx.numDelegations ∧
    o.world.subctx.stakingKeyPath = w.subctx.stakingKeyPath := by
  unfold signTxCVoteRegistration_handleDelegationAPDU at ho
  split at ho
  · subst ho
    exact ⟨⟨rfl, rfl, rfl, rfl, rfl, [], (List.append_nil _).symm⟩, rfl, rfl, rfl⟩
  split at ho
  · subst ho
    exact ⟨⟨rfl, rfl, rfl, rfl, rfl, [], (List.append_nil _).symm⟩, rfl, rfl, rfl⟩
  dsimp only at ho
  obtain ⟨sd, hsd⟩ := parseVoteKey_frame env (make_read_view d)
    (w.setStateData stateData_t.zeroed)
  generalize _parseVoteKey env (make_read_view d) (w.setStateData stateData_t.zeroed) = r
    at ho hsd
  obtain ⟨⟨pst, pw⟩, view⟩ := r
  dsimp only at ho hsd
  subst hsd
  cases pst with
  | thrown e =>
    dsimp only at ho
    subst ho
    exact ⟨⟨rfl, rfl, rfl, rfl, rfl, [], (List.append_nil _).symm⟩, rfl, rfl, rfl⟩
  | returned =>
    dsimp only at ho
    split at ho
    · subst ho
      exact ⟨⟨rfl, rfl, rfl, rfl, rfl, [], (List.append_nil _).symm⟩, rfl, rfl, rfl⟩
    · split_ifs at ho with hrem
      · subst ho
        exact ⟨⟨rfl, rfl, rfl, rfl, rfl, [], (List.append_nil _).symm⟩, rfl, rfl, rfl⟩
      · rename_i weight view1 hw
        cases hpol : _determineVoteKeyPolicy env
            (((w.setStateData stateData_t.zeroed).setStateData sd).setStateData
              (stateData_t.delegation
                { ((w.setStateData stateData_t.zeroed).setStateData
                    sd).subctx.stateData.getDelegation with weight := weight })) with
        | none =>
          rw [hpol] at ho
          dsimp only at ho
          subst ho
          exact ⟨⟨rfl, rfl, rfl, rfl, rfl, [], (List.append_nil _).symm⟩, rfl, rfl, rfl⟩
        | some pr =>
          obtain ⟨policy, w3⟩ := pr
          obtain ⟨q, rfl⟩ := determineVoteKeyPolicy_frame _ _ _ _ hpol
          rw [hpol] at ho
          dsimp only at ho
          split_ifs at ho with hdeny hkey hpath
          · subst ho
            exact ⟨⟨rfl, rfl, rfl, rfl, rfl, [q], rfl⟩, rfl, rfl, rfl⟩
          all_goals
            dsimp only at ho
            try cases policy
            all_goals try dsimp only at ho
            all_goals subst ho
            all_goals first
              | exact absurd hfail (not_FailedDataOrPolicy _
                  (runCallback_status env ui_callback_fn_t.handleDelegation_ui_runStep _))
              | (exfalso; simp [FailedDataOrPolicy] at hfail)

theorem handleAPDU_failure (env : Env) (p2 : uint8_t) (d : List uint8_t) (w : World)
    (hfail : FailedDataOrPolicy (signTxCVoteRegistration_handleAPDU env p2 d w)) :
    LeftEarly w (signTxCVoteRegistration_handleAPDU env p2 d w).world := by
  rcases handleAPDU_cases env p2 d w with h | h | h | h | h | h | h | h | h
  all_goals rw [h] at hfail ⊢
  · exact absurd hfail (not_FailedDataOrPolicy _ (Or.inr rfl))
  · exact (handleInitAPDU_failure env d w _ rfl hfail).1
  · exact (handleVoteKeyAPDU_failure env d w _ rfl hfail).1
  · exact (handleDelegationAPDU_failure env d w _ rfl hfail).1
  · exact (handleStakingKeyAPDU_failure env d w _ rfl hfail).1
  · exact (handlePaymentAddressAPDU_failure env d w _ rfl hfail).1
  · exact (handleNonceAPDU_failure env d w _ rfl hfail).1
  · exact (handleVotingPurposeAPDU_failure env d w _ rfl hfail).1
  · exact (handleConfirmAPDU_failure env d w _ rfl hfail).1

@[simp] theorem signCalls_append (a b : List Effect) :
    signCalls (a ++ b) = signCalls a ++ signCalls b := by
  simp [signCalls]

theorem policy_only_projections (qs : List PolicyQuery) :
    hashCalls (qs.map Effect.policy) = [] ∧ signCalls (qs.map Effect.policy) = [] ∧
    responses (qs.map Effect.policy) = [] ∧ screens (qs.map Effect.policy) = [] := by
  induction qs with
  | nil => exact ⟨rfl, rfl, rfl, rfl⟩
  | cons q qs ih =>
    refine ⟨?_, ?_, ?_, ?_⟩
    · simp [hashCalls, Effect.asHash]
    · simp [signCalls, Effect.asSign]
    · simp [responses, Effect.asResponse]
    · simp [screens, Effect.asScreen]

/-- C11: a command that fails with a data-invalid error or with a policy denial has
made no hash-accumulator call and no signing request, has sent no response and shown
no screen, and has left the state where it was; all it logged are policy
consultations.  This holds for every instruction code, every payload and every
session. -/
theorem handleAPDU_data_or_policy_failure (env : Env) (p2 : uint8_t) (wireData : List uint8_t)
    (w : World)
    (hfail :
      (signTxCVoteRegistration_handleAPDU env p2 wireData w).status =
          Status.thrown Err.ERR_INVALID_DATA ∨
      (signTxCVoteRegistration_handleAPDU env p2 wireData w).status =
          Status.thrown Err.ERR_REJECTED_BY_POLICY) :
    hashCalls (signTxCVoteRegistration_handleAPDU env p2 wireData w).world.trace =
      hashCalls w.trace ∧
    signCalls (signTxCVoteRegistration_handleAPDU env p2 wireData w).world.trace =
      signCalls w.trace ∧
    responses (signTxCVoteRegistration_handleAPDU env p2 wireData w).world.trace =
      responses w.trace ∧
    screens (signTxCVoteRegistration_handleAPDU env p2 wireData w).world.trace =
      screens w.trace ∧
    (signTxCVoteRegistration_handleAPDU env p2 wireData w).world.subctx.state =
      w.subctx.state ∧
    (signTxCVoteRegistration_handleAPDU env p2 wireData w).world.pending = w.pending ∧
    ∃ qs : List PolicyQuery,
      (signTxCVoteRegistration_handleAPDU env p2 wireData w).world.trace =
        w.trace ++ qs.map Effect.policy := by
  obtain ⟨hst, _, _, _, hp, qs, ht⟩ := handleAPDU_failure env p2 wireData w hfail
  obtain ⟨h1, h2, h3, h4⟩ := policy_only_projections qs
  refine ⟨?_, ?_, ?_, ?_, hst, hp, qs, ht⟩
  · rw [ht, hashCalls_append, h1, List.append_nil]
  · rw [ht, signCalls_append, h2, List.append_nil]
  · rw [ht, responses_append, h3, List.append_nil]
  · rw [ht]
    simp [screens, List.filterMap_append] at h4 ⊢
    exact h4

/-- C11 at scenario D: with a staking-key policy that denies, the StakingKey command
fails with the denial and the hash-accumulator calls are those made before it. -/
theorem handleAPDU_data_or_policy_failure_witness :
    (signTxCVoteRegistration_handleAPDU sampleEnvDenyStakingKey 0x31 [2, 1, 2]
        stakingKeyWorld).status = Status.thrown Err.ERR_REJECTED_BY_POLICY ∧
    hashCalls (signTxCVoteRegistration_handleAPDU sampleEnvDenyStakingKey 0x31 [2, 1, 2]
        stakingKeyWorld).world.trace = hashCalls stakingKeyWorld.trace :=
  ⟨rfl, (handleAPDU_data_or_policy_failure sampleEnvDenyStakingKey 0x31 [2, 1, 2]
    stakingKeyWorld (Or.inr rfl)).1⟩


/-! ### C12 -/

/-- C12 fails as stated: in a fresh session the Init payload `CIP15, 1 delegation` is
refused with a data-invalid error, yet `format` and `numDelegations` hold the parsed
values afterwards; and a StakingKey payload with one byte too many is refused with a
data-invalid error, yet `stakingKeyPath` holds the parsed path afterwards. -/
theorem data_error_fields_counterexample :
    (signTxCVoteRegistration_handleAPDU sampleEnv 0x36 [1, 0, 0, 0, 1]
        signTxCVoteRegistration_init).status = Status.thrown Err.ERR_INVALID_DATA ∧
    signTxCVoteRegistration_init.subctx.format = 0 ∧
    signTxCVoteRegistration_init.subctx.numDelegations = 0 ∧
    (signTxCVoteRegistration_handleAPDU sampleEnv 0x36 [1, 0, 0, 0, 1]
        signTxCVoteRegistration_init).world.subctx.format = 1 ∧
    (signTxCVoteRegistration_handleAPDU sampleEnv 0x36 [1, 0, 0, 0, 1]
        signTxCVoteRegistration_init).world.subctx.numDelegations = 1 ∧
    (signTxCVoteRegistration_handleAPDU sampleEnv 0x31 [1, 9, 0] stakingKeyWorld).status =
      Status.thrown Err.ERR_INVALID_DATA ∧
    stakingKeyWorld.subctx.stakingKeyPath = [] ∧
    (signTxCVoteRegistration_handleAPDU sampleEnv 0x31 [1, 9, 0]
        stakingKeyWorld).world.subctx.stakingKeyPath = [9] := by
  refine ⟨rfl, rfl, rfl, rfl, rfl, rfl, rfl, rfl⟩

theorem handleAPDU_by_code (env : Env) (p2 : uint8_t) (d : List uint8_t) (w : World) :
    signTxCVoteRegistration_handleAPDU env p2 d w = THROW Err.ERR_ASSERT w ∨
    (p2.val = APDU_INSTRUCTION_INIT ∧ signTxCVoteRegistration_handleAPDU env p2 d w =
      signTxCVoteRegistration_handleInitAPDU env d w) ∨
    (p2.val = APDU_INSTRUCTION_VOTE_KEY ∧ signTxCVoteRegistration_handleAPDU env p2 d w =
      signTxCVoteRegistration_handleVoteKeyAPDU env d w) ∨
    (p2.val = APDU_INSTRUCTION_DELEGATION ∧ signTxCVoteRegistration_handleAPDU env p2 d w =
      signTxCVoteRegistration_handleDelegationAPDU env d w) ∨
    (p2.val = APDU_INSTRUCTION_STAKING_KEY ∧ signTxCVoteRegistration_handleAPDU env p2 d w =
      signTxCVoteRegistration_handleStakingKeyAPDU env d w) ∨
    (p2.val = APDU_INSTRUCTION_PAYMENT_ADDRESS ∧
      signTxCVoteRegistration_handleAPDU env p2 d w =
        signTxCVoteRegistration_handlePaymentAddressAPDU env d w) ∨
    (p2.val = APDU_INSTRUCTION_NONCE ∧ signTxCVoteRegistration_handleAPDU env p2 d w =
      signTxCVoteRegistration_handleNonceAPDU env d w) ∨
    (p2.val = APDU_INSTRUCTION_VOTING_PURPOSE ∧
      signTxCVoteRegistration_handleAPDU env p2 d w =
        signTxCVoteRegistration_handleVotingPurposeAPDU env d w) ∨
    (p2.val = APDU_INSTRUCTION_CONFIRM ∧ signTxCVoteRegistration_handleAPDU env p2 d w =
      signTxCVoteRegistration_handleConfirmAPDU env d w) := by
  unfold signTxCVoteRegistration_handleAPDU
  split_ifs
  all_goals first
    | exact Or.inl rfl
    | exact Or.inr (Or.inl ⟨by assumption, rfl⟩)
    | exact Or.inr (Or.inr (Or.inl ⟨by assumption, rfl⟩))
    | exact Or.inr (Or.inr (Or.inr (Or.inl ⟨by assumption, rfl⟩)))
    | exact Or.inr (Or.inr (Or.inr (Or.inr (Or.inl ⟨by assumption, rfl⟩))))
    | exact Or.inr (Or.inr (Or.inr (Or.inr (Or.inr (Or.inl ⟨by assumption, rfl⟩)))))
    | exact Or.inr (Or.inr (Or.inr (Or.inr (Or.inr (Or.inr (Or.inl ⟨by assumption, rfl⟩))))))
    | exact Or.inr (Or.inr (Or.inr (Or.inr (Or.inr (Or.inr (Or.inr
        (Or.inl ⟨by assumption, rfl⟩)))))))
    | exact Or.inr (Or.inr (Or.inr (Or.inr (Or.inr (Or.inr (Or.inr
        (Or.inr ⟨by assumption, rfl⟩)))))))

/-- C12, amended: a command that fails with a data-invalid error leaves the state, the
delegation counter, the UI step, the stored hash and the screen in flight as they
were and logs nothing but policy consultations; `format` and `numDelegations` are as
before unless the command is Init, and `stakingKeyPath` is as before unless the
command is StakingKey. -/
theorem handleAPDU_data_error_fields (env : Env) (p2 : uint8_t) (wireData : List uint8_t)
    (w : World)
    (hfail : (signTxCVoteRegistration_handleAPDU env p2 wireData w).status =
      Status.thrown Err.ERR_INVALID_DATA) :
    LeftEarly w (signTxCVoteRegistration_handleAPDU env p2 wireData w).world ∧
    (signTxCVoteRegistration_handleAPDU env p2 wireData w).world.subctx.state =
      w.subctx.state ∧
    (signTxCVoteRegistration_handleAPDU env p2 wireData w).world.subctx.currentDelegation =
      w.subctx.currentDelegation ∧
    (p2.val ≠ APDU_INSTRUCTION_INIT →
      (signTxCVoteRegistration_handleAPDU env p2 wireData w).world.subctx.format =
        w.subctx.format ∧
      (signTxCVoteRegistration_handleAPDU env p2 wireData w).world.subctx.numDelegations =
        w.subctx.numDelegations) ∧
    (p2.val ≠ APDU_INSTRUCTION_STAKING_KEY →
      (signTxCVoteRegistration_handleAPDU env p2 wireData w).world.subctx.stakingKeyPath =
        w.subctx.stakingKeyPath) := by
  have hf : FailedDataOrPolicy (signTxCVoteRegistration_handleAPDU env p2 wireData w) :=
    Or.inl hfail
  have hearly := handleAPDU_failure env p2 wireData w hf
  refine ⟨hearly, hearly.1, hearly.2.2.1, ?_, ?_⟩
  · intro hne
    rcases handleAPDU_by_code env p2 wireData w with
      e | ⟨c, e⟩ | ⟨_, e⟩ | ⟨_, e⟩ | ⟨_, e⟩ | ⟨_, e⟩ | ⟨_, e⟩ | ⟨_, e⟩ | ⟨_, e⟩
    all_goals rw [e] at hf ⊢
    · exact ⟨rfl, rfl⟩
    · exact absurd c hne
    · exact ⟨(handleVoteKeyAPDU_failure env wireData w _ rfl hf).2.1,
        (handleVoteKeyAPDU_failure env wireData w _ rfl hf).2.2.1⟩
    · exact ⟨(handleDelegationAPDU_failure env wireData w _ rfl hf).2.1,
        (handleDelegationAPDU_failure env wireData w _ rfl hf).2.2.1⟩
    · exact ⟨(handleStakingKeyAPDU_failure env wireData w _ rfl hf).2.1,
        (handleStakingKeyAPDU_failure env wireData w _ rfl hf).2.2⟩
    · exact ⟨(handlePaymentAddressAPDU_failure env wireData w _ rfl hf).2.1,
        (handlePaymentAddressAPDU_failure env wireData w _ rfl hf).2.2.1⟩
    · exact ⟨(handleNonceAPDU_failure env wireData w _ rfl hf).2.1,
        (handleNonceAPDU_failure env wireData w _ rfl hf).2.2.1⟩
    · exact ⟨(handleVotingPurposeAPDU_failure env wireData w _ rfl hf).2.1,
        (handleVotingPurposeAPDU_failure env wireData w _ rfl hf).2.2.1⟩
    · exact ⟨(handleConfirmAPDU_failure env wireData w _ rfl hf).2.1,
        (handleConfirmAPDU_failure env wireData w _ rfl hf).2.2.1⟩
  · intro hne
    rcases handleAPDU_by_code env p2 wireData w with
      e | ⟨_, e⟩ | ⟨_, e⟩ | ⟨_, e⟩ | ⟨c, e⟩ | ⟨_, e⟩ | ⟨_, e⟩ | ⟨_, e⟩ | ⟨_, e⟩
    all_goals rw [e] at hf ⊢
    · rfl
    · exact (handleInitAPDU_failure env wireData w _ rfl hf).2
    · exact (handleVoteKeyAPDU_failure env wireData w _ rfl hf).2.2.2
    · exact (handleDelegationAPDU_failure env wireData w _ rfl hf).2.2.2
    · exact absurd c hne
    · exact (handlePaymentAddressAPDU_failure env wireData w _ rfl hf).2.2.2
    · exact (handleNonceAPDU_failure env wireData w _ rfl hf).2.2.2
    · exact (handleVotingPurposeAPDU_failure env wireData w _ rfl hf).2.2.2
    · exact (handleConfirmAPDU_failure env wireData w _ rfl hf).2.2.2

/-- C12, amended, at a Nonce payload of seven bytes: the command fails with a
data-invalid error and the state is still Nonce. -/
theorem handleAPDU_data_error_fields_witness :
    (signTxCVoteRegistration_handleAPDU sampleEnv 0x33 [0, 0, 0, 0, 0, 0, 1]
        (runEvents sampleEnv signTxCVoteRegistration_init
          (sampleCommandsToNonce 2).dropLast)).status = Status.thrown Err.ERR_INVALID_DATA ∧
    (signTxCVoteRegistration_handleAPDU sampleEnv 0x33 [0, 0, 0, 0, 0, 0, 1]
        (runEvents sampleEnv signTxCVoteRegistration_init
          (sampleCommandsToNonce 2).dropLast)).world.subctx.state =
      STATE_CVOTE_REGISTRATION_NONCE :=
  ⟨rfl, ((handleAPDU_data_error_fields sampleEnv 0x33 [0, 0, 0, 0, 0, 0, 1]
    (runEvents sampleEnv signTxCVoteRegistration_init (sampleCommandsToNonce 2).dropLast)
    rfl).2.1).trans rfl⟩


/-! ### C13 -/

theorem handleVoteKey_ui_runStep_frame (env : Env) (W : World)
    (hst : W.subctx.state = STATE_CVOTE_REGISTRATION_VOTE_KEY) :
    DriverFrame ui_callback_fn_t.handleVoteKey_ui_runStep W
      (signTxCVoteRegistration_handleVoteKey_ui_runStep env W).world := by
  unfold signTxCVoteRegistration_handleVoteKey_ui_runStep
  repeat' (first | split | dsimp only)
  all_goals first
    | (rename_i hd
       obtain ⟨s, rfl⟩ := displayVoteKey_frame _ _ _ _ hd
       simp [DriverFrame, hashCalls, signCalls, responses, Effect.asHash, Effect.asSign,
         Effect.asResponse])
    | simp [DriverFrame, advanceState, hst, hashCalls, signCalls, responses,
        Effect.asHash, Effect.asSign, Effect.asResponse, Response.hasPayload]

theorem handleDelegation_ui_runStep_frame (env : Env) (W : World)
    (hst : W.subctx.state = STATE_CVOTE_REGISTRATION_DELEGATIONS) :
    DriverFrame ui_callback_fn_t.handleDelegation_ui_runStep W
      (signTxCVoteRegistration_handleDelegation_ui_runStep env W).world := by
  unfold signTxCVoteRegistration_handleDelegation_ui_runStep
  repeat' (first | split | dsimp only)
  all_goals first
    | (rename_i hd
       obtain ⟨s, rfl⟩ := displayVoteKey_frame _ _ _ _ hd
       simp [DriverFrame, hashCalls, signCalls, responses, Effect.asHash, Effect.asSign,
         Effect.asResponse])
    | (rename_i h
       rw [advanceState_of_DELEGATIONS _ (by simpa using hst) h]
       simp [DriverFrame, hashCalls, signCalls, responses, Effect.asHash, Effect.asSign,
         Effect.asResponse, Response.hasPayload])
    | simp [DriverFrame, advanceState, hst, hashCalls, signCalls, responses,
        Effect.asHash, Effect.asSign, Effect.asResponse, Response.hasPayload]

theorem handleStakingKey_ui_runStep_frame (W : World)
    (hst : W.subctx.state = STATE_CVOTE_REGISTRATION_STAKING_KEY) :
    DriverFrame ui_callback_fn_t.handleStakingKey_ui_runStep W
      (signTxCVoteRegistration_handleStakingKey_ui_runStep W).world := by
  unfold signTxCVoteRegistration_handleStakingKey_ui_runStep
  repeat' (first | split | dsimp only)
  all_goals simp [DriverFrame, advanceState, hst, hashCalls, signCalls, responses,
    Effect.asHash, Effect.asSign, Effect.asResponse, Response.hasPayload]

theorem handlePaymentAddress_ui_runStep_frame (env : Env) (W : World)
    (hst : W.subctx.state = STATE_CVOTE_REGISTRATION_PAYMENT_ADDRESS) :
    DriverFrame ui_callback_fn_t.handlePaymentAddress_ui_runStep W
      (signTxCVoteRegistration_handlePaymentAddress_ui_runStep env W).world := by
  unfold signTxCVoteRegistration_handlePaymentAddress_ui_runStep
  repeat' (first | split | dsimp only)
  all_goals simp [DriverFrame, advanceState, hst, hashCalls, signCalls, responses,
    Effect.asHash, Effect.asSign, Effect.asResponse, Response.hasPayload]

theorem handleNonce_ui_runStep_frame (W : World)
    (hst : W.subctx.state = STATE_CVOTE_REGISTRATION_NONCE) :
    DriverFrame ui_callback_fn_t.handleNonce_ui_runStep W
      (signTxCVoteRegistration_handleNonce_ui_runStep W).world := by
  unfold signTxCVoteRegistration_handleNonce_ui_runStep
  repeat' (first | split | dsimp only)
  all_goals simp [DriverFrame, advanceState, hst, hashCalls, signCalls, responses,
    Effect.asHash, Effect.asSign, Effect.asResponse, Response.hasPayload]

theorem handleVotingPurpose_ui_runStep_frame (W : World)
    (hst : W.subctx.state = STATE_CVOTE_REGISTRATION_VOTING_PURPOSE) :
    DriverFrame ui_callback_fn_t.handleVotingPurpose_ui_runStep W
      (signTxCVoteRegistration_handleVotingPurpose_ui_runStep W).world := by
  unfold signTxCVoteRegistration_handleVotingPurpose_ui_runStep
  repeat' (first | split | dsimp only)
  all_goals simp [DriverFrame, advanceState, hst, hashCalls, signCalls, responses,
    Effect.asHash, Effect.asSign, Effect.asResponse, Response.hasPayload]

theorem handleConfirm_ui_runStep_frame (env : Env) (W : World)
    (hst : W.subctx.state = STATE_CVOTE_REGISTRATION_CONFIRM) :
    DriverFrame ui_callback_fn_t.handleConfirm_ui_runStep W
      (signTxCVoteRegistration_handleConfirm_ui_runStep env W).world := by
  unfold signTxCVoteRegistration_handleConfirm_ui_runStep
  repeat' (first | split | dsimp only)
  all_goals simp [DriverFrame, handleConfirm_respond, advanceState, hst, hashCalls, signCalls, responses,
    Effect.asHash, Effect.asSign, Effect.asResponse, Response.hasPayload]

theorem runCallback_frame (env : Env) (cb : ui_callback_fn_t) (W : World)
    (hst : W.subctx.state = driverState cb) :
    DriverFrame cb W (runCallback env cb W).world := by
  cases cb
  · exact handleVoteKey_ui_runStep_frame env W hst
  · exact handleDelegation_ui_runStep_frame env W hst
  · exact handleStakingKey_ui_runStep_frame W hst
  · exact handlePaymentAddress_ui_runStep_frame env W hst
  · exact handleNonce_ui_runStep_frame W hst
  · exact handleVotingPurpose_ui_runStep_frame W hst
  · exact handleConfirm_ui_runStep_frame env W hst

theorem StepFrame_refl (w : World) : StepFrame w w :=
  ⟨fun _ => ⟨rfl, rfl⟩, [], (List.append_nil _).symm, by simp, by simp⟩

theorem StepFrame_of_DriverFrame (w W W' : World) (cb : ui_callback_fn_t)
    (h1 : W.subctx.format = w.subctx.format)
    (h2 : W.subctx.numDelegations = w.subctx.numDelegations)
    (hpre : ∃ pre, W.trace = w.trace ++ pre ∧
      (∀ c ∈ hashCalls pre, c.isDelegationCall = true →
        w.subctx.state = STATE_CVOTE_REGISTRATION_INIT ∨
        w.subctx.state = STATE_CVOTE_REGISTRATION_DELEGATIONS) ∧
      responses pre = [])
    (hcb : cb = ui_callback_fn_t.handleConfirm_ui_runStep →
      w.subctx.state = STATE_CVOTE_REGISTRATION_CONFIRM)
    (hd : DriverFrame cb W W') : StepFrame w W' := by
  obtain ⟨pre, hpre, hpreH, hpreR⟩ := hpre
  obtain ⟨d1, d2, ext, ht, hh, _, hr⟩ := hd
  refine ⟨fun _ => ⟨d1.trans h1, d2.trans h2⟩, pre ++ ext, ?_, ?_, ?_⟩
  · rw [ht, hpre, List.append_assoc]
  · intro c hc hdel
    rw [hashCalls_append, hh, List.append_nil] at hc
    exact hpreH c hc hdel
  · intro r hrm hpay
    rw [responses_append, hpreR, List.nil_append] at hrm
    exact hcb (hr r hrm hpay)

theorem handleNonceAPDU_frame (env : Env) (d : List uint8_t) (w : World) :
    StepFrame w (signTxCVoteRegistration_handleNonceAPDU env d w).world := by
  unfold signTxCVoteRegistration_handleNonceAPDU
  by_cases hstate : w.subctx.state = STATE_CVOTE_REGISTRATION_NONCE
  swap
  · rw [if_pos hstate]
    exact StepFrame_refl w
  rw [if_neg (not_not.mpr hstate)]
  repeat' (first | split | dsimp only)
  all_goals first
    | exact StepFrame_refl w
    | (refine StepFrame_of_DriverFrame w _ _ ui_callback_fn_t.handleNonce_ui_runStep
         (by simp) (by simp) ?_ (by simp [hstate])
         (handleNonce_ui_runStep_frame _
           (by simpa using hstate))
       simp [hashCalls, responses, Effect.asHash, Effect.asResponse,
         HashCall.isDelegationCall])
    | simp [StepFrame, advanceState, hstate, hashCalls, responses, Effect.asHash,
        Effect.asResponse, HashCall.isDelegationCall, Response.hasPayload]

theorem handleStakingKeyAPDU_frame (env : Env) (d : List uint8_t) (w : World) :
    StepFrame w (signTxCVoteRegistration_handleStakingKeyAPDU env d w).world := by
  unfold signTxCVoteRegistration_handleStakingKeyAPDU
  by_cases hstate : w.subctx.state = STATE_CVOTE_REGISTRATION_STAKING_KEY
  swap
  · rw [if_pos hstate]
    exact StepFrame_refl w
  rw [if_neg (not_not.mpr hstate)]
  repeat' (first | split | dsimp only)
  all_goals first
    | exact StepFrame_refl w
    | (refine StepFrame_of_DriverFrame w _ _ ui_callback_fn_t.handleStakingKey_ui_runStep
         (by simp) (by simp) ?_ (by simp [hstate])
         (handleStakingKey_ui_runStep_frame _
           (by simpa using hstate))
       simp [hashCalls, responses, Effect.asHash, Effect.asResponse,
         HashCall.isDelegationCall])
    | simp [StepFrame, advanceState, hstate, hashCalls, responses, Effect.asHash,
        Effect.asResponse, HashCall.isDelegationCall, Response.hasPayload]

theorem handlePaymentAddressAPDU_frame (env : Env) (d : List uint8_t) (w : World) :
    StepFrame w (signTxCVoteRegistration_handlePaymentAddressAPDU env d w).world := by
  unfold signTxCVoteRegistration_handlePaymentAddressAPDU
  by_cases hstate : w.subctx.state = STATE_CVOTE_REGISTRATION_PAYMENT_ADDRESS
  swap
  · rw [if_pos hstate]
    exact StepFrame_refl w
  rw [if_neg (not_not.mpr hstate)]
  repeat' (first | split | dsimp only)
  all_goals first
    | exact StepFrame_refl w
    | (refine StepFrame_of_DriverFrame w _ _ ui_callback_fn_t.handlePaymentAddress_ui_runStep
         (by simp) (by simp) ?_ (by simp [hstate])
         (handlePaymentAddress_ui_runStep_frame env _
           (by simpa using hstate))
       simp [hashCalls, responses, Effect.asHash, Effect.asResponse,
         HashCall.isDelegationCall])
    | simp [StepFrame, advanceState, hstate, hashCalls, responses, Effect.asHash,
        Effect.asResponse, HashCall.isDelegationCall, Response.hasPayload]

theorem handleVotingPurposeAPDU_frame (env : Env) (d : List uint8_t) (w : World) :
    StepFrame w (signTxCVoteRegistration_handleVotingPurposeAPDU env d w).world := by
  unfold signTxCVoteRegistration_handleVotingPurposeAPDU
  by_cases hstate : w.subctx.state = STATE_CVOTE_REGISTRATION_VOTING_PURPOSE
  swap
  · rw [if_pos hstate]
    exact StepFrame_refl w
  rw [if_neg (not_not.mpr hstate)]
  repeat' (first | split | dsimp only)
  all_goals first
    | exact StepFrame_refl w
    | (refine StepFrame_of_DriverFrame w _ _ ui_callback_fn_t.handleVotingPurpose_ui_runStep
         (by simp) (by simp) ?_ (by simp [hstate])
         (handleVotingPurpose_ui_runStep_frame _
           (by simpa using hstate))
       simp [hashCalls, responses, Effect.asHash, Effect.asResponse,
         HashCall.isDelegationCall])
    | simp [StepFrame, advanceState, hstate, hashCalls, responses, Effect.asHash,
        Effect.asResponse, HashCall.isDelegationCall, Response.hasPayload]

theorem handleConfirmAPDU_frame (env : Env) (d : List uint8_t) (w : World) :
    StepFrame w (signTxCVoteRegistration_handleConfirmAPDU env d w).world := by
  unfold signTxCVoteRegistration_handleConfirmAPDU
  by_cases hstate : w.subctx.state = STATE_CVOTE_REGISTRATION_CONFIRM
  swap
  · rw [if_pos hstate]
    exact StepFrame_refl w
  rw [if_neg (not_not.mpr hstate)]
  repeat' (first | split | dsimp only)
  all_goals first
    | exact StepFrame_refl w
    | (refine StepFrame_of_DriverFrame w _ _ ui_callback_fn_t.handleConfirm_ui_runStep
         (by simp) (by simp) ?_ (by simp [hstate])
         (handleConfirm_ui_runStep_frame env _
           (by simpa using hstate))
       simp [hashCalls, responses, Effect.asHash, Effect.asResponse,
         HashCall.isDelegationCall]
       first
         | exact ⟨rfl, rfl, rfl, rfl⟩
         | (intro c
            refine ⟨?_, ?_, ?_, ?_⟩ <;>
              (intro h; subst h; first | rfl | (intro h2; cases h2))))
    | (simp [StepFrame, advanceState, hstate, hashCalls, responses, Effect.asHash,
        Effect.asResponse, HashCall.isDelegationCall, Response.hasPayload]
       first
         | exact ⟨rfl, rfl, rfl, rfl⟩
         | (intro c
            refine ⟨?_, ?_, ?_, ?_⟩ <;>
              (intro h; subst h; rfl)))
    | simp [StepFrame, advanceState, hstate, hashCalls, responses, Effect.asHash,
        Effect.asResponse, HashCall.isDelegationCall, Response.hasPayload]

theorem handleVoteKeyAPDU_frame (env : Env) (d : List uint8_t) (w : World) :
    StepFrame w (signTxCVoteRegistration_handleVoteKeyAPDU env d w).world := by
  generalize ho : signTxCVoteRegistration_handleVoteKeyAPDU env d w = o
  unfold signTxCVoteRegistration_handleVoteKeyAPDU at ho
  by_cases hstate : w.subctx.state = STATE_CVOTE_REGISTRATION_VOTE_KEY
  swap
  · rw [if_pos hstate] at ho
    subst ho
    exact StepFrame_refl w
  by_cases hlen : d.length < env.BUFFER_SIZE_PARANOIA
  swap
  · rw [if_neg (not_not.mpr hstate), if_pos hlen] at ho
    subst ho
    exact StepFrame_refl w
  rw [if_neg (not_not.mpr hstate), if_neg (not_not.mpr hlen)] at ho
  dsimp only at ho
  obtain ⟨sd, hsd⟩ := parseVoteKey_frame env (make_read_view d)
    (w.setStateData stateData_t.zeroed)
  generalize _parseVoteKey env (make_read_view d) (w.setStateData stateData_t.zeroed) = r
    at ho hsd
  obtain ⟨⟨pst, pw⟩, view⟩ := r
  dsimp only at ho hsd
  subst hsd
  cases pst with
  | thrown e =>
    dsimp only at ho
    subst ho
    simp [StepFrame]
  | returned =>
    dsimp only at ho
    split_ifs at ho with hrem
    · subst ho
      simp [StepFrame]
    · cases hpol : _determineVoteKeyPolicy env
          ((w.setStateData stateData_t.zeroed).setStateData sd) with
      | none =>
        rw [hpol] at ho
        dsimp only at ho
        subst ho
        simp [StepFrame]
      | some pr =>
        obtain ⟨policy, w3⟩ := pr
        obtain ⟨q, rfl⟩ := determineVoteKeyPolicy_frame _ _ _ _ hpol
        rw [hpol] at ho
        dsimp only at ho
        split_ifs at ho with hdeny hkey hpath
        · subst ho
          simp [StepFrame, hashCalls, responses, Effect.asHash, Effect.asResponse]
        · dsimp only at ho
          cases policy
          all_goals dsimp only at ho
          all_goals subst ho
          · exact absurd rfl hdeny
          · refine StepFrame_of_DriverFrame w _ _ ui_callback_fn_t.handleVoteKey_ui_runStep
              (by simp) (by simp) ?_ (by simp [hstate])
              (handleVoteKey_ui_runStep_frame env _ (by simpa using hstate))
            simp [hashCalls, responses, Effect.asHash, Effect.asResponse,
              HashCall.isDelegationCall]
          · simp [StepFrame, hashCalls, responses, Effect.asHash, Effect.asResponse,
              HashCall.isDelegationCall, Response.hasPayload]
          · refine StepFrame_of_DriverFrame w _ _ ui_callback_fn_t.handleVoteKey_ui_runStep
              (by simp) (by simp) ?_ (by simp [hstate])
              (handleVoteKey_ui_runStep_frame env _ (by simpa using hstate))
            simp [hashCalls, responses, Effect.asHash, Effect.asResponse,
              HashCall.isDelegationCall]
          · refine StepFrame_of_DriverFrame w _ _ ui_callback_fn_t.handleVoteKey_ui_runStep
              (by simp) (by simp) ?_ (by simp [hstate])
              (handleVoteKey_ui_runStep_frame env _ (by simpa using hstate))
            simp [hashCalls, responses, Effect.asHash, Effect.asResponse,
              HashCall.isDelegationCall]
        · dsimp only at ho
          cases policy
          all_goals dsimp only at ho
          all_goals subst ho
          · exact absurd rfl hdeny
          · refine StepFrame_of_DriverFrame w _ _ ui_callback_fn_t.handleVoteKey_ui_runStep
              (by simp) (by simp) ?_ (by simp [hstate])
              (handleVoteKey_ui_runStep_frame env _ (by simpa using hstate))
            simp [hashCalls, responses, Effect.asHash, Effect.asResponse,
              HashCall.isDelegationCall]
          · simp [StepFrame, hashCalls, responses, Effect.asHash, Effect.asResponse,
              HashCall.isDelegationCall, Response.hasPayload]
          · refine StepFrame_of_DriverFrame w _ _ ui_callback_fn_t.handleVoteKey_ui_runStep
              (by simp) (by simp) ?_ (by simp [hstate])
              (handleVoteKey_ui_runStep_frame env _ (by simpa using hstate))
            simp [hashCalls, responses, Effect.asHash, Effect.asResponse,
              HashCall.isDelegationCall]
          · refine StepFrame_of_DriverFrame w _ _ ui_callback_fn_t.handleVoteKey_ui_runStep
              (by simp) (by simp) ?_ (by simp [hstate])
              (handleVoteKey_ui_runStep_frame env _ (by simpa using hstate))
            simp [hashCalls, responses, Effect.asHash, Effect.asResponse,
              HashCall.isDelegationCall]
        · subst ho
          simp [StepFrame, hashCalls, responses, Effect.asHash, Effect.asResponse]

theorem handleDelegationAPDU_frame (env : Env) (d : List uint8_t) (w : World) :
    StepFrame w (signTxCVoteRegistration_handleDelegationAPDU env d w).world := by
  generalize ho : signTxCVoteRegistration_handleDelegationAPDU env d w = o
  unfold signTxCVoteRegistration_handleDelegationAPDU at ho
  by_cases hstate : w.subctx.state = STATE_CVOTE_REGISTRATION_DELEGATIONS
  swap
  · rw [if_pos hstate] at ho
    subst ho
    exact StepFrame_refl w
  by_cases hcur : w.subctx.currentDelegation < w.subctx.numDelegations
  swap
  · rw [if_neg (not_not.mpr hstate), if_pos hcur] at ho
    subst ho
    exact StepFrame_refl w
  rw [if_neg (not_not.mpr hstate), if_neg (not_not.mpr hcur)] at ho
  dsimp only at ho
  obtain ⟨sd, hsd⟩ := parseVoteKey_frame env (make_read_view d)
    (w.setStateData stateData_t.zeroed)
  generalize _parseVoteKey env (make_read_view d) (w.setStateData stateData_t.zeroed) = r
    at ho hsd
  obtain ⟨⟨pst, pw⟩, view⟩ := r
  dsimp only at ho hsd
  subst hsd
  cases pst with
  | thrown e =>
    dsimp only at ho
    subst ho
    simp [StepFrame]
  | returned =>
    dsimp only at ho
    split at ho
    · subst ho
      simp [StepFrame]
    · split_ifs at ho with hrem
      · subst ho
        simp [StepFrame]
      · rename_i weight view1 hw
        cases hpol : _determineVoteKeyPolicy env
            (((w.setStateData stateData_t.zeroed).setStateData sd).setStateData
              (stateData_t.delegation
                { ((w.setStateData stateData_t.zeroed).setStateData
                    sd).subctx.stateData.getDelegation with weight := weight })) with
        | none =>
          rw [hpol] at ho
          dsimp only at ho
          subst ho
          simp [StepFrame]
        | some pr =>
          obtain ⟨policy, w3⟩ := pr
          obtain ⟨q, rfl⟩ := determineVoteKeyPolicy_frame _ _ _ _ hpol
          rw [hpol] at ho
          dsimp only at ho
          split_ifs at ho with hdeny hkey hpath
          · subst ho
            simp [StepFrame, hashCalls, responses, Effect.asHash, Effect.asResponse]
          · dsimp only at ho
            cases policy
            all_goals dsimp only at ho
            all_goals subst ho
            · exact absurd rfl hdeny
            · refine StepFrame_of_DriverFrame w _ _ ui_callback_fn_t.handleDelegation_ui_runStep
                (by simp) (by simp) ?_ (by simp [hstate])
                (handleDelegation_ui_runStep_frame env _ (by simpa using hstate))
              simp [hashCalls, responses, Effect.asHash, Effect.asResponse, hstate]
            · simp [StepFrame, hashCalls, responses, Effect.asHash, Effect.asResponse,
                hstate, Response.hasPayload]
            · refine StepFrame_of_DriverFrame w _ _ ui_callback_fn_t.handleDelegation_ui_runStep
                (by simp) (by simp) ?_ (by simp [hstate])
                (handleDelegation_ui_runStep_frame env _ (by simpa using hstate))
              simp [hashCalls, responses, Effect.asHash, Effect.asResponse, hstate]
            · refine StepFrame_of_DriverFrame w _ _ ui_callback_fn_t.handleDelegation_ui_runStep
                (by simp) (by simp) ?_ (by simp [hstate])
                (handleDelegation_ui_runStep_frame env _ (by simpa using hstate))
              simp [hashCalls, responses, Effect.asHash, Effect.asResponse, hstate]
          · dsimp only at ho
            cases policy
            all_goals dsimp only at ho
            all_goals subst ho
            · exact absurd rfl hdeny
            · refine StepFrame_of_DriverFrame w _ _ ui_callback_fn_t.handleDelegation_ui_runStep
                (by simp) (by simp) ?_ (by simp [hstate])
                (handleDelegation_ui_runStep_frame env _ (by simpa using hstate))
              simp [hashCalls, responses, Effect.asHash, Effect.asResponse, hstate]
            · simp [StepFrame, hashCalls, responses, Effect.asHash, Effect.asResponse,
                hstate, Response.hasPayload]
            · refine StepFrame_of_DriverFrame w _ _ ui_callback_fn_t.handleDelegation_ui_runStep
                (by simp) (by simp) ?_ (by simp [hstate])
                (handleDelegation_ui_runStep_frame env _ (by simpa using hstate))
              simp [hashCalls, responses, Effect.asHash, Effect.asResponse, hstate]
            · refine StepFrame_of_DriverFrame w _ _ ui_callback_fn_t.handleDelegation_ui_runStep
                (by simp) (by simp) ?_ (by simp [hstate])
                (handleDelegation_ui_runStep_frame env _ (by simpa using hstate))
              simp [hashCalls, responses, Effect.asHash, Effect.asResponse, hstate]
          · subst ho
            simp [StepFrame, hashCalls, responses, Effect.asHash, Effect.asResponse]

theorem handleInitAPDU_frame (env : Env) (d : List uint8_t) (w : World) :
    StepFrame w (signTxCVoteRegistration_handleInitAPDU env d w).world := by
  unfold signTxCVoteRegistration_handleInitAPDU
  by_cases hstate : w.subctx.state = STATE_CVOTE_REGISTRATION_INIT
  swap
  · rw [if_pos hstate]
    exact StepFrame_refl w
  rw [if_neg (not_not.mpr hstate)]
  repeat' (first | split | dsimp only)
  all_goals first
    | exact StepFrame_refl w
    | (simp only [advanceState, setNumDelegations_state, setFormat_state, setStateData_state,
         emit_subctx, respondSuccessEmptyMsg_subctx, hstate]
       split_ifs <;>
         simp [StepFrame, hstate, hashCalls, responses, Effect.asHash, Effect.asResponse,
           Response.hasPayload])
    | simp [StepFrame, hstate]

theorem handleAPDU_frame (env : Env) (p2 : uint8_t) (d : List uint8_t) (w : World) :
    StepFrame w (signTxCVoteRegistration_handleAPDU env p2 d w).world := by
  rcases handleAPDU_cases env p2 d w with e | e | e | e | e | e | e | e | e <;> rw [e]
  · exact StepFrame_refl w
  · exact handleInitAPDU_frame env d w
  · exact handleVoteKeyAPDU_frame env d w
  · exact handleDelegationAPDU_frame env d w
  · exact handleStakingKeyAPDU_frame env d w
  · exact handlePaymentAddressAPDU_frame env d w
  · exact handleNonceAPDU_frame env d w
  · exact handleVotingPurposeAPDU_frame env d w
  · exact handleConfirmAPDU_frame env d w

theorem step_frame (env : Env) (w : World) (ev : Event) (o : Outcome) (hinv : SessionInv w)
    (hs : step env w ev = some o) : StepFrame w o.world := by
  cases ev with
  | apdu p2 d =>
    simp only [step] at hs
    split at hs
    · cases hs
      exact handleAPDU_frame env p2 d w
    · cases hs
  | uiConfirm =>
    simp only [step] at hs
    split at hs
    · cases hs
    · rename_i p hp
      cases hs
      have hpi : PendingInv w := hinv.2.2.2.2.2.2
      simp only [PendingInv, hp] at hpi
      have hd := runCallback_frame env p.callback { w with pending := none } hpi.1
      obtain ⟨d1, d2, ext, ht, hh, _, hr⟩ := hd
      refine ⟨fun _ => ⟨d1, d2⟩, ext, ht, ?_, ?_⟩
      · intro c hc
        rw [hh] at hc
        cases hc
      · intro r hrm hpay
        have hcb := hr r hrm hpay
        rw [hcb] at hpi
        exact hpi.1
  | uiReject =>
    simp only [step] at hs
    split at hs
    · cases hs
    · split_ifs at hs
      cases hs
      simp [StepFrame, respond_with_user_reject, Operation.abort, Operation.trace, World.emit,
        hashCalls, responses, Effect.asHash, Effect.asResponse, Response.hasPayload]

theorem step_rank_le (env : Env) (w : World) (ev : Event) (o : Outcome)
    (hs : step env w ev = some o) :
    stateRank w.subctx.state ≤ stateRank o.world.subctx.state := by
  have key : o.world.subctx.state = w.subctx.state ∨
      MovedForward w.subctx.state o.world.subctx.state := by
    cases ev with
    | apdu p2 d =>
      unfold step at hs
      cases hp : w.pending with
      | none =>
        rw [hp] at hs
        cases hs
        exact handleAPDU_forward env p2 d w
      | some p =>
        rw [hp] at hs
        cases hs
    | uiConfirm =>
      unfold step at hs
      cases hp : w.pending with
      | none =>
        rw [hp] at hs
        cases hs
      | some p =>
        rw [hp] at hs
        cases hs
        exact runCallback_forward env p.callback { w with pending := none }
    | uiReject =>
      unfold step at hs
      cases hp : w.pending with
      | none =>
        rw [hp] at hs
        cases hs
      | some p =>
        rw [hp] at hs
        dsimp only at hs
        split_ifs at hs
        cases hs
        exact Or.inl rfl
  rcases key with h | h
  · rw [h]
  · exact Nat.le_of_lt h.1

theorem stateRank_eq_zero (s : sign_tx_cvote_registration_state_t) :
    stateRank s = 0 ↔ s = STATE_CVOTE_REGISTRATION_INIT := by
  cases s <;> simp [stateRank]

theorem handleAPDU_from_INIT (env : Env) (p2 : uint8_t) (d : List uint8_t) (w : World)
    (hst : w.subctx.state = STATE_CVOTE_REGISTRATION_INIT) :
    (signTxCVoteRegistration_handleAPDU env p2 d w).world = w ∨
    signTxCVoteRegistration_handleAPDU env p2 d w =
      signTxCVoteRegistration_handleInitAPDU env d w := by
  rcases handleAPDU_cases env p2 d w with e | e | e | e | e | e | e | e | e
  · exact Or.inl (by rw [e]; rfl)
  · exact Or.inr e
  · exact Or.inl (by rw [e, handleVoteKeyAPDU_wrong_state env d w (by rw [hst]; decide)]; rfl)
  · exact Or.inl (by
      rw [e, handleDelegationAPDU_wrong_state env d w (by rw [hst]; decide)]; rfl)
  · exact Or.inl (by
      rw [e, handleStakingKeyAPDU_wrong_state env d w (by rw [hst]; decide)]; rfl)
  · exact Or.inl (by
      rw [e, handlePaymentAddressAPDU_wrong_state env d w (by rw [hst]; decide)]; rfl)
  · exact Or.inl (by rw [e, handleNonceAPDU_wrong_state env d w (by rw [hst]; decide)]; rfl)
  · exact Or.inl (by
      rw [e, handleVotingPurposeAPDU_wrong_state env d w (by rw [hst]; decide)]; rfl)
  · exact Or.inl (by rw [e, handleConfirmAPDU_wrong_state env d w (by rw [hst]; decide)]; rfl)

theorem step_Cip15Inv (env : Env) (w : World) (ev : Event) (o : Outcome)
    (hinv : SessionInv w) (h : Cip15Inv env w) (hs : step env w ev = some o) :
    Cip15Inv env o.world := by
  have hrank := step_rank_le env w ev o hs
  by_cases hst : w.subctx.state = STATE_CVOTE_REGISTRATION_INIT
  · have hnil := h.1 hst
    have hpi : PendingInv w := hinv.2.2.2.2.2.2
    cases hp : w.pending with
    | some p =>
      simp only [PendingInv, hp] at hpi
      have h1 := hpi.1
      rw [hst] at h1
      generalize p.callback = cb at h1
      cases cb <;> simp [driverState] at h1
    | none =>
      cases ev with
      | uiConfirm => simp [step, hp] at hs
      | uiReject => simp [step, hp] at hs
      | apdu p2 d =>
        simp only [step, hp] at hs
        cases hs
        rcases handleAPDU_from_INIT env p2 d w hst with e | e
        · rw [e]
          exact h
        · rw [e]
          cases hret : (signTxCVoteRegistration_handleInitAPDU env d w).status with
          | returned =>
            obtain ⟨f, a, b, c, d', _, _, _, hfmt, hn, hcip, hstate, _, _, htr⟩ :=
              handleInitAPDU_accepted env w d _ rfl hret
            have hne : (signTxCVoteRegistration_handleInitAPDU env d w).world.subctx.state ≠
                STATE_CVOTE_REGISTRATION_INIT := by
              rw [hstate]
              split_ifs <;> decide
            refine ⟨fun h0 => absurd h0 hne, fun _ hc15 => ?_⟩
            have hz := hcip (hfmt.symm.trans hc15)
            refine ⟨hz, ?_⟩
            rw [htr, hz]
            simp [hnil, HashCall.isDelegationCall]
          | thrown err =>
            rcases handleInitAPDU_thrown env d w _ rfl with hr | ⟨h1, _, _, h4, _⟩
            · rw [hret] at hr
              cases hr
            · refine ⟨fun _ => by rw [h4]; exact hnil, fun hne => absurd (h1.trans hst) hne⟩
  · have hne : o.world.subctx.state ≠ STATE_CVOTE_REGISTRATION_INIT := by
      intro h0
      rw [h0] at hrank
      have : stateRank w.subctx.state = 0 := Nat.le_zero.mp hrank
      exact hst ((stateRank_eq_zero _).mp this)
    obtain ⟨hfn, ext, ht, hh, _⟩ := step_frame env w ev o hinv hs
    obtain ⟨hf, hn⟩ := hfn hst
    refine ⟨fun h0 => absurd h0 hne, fun _ hc15 => ?_⟩
    obtain ⟨hz, hold⟩ := h.2 hst (hf.symm.trans hc15)
    refine ⟨hn.trans hz, ?_⟩
    intro c hc
    rw [ht, hashCalls_append, List.mem_append] at hc
    rcases hc with hc | hc
    · exact hold c hc
    · cases hdel : c.isDelegationCall with
      | false => rfl
      | true =>
        exfalso
        rcases hh c hc hdel with h0 | h0
        · exact hst h0
        · have := hinv.2.2.2.2.1 h0
          omega

theorem init_Cip15Inv (env : Env) : Cip15Inv env signTxCVoteRegistration_init :=
  ⟨fun _ => rfl, fun h => absurd rfl h⟩

theorem Reachable_Cip15Inv (env : Env) (w : World) (h : Reachable env w) :
    Cip15Inv env w := by
  induction h with
  | init => exact init_Cip15Inv env
  | step w ev o hw hs ih => exact step_Cip15Inv env w ev o (Reachable_SessionInv env w hw) ih hs

/-- C13: in every session reachable from `signTxCVoteRegistration_init` that has left
the Init state (the state is left only when an Init command is accepted) and whose
format is CIP15, no delegation is declared, the state is not Delegations, and the
hash accumulator has received neither `enterDelegations` nor `addDelegation`. -/
theorem reachable_cip15_no_delegations (env : Env) (w : World) (h : Reachable env w)
    (hleft : w.subctx.state ≠ STATE_CVOTE_REGISTRATION_INIT)
    (hfmt : w.subctx.format = env.CIP15) :
    w.subctx.numDelegations = 0 ∧
    w.subctx.state ≠ STATE_CVOTE_REGISTRATION_DELEGATIONS ∧
    (∀ n, HashCall.enterDelegations n ∉ hashCalls w.trace) ∧
    (∀ key weight, HashCall.addDelegation key weight ∉ hashCalls w.trace) := by
  obtain ⟨hz, hno⟩ := (Reachable_Cip15Inv env w h).2 hleft hfmt
  have hinv := Reachable_SessionInv env w h
  refine ⟨hz, ?_, ?_, ?_⟩
  · intro hd
    have := hinv.2.2.2.2.1 hd
    omega
  · intro n hm
    have := hno _ hm
    simp [HashCall.isDelegationCall] at this
  · intro key weight hm
    have := hno _ hm
    simp [HashCall.isDelegationCall] at this

/-- C13 on a CIP15 session of the sample environment that has been driven up to the
VotingPurpose state. -/
theorem reachable_cip15_no_delegations_witness :
    cip15VotingPurposeWorld.subctx.numDelegations = 0 ∧
    cip15VotingPurposeWorld.subctx.state ≠ STATE_CVOTE_REGISTRATION_DELEGATIONS ∧
    (∀ n, HashCall.enterDelegations n ∉ hashCalls cip15VotingPurposeWorld.trace) ∧
    (∀ key weight, HashCall.addDelegation key weight ∉
      hashCalls cip15VotingPurposeWorld.trace) :=
  reachable_cip15_no_delegations sampleEnv cip15VotingPurposeWorld
    (Reachable_runEvents sampleEnv (sampleCommandsToNonce 1) _ (Reachable.init))
    (by decide) rfl


/-! ### C14 -/

theorem fixed_length (n : Nat) (l : List uint8_t) : (fixed n l).length = n := by
  simp [fixed]

theorem fixed_of_length (n : Nat) (l : List uint8_t) (h : l.length = n) : fixed n l = l := by
  unfold fixed
  rw [List.take_append_of_le_length (le_of_eq h.symm), List.take_of_length_le (le_of_eq h)]

theorem fixed_fixed (n : Nat) (l : List uint8_t) : fixed n (fixed n l) = fixed n l :=
  fixed_of_length n _ (fixed_length n l)

theorem handleConfirmAPDU_signed (env : Env) (w : World)
    (hst : w.subctx.state = STATE_CVOTE_REGISTRATION_CONFIRM)
    (hlen : 0 < env.BUFFER_SIZE_PARANOIA)
    (hnd : env.policyForCVoteRegistrationConfirm ≠ POLICY_DENY) :
    signTxCVoteRegistration_handleConfirmAPDU env [] w =
      match env.policyForCVoteRegistrationConfirm with
      | POLICY_PROMPT_BEFORE_RESPONSE =>
        signTxCVoteRegistration_handleConfirm_ui_runStep env
          ((confirmSigned env w).setUiStep HANDLE_CONFIRM_STEP_FINAL_CONFIRM)
      | POLICY_ALLOW_WITHOUT_PROMPT =>
        signTxCVoteRegistration_handleConfirm_ui_runStep env
          ((confirmSigned env w).setUiStep HANDLE_CONFIRM_STEP_RESPOND)
      | _ => THROW Err.ERR_NOT_IMPLEMENTED (confirmSigned env w) := by
  unfold signTxCVoteRegistration_handleConfirmAPDU
  simp only [hst, ne_eq, not_true_eq_false, if_false, List.length_nil, hlen, hnd]
  have key : ∀ W : World, W = confirmSigned env w →
      (match env.policyForCVoteRegistrationConfirm with
        | POLICY_PROMPT_BEFORE_RESPONSE =>
          signTxCVoteRegistration_handleConfirm_ui_runStep env
            (W.setUiStep HANDLE_CONFIRM_STEP_FINAL_CONFIRM)
        | POLICY_ALLOW_WITHOUT_PROMPT =>
          signTxCVoteRegistration_handleConfirm_ui_runStep env
            (W.setUiStep HANDLE_CONFIRM_STEP_RESPOND)
        | _ => THROW Err.ERR_NOT_IMPLEMENTED W) =
      (match env.policyForCVoteRegistrationConfirm with
        | POLICY_PROMPT_BEFORE_RESPONSE =>
          signTxCVoteRegistration_handleConfirm_ui_runStep env
            ((confirmSigned env w).setUiStep HANDLE_CONFIRM_STEP_FINAL_CONFIRM)
        | POLICY_ALLOW_WITHOUT_PROMPT =>
          signTxCVoteRegistration_handleConfirm_ui_runStep env
            ((confirmSigned env w).setUiStep HANDLE_CONFIRM_STEP_RESPOND)
        | _ => THROW Err.ERR_NOT_IMPLEMENTED (confirmSigned env w)) := by
    intro W hW
    rw [hW]
  apply key
  obtain ⟨⟨st, ui, f, n, c, sk, ah, sd⟩, t, p⟩ := w
  simp [World.setStateData, World.emit, World.setAuxDataHash, confirmSigned, confirmSignature,
    confirmPayloadHash, confirmAuxDataHash]

theorem handleConfirm_respond_of_CONFIRM (env : Env) (X : World)
    (hst : X.subctx.state = STATE_CVOTE_REGISTRATION_CONFIRM) :
    handleConfirm_respond env X =
      returned (((X.emit (Effect.respond (Response.success
        (fixed env.AUX_DATA_HASH_LENGTH X.subctx.auxDataHash ++
          fixed env.ED25519_SIGNATURE_LENGTH
            X.subctx.stateData.getRegistrationSignature)))).setState
        STATE_CVOTE_REGISTRATION_FINISHED).setUiStep HANDLE_CONFIRM_STEP_INVALID) := by
  unfold handleConfirm_respond
  dsimp only
  rw [advanceState_of_CONFIRM _ (by simpa using hst)]
  rfl

theorem handleConfirm_ui_runStep_at_RESPOND (env : Env) (X : World)
    (hstep : X.subctx.ui_step = HANDLE_CONFIRM_STEP_RESPOND) :
    signTxCVoteRegistration_handleConfirm_ui_runStep env X = handleConfirm_respond env X := by
  unfold signTxCVoteRegistration_handleConfirm_ui_runStep
  simp [hstep, HANDLE_CONFIRM_STEP_RESPOND, HANDLE_CONFIRM_STEP_FINAL_CONFIRM,
    HANDLE_CONFIRM_STEP_DISPLAY_HASH]

theorem handleConfirm_ui_runStep_at_FINAL_CONFIRM (env : Env) (X : World)
    (hstep : X.subctx.ui_step = HANDLE_CONFIRM_STEP_FINAL_CONFIRM) :
    signTxCVoteRegistration_handleConfirm_ui_runStep env X =
      returned ((X.display (Screen.prompt "Confirm vote key" "registration?")
        ui_callback_fn_t.handleConfirm_ui_runStep true).setUiStep
        HANDLE_CONFIRM_STEP_DISPLAY_HASH) := by
  unfold signTxCVoteRegistration_handleConfirm_ui_runStep
  simp [hstep]

theorem handleConfirm_ui_runStep_at_DISPLAY_HASH (env : Env) (X : World)
    (hstep : X.subctx.ui_step = HANDLE_CONFIRM_STEP_DISPLAY_HASH) :
    signTxCVoteRegistration_handleConfirm_ui_runStep env X =
      if env.app_mode_expert = false then
        handleConfirm_respond env (X.setUiStep HANDLE_CONFIRM_STEP_RESPOND)
      else
        returned ((X.display (Screen.hexBuffer "Auxiliary data hash"
          (fixed env.AUX_DATA_HASH_LENGTH X.subctx.auxDataHash))
          ui_callback_fn_t.handleConfirm_ui_runStep false).setUiStep
          HANDLE_CONFIRM_STEP_RESPOND) := by
  unfold signTxCVoteRegistration_handleConfirm_ui_runStep
  simp [hstep, HANDLE_CONFIRM_STEP_FINAL_CONFIRM, HANDLE_CONFIRM_STEP_DISPLAY_HASH]

theorem runAccepted_cons_returned (env : Env) (w W : World) (ev : Event) (evs : List Event)
    (hne : ev ≠ Event.uiReject) (hs : step env w ev = some (returned W)) :
    runAccepted env w (ev :: evs) = runAccepted env W evs := by
  rw [runAccepted, if_neg hne, hs]
  rfl

theorem step_apdu_Confirm (env : Env) (w : World) (hp : w.pending = none)
    (hlen : 0 < env.BUFFER_SIZE_PARANOIA) :
    step env w (Event.apdu 0x34 []) =
      some (signTxCVoteRegistration_handleConfirmAPDU env [] w) := by
  rw [step, hp]
  exact congrArg some (handleAPDU_dispatch_Confirm env 0x34 [] w hlen rfl)

theorem step_uiConfirm (env : Env) (w : World) (p : PendingScreen) (hp : w.pending = some p) :
    step env w Event.uiConfirm = some (runCallback env p.callback { w with pending := none }) := by
  rw [step, hp]

theorem confirmFinished_ALLOW (env : Env) (w : World) (hp : w.pending = none)
    (hpol : env.policyForCVoteRegistrationConfirm = POLICY_ALLOW_WITHOUT_PROMPT) :
    ((((confirmSigned env w).setUiStep HANDLE_CONFIRM_STEP_RESPOND).emit
        (Effect.respond (Response.success
          (fixed env.AUX_DATA_HASH_LENGTH
              ((confirmSigned env w).setUiStep HANDLE_CONFIRM_STEP_RESPOND).subctx.auxDataHash ++
            fixed env.ED25519_SIGNATURE_LENGTH
              ((confirmSigned env w).setUiStep
                HANDLE_CONFIRM_STEP_RESPOND).subctx.stateData.getRegistrationSignature)))).setState
        STATE_CVOTE_REGISTRATION_FINISHED).setUiStep HANDLE_CONFIRM_STEP_INVALID =
      confirmFinished env w := by
  obtain ⟨⟨st, ui, f, n, c, sk, ah, sd⟩, t, p⟩ := w
  simp only at hp
  subst hp
  simp [World.setUiStep, World.emit, World.setState, confirmSigned, confirmFinished,
    confirmScreens, confirmResponse, hpol, confirmAuxDataHash, confirmSignature, fixed_fixed]

theorem confirm_run_ALLOW (env : Env) (w : World)
    (hst : w.subctx.state = STATE_CVOTE_REGISTRATION_CONFIRM) (hp : w.pending = none)
    (hlen : 0 < env.BUFFER_SIZE_PARANOIA)
    (hpol : env.policyForCVoteRegistrationConfirm = POLICY_ALLOW_WITHOUT_PROMPT) :
    runAccepted env w (confirmEvents env) = some (confirmFinished env w) := by
  have he : confirmEvents env = [Event.apdu 0x34 []] := by simp [confirmEvents, hpol]
  have hs : step env w (Event.apdu 0x34 []) = some (returned (confirmFinished env w)) := by
    rw [step_apdu_Confirm env w hp hlen,
      handleConfirmAPDU_signed env w hst hlen (by rw [hpol]; decide)]
    simp only [hpol]
    rw [handleConfirm_ui_runStep_at_RESPOND _ _ rfl,
      handleConfirm_respond_of_CONFIRM _ _ (by simpa [confirmSigned] using hst),
      confirmFinished_ALLOW env w hp hpol]
  rw [he, runAccepted_cons_returned env w _ _ _ (by decide) hs, runAccepted]

theorem step_apdu_Confirm_PROMPT (env : Env) (w : World)
    (hst : w.subctx.state = STATE_CVOTE_REGISTRATION_CONFIRM) (hp : w.pending = none)
    (hlen : 0 < env.BUFFER_SIZE_PARANOIA)
    (hpol : env.policyForCVoteRegistrationConfirm = POLICY_PROMPT_BEFORE_RESPONSE) :
    step env w (Event.apdu 0x34 []) = some (returned (confirmPrompted env w)) := by
  rw [step_apdu_Confirm env w hp hlen,
    handleConfirmAPDU_signed env w hst hlen (by rw [hpol]; decide)]
  simp only [hpol]
  rw [handleConfirm_ui_runStep_at_FINAL_CONFIRM _ _ rfl]
  rfl

theorem step_uiConfirm_prompted (env : Env) (w : World)
    (hst : w.subctx.state = STATE_CVOTE_REGISTRATION_CONFIRM)
    (hpol : env.policyForCVoteRegistrationConfirm = POLICY_PROMPT_BEFORE_RESPONSE) :
    step env (confirmPrompted env w) Event.uiConfirm =
      some (returned (if env.app_mode_expert = true then confirmHashShown env w
        else confirmFinished env w)) := by
  rw [step_uiConfirm env (confirmPrompted env w)
    ⟨ui_callback_fn_t.handleConfirm_ui_runStep, true⟩ rfl]
  simp only [runCallback]
  rw [handleConfirm_ui_runStep_at_DISPLAY_HASH _ _ rfl]
  cases hexp : env.app_mode_expert with
  | true =>
    simp only [Bool.true_eq_false, if_false, if_true]
    congr 2
    obtain ⟨⟨st, ui, f, n, c, sk, ah, sd⟩, t, p⟩ := w
    simp [confirmHashShown, confirmPrompted, confirmSigned, World.display, World.setUiStep,
      confirmAuxDataHash, fixed_fixed]
  | false =>
    simp only [if_true, Bool.false_eq_true, if_false]
    rw [handleConfirm_respond_of_CONFIRM _ _ (by simpa [confirmPrompted, confirmSigned] using hst)]
    congr 2
    obtain ⟨⟨st, ui, f, n, c, sk, ah, sd⟩, t, p⟩ := w
    simp [confirmFinished, confirmPrompted, confirmSigned, World.display, World.setUiStep,
      World.emit, World.setState, confirmScreens, confirmResponse, hpol, hexp,
      confirmAuxDataHash, confirmSignature, fixed_fixed]

theorem step_uiConfirm_hashShown (env : Env) (w : World)
    (hst : w.subctx.state = STATE_CVOTE_REGISTRATION_CONFIRM)
    (hpol : env.policyForCVoteRegistrationConfirm = POLICY_PROMPT_BEFORE_RESPONSE)
    (hexp : env.app_mode_expert = true) :
    step env (confirmHashShown env w) Event.uiConfirm =
      some (returned (confirmFinished env w)) := by
  rw [step_uiConfirm env (confirmHashShown env w)
    ⟨ui_callback_fn_t.handleConfirm_ui_runStep, false⟩ rfl]
  simp only [runCallback]
  rw [handleConfirm_ui_runStep_at_RESPOND _ _ rfl,
    handleConfirm_respond_of_CONFIRM _ _
      (by simpa [confirmHashShown, confirmPrompted, confirmSigned] using hst)]
  congr 2
  obtain ⟨⟨st, ui, f, n, c, sk, ah, sd⟩, t, p⟩ := w
  simp [confirmFinished, confirmHashShown, confirmPrompted, confirmSigned, World.display,
    World.setUiStep, World.emit, World.setState, confirmScreens, confirmResponse, hpol, hexp,
    confirmAuxDataHash, confirmSignature, fixed_fixed]

theorem confirm_run (env : Env) (w : World)
    (hst : w.subctx.state = STATE_CVOTE_REGISTRATION_CONFIRM) (hp : w.pending = none)
    (hlen : 0 < env.BUFFER_SIZE_PARANOIA)
    (hpol : env.policyForCVoteRegistrationConfirm = POLICY_ALLOW_WITHOUT_PROMPT ∨
      env.policyForCVoteRegistrationConfirm = POLICY_PROMPT_BEFORE_RESPONSE) :
    runAccepted env w (confirmEvents env) = some (confirmFinished env w) := by
  rcases hpol with hpol | hpol
  · exact confirm_run_ALLOW env w hst hp hlen hpol
  · cases hexp : env.app_mode_expert with
    | true =>
      have he : confirmEvents env =
          [Event.apdu 0x34 [], Event.uiConfirm, Event.uiConfirm] := by
        simp [confirmEvents, hpol, hexp]
      have h2 := step_uiConfirm_prompted env w hst hpol
      simp only [hexp, if_true, Bool.false_eq_true, if_false] at h2
      rw [he, runAccepted_cons_returned env w _ _ _ (by decide)
          (step_apdu_Confirm_PROMPT env w hst hp hlen hpol),
        runAccepted_cons_returned env _ _ _ _ (by decide) h2,
        runAccepted_cons_returned env _ _ _ _ (by decide)
          (step_uiConfirm_hashShown env w hst hpol hexp), runAccepted]
    | false =>
      have he : confirmEvents env = [Event.apdu 0x34 [], Event.uiConfirm] := by
        simp [confirmEvents, hpol, hexp]
      have h2 := step_uiConfirm_prompted env w hst hpol
      simp only [hexp, if_true, Bool.false_eq_true, if_false] at h2
      rw [he, runAccepted_cons_returned env w _ _ _ (by decide)
          (step_apdu_Confirm_PROMPT env w hst hp hlen hpol),
        runAccepted_cons_returned env _ _ _ _ (by decide) h2, runAccepted]

theorem confirmFinished_projections (env : Env) (w : World) :
    (confirmFinished env w).subctx.state = STATE_CVOTE_REGISTRATION_FINISHED ∧
    responses (confirmFinished env w).trace = responses w.trace ++ [confirmResponse env w] ∧
    hashCalls (confirmFinished env w).trace =
      hashCalls w.trace ++
        [HashCall.finalizePayload, HashCall.addSignature (confirmSignature env w),
         HashCall.addAuxiliaryScripts, HashCall.finalize] ∧
    signCalls (confirmFinished env w).trace =
      signCalls w.trace ++ [(w.subctx.stakingKeyPath, confirmPayloadHash env w)] ∧
    screens (confirmFinished env w).trace = screens w.trace ++ screens (confirmScreens env w) := by
  refine ⟨rfl, ?_, ?_, ?_, ?_⟩
  · unfold confirmFinished confirmSigned confirmScreens
    split_ifs <;> simp [responses, Effect.asResponse]
  · unfold confirmFinished confirmSigned confirmScreens
    split_ifs <;> simp [hashCalls, Effect.asHash]
  · unfold confirmFinished confirmSigned confirmScreens
    split_ifs <;> simp [signCalls, Effect.asSign]
  · unfold confirmFinished confirmSigned confirmScreens
    split_ifs <;> simp [screens, Effect.asScreen]

/-- C14: in a session in the Confirm state with no screen in flight, the Confirm command
with an empty payload under a supported non-deny policy, followed by the user's
confirmations the policy asks for, runs to completion: the state becomes Finished and
the one response sent is the auxiliary data hash (`AUX_DATA_HASH_LENGTH` bytes)
followed by the signature (`ED25519_SIGNATURE_LENGTH` bytes), where the signature is
`sign(stakingKeyPath, payloadHash)`, `payloadHash` is the result of `finalizePayload`,
and the hash is the result of `finalize` taken after `addSignature(signature)` and
`addAuxiliaryScripts`.  And no event of a reachable session outside the Confirm state
sends a response with a payload. -/
theorem confirm_completion_response (env : Env) (w : World)
    (hst : w.subctx.state = STATE_CVOTE_REGISTRATION_CONFIRM) (hp : w.pending = none)
    (hlen : 0 < env.BUFFER_SIZE_PARANOIA)
    (hpol : env.policyForCVoteRegistrationConfirm = POLICY_ALLOW_WITHOUT_PROMPT ∨
      env.policyForCVoteRegistrationConfirm = POLICY_PROMPT_BEFORE_RESPONSE) :
    (∃ W, runAccepted env w (confirmEvents env) = some W ∧
      W.subctx.state = STATE_CVOTE_REGISTRATION_FINISHED ∧
      responses W.trace = responses w.trace ++
        [Response.success (confirmAuxDataHash env w ++ confirmSignature env w)] ∧
      hashCalls W.trace = hashCalls w.trace ++
        [HashCall.finalizePayload, HashCall.addSignature (confirmSignature env w),
         HashCall.addAuxiliaryScripts, HashCall.finalize] ∧
      signCalls W.trace =
        signCalls w.trace ++ [(w.subctx.stakingKeyPath, confirmPayloadHash env w)]) ∧
    (confirmAuxDataHash env w).length = env.AUX_DATA_HASH_LENGTH ∧
    (confirmSignature env w).length = env.ED25519_SIGNATURE_LENGTH ∧
    confirmSignature env w = fixed env.ED25519_SIGNATURE_LENGTH
      (env.getCVoteRegistrationSignature w.subctx.stakingKeyPath (confirmPayloadHash env w)) ∧
    confirmAuxDataHash env w = fixed env.AUX_DATA_HASH_LENGTH
      (env.finalizeDigest (hashCalls w.trace ++
        [HashCall.finalizePayload, HashCall.addSignature (confirmSignature env w),
         HashCall.addAuxiliaryScripts])) ∧
    (∀ v ev o, Reachable env v → step env v ev = some o →
      v.subctx.state ≠ STATE_CVOTE_REGISTRATION_CONFIRM →
      ∃ ext, o.world.trace = v.trace ++ ext ∧
        ∀ r ∈ responses ext, r = Response.successEmpty ∨ r = Response.userReject) := by
  obtain ⟨h1, h2, h3, h4, _⟩ := confirmFinished_projections env w
  refine ⟨⟨confirmFinished env w, confirm_run env w hst hp hlen hpol, h1, h2, h3, h4⟩,
    fixed_length _ _, fixed_length _ _, rfl, rfl, ?_⟩
  intro v ev o hv hs hne
  obtain ⟨_, ext, ht, _, hr⟩ := step_frame env v ev o (Reachable_SessionInv env v hv) hs
  refine ⟨ext, ht, fun r hrm => ?_⟩
  cases r with
  | successEmpty => exact Or.inl rfl
  | userReject => exact Or.inr rfl
  | success data => exact absurd (hr _ hrm rfl) hne

/-- C14 on the sample session: the Confirm command completes, the state is Finished,
and the response is 32 bytes of hash followed by 64 bytes of signature. -/
theorem confirm_completion_response_witness :
    (∃ W, runAccepted sampleEnv sampleConfirmWorld (confirmEvents sampleEnv) = some W ∧
      W.subctx.state = STATE_CVOTE_REGISTRATION_FINISHED ∧
      responses W.trace = responses sampleConfirmWorld.trace ++
        [Response.success (confirmAuxDataHash sampleEnv sampleConfirmWorld ++
          confirmSignature sampleEnv sampleConfirmWorld)]) ∧
    (confirmAuxDataHash sampleEnv sampleConfirmWorld).length = 32 ∧
    (confirmSignature sampleEnv sampleConfirmWorld).length = 64 := by
  obtain ⟨⟨W, h1, h2, h3, _⟩, h4, h5, _⟩ :=
    confirm_completion_response sampleEnv sampleConfirmWorld rfl rfl (by decide)
      (Or.inl rfl)
  exact ⟨⟨W, h1, h2, h3⟩, h4, h5⟩


/-! ### C15 -/

theorem advanceState_pending (w : World) : (advanceState w).world.pending = w.pending := by
  unfold advanceState
  repeat' split
  all_goals rfl

theorem finishStep_pending (k : Nat) (o : Outcome) :
    (finishStep k o).world.pending = o.world.pending := by
  unfold finishStep
  split <;> rfl

theorem runCallback_pending (env : Env) (cb : ui_callback_fn_t) (W : World) :
    (runCallback env cb W).world.pending = W.pending ∨
    ∃ r, (runCallback env cb W).world.pending = some ⟨cb, r⟩ := by
  cases cb
  all_goals
    simp only [runCallback]
    first
      | unfold signTxCVoteRegistration_handleVoteKey_ui_runStep
      | unfold signTxCVoteRegistration_handleDelegation_ui_runStep
      | unfold signTxCVoteRegistration_handleStakingKey_ui_runStep
      | unfold signTxCVoteRegistration_handlePaymentAddress_ui_runStep
      | unfold signTxCVoteRegistration_handleNonce_ui_runStep
      | unfold signTxCVoteRegistration_handleVotingPurpose_ui_runStep
      | unfold signTxCVoteRegistration_handleConfirm_ui_runStep
    try unfold handleConfirm_respond
    repeat' (first | split | dsimp only)
    all_goals first
      | exact Or.inl rfl
      | exact Or.inr ⟨_, rfl⟩
      | (rename_i hd
         obtain ⟨s, rfl⟩ := displayVoteKey_frame _ _ _ _ hd
         exact Or.inr ⟨_, rfl⟩)
      | (left
         rw [finishStep_pending, advanceState_pending]
         rfl)

theorem PromptInv_of_pending_none (w : World) (h : w.pending = none) : PromptInv w := by
  intro p hp
  rw [h] at hp
  cases hp

theorem PromptInv_of_driver (env : Env) (cb : ui_callback_fn_t) (W : World)
    (hp : W.pending = none) (hcb : cb ≠ ui_callback_fn_t.handleConfirm_ui_runStep) :
    PromptInv (runCallback env cb W).world := by
  intro p hpp hc
  rcases runCallback_pending env cb W with h | ⟨r, h⟩
  · rw [h, hp] at hpp
    cases hpp
  · rw [h] at hpp
    cases hpp
    exact absurd hc hcb

theorem handleConfirm_respond_pending (env : Env) (X : World) :
    (handleConfirm_respond env X).world.pending = X.pending := by
  unfold handleConfirm_respond
  dsimp only
  rw [finishStep_pending, advanceState_pending]
  rfl

theorem handleAPDU_PromptInv (env : Env) (p2 : uint8_t) (d : List uint8_t) (w : World)
    (hp : w.pending = none) :
    PromptInv (signTxCVoteRegistration_handleAPDU env p2 d w).world := by
  rcases handleAPDU_cases env p2 d w with e | e | e | e | e | e | e | e | e <;> rw [e]
  · exact PromptInv_of_pending_none _ hp
  · cases hret : (signTxCVoteRegistration_handleInitAPDU env d w).status with
    | returned =>
      obtain ⟨f, a, b, c, d', _, _, _, _, _, _, _, _, hpend, _⟩ :=
        handleInitAPDU_accepted env w d _ rfl hret
      exact PromptInv_of_pending_none _ (hpend.trans hp)
    | thrown err =>
      rcases handleInitAPDU_thrown env d w _ rfl with hr | ⟨_, _, h3, _, _⟩
      · rw [hret] at hr
        cases hr
      · exact PromptInv_of_pending_none _ (h3.trans hp)
  · rcases handleVoteKeyAPDU_summary env d w _ rfl with ⟨e, -, hc⟩ | ⟨W, hc, -, -, -, ho⟩
    · exact PromptInv_of_pending_none _ (hc.2.2.2.2.trans hp)
    · rw [ho]
      exact PromptInv_of_driver env ui_callback_fn_t.handleVoteKey_ui_runStep W
        (hc.2.2.2.2.trans hp) (by decide)
  · rcases handleDelegationAPDU_summary env d w _ rfl with
      ⟨e, -, hc⟩ | ⟨W, hc, -, -, -, -, ho⟩
    · exact PromptInv_of_pending_none _ (hc.2.2.2.2.trans hp)
    · rw [ho]
      exact PromptInv_of_driver env ui_callback_fn_t.handleDelegation_ui_runStep W
        (hc.2.2.2.2.trans hp) (by decide)
  · rcases handleStakingKeyAPDU_summary env d w _ rfl with ⟨e, -, hc⟩ | ⟨W, hc, -, -, -, ho⟩
    · exact PromptInv_of_pending_none _ (hc.2.2.2.2.trans hp)
    · rw [ho]
      exact PromptInv_of_driver env ui_callback_fn_t.handleStakingKey_ui_runStep W
        (hc.2.2.2.2.trans hp) (by decide)
  · rcases handlePaymentAddressAPDU_summary env d w _ rfl with
      ⟨e, -, hc⟩ | ⟨W, hc, -, -, -, ho⟩
    · exact PromptInv_of_pending_none _ (hc.2.2.2.2.trans hp)
    · rw [ho]
      exact PromptInv_of_driver env ui_callback_fn_t.handlePaymentAddress_ui_runStep W
        (hc.2.2.2.2.trans hp) (by decide)
  · rcases handleNonceAPDU_summary env d w _ rfl with ⟨e, -, hc⟩ | ⟨W, hc, -, -, -, ho⟩
    · exact PromptInv_of_pending_none _ (hc.2.2.2.2.trans hp)
    · rw [ho]
      exact PromptInv_of_driver env ui_callback_fn_t.handleNonce_ui_runStep W
        (hc.2.2.2.2.trans hp) (by decide)
  · rcases handleVotingPurposeAPDU_summary env d w _ rfl with
      ⟨e, -, hc⟩ | ⟨W, hc, -, -, -, -, ho⟩ | ⟨W, hc, -, -, -, -, ho⟩
    · exact PromptInv_of_pending_none _ (hc.2.2.2.2.trans hp)
    · rw [ho]
      exact PromptInv_of_driver env ui_callback_fn_t.handleVotingPurpose_ui_runStep W
        (hc.2.2.2.2.trans hp) (by decide)
    · rw [ho]
      exact PromptInv_of_pending_none _ ((advanceState_pending W).trans (hc.2.2.2.2.trans hp))
  · rcases handleConfirmAPDU_summary env d w _ rfl with ⟨e, -, hc⟩ | ⟨W, hc, -, -, hstep, ho⟩
    · exact PromptInv_of_pending_none _ (hc.2.2.2.2.trans hp)
    · rw [ho]
      simp only [List.mem_cons, List.mem_singleton, List.not_mem_nil, or_false] at hstep
      rcases hstep with hstep | hstep
      · rw [handleConfirm_ui_runStep_at_FINAL_CONFIRM env W hstep]
        intro p _ _
        simp [confirmPromptShown]
      · rw [handleConfirm_ui_runStep_at_RESPOND env W hstep]
        exact PromptInv_of_pending_none _
          ((handleConfirm_respond_pending env W).trans (hc.2.2.2.2.trans hp))

theorem step_PromptInv (env : Env) (w : World) (ev : Event) (o : Outcome)
    (hinv : SessionInv w) (h : PromptInv w) (hs : step env w ev = some o) :
    PromptInv o.world := by
  cases ev with
  | apdu p2 d =>
    simp only [step] at hs
    split at hs
    · rename_i hp
      cases hs
      exact handleAPDU_PromptInv env p2 d w hp
    · cases hs
  | uiConfirm =>
    simp only [step] at hs
    split at hs
    · cases hs
    · rename_i q hq
      cases hs
      intro p hpp hc
      obtain ⟨_, ext, ht, _, _⟩ :=
        step_frame env w Event.uiConfirm _ hinv (step_uiConfirm env w q hq)
      rw [ht]
      apply List.mem_append_left
      rcases runCallback_pending env q.callback { w with pending := none } with h1 | ⟨r, h1⟩
      · rw [h1] at hpp
        cases hpp
      · rw [h1] at hpp
        cases hpp
        exact h q hq hc
  | uiReject =>
    simp only [step] at hs
    split at hs
    · cases hs
    · split_ifs at hs
      cases hs
      exact PromptInv_of_pending_none _ rfl

theorem Reachable_PromptInv (env : Env) (w : World) (h : Reachable env w) : PromptInv w := by
  induction h with
  | init => exact PromptInv_of_pending_none _ rfl
  | step w ev o hw hs ih => exact step_PromptInv env w ev o (Reachable_SessionInv env w hw) ih hs

theorem handleConfirmAPDU_PROMPT_quiet (env : Env) (d : List uint8_t) (w : World)
    (hpol : env.policyForCVoteRegistrationConfirm = POLICY_PROMPT_BEFORE_RESPONSE) :
    responses (signTxCVoteRegistration_handleConfirmAPDU env d w).world.trace =
      responses w.trace ∧
    (signTxCVoteRegistration_handleConfirmAPDU env d w).world.subctx.state =
      w.subctx.state := by
  unfold signTxCVoteRegistration_handleConfirmAPDU
  repeat' (first | split | dsimp only)
  all_goals first
    | (rw [handleConfirm_ui_runStep_at_FINAL_CONFIRM _ _ rfl]
       simp [responses, Effect.asResponse])
    | (rename_i h
       rw [hpol] at h
       cases h)
    | simp [responses, Effect.asResponse]

theorem handleAPDU_from_CONFIRM (env : Env) (p2 : uint8_t) (d : List uint8_t) (w : World)
    (hst : w.subctx.state = STATE_CVOTE_REGISTRATION_CONFIRM) :
    (signTxCVoteRegistration_handleAPDU env p2 d w).world = w ∨
    signTxCVoteRegistration_handleAPDU env p2 d w =
      signTxCVoteRegistration_handleConfirmAPDU env d w := by
  rcases handleAPDU_cases env p2 d w with e | e | e | e | e | e | e | e | e
  · exact Or.inl (by rw [e]; rfl)
  · exact Or.inl (by rw [e, handleInitAPDU_wrong_state env d w (by rw [hst]; decide)]; rfl)
  · exact Or.inl (by rw [e, handleVoteKeyAPDU_wrong_state env d w (by rw [hst]; decide)]; rfl)
  · exact Or.inl (by
      rw [e, handleDelegationAPDU_wrong_state env d w (by rw [hst]; decide)]; rfl)
  · exact Or.inl (by
      rw [e, handleStakingKeyAPDU_wrong_state env d w (by rw [hst]; decide)]; rfl)
  · exact Or.inl (by
      rw [e, handlePaymentAddressAPDU_wrong_state env d w (by rw [hst]; decide)]; rfl)
  · exact Or.inl (by rw [e, handleNonceAPDU_wrong_state env d w (by rw [hst]; decide)]; rfl)
  · exact Or.inl (by
      rw [e, handleVotingPurposeAPDU_wrong_state env d w (by rw [hst]; decide)]; rfl)
  · exact Or.inr e

theorem step_same_or_forward (env : Env) (w : World) (ev : Event) (o : Outcome)
    (hs : step env w ev = some o) :
    o.world.subctx.state = w.subctx.state ∨
      MovedForward w.subctx.state o.world.subctx.state := by
  cases ev with
  | apdu p2 d =>
    simp only [step] at hs
    split at hs
    · cases hs
      exact handleAPDU_forward env p2 d w
    · cases hs
  | uiConfirm =>
    simp only [step] at hs
    split at hs
    · cases hs
    · cases hs
      exact runCallback_forward env _ { w with pending := none }
  | uiReject =>
    simp only [step] at hs
    split at hs
    · cases hs
    · split_ifs at hs
      cases hs
      exact Or.inl rfl

theorem MovedForward_to_FINISHED (s : sign_tx_cvote_registration_state_t)
    (h : MovedForward s STATE_CVOTE_REGISTRATION_FINISHED) :
    s = STATE_CVOTE_REGISTRATION_CONFIRM := by
  obtain ⟨_, v, hv, hret, hfin⟩ := h
  subst hv
  unfold advanceState at hret hfin
  cases hs : v.subctx.state <;> simp only [hs] at hret hfin ⊢
  all_goals first
    | rfl
    | (split_ifs at hret hfin <;> simp at hret hfin)
    | simp at hret hfin

theorem payload_or_finish_needs_confirmation (env : Env)
    (hpol : env.policyForCVoteRegistrationConfirm = POLICY_PROMPT_BEFORE_RESPONSE)
    (v : World) (ev : Event) (o : Outcome) (hv : Reachable env v)
    (hs : step env v ev = some o)
    (hnew : (∃ ext, o.world.trace = v.trace ++ ext ∧ ∃ r ∈ responses ext, r.hasPayload = true) ∨
      (v.subctx.state ≠ STATE_CVOTE_REGISTRATION_FINISHED ∧
        o.world.subctx.state = STATE_CVOTE_REGISTRATION_FINISHED)) :
    ev = Event.uiConfirm ∧ confirmPromptShown ∈ v.trace ∧
    v.subctx.state = STATE_CVOTE_REGISTRATION_CONFIRM := by
  have hinv := Reachable_SessionInv env v hv
  have hst : v.subctx.state = STATE_CVOTE_REGISTRATION_CONFIRM := by
    rcases hnew with ⟨ext, ht, r, hr, hpay⟩ | ⟨hne, hfin⟩
    · obtain ⟨_, ext', ht', _, hresp⟩ := step_frame env v ev o hinv hs
      have : ext = ext' := List.append_cancel_left (ht.symm.trans ht')
      subst this
      exact hresp r hr hpay
    · rcases step_same_or_forward env v ev o hs with h | h
      · exact absurd (h.symm.trans hfin) hne
      · rw [hfin] at h
        exact MovedForward_to_FINISHED _ h
  have hquiet : ∀ W : World, responses W.trace = responses v.trace →
      W.subctx.state = v.subctx.state → o.world = W → False := by
    intro W hr hsame hW
    rcases hnew with ⟨ext, ht, r, hrm, hpay⟩ | ⟨hne, hfin⟩
    · rw [hW] at ht
      rw [ht, responses_append] at hr
      have : responses ext = [] := List.append_right_eq_self.mp hr
      rw [this] at hrm
      cases hrm
    · rw [hW, hsame, hst] at hfin
      cases hfin
  cases ev with
  | apdu p2 d =>
    exfalso
    simp only [step] at hs
    split at hs
    · cases hs
      rcases handleAPDU_from_CONFIRM env p2 d v hst with e | e
      · exact hquiet v rfl rfl e
      · have hq := handleConfirmAPDU_PROMPT_quiet env d v hpol
        exact hquiet _ hq.1 hq.2 (by rw [e])
    · cases hs
  | uiReject =>
    exfalso
    simp only [step] at hs
    split at hs
    · cases hs
    · split_ifs at hs
      cases hs
      rcases hnew with ⟨ext, ht, r, hrm, hpay⟩ | ⟨hne, hfin⟩
      · have hext : ext = [Effect.respond Response.userReject] :=
          List.append_cancel_left (ht.symm.trans rfl)
        subst hext
        simp [responses, Effect.asResponse] at hrm
        subst hrm
        cases hpay
      · exact hne hfin
  | uiConfirm =>
    refine ⟨rfl, ?_, hst⟩
    simp only [step] at hs
    split at hs
    · cases hs
    · rename_i q hq
      have hpi : PendingInv v := hinv.2.2.2.2.2.2
      simp only [PendingInv, hq] at hpi
      have h1 := hpi.1
      rw [hst] at h1
      have hcb : q.callback = ui_callback_fn_t.handleConfirm_ui_runStep := by
        generalize q.callback = cb at h1
        cases cb <;> simp [driverState] at h1
        rfl
      exact Reachable_PromptInv env v hv q hq hcb

theorem step_apdu_pending (env : Env) (w : World) (p : PendingScreen) (p2 : uint8_t)
    (d : List uint8_t) (hp : w.pending = some p) : step env w (Event.apdu p2 d) = none := by
  rw [step, hp]

/-- C15: with the prompt-before-response policy, in a session in the Confirm state with
no screen in flight, the Confirm command shows the prompt and sends nothing; while the
prompt is on screen no wire command is taken; when the user confirms, the response is
sent at once if expert mode is off, and the auxiliary data hash is shown first if it is
on, the response following the next confirmation; the log of the completed step is the
handler's calls, the prompt, the hash screen exactly in expert mode, and the response.
And in every reachable session, an event that sends a response with a payload, or
that moves the state to Finished, is a user confirmation made in the Confirm state
after the prompt was shown. -/
theorem confirm_prompt_before_response (env : Env) (w : World)
    (hst : w.subctx.state = STATE_CVOTE_REGISTRATION_CONFIRM) (hp : w.pending = none)
    (hlen : 0 < env.BUFFER_SIZE_PARANOIA)
    (hpol : env.policyForCVoteRegistrationConfirm = POLICY_PROMPT_BEFORE_RESPONSE) :
    step env w (Event.apdu 0x34 []) = some (returned (confirmPrompted env w)) ∧
    (confirmPrompted env w).trace = (confirmSigned env w).trace ++ [confirmPromptShown] ∧
    responses (confirmPrompted env w).trace = responses w.trace ∧
    (confirmPrompted env w).subctx.state = STATE_CVOTE_REGISTRATION_CONFIRM ∧
    (∀ p2 d, step env (confirmPrompted env w) (Event.apdu p2 d) = none) ∧
    step env (confirmPrompted env w) Event.uiConfirm =
      some (returned (if env.app_mode_expert = true then confirmHashShown env w
        else confirmFinished env w)) ∧
    (env.app_mode_expert = true →
      (confirmHashShown env w).trace =
        (confirmPrompted env w).trace ++ [confirmHashScreen env w] ∧
      responses (confirmHashShown env w).trace = responses w.trace ∧
      (confirmHashShown env w).subctx.state = STATE_CVOTE_REGISTRATION_CONFIRM ∧
      (∀ p2 d, step env (confirmHashShown env w) (Event.apdu p2 d) = none) ∧
      step env (confirmHashShown env w) Event.uiConfirm =
        some (returned (confirmFinished env w))) ∧
    (confirmFinished env w).trace =
      (confirmSigned env w).trace ++ [confirmPromptShown] ++
        (if env.app_mode_expert = true then [confirmHashScreen env w] else []) ++
        [Effect.respond (confirmResponse env w)] ∧
    (confirmFinished env w).subctx.state = STATE_CVOTE_REGISTRATION_FINISHED ∧
    (∀ v ev o, Reachable env v → step env v ev = some o →
      ((∃ ext, o.world.trace = v.trace ++ ext ∧ ∃ r ∈ responses ext, r.hasPayload = true) ∨
        (v.subctx.state ≠ STATE_CVOTE_REGISTRATION_FINISHED ∧
          o.world.subctx.state = STATE_CVOTE_REGISTRATION_FINISHED)) →
      ev = Event.uiConfirm ∧ confirmPromptShown ∈ v.trace ∧
        v.subctx.state = STATE_CVOTE_REGISTRATION_CONFIRM) := by
  refine ⟨step_apdu_Confirm_PROMPT env w hst hp hlen hpol, rfl, ?_, hst, ?_,
    step_uiConfirm_prompted env w hst hpol, ?_, ?_, rfl, ?_⟩
  · simp [confirmPrompted, confirmSigned, responses, Effect.asResponse]
  · intro p2 d
    exact step_apdu_pending env _ ⟨ui_callback_fn_t.handleConfirm_ui_runStep, true⟩ p2 d rfl
  · intro hexp
    refine ⟨rfl, ?_, hst, ?_, step_uiConfirm_hashShown env w hst hpol hexp⟩
    · simp [confirmHashShown, confirmPrompted, confirmSigned, responses, Effect.asResponse]
    · intro p2 d
      exact step_apdu_pending env _ ⟨ui_callback_fn_t.handleConfirm_ui_runStep, false⟩ p2 d
        rfl
  · simp only [confirmFinished, confirmScreens, hpol, if_true, confirmPromptShown,
      confirmHashScreen]
    split_ifs <;> simp
  · intro v ev o hv hs hnew
    exact payload_or_finish_needs_confirmation env hpol v ev o hv hs hnew

/-- C15 on the prompting sample session (expert mode off): the Confirm command shows the
prompt and sends nothing, and the user's confirmation releases the response. -/
theorem confirm_prompt_before_response_witness :
    step sampleEnvShow samplePromptWorld (Event.apdu 0x34 []) =
      some (returned (confirmPrompted sampleEnvShow samplePromptWorld)) ∧
    responses (confirmPrompted sampleEnvShow samplePromptWorld).trace =
      responses samplePromptWorld.trace ∧
    step sampleEnvShow (confirmPrompted sampleEnvShow samplePromptWorld) Event.uiConfirm =
      some (returned (confirmFinished sampleEnvShow samplePromptWorld)) := by
  obtain ⟨h1, _, h3, _, _, h6, _⟩ :=
    confirm_prompt_before_response sampleEnvShow samplePromptWorld rfl rfl (by decide) rfl
  exact ⟨h1, h3, h6⟩


/-! ### C17 -/

/-- C17, the code at the failing input.  The Delegation handler stores
`HANDLE_DELEGATION_STEP_WARNING` (8300) for the warn-then-show policy, but the first
case of its driver is labelled `HANDLE_VOTE_KEY_STEP_WARNING` (8200): entered at step
8300 the driver fails its assertion, in every session.  In the sample session with one
delegation declared, a Delegation command under that policy makes its `addDelegation`
call and then fails: no screen is shown, no response is sent and `currentDelegation`
stays 0.  The vote-key driver, entered at its own warning step, shows the warning. -/
theorem delegation_warn_policy_fails :
    (∀ (env : Env) (W : World),
      signTxCVoteRegistration_handleDelegation_ui_runStep env
          (W.setUiStep HANDLE_DELEGATION_STEP_WARNING) =
        THROW Err.ERR_ASSERT (W.setUiStep HANDLE_DELEGATION_STEP_WARNING)) ∧
    delegationsOpenWorld.subctx.state = STATE_CVOTE_REGISTRATION_DELEGATIONS ∧
    delegationsOpenWorld.subctx.currentDelegation = 0 ∧
    (signTxCVoteRegistration_handleAPDU sampleEnvWarn 0x37 sampleDelegationByPath
      delegationsOpenWorld).status = Status.thrown Err.ERR_ASSERT ∧
    screens (signTxCVoteRegistration_handleAPDU sampleEnvWarn 0x37 sampleDelegationByPath
      delegationsOpenWorld).world.trace = [] ∧
    responses (signTxCVoteRegistration_handleAPDU sampleEnvWarn 0x37 sampleDelegationByPath
      delegationsOpenWorld).world.trace =
      responses delegationsOpenWorld.trace ∧
    hashCalls (signTxCVoteRegistration_handleAPDU sampleEnvWarn 0x37 sampleDelegationByPath
      delegationsOpenWorld).world.trace =
      hashCalls delegationsOpenWorld.trace ++
        [HashCall.addDelegation (sampleEnvWarn.deriveExtendedPublicKey [9]) 5] ∧
    (signTxCVoteRegistration_handleAPDU sampleEnvWarn 0x37 sampleDelegationByPath
      delegationsOpenWorld).world.subctx.currentDelegation = 0 ∧
    (signTxCVoteRegistration_handleAPDU sampleEnvWarn 0x37 sampleDelegationByPath
      delegationsOpenWorld).world.subctx.state = STATE_CVOTE_REGISTRATION_DELEGATIONS ∧
    (∀ (env : Env) (W : World),
      signTxCVoteRegistration_handleVoteKey_ui_runStep env
          (W.setUiStep HANDLE_VOTE_KEY_STEP_WARNING) =
        returned (((W.setUiStep HANDLE_VOTE_KEY_STEP_WARNING).display
          (Screen.paginatedText "WARNING:" "unusual vote key")
          ui_callback_fn_t.handleVoteKey_ui_runStep false).setUiStep
          HANDLE_VOTE_KEY_STEP_DISPLAY)) := by
  refine ⟨fun env W => rfl, rfl, rfl, rfl, rfl, rfl, rfl, rfl, rfl, fun env W => rfl⟩


/-! ### C18 -/

/-- C18 fails as stated: in the sample session that received the raw vote key and waits
for the StakingKey command, the accepted StakingKey command leaves `stateData` as the
VoteKey step wrote it: the vote key is still there. -/
theorem stakingKey_keeps_stateData_counterexample :
    stakingKeyWorld.subctx.stateData =
      stateData_t.delegation
        { type := 1, votePubKey := sampleKey, votePubKeyPath := [], weight := 0 } ∧
    (signTxCVoteRegistration_handleAPDU sampleEnv 0x31 [2, 1, 2] stakingKeyWorld).status =
      Status.returned ∧
    (signTxCVoteRegistration_handleAPDU sampleEnv 0x31 [2, 1, 2]
        stakingKeyWorld).world.subctx.state = STATE_CVOTE_REGISTRATION_PAYMENT_ADDRESS ∧
    (signTxCVoteRegistration_handleAPDU sampleEnv 0x31 [2, 1, 2]
        stakingKeyWorld).world.subctx.stateData =
      stateData_t.delegation
        { type := 1, votePubKey := sampleKey, votePubKeyPath := [], weight := 0 } ∧
    (signTxCVoteRegistration_handleAPDU sampleEnv 0x31 [2, 1, 2]
        stakingKeyWorld).world.subctx.stateData ≠ stateData_t.zeroed :=
  ⟨rfl, rfl, rfl, rfl, fun h => stateData_t.noConfusion h⟩

theorem advanceState_stateData (w : World) :
    (advanceState w).world.subctx.stateData = w.subctx.stateData := by
  unfold advanceState
  repeat' split
  all_goals rfl

theorem finishStep_stateData (k : Nat) (o : Outcome) :
    (finishStep k o).world.subctx.stateData = o.world.subctx.stateData := by
  unfold finishStep
  split <;> rfl

theorem handleStakingKey_ui_runStep_stateData (W : World) :
    (signTxCVoteRegistration_handleStakingKey_ui_runStep W).world.subctx.stateData =
      W.subctx.stateData := by
  unfold signTxCVoteRegistration_handleStakingKey_ui_runStep
  repeat' (first | split | dsimp only)
  all_goals first
    | rfl
    | (rw [finishStep_stateData, advanceState_stateData]
       rfl)

theorem handleStakingKeyAPDU_stateData (env : Env) (d : List uint8_t) (w : World) :
    (signTxCVoteRegistration_handleStakingKeyAPDU env d w).world.subctx.stateData =
      w.subctx.stateData := by
  unfold signTxCVoteRegistration_handleStakingKeyAPDU
  repeat' (first | split | dsimp only)
  all_goals first
    | rfl
    | (rw [handleStakingKey_ui_runStep_stateData]
       rfl)

theorem handlePaymentAddress_ui_runStep_stateData (env : Env) (W : World) :
    (signTxCVoteRegistration_handlePaymentAddress_ui_runStep env W).world.subctx.stateData =
      W.subctx.stateData := by
  unfold signTxCVoteRegistration_handlePaymentAddress_ui_runStep
  repeat' (first | split | dsimp only)
  all_goals first
    | rfl
    | (rw [finishStep_stateData, advanceState_stateData]
       rfl)

theorem handlePaymentAddressAPDU_stateData (env : Env) (d : List uint8_t) (w : World)
    (hst : w.subctx.state = STATE_CVOTE_REGISTRATION_PAYMENT_ADDRESS)
    (hlen : d.length < env.BUFFER_SIZE_PARANOIA) :
    ∃ dest, (signTxCVoteRegistration_handlePaymentAddressAPDU env d w).world.subctx.stateData =
      stateData_t.paymentDestination dest := by
  unfold signTxCVoteRegistration_handlePaymentAddressAPDU
  rw [if_neg (not_not.mpr hst), if_neg (not_not.mpr hlen)]
  repeat' (first | split | dsimp only)
  all_goals first
    | exact ⟨_, rfl⟩
    | (rw [handlePaymentAddress_ui_runStep_stateData]
       exact ⟨_, rfl⟩)

theorem handleInitAPDU_zeroes_stateData (env : Env) (d : List uint8_t) (w : World)
    (sd : stateData_t) (hst : w.subctx.state = STATE_CVOTE_REGISTRATION_INIT)
    (hlen : d.length < env.BUFFER_SIZE_PARANOIA) :
    signTxCVoteRegistration_handleInitAPDU env d (w.setStateData sd) =
      signTxCVoteRegistration_handleInitAPDU env d w := by
  unfold signTxCVoteRegistration_handleInitAPDU
  rw [if_neg (not_not.mpr hst), if_neg (not_not.mpr hlen),
    if_neg (not_not.mpr (show (w.setStateData sd).subctx.state = _ from hst)),
    if_neg (not_not.mpr hlen)]
  rfl

theorem handleVoteKeyAPDU_zeroes_stateData (env : Env) (d : List uint8_t) (w : World)
    (sd : stateData_t) (hst : w.subctx.state = STATE_CVOTE_REGISTRATION_VOTE_KEY)
    (hlen : d.length < env.BUFFER_SIZE_PARANOIA) :
    signTxCVoteRegistration_handleVoteKeyAPDU env d (w.setStateData sd) =
      signTxCVoteRegistration_handleVoteKeyAPDU env d w := by
  unfold signTxCVoteRegistration_handleVoteKeyAPDU
  rw [if_neg (not_not.mpr hst), if_neg (not_not.mpr hlen),
    if_neg (not_not.mpr (show (w.setStateData sd).subctx.state = _ from hst)),
    if_neg (not_not.mpr hlen)]
  rfl

theorem handleNonceAPDU_zeroes_stateData (env : Env) (d : List uint8_t) (w : World)
    (sd : stateData_t) (hst : w.subctx.state = STATE_CVOTE_REGISTRATION_NONCE)
    (hlen : d.length < env.BUFFER_SIZE_PARANOIA) :
    signTxCVoteRegistration_handleNonceAPDU env d (w.setStateData sd) =
      signTxCVoteRegistration_handleNonceAPDU env d w := by
  unfold signTxCVoteRegistration_handleNonceAPDU
  rw [if_neg (not_not.mpr hst), if_neg (not_not.mpr hlen),
    if_neg (not_not.mpr (show (w.setStateData sd).subctx.state = _ from hst)),
    if_neg (not_not.mpr hlen)]
  rfl

theorem handleVotingPurposeAPDU_zeroes_stateData (env : Env) (d : List uint8_t) (w : World)
    (sd : stateData_t) (hst : w.subctx.state = STATE_CVOTE_REGISTRATION_VOTING_PURPOSE)
    (hlen : d.length < env.BUFFER_SIZE_PARANOIA) :
    signTxCVoteRegistration_handleVotingPurposeAPDU env d (w.setStateData sd) =
      signTxCVoteRegistration_handleVotingPurposeAPDU env d w := by
  unfold signTxCVoteRegistration_handleVotingPurposeAPDU
  rw [if_neg (not_not.mpr hst), if_neg (not_not.mpr hlen),
    if_neg (not_not.mpr (show (w.setStateData sd).subctx.state = _ from hst)),
    if_neg (not_not.mpr hlen)]
  rfl

theorem handleConfirmAPDU_zeroes_stateData (env : Env) (d : List uint8_t) (w : World)
    (sd : stateData_t) (hst : w.subctx.state = STATE_CVOTE_REGISTRATION_CONFIRM)
    (hlen : d.length < env.BUFFER_SIZE_PARANOIA) :
    signTxCVoteRegistration_handleConfirmAPDU env d (w.setStateData sd) =
      signTxCVoteRegistration_handleConfirmAPDU env d w := by
  unfold signTxCVoteRegistration_handleConfirmAPDU
  rw [if_neg (not_not.mpr hst), if_neg (not_not.mpr hlen),
    if_neg (not_not.mpr (show (w.setStateData sd).subctx.state = _ from hst)),
    if_neg (not_not.mpr hlen)]
  rfl

theorem handleDelegationAPDU_zeroes_stateData (env : Env) (d : List uint8_t) (w : World)
    (sd : stateData_t) (hst : w.subctx.state = STATE_CVOTE_REGISTRATION_DELEGATIONS)
    (hcur : w.subctx.currentDelegation < w.subctx.numDelegations) :
    signTxCVoteRegistration_handleDelegationAPDU env d (w.setStateData sd) =
      signTxCVoteRegistration_handleDelegationAPDU env d w := by
  unfold signTxCVoteRegistration_handleDelegationAPDU
  rw [if_neg (not_not.mpr hst), if_neg (not_not.mpr hcur),
    if_neg (not_not.mpr (show (w.setStateData sd).subctx.state = _ from hst)),
    if_neg (not_not.mpr (show (w.setStateData sd).subctx.currentDelegation <
      (w.setStateData sd).subctx.numDelegations from hcur))]
  rfl

theorem handleStakingKeyAPDU_zeroes_path (env : Env) (d : List uint8_t) (w : World)
    (p : bip44_path_t) (hst : w.subctx.state = STATE_CVOTE_REGISTRATION_STAKING_KEY)
    (hlen : d.length < env.BUFFER_SIZE_PARANOIA) :
    signTxCVoteRegistration_handleStakingKeyAPDU env d (w.setStakingKeyPath p) =
      signTxCVoteRegistration_handleStakingKeyAPDU env d w := by
  unfold signTxCVoteRegistration_handleStakingKeyAPDU
  rw [if_neg (not_not.mpr hst), if_neg (not_not.mpr hlen),
    if_neg (not_not.mpr (show (w.setStakingKeyPath p).subctx.state = _ from hst)),
    if_neg (not_not.mpr hlen)]
  rfl

/-- C18, amended: a handler that passes its checks zeroes, before it parses, the field it
parses into.  Init, VoteKey, Delegation, Nonce, VotingPurpose and Confirm zero the whole
`stateData`: their outcome does not depend on what `stateData` held.  StakingKey
zeroes `stakingKeyPath` (its outcome does not depend on the path held before) and never
writes `stateData`, which stays as the previous step left it.  PaymentAddress zeroes
the member `paymentDestination`, which is what `stateData` holds afterwards. -/
theorem handlers_zero_what_they_parse (env : Env) (d : List uint8_t) (w : World)
    (sd : stateData_t) (hlen : d.length < env.BUFFER_SIZE_PARANOIA) :
    (w.subctx.state = STATE_CVOTE_REGISTRATION_INIT →
      signTxCVoteRegistration_handleInitAPDU env d (w.setStateData sd) =
        signTxCVoteRegistration_handleInitAPDU env d w) ∧
    (w.subctx.state = STATE_CVOTE_REGISTRATION_VOTE_KEY →
      signTxCVoteRegistration_handleVoteKeyAPDU env d (w.setStateData sd) =
        signTxCVoteRegistration_handleVoteKeyAPDU env d w) ∧
    (w.subctx.state = STATE_CVOTE_REGISTRATION_DELEGATIONS →
      w.subctx.currentDelegation < w.subctx.numDelegations →
      signTxCVoteRegistration_handleDelegationAPDU env d (w.setStateData sd) =
        signTxCVoteRegistration_handleDelegationAPDU env d w) ∧
    (w.subctx.state = STATE_CVOTE_REGISTRATION_NONCE →
      signTxCVoteRegistration_handleNonceAPDU env d (w.setStateData sd) =
        signTxCVoteRegistration_handleNonceAPDU env d w) ∧
    (w.subctx.state = STATE_CVOTE_REGISTRATION_VOTING_PURPOSE →
      signTxCVoteRegistration_handleVotingPurposeAPDU env d (w.setStateData sd) =
        signTxCVoteRegistration_handleVotingPurposeAPDU env d w) ∧
    (w.subctx.state = STATE_CVOTE_REGISTRATION_CONFIRM →
      signTxCVoteRegistration_handleConfirmAPDU env d (w.setStateData sd) =
        signTxCVoteRegistration_handleConfirmAPDU env d w) ∧
    (signTxCVoteRegistration_handleStakingKeyAPDU env d w).world.subctx.stateData =
      w.subctx.stateData ∧
    (w.subctx.state = STATE_CVOTE_REGISTRATION_STAKING_KEY →
      ∀ p, signTxCVoteRegistration_handleStakingKeyAPDU env d (w.setStakingKeyPath p) =
        signTxCVoteRegistration_handleStakingKeyAPDU env d w) ∧
    (w.subctx.state = STATE_CVOTE_REGISTRATION_PAYMENT_ADDRESS →
      ∃ dest,
        (signTxCVoteRegistration_handlePaymentAddressAPDU env d w).world.subctx.stateData =
          stateData_t.paymentDestination dest) := by
  refine ⟨fun h => handleInitAPDU_zeroes_stateData env d w sd h hlen,
    fun h => handleVoteKeyAPDU_zeroes_stateData env d w sd h hlen,
    fun h hc => handleDelegationAPDU_zeroes_stateData env d w sd h hc,
    fun h => handleNonceAPDU_zeroes_stateData env d w sd h hlen,
    fun h => handleVotingPurposeAPDU_zeroes_stateData env d w sd h hlen,
    fun h => handleConfirmAPDU_zeroes_stateData env d w sd h hlen,
    handleStakingKeyAPDU_stateData env d w,
    fun h p => handleStakingKeyAPDU_zeroes_path env d w p h hlen,
    fun h => handlePaymentAddressAPDU_stateData env d w h hlen⟩

/-- C18, amended, on the sample session that waits for the Nonce command: the Nonce
handler gives the same outcome whatever `stateData` held. -/
theorem handlers_zero_what_they_parse_witness :
    signTxCVoteRegistration_handleNonceAPDU sampleEnv [0, 0, 0, 0, 0, 0, 1, 0]
        ((runEvents sampleEnv signTxCVoteRegistration_init
          (sampleCommandsToNonce 2).dropLast).setStateData (stateData_t.nonce 7)) =
      signTxCVoteRegistration_handleNonceAPDU sampleEnv [0, 0, 0, 0, 0, 0, 1, 0]
        (runEvents sampleEnv signTxCVoteRegistration_init
          (sampleCommandsToNonce 2).dropLast) :=
  (handlers_zero_what_they_parse sampleEnv [0, 0, 0, 0, 0, 0, 1, 0]
    (runEvents sampleEnv signTxCVoteRegistration_init (sampleCommandsToNonce 2).dropLast)
    (stateData_t.nonce 7) (by decide)).2.2.2.1 rfl


/-! ### Out-of-order commands -/

theorem handleAPDU_wrong_state (env : Env) (p2 : uint8_t) (d : List uint8_t) (w : World)
    (st : sign_tx_cvote_registration_state_t) (hlen : d.length < env.BUFFER_SIZE_PARANOIA)
    (hst : specExpectedState p2 = some st) (hne : w.subctx.state ≠ st) :
    signTxCVoteRegistration_handleAPDU env p2 d w = THROW Err.ERR_INVALID_STATE w := by
  rcases specExpectedState_cases p2 st hst with
    ⟨hp, rfl⟩ | ⟨hp, rfl⟩ | ⟨hp, rfl⟩ | ⟨hp, rfl⟩ |
    ⟨hp, rfl⟩ | ⟨hp, rfl⟩ | ⟨hp, rfl⟩ | ⟨hp, rfl⟩
  · rw [handleAPDU_dispatch_Init env p2 _ w hlen hp]
    exact handleInitAPDU_wrong_state env _ w hne
  · rw [handleAPDU_dispatch_VoteKey env p2 _ w hlen hp]
    exact handleVoteKeyAPDU_wrong_state env _ w hne
  · rw [handleAPDU_dispatch_Delegation env p2 _ w hlen hp]
    exact handleDelegationAPDU_wrong_state env _ w hne
  · rw [handleAPDU_dispatch_StakingKey env p2 _ w hlen hp]
    exact handleStakingKeyAPDU_wrong_state env _ w hne
  · rw [handleAPDU_dispatch_PaymentAddress env p2 _ w hlen hp]
    exact handlePaymentAddressAPDU_wrong_state env _ w hne
  · rw [handleAPDU_dispatch_Nonce env p2 _ w hlen hp]
    exact handleNonceAPDU_wrong_state env _ w hne
  · rw [handleAPDU_dispatch_VotingPurpose env p2 _ w hlen hp]
    exact handleVotingPurposeAPDU_wrong_state env _ w hne
  · rw [handleAPDU_dispatch_Confirm env p2 _ w hlen hp]
    exact handleConfirmAPDU_wrong_state env _ w hne

/-! ### C20 -/

@[simp] theorem screens_append (a b : List Effect) :
    screens (a ++ b) = screens a ++ screens b := by
  simp [screens, List.filterMap_append]

@[simp] theorem screens_nil : screens [] = [] := rfl

@[simp] theorem screens_cons_hash (c : HashCall) (t : List Effect) :
    screens (Effect.hash c :: t) = screens t := rfl

@[simp] theorem screens_cons_respond (r : Response) (t : List Effect) :
    screens (Effect.respond r :: t) = screens t := rfl

@[simp] theorem screens_cons_display (s : Screen) (t : List Effect) :
    screens (Effect.display s :: t) = s :: screens t := rfl

@[simp] theorem screens_cons_policy (q : PolicyQuery) (t : List Effect) :
    screens (Effect.policy q :: t) = screens t := rfl

@[simp] theorem screens_cons_sign (p : bip44_path_t) (h : List uint8_t) (t : List Effect) :
    screens (Effect.sign p h :: t) = screens t := rfl

theorem length_eq_eight {α : Type} (l : List α) (h : l.length = 8) :
    ∃ b0 b1 b2 b3 b4 b5 b6 b7, l = [b0, b1, b2, b3, b4, b5, b6, b7] := by
  match l, h with
  | [b0, b1, b2, b3, b4, b5, b6, b7], _ => exact ⟨b0, b1, b2, b3, b4, b5, b6, b7, rfl⟩

theorem beValue_eight (b0 b1 b2 b3 b4 b5 b6 b7 : uint8_t) :
    beValue [b0, b1, b2, b3, b4, b5, b6, b7] =
      b0.val * 2 ^ 56 + b1.val * 2 ^ 48 + b2.val * 2 ^ 40 + b3.val * 2 ^ 32 +
        b4.val * 2 ^ 24 + b5.val * 2 ^ 16 + b6.val * 2 ^ 8 + b7.val := by
  simp only [beValue, List.foldl_cons, List.foldl_nil]
  ring

theorem u8be_read_of_length (l : List uint8_t) (h : l.length = 8) :
    u8be_read l = beValue l := by
  unfold u8be_read
  rw [List.take_of_length_le (le_of_eq h)]

theorem handleNonceAPDU_of_length (env : Env) (wireData : List uint8_t) (w : World)
    (hstate : w.subctx.state = STATE_CVOTE_REGISTRATION_NONCE)
    (hlen : wireData.length < env.BUFFER_SIZE_PARANOIA) (h8 : wireData.length = 8) :
    signTxCVoteRegistration_handleNonceAPDU env wireData w =
      (let w3 := ((w.setStateData stateData_t.zeroed).setStateData
          (stateData_t.nonce (beValue wireData))).emit (Effect.policy PolicyQuery.nonce)
       let w4 := w3.emit (Effect.hash (HashCall.addNonce (beValue wireData)))
       match env.policyForCVoteRegistrationNonce with
       | POLICY_DENY => THROW Err.ERR_REJECTED_BY_POLICY w3
       | POLICY_SHOW_BEFORE_RESPONSE =>
         signTxCVoteRegistration_handleNonce_ui_runStep
           (w4.setUiStep HANDLE_NONCE_STEP_DISPLAY)
       | POLICY_ALLOW_WITHOUT_PROMPT =>
         signTxCVoteRegistration_handleNonce_ui_runStep
           (w4.setUiStep HANDLE_NONCE_STEP_RESPOND)
       | _ => THROW Err.ERR_NOT_IMPLEMENTED w4) := by
  unfold signTxCVoteRegistration_handleNonceAPDU
  rw [if_neg (not_not.mpr hstate), if_neg (not_not.mpr hlen)]
  dsimp only
  rw [if_neg (not_not.mpr h8), u8be_read_of_length _ h8]
  cases env.policyForCVoteRegistrationNonce <;> simp

theorem handleNonce_ui_runStep_at_DISPLAY (w : World) :
    signTxCVoteRegistration_handleNonce_ui_runStep (w.setUiStep HANDLE_NONCE_STEP_DISPLAY) =
      returned (((w.setUiStep HANDLE_NONCE_STEP_DISPLAY).display
        (Screen.uint64 "Nonce" w.subctx.stateData.getNonce)
        ui_callback_fn_t.handleNonce_ui_runStep false).setUiStep HANDLE_NONCE_STEP_RESPOND) := by
  unfold signTxCVoteRegistration_handleNonce_ui_runStep
  simp

theorem handleNonce_ui_runStep_at_RESPOND (w : World)
    (hstate : w.subctx.state = STATE_CVOTE_REGISTRATION_NONCE) :
    signTxCVoteRegistration_handleNonce_ui_runStep (w.setUiStep HANDLE_NONCE_STEP_RESPOND) =
      returned (((respondSuccessEmptyMsg (w.setUiStep HANDLE_NONCE_STEP_RESPOND)).setState
        STATE_CVOTE_REGISTRATION_VOTING_PURPOSE).setUiStep HANDLE_NONCE_STEP_INVALID) := by
  unfold signTxCVoteRegistration_handleNonce_ui_runStep
  rw [advanceState_of_NONCE _ (by simpa using hstate)]
  simp [HANDLE_NONCE_STEP_RESPOND, HANDLE_NONCE_STEP_DISPLAY]

/-- C20: in the Nonce state, a payload of any length other than 8 bytes fails with the
data-invalid error; a payload of 8 bytes is accepted under the allow and show
policies; and whenever the handler returns, the payload has exactly 8 bytes, the one
hash call made is `addNonce` of their unsigned 64-bit big-endian value, and under the
show policy the one screen rendered is the nonce screen with that same value. -/
theorem handleNonceAPDU_eight_bytes (env : Env) (wireData : List uint8_t) (w : World)
    (hstate : w.subctx.state = STATE_CVOTE_REGISTRATION_NONCE)
    (hlen : wireData.length < env.BUFFER_SIZE_PARANOIA) :
    (wireData.length ≠ 8 →
      (signTxCVoteRegistration_handleNonceAPDU env wireData w).status =
        Status.thrown Err.ERR_INVALID_DATA) ∧
    (wireData.length = 8 →
      (env.policyForCVoteRegistrationNonce = POLICY_ALLOW_WITHOUT_PROMPT ∨
        env.policyForCVoteRegistrationNonce = POLICY_SHOW_BEFORE_RESPONSE) →
      (signTxCVoteRegistration_handleNonceAPDU env wireData w).status = Status.returned) ∧
    ((signTxCVoteRegistration_handleNonceAPDU env wireData w).status = Status.returned →
      wireData.length = 8 ∧
      hashCalls (signTxCVoteRegistration_handleNonceAPDU env wireData w).world.trace =
        hashCalls w.trace ++ [HashCall.addNonce (beValue wireData)] ∧
      (env.policyForCVoteRegistrationNonce = POLICY_SHOW_BEFORE_RESPONSE →
        screens (signTxCVoteRegistration_handleNonceAPDU env wireData w).world.trace =
          screens w.trace ++ [Screen.uint64 "Nonce" (beValue wireData)]) ∧
      (env.policyForCVoteRegistrationNonce = POLICY_ALLOW_WITHOUT_PROMPT →
        screens (signTxCVoteRegistration_handleNonceAPDU env wireData w).world.trace =
          screens w.trace) ∧
      beValue wireData < 2 ^ 64 ∧
      ∃ b0 b1 b2 b3 b4 b5 b6 b7 : uint8_t, wireData = [b0, b1, b2, b3, b4, b5, b6, b7] ∧
        beValue wireData =
          b0.val * 2 ^ 56 + b1.val * 2 ^ 48 + b2.val * 2 ^ 40 + b3.val * 2 ^ 32 +
            b4.val * 2 ^ 24 + b5.val * 2 ^ 16 + b6.val * 2 ^ 8 + b7.val) := by
  have hbad : wireData.length ≠ 8 →
      signTxCVoteRegistration_handleNonceAPDU env wireData w =
        THROW Err.ERR_INVALID_DATA (w.setStateData stateData_t.zeroed) := by
    intro h8
    unfold signTxCVoteRegistration_handleNonceAPDU
    rw [if_neg (not_not.mpr hstate), if_neg (not_not.mpr hlen)]
    dsimp only
    rw [if_pos h8]
  have hst : ∀ (x : World), x.subctx.state = w.subctx.state →
      x.subctx.state = STATE_CVOTE_REGISTRATION_NONCE := fun x hx => hx.trans hstate
  refine ⟨fun h8 => by rw [hbad h8]; rfl, ?_, ?_⟩
  · intro h8 hpol
    rw [handleNonceAPDU_of_length env wireData w hstate hlen h8]
    rcases hpol with hp | hp <;> rw [hp] <;> dsimp only
    · rw [handleNonce_ui_runStep_at_RESPOND _ (by simpa using hstate)]
      rfl
    · rw [handleNonce_ui_runStep_at_DISPLAY]
      rfl
  · intro hret
    have h8 : wireData.length = 8 := by
      by_contra h8
      rw [hbad h8] at hret
      exact absurd hret (by simp)
    refine ⟨h8, ?_⟩
    obtain ⟨b0, b1, b2, b3, b4, b5, b6, b7, rfl⟩ := length_eq_eight wireData h8
    have hval := beValue_eight b0 b1 b2 b3 b4 b5 b6 b7
    have hlt : beValue [b0, b1, b2, b3, b4, b5, b6, b7] < 2 ^ 64 := by
      rw [hval]
      have h0 := b0.isLt
      have h1 := b1.isLt
      have h2 := b2.isLt
      have h3 := b3.isLt
      have h4 := b4.isLt
      have h5 := b5.isLt
      have h6 := b6.isLt
      have h7 := b7.isLt
      omega
    rw [handleNonceAPDU_of_length env _ w hstate hlen h8] at hret ⊢
    generalize beValue [b0, b1, b2, b3, b4, b5, b6, b7] = v at hret hval hlt ⊢
    have hrest : ∃ c0 c1 c2 c3 c4 c5 c6 c7 : uint8_t,
        [b0, b1, b2, b3, b4, b5, b6, b7] = [c0, c1, c2, c3, c4, c5, c6, c7] ∧
        v = c0.val * 2 ^ 56 + c1.val * 2 ^ 48 + c2.val * 2 ^ 40 + c3.val * 2 ^ 32 +
            c4.val * 2 ^ 24 + c5.val * 2 ^ 16 + c6.val * 2 ^ 8 + c7.val :=
      ⟨b0, b1, b2, b3, b4, b5, b6, b7, rfl, hval⟩
    generalize env.policyForCVoteRegistrationNonce = policy at hret ⊢
    cases policy
    · exact absurd hret (by simp)
    · refine ⟨?_, fun h => absurd h (by decide), fun _ => ?_, hlt, hrest⟩
      · dsimp only
        rw [handleNonce_ui_runStep_at_RESPOND _ (by simpa using hstate)]
        simp
      · dsimp only
        rw [handleNonce_ui_runStep_at_RESPOND _ (by simpa using hstate)]
        simp
    · exact absurd hret (by simp)
    · exact absurd hret (by simp)
    · refine ⟨?_, fun _ => ?_, fun h => absurd h (by decide), hlt, hrest⟩
      · dsimp only
        rw [handleNonce_ui_runStep_at_DISPLAY]
        simp
      · dsimp only
        rw [handleNonce_ui_runStep_at_DISPLAY]
        simp

/-- C20 on a concrete payload: in the sample session that waits for the nonce, the 8
bytes 0,0,0,0,0,0,1,0 are accepted and the value hashed is 256. -/
theorem handleNonceAPDU_eight_bytes_witness :
    (signTxCVoteRegistration_handleNonceAPDU sampleEnv [0, 0, 0, 0, 0, 0, 1, 0]
        nonceWorld).status = Status.returned ∧
    hashCalls (signTxCVoteRegistration_handleNonceAPDU sampleEnv [0, 0, 0, 0, 0, 0, 1, 0]
        nonceWorld).world.trace = hashCalls nonceWorld.trace ++ [HashCall.addNonce 256] ∧
    (signTxCVoteRegistration_handleNonceAPDU sampleEnv [0, 0, 0, 0, 0, 0, 1]
        nonceWorld).status = Status.thrown Err.ERR_INVALID_DATA :=
  have h := handleNonceAPDU_eight_bytes sampleEnv [0, 0, 0, 0, 0, 0, 1, 0] nonceWorld rfl
    (by decide)
  ⟨h.2.1 rfl (Or.inl rfl), (h.2.2 (h.2.1 rfl (Or.inl rfl))).2.1,
    (handleNonceAPDU_eight_bytes sampleEnv [0, 0, 0, 0, 0, 0, 1] nonceWorld rfl
      (by decide)).1 (by decide)⟩


/-! ### C21 -/

@[simp] theorem policyQueries_append (a b : List Effect) :
    policyQueries (a ++ b) = policyQueries a ++ policyQueries b := by
  simp [policyQueries, List.filterMap_append]

@[simp] theorem policyQueries_nil : policyQueries [] = [] := rfl

@[simp] theorem policyQueries_cons_hash (c : HashCall) (t : List Effect) :
    policyQueries (Effect.hash c :: t) = policyQueries t := rfl

@[simp] theorem policyQueries_cons_respond (r : Response) (t : List Effect) :
    policyQueries (Effect.respond r :: t) = policyQueries t := rfl

@[simp] theorem policyQueries_cons_display (s : Screen) (t : List Effect) :
    policyQueries (Effect.display s :: t) = policyQueries t := rfl

@[simp] theorem policyQueries_cons_policy (q : PolicyQuery) (t : List Effect) :
    policyQueries (Effect.policy q :: t) = q :: policyQueries t := rfl

@[simp] theorem policyQueries_cons_sign (p : bip44_path_t) (h : List uint8_t)
    (t : List Effect) : policyQueries (Effect.sign p h :: t) = policyQueries t := rfl

theorem UnmappedFailure_quiet (w : World) (o : Outcome)
    (hp : policyQueries o.world.trace = policyQueries w.trace)
    (hh : hashCalls o.world.trace = hashCalls w.trace) : UnmappedFailure w o :=
  ⟨fun h => absurd hp h, fun h => absurd hh h⟩

theorem handleNonceAPDU_unmapped (env : Env) (d : List uint8_t) (w : World)
    (q : security_policy_t)
    (hq : q = POLICY_PROMPT_WARN_UNUSUAL ∨ q = POLICY_PROMPT_BEFORE_RESPONSE)
    (hpol : env.policyForCVoteRegistrationNonce = q) :
    UnmappedFailure w (signTxCVoteRegistration_handleNonceAPDU env d w) := by
  unfold signTxCVoteRegistration_handleNonceAPDU
  simp only [hpol]
  rcases hq with rfl | rfl
  all_goals
    repeat' (first | split | dsimp only)
  all_goals first
    | exact UnmappedFailure_quiet _ _ rfl rfl
    | (rename_i h; cases h)
    | simp [UnmappedFailure]

theorem handleVotingPurposeAPDU_unmapped (env : Env) (d : List uint8_t) (w : World)
    (q : security_policy_t)
    (hq : q = POLICY_PROMPT_WARN_UNUSUAL ∨ q = POLICY_PROMPT_BEFORE_RESPONSE)
    (hpol : env.policyForCVoteRegistrationVotingPurpose = q) :
    UnmappedFailure w (signTxCVoteRegistration_handleVotingPurposeAPDU env d w) := by
  unfold signTxCVoteRegistration_handleVotingPurposeAPDU
  by_cases hstate : w.subctx.state = STATE_CVOTE_REGISTRATION_VOTING_PURPOSE
  swap
  · rw [if_pos hstate]
    exact UnmappedFailure_quiet _ _ rfl rfl
  rw [if_neg (not_not.mpr hstate)]
  simp only [hpol]
  rcases hq with rfl | rfl
  all_goals
    repeat' (first | split | dsimp only)
  all_goals first
    | exact UnmappedFailure_quiet _ _ rfl rfl
    | (rw [advanceState_of_VOTING_PURPOSE _ (by simpa using hstate)]
       exact UnmappedFailure_quiet _ _ (by simp) (by simp))
    | (rename_i h; cases h)
    | simp [UnmappedFailure]

theorem handleConfirmAPDU_unmapped (env : Env) (d : List uint8_t) (w : World)
    (q : security_policy_t)
    (hq : q = POLICY_SHOW_BEFORE_RESPONSE ∨ q = POLICY_PROMPT_WARN_UNUSUAL)
    (hpol : env.policyForCVoteRegistrationConfirm = q) :
    UnmappedFailure w (signTxCVoteRegistration_handleConfirmAPDU env d w) := by
  unfold signTxCVoteRegistration_handleConfirmAPDU
  simp only [hpol]
  rcases hq with rfl | rfl
  all_goals
    repeat' (first | split | dsimp only)
  all_goals first
    | exact UnmappedFailure_quiet _ _ rfl rfl
    | (rename_i h; cases h)
    | simp [UnmappedFailure]

theorem handleStakingKeyAPDU_unmapped (env : Env) (d : List uint8_t) (w : World)
    (hpol : ∀ path size,
      env.bip44_parseFromWire (make_read_view d) = Except.ok (path, size) →
      env.policyForCVoteRegistrationStakingKey path = POLICY_PROMPT_BEFORE_RESPONSE) :
    UnmappedFailure w (signTxCVoteRegistration_handleStakingKeyAPDU env d w) := by
  unfold signTxCVoteRegistration_handleStakingKeyAPDU
  by_cases hstate : w.subctx.state = STATE_CVOTE_REGISTRATION_STAKING_KEY
  swap
  · rw [if_pos hstate]
    exact UnmappedFailure_quiet _ _ rfl rfl
  by_cases hlen : d.length < env.BUFFER_SIZE_PARANOIA
  swap
  · rw [if_neg (not_not.mpr hstate), if_pos hlen]
    exact UnmappedFailure_quiet _ _ rfl rfl
  rw [if_neg (not_not.mpr hstate), if_neg (not_not.mpr hlen)]
  dsimp only
  cases hparse : env.bip44_parseFromWire (make_read_view d) with
  | error e => exact UnmappedFailure_quiet _ _ rfl rfl
  | ok pr =>
    obtain ⟨path, size⟩ := pr
    have hp := hpol path size hparse
    simp only [setStakingKeyPath_stakingKeyPath, emit_subctx, hp]
    repeat' (first | split | dsimp only)
    all_goals first
      | exact UnmappedFailure_quiet _ _ rfl rfl
      | (rename_i h; cases h)
      | simp [UnmappedFailure]

theorem handlePaymentAddressAPDU_unmapped (env : Env) (d : List uint8_t) (w : World)
    (hpol : ∀ destination view,
      env.view_parseDestination (make_read_view d) = Except.ok (destination, view) →
      env.policyForCVoteRegistrationPaymentDestination destination env.networkId =
        POLICY_PROMPT_BEFORE_RESPONSE) :
    UnmappedFailure w (signTxCVoteRegistration_handlePaymentAddressAPDU env d w) := by
  unfold signTxCVoteRegistration_handlePaymentAddressAPDU
  by_cases hstate : w.subctx.state = STATE_CVOTE_REGISTRATION_PAYMENT_ADDRESS
  swap
  · rw [if_pos hstate]
    exact UnmappedFailure_quiet _ _ rfl rfl
  by_cases hlen : d.length < env.BUFFER_SIZE_PARANOIA
  swap
  · rw [if_neg (not_not.mpr hstate), if_pos hlen]
    exact UnmappedFailure_quiet _ _ rfl rfl
  rw [if_neg (not_not.mpr hstate), if_neg (not_not.mpr hlen)]
  dsimp only
  cases hparse : env.view_parseDestination (make_read_view d) with
  | error e => exact UnmappedFailure_quiet _ _ rfl rfl
  | ok pr =>
    obtain ⟨destination, view⟩ := pr
    have hp := hpol destination view hparse
    simp only [setStateData_stateData, getPaymentDestination_paymentDestination, emit_subctx,
      hp]
    repeat' (first | split | dsimp only)
    all_goals first
      | exact UnmappedFailure_quiet _ _ rfl rfl
      | (rename_i h; cases h)
      | simp [UnmappedFailure]

theorem determineVoteKeyPolicy_outcome (env : Env) (w w' : World) (pol : security_policy_t)
    (h : _determineVoteKeyPolicy env w = some (pol, w')) :
    pol = env.policyForCVoteRegistrationVoteKey ∨
    ∃ path, pol = env.policyForCVoteRegistrationVoteKeyPath path w.subctx.format := by
  unfold _determineVoteKeyPolicy at h
  simp only at h
  split_ifs at h
  · exact Or.inr ⟨_, (Prod.mk.inj (Option.some.inj h)).1.symm⟩
  · exact Or.inl (Prod.mk.inj (Option.some.inj h)).1.symm

theorem handleVoteKeyAPDU_unmapped (env : Env) (d : List uint8_t) (w : World)
    (hkey : env.policyForCVoteRegistrationVoteKey = POLICY_PROMPT_BEFORE_RESPONSE)
    (hpath : ∀ path, env.policyForCVoteRegistrationVoteKeyPath path w.subctx.format =
      POLICY_PROMPT_BEFORE_RESPONSE) :
    UnmappedFailure w (signTxCVoteRegistration_handleVoteKeyAPDU env d w) := by
  unfold signTxCVoteRegistration_handleVoteKeyAPDU
  by_cases hstate : w.subctx.state = STATE_CVOTE_REGISTRATION_VOTE_KEY
  swap
  · rw [if_pos hstate]
    exact UnmappedFailure_quiet _ _ rfl rfl
  by_cases hlen : d.length < env.BUFFER_SIZE_PARANOIA
  swap
  · rw [if_neg (not_not.mpr hstate), if_pos hlen]
    exact UnmappedFailure_quiet _ _ rfl rfl
  rw [if_neg (not_not.mpr hstate), if_neg (not_not.mpr hlen)]
  dsimp only
  obtain ⟨sd, hsd⟩ := parseVoteKey_frame env (make_read_view d)
    (w.setStateData stateData_t.zeroed)
  generalize _parseVoteKey env (make_read_view d) (w.setStateData stateData_t.zeroed) = r
    at hsd ⊢
  obtain ⟨⟨pst, pw⟩, view⟩ := r
  dsimp only at hsd ⊢
  subst hsd
  cases pst with
  | thrown e => exact UnmappedFailure_quiet _ _ rfl rfl
  | returned =>
    dsimp only
    split_ifs with hrem
    · exact UnmappedFailure_quiet _ _ rfl rfl
    · cases hpol : _determineVoteKeyPolicy env
          ((w.setStateData stateData_t.zeroed).setStateData sd) with
      | none => exact UnmappedFailure_quiet _ _ rfl rfl
      | some pr =>
        obtain ⟨policy, w3⟩ := pr
        obtain ⟨q, rfl⟩ := determineVoteKeyPolicy_frame _ _ _ _ hpol
        have hq : policy = POLICY_PROMPT_BEFORE_RESPONSE := by
          rcases determineVoteKeyPolicy_outcome _ _ _ _ hpol with h | ⟨path, h⟩
          · rw [h, hkey]
          · rw [h]
            exact hpath path
        subst hq
        dsimp only
        rw [if_neg (by decide)]
        split_ifs
        all_goals simp [UnmappedFailure]

theorem handleDelegationAPDU_unmapped (env : Env) (d : List uint8_t) (w : World)
    (hkey : env.policyForCVoteRegistrationVoteKey = POLICY_PROMPT_BEFORE_RESPONSE)
    (hpath : ∀ path, env.policyForCVoteRegistrationVoteKeyPath path w.subctx.format =
      POLICY_PROMPT_BEFORE_RESPONSE) :
    UnmappedFailure w (signTxCVoteRegistration_handleDelegationAPDU env d w) := by
  unfold signTxCVoteRegistration_handleDelegationAPDU
  by_cases hstate : w.subctx.state = STATE_CVOTE_REGISTRATION_DELEGATIONS
  swap
  · rw [if_pos hstate]
    exact UnmappedFailure_quiet _ _ rfl rfl
  by_cases hcur : w.subctx.currentDelegation < w.subctx.numDelegations
  swap
  · rw [if_neg (not_not.mpr hstate), if_pos hcur]
    exact UnmappedFailure_quiet _ _ rfl rfl
  rw [if_neg (not_not.mpr hstate), if_neg (not_not.mpr hcur)]
  dsimp only
  obtain ⟨sd, hsd⟩ := parseVoteKey_frame env (make_read_view d)
    (w.setStateData stateData_t.zeroed)
  generalize _parseVoteKey env (make_read_view d) (w.setStateData stateData_t.zeroed) = r
    at hsd ⊢
  obtain ⟨⟨pst, pw⟩, view⟩ := r
  dsimp only at hsd ⊢
  subst hsd
  cases pst with
  | thrown e => exact UnmappedFailure_quiet _ _ rfl rfl
  | returned =>
    dsimp only
    cases hweight : parse_u4be view with
    | error e => exact UnmappedFailure_quiet _ _ rfl rfl
    | ok pr =>
      obtain ⟨weight, view1⟩ := pr
      dsimp only
      split_ifs with hrem
      · exact UnmappedFailure_quiet _ _ rfl rfl
      · generalize hW : ((w.setStateData stateData_t.zeroed).setStateData sd).setStateData
            (stateData_t.delegation
              { ((w.setStateData stateData_t.zeroed).setStateData
                  sd).subctx.stateData.getDelegation with weight := weight }) = W
        have hWt : W.trace = w.trace := by rw [← hW]; rfl
        have hWs : W.subctx.state = w.subctx.state := by rw [← hW]; rfl
        have hWf : W.subctx.format = w.subctx.format := by rw [← hW]; rfl
        have hWp : W.pending = w.pending := by rw [← hW]; rfl
        cases hpol : _determineVoteKeyPolicy env W with
        | none => exact UnmappedFailure_quiet _ _ (by simp [THROW, hWt]) (by simp [THROW, hWt])
        | some pr =>
          obtain ⟨policy, w3⟩ := pr
          obtain ⟨q, rfl⟩ := determineVoteKeyPolicy_frame _ _ _ _ hpol
          have hq : policy = POLICY_PROMPT_BEFORE_RESPONSE := by
            rcases determineVoteKeyPolicy_outcome _ _ _ _ hpol with h | ⟨path, h⟩
            · rw [h, hkey]
            · rw [h, hWf]
              exact hpath path
          subst hq
          dsimp only
          rw [if_neg (by decide)]
          split_ifs
          all_goals simp [UnmappedFailure, hWt, hWs, hWp]

/-- C21: when the policy oracle answers a command with a non-deny outcome for which
the step has no UI mapping, then, once the oracle has been consulted, the handler
throws, sends no response, renders no screen and leaves the state as it was; and once
the step's hash call has been made, which is when the selection of the UI steps is
reached, the error thrown is `ERR_NOT_IMPLEMENTED`. -/
theorem unmapped_policy_not_implemented (env : Env) (p2 : uint8_t) (wireData : List uint8_t)
    (w : World) (q : security_policy_t) (hq : specNoUiMapping p2 q)
    (horacle : OracleAnswers env p2 wireData w q) :
    (policyQueries (signTxCVoteRegistration_handleAPDU env p2 wireData w).world.trace ≠
        policyQueries w.trace →
      (∃ e, (signTxCVoteRegistration_handleAPDU env p2 wireData w).status =
        Status.thrown e) ∧
      responses (signTxCVoteRegistration_handleAPDU env p2 wireData w).world.trace =
        responses w.trace ∧
      screens (signTxCVoteRegistration_handleAPDU env p2 wireData w).world.trace =
        screens w.trace ∧
      (signTxCVoteRegistration_handleAPDU env p2 wireData w).world.subctx.state =
        w.subctx.state ∧
      (signTxCVoteRegistration_handleAPDU env p2 wireData w).world.pending = w.pending) ∧
    (hashCalls (signTxCVoteRegistration_handleAPDU env p2 wireData w).world.trace ≠
        hashCalls w.trace →
      (signTxCVoteRegistration_handleAPDU env p2 wireData w).status =
        Status.thrown Err.ERR_NOT_IMPLEMENTED) := by
  have key : UnmappedFailure w (signTxCVoteRegistration_handleAPDU env p2 wireData w) := by
    obtain ⟨hvk, hsk, hpa, hno, hvp, hco⟩ := horacle
    rcases handleAPDU_by_code env p2 wireData w with
      h | ⟨hp, h⟩ | ⟨hp, h⟩ | ⟨hp, h⟩ | ⟨hp, h⟩ | ⟨hp, h⟩ | ⟨hp, h⟩ | ⟨hp, h⟩ | ⟨hp, h⟩
    · rw [h]
      exact UnmappedFailure_quiet _ _ rfl rfl
    · exfalso
      simp only [specNoUiMapping, hp, APDU_INSTRUCTION_INIT] at hq
      omega
    · rw [h]
      have hq2 : q = POLICY_PROMPT_BEFORE_RESPONSE := by
        simp only [specNoUiMapping, hp, APDU_INSTRUCTION_VOTE_KEY] at hq
        rcases hq with ⟨_, h1⟩ | ⟨h1, _⟩ | ⟨h1, _⟩
        · exact h1
        · omega
        · omega
      subst hq2
      exact handleVoteKeyAPDU_unmapped env wireData w (hvk (Or.inl hp)).1 (hvk (Or.inl hp)).2
    · rw [h]
      have hq2 : q = POLICY_PROMPT_BEFORE_RESPONSE := by
        simp only [specNoUiMapping, hp, APDU_INSTRUCTION_DELEGATION] at hq
        rcases hq with ⟨_, h1⟩ | ⟨h1, _⟩ | ⟨h1, _⟩
        · exact h1
        · omega
        · omega
      subst hq2
      exact handleDelegationAPDU_unmapped env wireData w (hvk (Or.inr hp)).1
        (hvk (Or.inr hp)).2
    · rw [h]
      have hq2 : q = POLICY_PROMPT_BEFORE_RESPONSE := by
        simp only [specNoUiMapping, hp, APDU_INSTRUCTION_STAKING_KEY] at hq
        rcases hq with ⟨_, h1⟩ | ⟨h1, _⟩ | ⟨h1, _⟩
        · exact h1
        · omega
        · omega
      subst hq2
      exact handleStakingKeyAPDU_unmapped env wireData w (hsk hp)
    · rw [h]
      have hq2 : q = POLICY_PROMPT_BEFORE_RESPONSE := by
        simp only [specNoUiMapping, hp, APDU_INSTRUCTION_PAYMENT_ADDRESS] at hq
        rcases hq with ⟨_, h1⟩ | ⟨h1, _⟩ | ⟨h1, _⟩
        · exact h1
        · omega
        · omega
      subst hq2
      exact handlePaymentAddressAPDU_unmapped env wireData w (hpa hp)
    · rw [h]
      have hq2 : q = POLICY_PROMPT_WARN_UNUSUAL ∨ q = POLICY_PROMPT_BEFORE_RESPONSE := by
        simp only [specNoUiMapping, hp, APDU_INSTRUCTION_NONCE] at hq
        rcases hq with ⟨h1, _⟩ | ⟨_, h1⟩ | ⟨h1, _⟩
        · omega
        · exact h1
        · omega
      exact handleNonceAPDU_unmapped env wireData w q hq2 (hno hp)
    · rw [h]
      have hq2 : q = POLICY_PROMPT_WARN_UNUSUAL ∨ q = POLICY_PROMPT_BEFORE_RESPONSE := by
        simp only [specNoUiMapping, hp, APDU_INSTRUCTION_VOTING_PURPOSE] at hq
        rcases hq with ⟨h1, _⟩ | ⟨_, h1⟩ | ⟨h1, _⟩
        · omega
        · exact h1
        · omega
      exact handleVotingPurposeAPDU_unmapped env wireData w q hq2 (hvp hp)
    · rw [h]
      have hq2 : q = POLICY_SHOW_BEFORE_RESPONSE ∨ q = POLICY_PROMPT_WARN_UNUSUAL := by
        simp only [specNoUiMapping, hp, APDU_INSTRUCTION_CONFIRM] at hq
        rcases hq with ⟨h1, _⟩ | ⟨h1, _⟩ | ⟨_, h1⟩
        · omega
        · omega
        · exact h1
      exact handleConfirmAPDU_unmapped env wireData w q hq2 (hco hp)
  exact key

/-- C21 on a concrete command: in the sample session that waits for the nonce, with a
nonce policy of warn-then-show, a well-formed Nonce command fails with
`ERR_NOT_IMPLEMENTED`, no response is sent and the state stays Nonce. -/
theorem unmapped_policy_not_implemented_witness :
    (signTxCVoteRegistration_handleAPDU sampleEnvNonceWarn 0x33 [0, 0, 0, 0, 0, 0, 1, 0]
        nonceWorld).status = Status.thrown Err.ERR_NOT_IMPLEMENTED ∧
    responses (signTxCVoteRegistration_handleAPDU sampleEnvNonceWarn 0x33
        [0, 0, 0, 0, 0, 0, 1, 0] nonceWorld).world.trace = responses nonceWorld.trace ∧
    (signTxCVoteRegistration_handleAPDU sampleEnvNonceWarn 0x33 [0, 0, 0, 0, 0, 0, 1, 0]
        nonceWorld).world.subctx.state = STATE_CVOTE_REGISTRATION_NONCE :=
  have h := unmapped_policy_not_implemented sampleEnvNonceWarn 0x33 [0, 0, 0, 0, 0, 0, 1, 0]
    nonceWorld POLICY_PROMPT_WARN_UNUSUAL (Or.inr (Or.inl ⟨Or.inl rfl, Or.inl rfl⟩))
    ⟨fun h => absurd h (by decide), fun h => absurd h (by decide),
      fun h => absurd h (by decide), fun _ => rfl, fun h => absurd h (by decide),
      fun h => absurd h (by decide)⟩
  ⟨h.2 (by decide), (h.1 (by decide)).2.1, (h.1 (by decide)).2.2.2.1⟩


/-! ### C28 -/

set_option maxRecDepth 100000 in
theorem isValidInstruction_iff (p2 : uint8_t) :
    signTxCVoteRegistration_isValidInstruction p2 = true ↔
      (p2.val = 0x30 ∨ p2.val = 0x31 ∨ p2.val = 0x32 ∨ p2.val = 0x33 ∨ p2.val = 0x34 ∨
        p2.val = 0x35 ∨ p2.val = 0x36 ∨ p2.val = 0x37) := by
  revert p2
  decide

set_option maxRecDepth 100000 in
theorem isValidInstruction_false (p2 : uint8_t) :
    signTxCVoteRegistration_isValidInstruction p2 = false →
      p2.val ≠ APDU_INSTRUCTION_INIT ∧ p2.val ≠ APDU_INSTRUCTION_VOTE_KEY ∧
      p2.val ≠ APDU_INSTRUCTION_DELEGATION ∧ p2.val ≠ APDU_INSTRUCTION_STAKING_KEY ∧
      p2.val ≠ APDU_INSTRUCTION_PAYMENT_ADDRESS ∧ p2.val ≠ APDU_INSTRUCTION_NONCE ∧
      p2.val ≠ APDU_INSTRUCTION_VOTING_PURPOSE ∧ p2.val ≠ APDU_INSTRUCTION_CONFIRM := by
  revert p2
  decide

/-- C28: `signTxCVoteRegistration_isValidInstruction p2` is true exactly for the codes
0x30 to 0x37; for a code it rejects `signTxCVoteRegistration_handleAPDU` fails its
assertion and leaves the session alone, and for a code it accepts the dispatcher runs
the step handler of that code (0x36 Init, 0x30 VoteKey, 0x37 Delegation, 0x31
StakingKey, 0x32 PaymentAddress, 0x33 Nonce, 0x35 VotingPurpose, 0x34 Confirm). -/
theorem isValidInstruction_dispatch (p2 : uint8_t) :
    (signTxCVoteRegistration_isValidInstruction p2 = true ↔
      (p2.val = 0x30 ∨ p2.val = 0x31 ∨ p2.val = 0x32 ∨ p2.val = 0x33 ∨ p2.val = 0x34 ∨
        p2.val = 0x35 ∨ p2.val = 0x36 ∨ p2.val = 0x37)) ∧
    (signTxCVoteRegistration_isValidInstruction p2 = false →
      ∀ (env : Env) (wireData : List uint8_t) (w : World),
        signTxCVoteRegistration_handleAPDU env p2 wireData w = THROW Err.ERR_ASSERT w) ∧
    (signTxCVoteRegistration_isValidInstruction p2 = true →
      ∀ (env : Env) (wireData : List uint8_t) (w : World),
        wireData.length < env.BUFFER_SIZE_PARANOIA →
        (p2.val = 0x36 ∧ signTxCVoteRegistration_handleAPDU env p2 wireData w =
          signTxCVoteRegistration_handleInitAPDU env wireData w) ∨
        (p2.val = 0x30 ∧ signTxCVoteRegistration_handleAPDU env p2 wireData w =
          signTxCVoteRegistration_handleVoteKeyAPDU env wireData w) ∨
        (p2.val = 0x37 ∧ signTxCVoteRegistration_handleAPDU env p2 wireData w =
          signTxCVoteRegistration_handleDelegationAPDU env wireData w) ∨
        (p2.val = 0x31 ∧ signTxCVoteRegistration_handleAPDU env p2 wireData w =
          signTxCVoteRegistration_handleStakingKeyAPDU env wireData w) ∨
        (p2.val = 0x32 ∧ signTxCVoteRegistration_handleAPDU env p2 wireData w =
          signTxCVoteRegistration_handlePaymentAddressAPDU env wireData w) ∨
        (p2.val = 0x33 ∧ signTxCVoteRegistration_handleAPDU env p2 wireData w =
          signTxCVoteRegistration_handleNonceAPDU env wireData w) ∨
        (p2.val = 0x35 ∧ signTxCVoteRegistration_handleAPDU env p2 wireData w =
          signTxCVoteRegistration_handleVotingPurposeAPDU env wireData w) ∨
        (p2.val = 0x34 ∧ signTxCVoteRegistration_handleAPDU env p2 wireData w =
          signTxCVoteRegistration_handleConfirmAPDU env wireData w)) := by
  refine ⟨isValidInstruction_iff p2, ?_, ?_⟩
  · intro hfalse env d w
    obtain ⟨h1, h2, h3, h4, h5, h6, h7, h8⟩ := isValidInstruction_false p2 hfalse
    unfold signTxCVoteRegistration_handleAPDU
    by_cases hlen : d.length < env.BUFFER_SIZE_PARANOIA
    · rw [if_neg (not_not.mpr hlen), if_neg h1, if_neg h2, if_neg h3, if_neg h4, if_neg h5,
        if_neg h6, if_neg h7, if_neg h8]
    · rw [if_pos hlen]
  · intro htrue env d w hlen
    rcases (isValidInstruction_iff p2).mp htrue with h | h | h | h | h | h | h | h
    · exact Or.inr (Or.inl ⟨h, handleAPDU_dispatch_VoteKey env p2 d w hlen h⟩)
    · exact Or.inr (Or.inr (Or.inr (Or.inl
        ⟨h, handleAPDU_dispatch_StakingKey env p2 d w hlen h⟩)))
    · exact Or.inr (Or.inr (Or.inr (Or.inr (Or.inl
        ⟨h, handleAPDU_dispatch_PaymentAddress env p2 d w hlen h⟩))))
    · exact Or.inr (Or.inr (Or.inr (Or.inr (Or.inr (Or.inl
        ⟨h, handleAPDU_dispatch_Nonce env p2 d w hlen h⟩)))))
    · exact Or.inr (Or.inr (Or.inr (Or.inr (Or.inr (Or.inr (Or.inr
        ⟨h, handleAPDU_dispatch_Confirm env p2 d w hlen h⟩))))))
    · exact Or.inr (Or.inr (Or.inr (Or.inr (Or.inr (Or.inr (Or.inl
        ⟨h, handleAPDU_dispatch_VotingPurpose env p2 d w hlen h⟩))))))
    · exact Or.inl ⟨h, handleAPDU_dispatch_Init env p2 d w hlen h⟩
    · exact Or.inr (Or.inr (Or.inl ⟨h, handleAPDU_dispatch_Delegation env p2 d w hlen h⟩))

/-- C28 on two codes: 0x2f is rejected and the dispatcher fails its assertion on it;
0x33 is accepted. -/
theorem isValidInstruction_dispatch_witness :
    signTxCVoteRegistration_handleAPDU sampleEnv 0x2f [] signTxCVoteRegistration_init =
      THROW Err.ERR_ASSERT signTxCVoteRegistration_init ∧
    signTxCVoteRegistration_isValidInstruction 0x33 = true :=
  ⟨(isValidInstruction_dispatch 0x2f).2.1 (by decide) sampleEnv []
      signTxCVoteRegistration_init,
    (isValidInstruction_dispatch 0x33).1.mpr (by decide)⟩


/-! ### C23 -/

theorem parse_be_ok (n : Nat) (view view1 : read_view_t) (x : Nat)
    (h : parse_be n view = Except.ok (x, view1)) :
    n ≤ view.length ∧ x = beValue (view.take n) ∧ view1 = view.drop n := by
  unfold parse_be at h
  split_ifs at h with hn
  exact ⟨hn, (Prod.mk.inj (Except.ok.inj h)).1.symm, (Prod.mk.inj (Except.ok.inj h)).2.symm⟩

theorem parse_be_length (n : Nat) (view view1 : read_view_t) (x : Nat)
    (h : parse_be n view = Except.ok (x, view1)) : view.length = n + view1.length := by
  obtain ⟨hn, _, rfl⟩ := parse_be_ok n view view1 x h
  rw [List.length_drop]
  omega

theorem Rejected_THROW (w W : World) (e : Err)
    (hr : responses W.trace = responses w.trace) (hs : W.subctx.state = w.subctx.state) :
    Rejected w (THROW e W) := ⟨⟨e, rfl⟩, hr, hs⟩

theorem parse_be_of_le (n : Nat) (view : read_view_t) (h : n ≤ view.length) :
    parse_be n view = Except.ok (beValue (view.take n), view.drop n) := by
  unfold parse_be
  rw [if_pos h]

theorem parse_be_of_lt (n : Nat) (view : read_view_t) (h : view.length < n) :
    parse_be n view = Except.error Err.ERR_NOT_ENOUGH_INPUT := by
  unfold parse_be
  rw [if_neg (by omega)]

theorem handleInitAPDU_length (env : Env) (d : List uint8_t) (w : World)
    (hlen5 : d.length ≠ 5) :
    Rejected w (signTxCVoteRegistration_handleInitAPDU env d w) ∧
    (w.subctx.state = STATE_CVOTE_REGISTRATION_INIT → d.length < env.BUFFER_SIZE_PARANOIA →
      5 < d.length → (signTxCVoteRegistration_handleInitAPDU env d w).status =
        Status.thrown Err.ERR_INVALID_DATA) := by
  unfold signTxCVoteRegistration_handleInitAPDU
  by_cases hstate : w.subctx.state = STATE_CVOTE_REGISTRATION_INIT
  swap
  · rw [if_pos hstate]
    exact ⟨Rejected_THROW _ _ _ rfl rfl, fun h => absurd h hstate⟩
  by_cases hlen : d.length < env.BUFFER_SIZE_PARANOIA
  swap
  · rw [if_neg (not_not.mpr hstate), if_pos hlen]
    exact ⟨Rejected_THROW _ _ _ rfl rfl, fun _ h => absurd h hlen⟩
  rw [if_neg (not_not.mpr hstate), if_neg (not_not.mpr hlen)]
  dsimp only [parse_u1be, parse_u4be, make_read_view]
  by_cases c1 : 1 ≤ d.length
  swap
  · rw [parse_be_of_lt 1 d (by omega)]
    exact ⟨Rejected_THROW _ _ _ rfl rfl, fun _ _ h => by omega⟩
  rw [parse_be_of_le 1 d c1]
  dsimp only
  split_ifs with hfmt
  · exact ⟨Rejected_THROW _ _ _ rfl rfl, fun _ _ _ => rfl⟩
  by_cases c4 : 4 ≤ (d.drop 1).length
  swap
  · rw [parse_be_of_lt 4 _ (by omega)]
    refine ⟨Rejected_THROW _ _ _ rfl rfl, fun _ _ h => ?_⟩
    rw [List.length_drop] at c4
    omega
  rw [parse_be_of_le 4 _ c4]
  dsimp only
  split_ifs with h15 hrem
  · exact ⟨Rejected_THROW _ _ _ rfl rfl, fun _ _ _ => rfl⟩
  · exact ⟨Rejected_THROW _ _ _ rfl rfl, fun _ _ _ => rfl⟩
  · exfalso
    simp only [view_remainingSize, ne_eq, not_not, List.length_drop] at hrem c4
    omega

theorem handleConfirmAPDU_length (env : Env) (d : List uint8_t) (w : World)
    (hlen0 : d.length ≠ 0) :
    Rejected w (signTxCVoteRegistration_handleConfirmAPDU env d w) ∧
    (w.subctx.state = STATE_CVOTE_REGISTRATION_CONFIRM →
      d.length < env.BUFFER_SIZE_PARANOIA →
      (signTxCVoteRegistration_handleConfirmAPDU env d w).status =
        Status.thrown Err.ERR_INVALID_DATA) := by
  unfold signTxCVoteRegistration_handleConfirmAPDU
  by_cases hstate : w.subctx.state = STATE_CVOTE_REGISTRATION_CONFIRM
  swap
  · rw [if_pos hstate]
    exact ⟨Rejected_THROW _ _ _ rfl rfl, fun h => absurd h hstate⟩
  by_cases hlen : d.length < env.BUFFER_SIZE_PARANOIA
  swap
  · rw [if_neg (not_not.mpr hstate), if_pos hlen]
    exact ⟨Rejected_THROW _ _ _ rfl rfl, fun _ h => absurd h hlen⟩
  rw [if_neg (not_not.mpr hstate), if_neg (not_not.mpr hlen)]
  dsimp only
  rw [if_pos hlen0]
  exact ⟨Rejected_THROW _ _ _ rfl rfl, fun _ _ => rfl⟩

theorem beValue_singleton (t : uint8_t) : beValue [t] = t.val := by
  simp [beValue]

theorem parse_u1be_cons (t : uint8_t) (rest : List uint8_t) :
    parse_u1be (t :: rest) = Except.ok (t.val, rest) := by
  unfold parse_u1be
  rw [parse_be_of_le 1 (t :: rest) (by simp)]
  simp [beValue]

theorem parse_u1be_nil : parse_u1be [] = Except.error Err.ERR_NOT_ENOUGH_INPUT := by
  unfold parse_u1be
  exact parse_be_of_lt 1 [] (by simp)

theorem handleVotingPurposeAPDU_length (env : Env) (d : List uint8_t) (w : World)
    (hbad : ∀ flag rest b, d = flag :: rest →
      env.signTx_parseIncluded flag.val = Except.ok b →
      d.length ≠ (if b = true then 9 else 1)) :
    Rejected w (signTxCVoteRegistration_handleVotingPurposeAPDU env d w) ∧
    (∀ flag rest b, d = flag :: rest → env.signTx_parseIncluded flag.val = Except.ok b →
      (if b = true then 9 else 1) < d.length →
      w.subctx.state = STATE_CVOTE_REGISTRATION_VOTING_PURPOSE →
      d.length < env.BUFFER_SIZE_PARANOIA →
      (signTxCVoteRegistration_handleVotingPurposeAPDU env d w).status =
        Status.thrown Err.ERR_INVALID_DATA) := by
  unfold signTxCVoteRegistration_handleVotingPurposeAPDU
  by_cases hstate : w.subctx.state = STATE_CVOTE_REGISTRATION_VOTING_PURPOSE
  swap
  · rw [if_pos hstate]
    exact ⟨Rejected_THROW _ _ _ rfl rfl, fun _ _ _ _ _ _ h => absurd h hstate⟩
  by_cases hlen : d.length < env.BUFFER_SIZE_PARANOIA
  swap
  · rw [if_neg (not_not.mpr hstate), if_pos hlen]
    exact ⟨Rejected_THROW _ _ _ rfl rfl, fun _ _ _ _ _ _ _ h => absurd h hlen⟩
  rw [if_neg (not_not.mpr hstate), if_neg (not_not.mpr hlen)]
  dsimp only [make_read_view]
  cases d with
  | nil =>
    rw [parse_u1be_nil]
    exact ⟨Rejected_THROW _ _ _ rfl rfl, fun _ _ _ h => by cases h⟩
  | cons flag rest =>
    rw [parse_u1be_cons]
    dsimp only
    cases hinc : env.signTx_parseIncluded flag.val with
    | error e =>
      refine ⟨Rejected_THROW _ _ _ rfl rfl, fun f r b h hb => ?_⟩
      obtain ⟨rfl, rfl⟩ := List.cons.inj h
      rw [hinc] at hb
      cases hb
    | ok b =>
      have hne := hbad flag rest b rfl hinc
      dsimp only
      have hgt : ∀ f r b2, flag :: rest = f :: r →
          env.signTx_parseIncluded f.val = Except.ok b2 → b2 = b := by
        intro f r b2 h hb
        obtain ⟨rfl, rfl⟩ := List.cons.inj h
        rw [hinc] at hb
        exact (Except.ok.inj hb).symm
      cases b with
      | true =>
        simp only [if_true, List.length_cons] at hne
        by_cases h36 : (w.setStateData stateData_t.zeroed).subctx.format ≠ env.CIP36
        · rw [if_pos ⟨rfl, h36⟩]
          exact ⟨Rejected_THROW _ _ _ rfl rfl, fun _ _ _ _ _ _ _ _ => rfl⟩
        · rw [if_neg (fun h => h36 h.2), if_pos rfl]
          unfold parse_u8be
          by_cases c8 : 8 ≤ rest.length
          swap
          · rw [parse_be_of_lt 8 _ (by omega)]
            refine ⟨Rejected_THROW _ _ _ rfl rfl, fun f r b2 h hb hl _ _ => ?_⟩
            rw [hgt f r b2 h hb] at hl
            simp only [if_true, List.length_cons] at hl
            omega
          rw [parse_be_of_le 8 _ c8]
          dsimp only
          have hrem : view_remainingSize (List.drop 8 rest) ≠ 0 := by
            simp only [view_remainingSize, List.length_drop]
            omega
          rw [if_pos hrem]
          exact ⟨Rejected_THROW _ _ _ rfl rfl, fun _ _ _ _ _ _ _ _ => rfl⟩
      | false =>
        simp only [Bool.false_eq_true, if_false, List.length_cons] at hne
        rw [if_neg (by simp)]
        simp only [Bool.false_eq_true, if_false]
        have hrem : view_remainingSize rest ≠ 0 := by
          simp only [view_remainingSize]
          omega
        rw [if_pos hrem]
        exact ⟨Rejected_THROW _ _ _ rfl rfl, fun _ _ _ _ _ _ _ _ => rfl⟩

theorem parseVoteKey_nil (env : Env) (w : World) :
    _parseVoteKey env [] w = (THROW Err.ERR_NOT_ENOUGH_INPUT w, []) := by
  unfold _parseVoteKey
  rw [parse_u1be_nil]

theorem parseVoteKey_raw (env : Env) (t : uint8_t) (rest : List uint8_t) (w : World)
    (ht : t.val = env.DELEGATION_KEY) :
    _parseVoteKey env (t :: rest) w =
      if 32 ≤ rest.length then
        (returned ((w.setStateData (stateData_t.delegation
            { w.subctx.stateData.getDelegation with type := t.val })).setStateData
          (stateData_t.delegation
            { w.subctx.stateData.getDelegation with
              type := t.val, votePubKey := rest.take 32 })), rest.drop 32)
      else
        (THROW Err.ERR_NOT_ENOUGH_INPUT (w.setStateData (stateData_t.delegation
          { w.subctx.stateData.getDelegation with type := t.val })), rest) := by
  unfold _parseVoteKey
  rw [parse_u1be_cons]
  dsimp only
  rw [if_pos ht]
  unfold view_parseBuffer CVOTE_PUBLIC_KEY_LENGTH
  split_ifs <;> rfl

theorem handleVoteKeyAPDU_length (env : Env) (t : uint8_t) (rest : List uint8_t) (w : World)
    (ht : t.val = env.DELEGATION_KEY) (hlen33 : (t :: rest).length ≠ 33) :
    Rejected w (signTxCVoteRegistration_handleVoteKeyAPDU env (t :: rest) w) ∧
    (w.subctx.state = STATE_CVOTE_REGISTRATION_VOTE_KEY →
      (t :: rest).length < env.BUFFER_SIZE_PARANOIA → 33 < (t :: rest).length →
      (signTxCVoteRegistration_handleVoteKeyAPDU env (t :: rest) w).status =
        Status.thrown Err.ERR_INVALID_DATA) := by
  unfold signTxCVoteRegistration_handleVoteKeyAPDU
  by_cases hstate : w.subctx.state = STATE_CVOTE_REGISTRATION_VOTE_KEY
  swap
  · rw [if_pos hstate]
    exact ⟨Rejected_THROW _ _ _ rfl rfl, fun h => absurd h hstate⟩
  by_cases hlen : (t :: rest).length < env.BUFFER_SIZE_PARANOIA
  swap
  · rw [if_neg (not_not.mpr hstate), if_pos hlen]
    exact ⟨Rejected_THROW _ _ _ rfl rfl, fun _ h => absurd h hlen⟩
  rw [if_neg (not_not.mpr hstate), if_neg (not_not.mpr hlen)]
  dsimp only [make_read_view]
  rw [parseVoteKey_raw env t rest _ ht]
  simp only [List.length_cons] at hlen33
  by_cases c32 : 32 ≤ rest.length
  · rw [if_pos c32]
    dsimp only [returned]
    have hrem : view_remainingSize (List.drop 32 rest) ≠ 0 := by
      simp only [view_remainingSize, List.length_drop]
      omega
    rw [if_pos hrem]
    exact ⟨Rejected_THROW _ _ _ rfl rfl, fun _ _ _ => rfl⟩
  · rw [if_neg c32]
    dsimp only [THROW]
    refine ⟨⟨⟨_, rfl⟩, rfl, rfl⟩, fun _ _ h => ?_⟩
    simp only [List.length_cons] at h
    omega

theorem handleDelegationAPDU_length (env : Env) (t : uint8_t) (rest : List uint8_t)
    (w : World) (ht : t.val = env.DELEGATION_KEY) (hlen37 : (t :: rest).length ≠ 37) :
    Rejected w (signTxCVoteRegistration_handleDelegationAPDU env (t :: rest) w) ∧
    (w.subctx.state = STATE_CVOTE_REGISTRATION_DELEGATIONS →
      w.subctx.currentDelegation < w.subctx.numDelegations → 37 < (t :: rest).length →
      (signTxCVoteRegistration_handleDelegationAPDU env (t :: rest) w).status =
        Status.thrown Err.ERR_INVALID_DATA) := by
  unfold signTxCVoteRegistration_handleDelegationAPDU
  by_cases hstate : w.subctx.state = STATE_CVOTE_REGISTRATION_DELEGATIONS
  swap
  · rw [if_pos hstate]
    exact ⟨Rejected_THROW _ _ _ rfl rfl, fun h => absurd h hstate⟩
  by_cases hcur : w.subctx.currentDelegation < w.subctx.numDelegations
  swap
  · rw [if_neg (not_not.mpr hstate), if_pos hcur]
    exact ⟨Rejected_THROW _ _ _ rfl rfl, fun _ h => absurd h hcur⟩
  rw [if_neg (not_not.mpr hstate), if_neg (not_not.mpr hcur)]
  dsimp only [make_read_view]
  rw [parseVoteKey_raw env t rest _ ht]
  simp only [List.length_cons] at hlen37
  by_cases c32 : 32 ≤ rest.length
  · rw [if_pos c32]
    dsimp only [returned]
    unfold parse_u4be
    by_cases c4 : 4 ≤ (List.drop 32 rest).length
    · rw [parse_be_of_le 4 _ c4]
      dsimp only
      have hrem : view_remainingSize (List.drop 4 (List.drop 32 rest)) ≠ 0 := by
        simp only [view_remainingSize, List.length_drop] at c4 ⊢
        omega
      rw [if_pos hrem]
      exact ⟨Rejected_THROW _ _ _ rfl rfl, fun _ _ _ => rfl⟩
    · rw [parse_be_of_lt 4 _ (by omega)]
      refine ⟨Rejected_THROW _ _ _ rfl rfl, fun _ _ h => ?_⟩
      simp only [List.length_cons, List.length_drop] at h c4
      omega
  · rw [if_neg c32]
    dsimp only [THROW]
    refine ⟨⟨⟨_, rfl⟩, rfl, rfl⟩, fun _ _ h => ?_⟩
    simp only [List.length_cons] at h
    omega

theorem handleNonceAPDU_length (env : Env) (d : List uint8_t) (w : World)
    (hlen8 : d.length ≠ 8) :
    Rejected w (signTxCVoteRegistration_handleNonceAPDU env d w) ∧
    (w.subctx.state = STATE_CVOTE_REGISTRATION_NONCE →
      d.length < env.BUFFER_SIZE_PARANOIA →
      (signTxCVoteRegistration_handleNonceAPDU env d w).status =
        Status.thrown Err.ERR_INVALID_DATA) := by
  unfold signTxCVoteRegistration_handleNonceAPDU
  by_cases hstate : w.subctx.state = STATE_CVOTE_REGISTRATION_NONCE
  swap
  · rw [if_pos hstate]
    exact ⟨Rejected_THROW _ _ _ rfl rfl, fun h => absurd h hstate⟩
  by_cases hlen : d.length < env.BUFFER_SIZE_PARANOIA
  swap
  · rw [if_neg (not_not.mpr hstate), if_pos hlen]
    exact ⟨Rejected_THROW _ _ _ rfl rfl, fun _ h => absurd h hlen⟩
  rw [if_neg (not_not.mpr hstate), if_neg (not_not.mpr hlen)]
  dsimp only
  rw [if_pos hlen8]
  exact ⟨Rejected_THROW _ _ _ rfl rfl, fun _ _ => rfl⟩

theorem handleStakingKeyAPDU_length (env : Env) (d : List uint8_t) (w : World)
    (path : bip44_path_t) (size : Nat)
    (hparse : env.bip44_parseFromWire d = Except.ok (path, size)) (hne : d.length ≠ size) :
    Rejected w (signTxCVoteRegistration_handleStakingKeyAPDU env d w) ∧
    (w.subctx.state = STATE_CVOTE_REGISTRATION_STAKING_KEY →
      d.length < env.BUFFER_SIZE_PARANOIA → size < d.length →
      (signTxCVoteRegistration_handleStakingKeyAPDU env d w).status =
        Status.thrown Err.ERR_INVALID_DATA) := by
  unfold signTxCVoteRegistration_handleStakingKeyAPDU
  by_cases hstate : w.subctx.state = STATE_CVOTE_REGISTRATION_STAKING_KEY
  swap
  · rw [if_pos hstate]
    exact ⟨Rejected_THROW _ _ _ rfl rfl, fun h => absurd h hstate⟩
  by_cases hlen : d.length < env.BUFFER_SIZE_PARANOIA
  swap
  · rw [if_neg (not_not.mpr hstate), if_pos hlen]
    exact ⟨Rejected_THROW _ _ _ rfl rfl, fun _ h => absurd h hlen⟩
  rw [if_neg (not_not.mpr hstate), if_neg (not_not.mpr hlen)]
  dsimp only [make_read_view]
  rw [hparse]
  dsimp only
  unfold view_skipBytes
  by_cases cs : size ≤ d.length
  · rw [if_pos cs]
    dsimp only
    have hrem : view_remainingSize (List.drop size d) ≠ 0 := by
      simp only [view_remainingSize, List.length_drop]
      omega
    rw [if_pos hrem]
    exact ⟨Rejected_THROW _ _ _ rfl rfl, fun _ _ _ => rfl⟩
  · rw [if_neg cs]
    exact ⟨Rejected_THROW _ _ _ rfl rfl, fun _ _ h => by omega⟩

/-- C23: a command whose payload is not exactly as long as its encoded fields is
rejected: the handler throws, no response is sent and the state stays as it was; and
when the payload is longer than its fields (bytes remain after the last field) and the
command is the one the state expects (for a delegation, with a delegation still
missing), the error is `ERR_INVALID_DATA`. -/
theorem wrong_length_rejected (env : Env) (p2 : uint8_t) (wireData : List uint8_t)
    (w : World) (n : Nat) (hn : specExactLength env p2 wireData = some n)
    (hne : wireData.length ≠ n) :
    ((∃ e, (signTxCVoteRegistration_handleAPDU env p2 wireData w).status =
        Status.thrown e) ∧
      responses (signTxCVoteRegistration_handleAPDU env p2 wireData w).world.trace =
        responses w.trace ∧
      (signTxCVoteRegistration_handleAPDU env p2 wireData w).world.subctx.state =
        w.subctx.state) ∧
    (n < wireData.length → wireData.length < env.BUFFER_SIZE_PARANOIA →
      specExpectedState p2 = some w.subctx.state →
      (p2.val = 0x37 → w.subctx.currentDelegation < w.subctx.numDelegations) →
      (signTxCVoteRegistration_handleAPDU env p2 wireData w).status =
        Status.thrown Err.ERR_INVALID_DATA) := by
  by_cases hlen : wireData.length < env.BUFFER_SIZE_PARANOIA
  swap
  · have h : signTxCVoteRegistration_handleAPDU env p2 wireData w =
        THROW Err.ERR_ASSERT w := by
      unfold signTxCVoteRegistration_handleAPDU
      rw [if_pos hlen]
    rw [h]
    exact ⟨⟨⟨_, rfl⟩, rfl, rfl⟩, fun _ h2 => absurd h2 hlen⟩
  have hexp : ∀ k st, p2.val = k → specExpectedState p2 = some w.subctx.state →
      specExpectedState p2 = some st → w.subctx.state = st := by
    intro k st _ h1 h2
    rw [h1] at h2
    exact Option.some.inj h2
  unfold specExactLength at hn
  split_ifs at hn with h36 h30 h37 h31 h33 h35 h34
  · cases Option.some.inj hn
    rw [handleAPDU_dispatch_Init env p2 _ w hlen h36]
    obtain ⟨h1, h2⟩ := handleInitAPDU_length env wireData w hne
    refine ⟨h1, fun hgt _ hst _ => h2 ?_ hlen hgt⟩
    exact hexp _ _ h36 hst (by simp [specExpectedState, h36])
  · rw [handleAPDU_dispatch_VoteKey env p2 _ w hlen h30]
    cases wireData with
    | nil => cases hn
    | cons t rest =>
      dsimp only at hn
      split_ifs at hn with ht
      cases Option.some.inj hn
      obtain ⟨h1, h2⟩ := handleVoteKeyAPDU_length env t rest w ht hne
      refine ⟨h1, fun hgt _ hst _ => h2 ?_ hlen hgt⟩
      exact hexp _ _ h30 hst (by simp [specExpectedState, h30])
  · rw [handleAPDU_dispatch_Delegation env p2 _ w hlen h37]
    cases wireData with
    | nil => cases hn
    | cons t rest =>
      dsimp only at hn
      split_ifs at hn with ht
      cases Option.some.inj hn
      obtain ⟨h1, h2⟩ := handleDelegationAPDU_length env t rest w ht hne
      refine ⟨h1, fun hgt _ hst hcur => h2 ?_ (hcur h37) hgt⟩
      exact hexp _ _ h37 hst (by simp [specExpectedState, h37])
  · rw [handleAPDU_dispatch_StakingKey env p2 _ w hlen h31]
    cases hparse : env.bip44_parseFromWire wireData with
    | error e =>
      rw [hparse] at hn
      cases hn
    | ok pr =>
      obtain ⟨path, size⟩ := pr
      rw [hparse] at hn
      cases Option.some.inj hn
      obtain ⟨h1, h2⟩ := handleStakingKeyAPDU_length env wireData w path n hparse hne
      refine ⟨h1, fun hgt _ hst _ => h2 ?_ hlen hgt⟩
      exact hexp _ _ h31 hst (by simp [specExpectedState, h31])
  · cases Option.some.inj hn
    rw [handleAPDU_dispatch_Nonce env p2 _ w hlen h33]
    obtain ⟨h1, h2⟩ := handleNonceAPDU_length env wireData w hne
    refine ⟨h1, fun _ _ hst _ => h2 ?_ hlen⟩
    exact hexp _ _ h33 hst (by simp [specExpectedState, h33])
  · rw [handleAPDU_dispatch_VotingPurpose env p2 _ w hlen h35]
    cases wireData with
    | nil => cases hn
    | cons flag rest =>
      dsimp only at hn
      cases hinc : env.signTx_parseIncluded flag.val with
      | error e =>
        rw [hinc] at hn
        cases hn
      | ok b =>
        rw [hinc] at hn
        have hb : n = if b = true then 9 else 1 := by
          cases b
          · exact (Option.some.inj hn).symm
          · exact (Option.some.inj hn).symm
        have hsame : ∀ f r b2, flag :: rest = f :: r →
            env.signTx_parseIncluded f.val = Except.ok b2 → b2 = b := by
          intro f r b2 h hb2
          obtain ⟨rfl, rfl⟩ := List.cons.inj h
          rw [hinc] at hb2
          exact (Except.ok.inj hb2).symm
        obtain ⟨h1, h2⟩ := handleVotingPurposeAPDU_length env (flag :: rest) w
          (fun f r b2 h hb2 => by rw [hsame f r b2 h hb2, ← hb]; exact hne)
        refine ⟨h1, fun hgt _ hst _ => h2 flag rest b rfl hinc (by rw [← hb]; exact hgt) ?_
          hlen⟩
        exact hexp _ _ h35 hst (by simp [specExpectedState, h35])
  · cases Option.some.inj hn
    rw [handleAPDU_dispatch_Confirm env p2 _ w hlen h34]
    obtain ⟨h1, h2⟩ := handleConfirmAPDU_length env wireData w hne
    refine ⟨h1, fun _ _ hst _ => h2 ?_ hlen⟩
    exact hexp _ _ h34 hst (by simp [specExpectedState, h34])

/-- C23 on a concrete payload: an Init command of 6 bytes sent to a fresh session fails
with `ERR_INVALID_DATA`, no response is sent and the state stays Init. -/
theorem wrong_length_rejected_witness :
    (signTxCVoteRegistration_handleAPDU sampleEnv 0x36 [2, 0, 0, 0, 0, 0]
        signTxCVoteRegistration_init).status = Status.thrown Err.ERR_INVALID_DATA ∧
    responses (signTxCVoteRegistration_handleAPDU sampleEnv 0x36 [2, 0, 0, 0, 0, 0]
        signTxCVoteRegistration_init).world.trace = [] ∧
    (signTxCVoteRegistration_handleAPDU sampleEnv 0x36 [2, 0, 0, 0, 0, 0]
        signTxCVoteRegistration_init).world.subctx.state = STATE_CVOTE_REGISTRATION_INIT :=
  have h := wrong_length_rejected sampleEnv 0x36 [2, 0, 0, 0, 0, 0]
    signTxCVoteRegistration_init 5 rfl (by decide)
  ⟨h.2 (by decide) (by decide) rfl (fun h37 => absurd h37 (by decide)), h.1.2.1, h.1.2.2⟩


/-! ### Accepted commands

The exact form of a handler's outcome once the command is accepted: the UI driver
entered on the session as it is after the parse, the policy consultation and the hash
call. -/

theorem determineVoteKeyPolicy_some (env : Env) (w w' : World) (pol : security_policy_t)
    (h : _determineVoteKeyPolicy env w = some (pol, w')) :
    (w.subctx.stateData.getDelegation.type = env.DELEGATION_KEY ∨
      w.subctx.stateData.getDelegation.type = env.DELEGATION_PATH) ∧
    pol = voteKeyOutcome env w.subctx.stateData.getDelegation w.subctx.format ∧
    w' = w.emit (Effect.policy (voteKeyQuery env w.subctx.stateData.getDelegation)) := by
  unfold _determineVoteKeyPolicy at h
  simp only at h
  unfold voteKeyOutcome voteKeyQuery
  split_ifs at h ⊢ with hp hk
  · exact ⟨Or.inr hp, (Prod.mk.inj (Option.some.inj h)).1.symm,
      (Prod.mk.inj (Option.some.inj h)).2.symm⟩
  · exact ⟨Or.inl hk, (Prod.mk.inj (Option.some.inj h)).1.symm,
      (Prod.mk.inj (Option.some.inj h)).2.symm⟩

theorem handleVoteKeyAPDU_accepted_form (env : Env) (d : List uint8_t) (w : World)
    (hret : (signTxCVoteRegistration_handleVoteKeyAPDU env d w).status = Status.returned) :
    w.subctx.state = STATE_CVOTE_REGISTRATION_VOTE_KEY ∧
    d.length < env.BUFFER_SIZE_PARANOIA ∧
    (voteKeyParse env d w).1.status = Status.returned ∧
    (voteKeyParse env d w).2 = [] ∧
    ((voteKeyParse env d w).1.world.subctx.stateData.getDelegation.type =
        env.DELEGATION_KEY ∨
      (voteKeyParse env d w).1.world.subctx.stateData.getDelegation.type =
        env.DELEGATION_PATH) ∧
    Mapped3 (voteKeyOutcome env
      (voteKeyParse env d w).1.world.subctx.stateData.getDelegation w.subctx.format) ∧
    signTxCVoteRegistration_handleVoteKeyAPDU env d w =
      signTxCVoteRegistration_handleVoteKey_ui_runStep env
        ((voteKeyHashed env d w).setUiStep
          (uiEntry HANDLE_VOTE_KEY_STEP_WARNING HANDLE_VOTE_KEY_STEP_DISPLAY
            HANDLE_VOTE_KEY_STEP_RESPOND (voteKeyOutcome env
              (voteKeyParse env d w).1.world.subctx.stateData.getDelegation
              w.subctx.format))) := by
  unfold signTxCVoteRegistration_handleVoteKeyAPDU at hret ⊢
  by_cases hstate : w.subctx.state = STATE_CVOTE_REGISTRATION_VOTE_KEY
  swap
  · rw [if_pos hstate] at hret
    cases hret
  by_cases hlen : d.length < env.BUFFER_SIZE_PARANOIA
  swap
  · rw [if_neg (not_not.mpr hstate), if_pos hlen] at hret
    cases hret
  rw [if_neg (not_not.mpr hstate), if_neg (not_not.mpr hlen)] at hret ⊢
  dsimp only at hret ⊢
  unfold voteKeyHashed
  obtain ⟨sd, hsd⟩ := parseVoteKey_frame env (make_read_view d)
    (w.setStateData stateData_t.zeroed)
  have hvp : voteKeyParse env d w =
      _parseVoteKey env (make_read_view d) (w.setStateData stateData_t.zeroed) := rfl
  rw [hvp]
  generalize _parseVoteKey env (make_read_view d) (w.setStateData stateData_t.zeroed) = r
    at hsd hret ⊢
  obtain ⟨⟨pst, pw⟩, view⟩ := r
  dsimp only at hsd hret ⊢
  subst hsd
  cases pst with
  | thrown e => cases hret
  | returned =>
    dsimp only at hret ⊢
    by_cases hrem : view_remainingSize view ≠ 0
    · rw [if_pos hrem] at hret
      cases hret
    rw [if_neg hrem] at hret ⊢
    have hview : view = [] := by
      simpa [view_remainingSize] using hrem
    cases hpol : _determineVoteKeyPolicy env
        ((w.setStateData stateData_t.zeroed).setStateData sd) with
    | none =>
      rw [hpol] at hret
      cases hret
    | some pr =>
      obtain ⟨policy, w3⟩ := pr
      obtain ⟨htype, hout, hw3⟩ := determineVoteKeyPolicy_some _ _ _ _ hpol
      rw [hpol] at hret
      dsimp only at hret ⊢
      subst hw3
      have hfmt : ((w.setStateData stateData_t.zeroed).setStateData sd).subctx.format =
          w.subctx.format := rfl
      rw [hfmt] at hout
      rw [← hout]
      by_cases hdeny : policy = POLICY_DENY
      · rw [if_pos hdeny] at hret
        cases hret
      rw [if_neg hdeny] at hret ⊢
      simp only [emit_subctx] at hret ⊢
      unfold voteKeyBytes
      rcases htype with hk | hp
      · simp only [if_pos hk] at hret ⊢
        cases policy
        · exact absurd rfl hdeny
        · exact ⟨hstate, hlen, trivial, hview, Or.inl hk, Or.inr (Or.inr rfl), rfl⟩
        · cases hret
        · exact ⟨hstate, hlen, trivial, hview, Or.inl hk, Or.inl rfl, rfl⟩
        · exact ⟨hstate, hlen, trivial, hview, Or.inl hk, Or.inr (Or.inl rfl), rfl⟩
      · by_cases hk : sd.getDelegation.type = env.DELEGATION_KEY
        · have hk2 : ((w.setStateData stateData_t.zeroed).setStateData
              sd).subctx.stateData.getDelegation.type = env.DELEGATION_KEY := hk
          simp only [if_pos hk2] at hret ⊢
          cases policy
          · exact absurd rfl hdeny
          · exact ⟨hstate, hlen, trivial, hview, Or.inl hk, Or.inr (Or.inr rfl), rfl⟩
          · cases hret
          · exact ⟨hstate, hlen, trivial, hview, Or.inl hk, Or.inl rfl, rfl⟩
          · exact ⟨hstate, hlen, trivial, hview, Or.inl hk, Or.inr (Or.inl rfl), rfl⟩
        · have hk2 : ¬ ((w.setStateData stateData_t.zeroed).setStateData
              sd).subctx.stateData.getDelegation.type = env.DELEGATION_KEY := hk
          simp only [if_neg hk2, if_pos hp] at hret ⊢
          cases policy
          · exact absurd rfl hdeny
          · exact ⟨hstate, hlen, trivial, hview, Or.inr hp, Or.inr (Or.inr rfl), rfl⟩
          · cases hret
          · exact ⟨hstate, hlen, trivial, hview, Or.inr hp, Or.inl rfl, rfl⟩
          · exact ⟨hstate, hlen, trivial, hview, Or.inr hp, Or.inr (Or.inl rfl), rfl⟩

theorem handleDelegationAPDU_accepted_form (env : Env) (d : List uint8_t) (w : World)
    (hret : (signTxCVoteRegistration_handleDelegationAPDU env d w).status =
      Status.returned) :
    w.subctx.state = STATE_CVOTE_REGISTRATION_DELEGATIONS ∧
    w.subctx.currentDelegation < w.subctx.numDelegations ∧
    (voteKeyParse env d w).1.status = Status.returned ∧
    (∃ weight, parse_u4be (voteKeyParse env d w).2 = Except.ok (weight, [])) ∧
    ((delegationParsed env d w).subctx.stateData.getDelegation.type = env.DELEGATION_KEY ∨
      (delegationParsed env d w).subctx.stateData.getDelegation.type =
        env.DELEGATION_PATH) ∧
    Mapped3 (voteKeyOutcome env (delegationParsed env d w).subctx.stateData.getDelegation
      w.subctx.format) ∧
    signTxCVoteRegistration_handleDelegationAPDU env d w =
      signTxCVoteRegistration_handleDelegation_ui_runStep env
        ((delegationHashed env d w).setUiStep
          (uiEntry HANDLE_DELEGATION_STEP_WARNING HANDLE_DELEGATION_STEP_VOTE_KEY
            HANDLE_DELEGATION_STEP_RESPOND (voteKeyOutcome env
              (delegationParsed env d w).subctx.stateData.getDelegation
              w.subctx.format))) := by
  unfold signTxCVoteRegistration_handleDelegationAPDU at hret ⊢
  by_cases hstate : w.subctx.state = STATE_CVOTE_REGISTRATION_DELEGATIONS
  swap
  · rw [if_pos hstate] at hret
    cases hret
  by_cases hcur : w.subctx.currentDelegation < w.subctx.numDelegations
  swap
  · rw [if_neg (not_not.mpr hstate), if_pos hcur] at hret
    cases hret
  rw [if_neg (not_not.mpr hstate), if_neg (not_not.mpr hcur)] at hret ⊢
  dsimp only at hret ⊢
  unfold delegationHashed delegationParsed
  obtain ⟨sd, hsd⟩ := parseVoteKey_frame env (make_read_view d)
    (w.setStateData stateData_t.zeroed)
  have hvp : voteKeyParse env d w =
      _parseVoteKey env (make_read_view d) (w.setStateData stateData_t.zeroed) := rfl
  rw [hvp]
  generalize _parseVoteKey env (make_read_view d) (w.setStateData stateData_t.zeroed) = r
    at hsd hret ⊢
  obtain ⟨⟨pst, pw⟩, view⟩ := r
  dsimp only at hsd hret ⊢
  subst hsd
  cases pst with
  | thrown e => cases hret
  | returned =>
    dsimp only at hret ⊢
    cases hweight : parse_u4be view with
    | error e =>
      rw [hweight] at hret
      cases hret
    | ok pr =>
      obtain ⟨weight, view1⟩ := pr
      rw [hweight] at hret
      dsimp only at hret ⊢
      by_cases hrem : view_remainingSize view1 ≠ 0
      · rw [if_pos hrem] at hret
        cases hret
      rw [if_neg hrem] at hret ⊢
      have hview : view1 = [] := by
        simpa [view_remainingSize] using hrem
      subst hview
      generalize hW : ((w.setStateData stateData_t.zeroed).setStateData sd).setStateData
          (stateData_t.delegation
            { ((w.setStateData stateData_t.zeroed).setStateData
                sd).subctx.stateData.getDelegation with weight := weight }) = W
        at hret ⊢
      have hWf : W.subctx.format = w.subctx.format := by rw [← hW]; rfl
      cases hpol : _determineVoteKeyPolicy env W with
      | none =>
        rw [hpol] at hret
        cases hret
      | some pr =>
        obtain ⟨policy, w3⟩ := pr
        obtain ⟨htype, hout, hw3⟩ := determineVoteKeyPolicy_some _ _ _ _ hpol
        rw [hpol] at hret
        dsimp only at hret ⊢
        subst hw3
        rw [hWf] at hout
        rw [← hout]
        by_cases hdeny : policy = POLICY_DENY
        · rw [if_pos hdeny] at hret
          cases hret
        rw [if_neg hdeny] at hret ⊢
        simp only [emit_subctx] at hret ⊢
        unfold voteKeyBytes
        by_cases hk : W.subctx.stateData.getDelegation.type = env.DELEGATION_KEY
        · simp only [if_pos hk] at hret ⊢
          cases policy
          · exact absurd rfl hdeny
          · exact ⟨hstate, hcur, trivial, ⟨_, rfl⟩, Or.inl hk, Or.inr (Or.inr rfl), rfl⟩
          · cases hret
          · exact ⟨hstate, hcur, trivial, ⟨_, rfl⟩, Or.inl hk, Or.inl rfl, rfl⟩
          · exact ⟨hstate, hcur, trivial, ⟨_, rfl⟩, Or.inl hk, Or.inr (Or.inl rfl), rfl⟩
        · have hp : W.subctx.stateData.getDelegation.type = env.DELEGATION_PATH :=
            htype.resolve_left hk
          simp only [if_neg hk, if_pos hp] at hret ⊢
          cases policy
          · exact absurd rfl hdeny
          · exact ⟨hstate, hcur, trivial, ⟨_, rfl⟩, Or.inr hp, Or.inr (Or.inr rfl), rfl⟩
          · cases hret
          · exact ⟨hstate, hcur, trivial, ⟨_, rfl⟩, Or.inr hp, Or.inl rfl, rfl⟩
          · exact ⟨hstate, hcur, trivial, ⟨_, rfl⟩, Or.inr hp, Or.inr (Or.inl rfl), rfl⟩

/-! ### C24 -/

theorem DriverFrame_hashCalls (cb : ui_callback_fn_t) (W W' : World)
    (h : DriverFrame cb W W') : hashCalls W'.trace = hashCalls W.trace := by
  obtain ⟨_, _, ext, ht, hh, _⟩ := h
  rw [ht, hashCalls_append, hh, List.append_nil]

theorem voteKeyParse_raw (env : Env) (t : uint8_t) (rest : List uint8_t) (w : World)
    (ht : t.val = env.DELEGATION_KEY) (h32 : 32 ≤ rest.length) :
    voteKeyParse env (t :: rest) w =
      (returned (w.setStateData (stateData_t.delegation
        (rawKeyRecord t (rest.take 32) 0))), rest.drop 32) := by
  unfold voteKeyParse make_read_view
  rw [parseVoteKey_raw env t rest _ ht, if_pos h32]
  rfl

theorem voteKeyParse_raw_short (env : Env) (t : uint8_t) (rest : List uint8_t) (w : World)
    (ht : t.val = env.DELEGATION_KEY) (h32 : rest.length < 32) :
    (voteKeyParse env (t :: rest) w).1.status = Status.thrown Err.ERR_NOT_ENOUGH_INPUT := by
  unfold voteKeyParse make_read_view
  rw [parseVoteKey_raw env t rest _ ht, if_neg (by omega)]
  rfl

theorem parseVoteKey_unknown_tag (env : Env) (t : uint8_t) (rest : List uint8_t) (w : World)
    (hk : t.val ≠ env.DELEGATION_KEY) (hp : t.val ≠ env.DELEGATION_PATH) :
    (_parseVoteKey env (t :: rest) w).1.status = Status.thrown Err.ERR_INVALID_DATA := by
  unfold _parseVoteKey
  rw [parse_u1be_cons]
  dsimp only
  rw [if_neg hk, if_neg hp]
  rfl

theorem handleVoteKeyAPDU_raw (env : Env) (t : uint8_t) (rest : List uint8_t) (w : World)
    (ht : t.val = env.DELEGATION_KEY)
    (hret : (signTxCVoteRegistration_handleVoteKeyAPDU env (t :: rest) w).status =
      Status.returned) :
    rest.length = 32 ∧
    voteKeyHashed env (t :: rest) w =
      ((w.setStateData (stateData_t.delegation (rawKeyRecord t rest 0))).emit
        (Effect.policy (voteKeyQuery env (rawKeyRecord t rest 0)))).emit
        (Effect.hash (HashCall.addVoteKey rest)) := by
  obtain ⟨_, _, hst, hview, _, _, _⟩ := handleVoteKeyAPDU_accepted_form env _ w hret
  have h32 : 32 ≤ rest.length := by
    by_contra h
    rw [voteKeyParse_raw_short env t rest w ht (by omega)] at hst
    cases hst
  rw [voteKeyParse_raw env t rest w ht h32] at hview
  have hlen : rest.length = 32 := by
    have := congrArg List.length hview
    simp only [List.length_drop, List.length_nil] at this
    omega
  refine ⟨hlen, ?_⟩
  unfold voteKeyHashed
  rw [voteKeyParse_raw env t rest w ht h32, List.take_of_length_le (le_of_eq hlen)]
  simp only [returned, setStateData_stateData, getDelegation_delegation, voteKeyBytes,
    rawKeyRecord, ht, if_true]
  rw [fixed_of_length _ _ (by rw [hlen]; rfl)]

theorem handleDelegationAPDU_raw (env : Env) (t : uint8_t) (rest : List uint8_t) (w : World)
    (ht : t.val = env.DELEGATION_KEY)
    (hret : (signTxCVoteRegistration_handleDelegationAPDU env (t :: rest) w).status =
      Status.returned) :
    rest.length = 36 ∧
    delegationHashed env (t :: rest) w =
      ((w.setStateData (stateData_t.delegation
        (rawKeyRecord t (rest.take 32) (beValue (rest.drop 32))))).emit
        (Effect.policy (voteKeyQuery env
          (rawKeyRecord t (rest.take 32) (beValue (rest.drop 32)))))).emit
        (Effect.hash (HashCall.addDelegation (rest.take 32) (beValue (rest.drop 32)))) := by
  obtain ⟨_, _, hst, ⟨weight, hweight⟩, _, _, _⟩ :=
    handleDelegationAPDU_accepted_form env _ w hret
  have h32 : 32 ≤ rest.length := by
    by_contra h
    rw [voteKeyParse_raw_short env t rest w ht (by omega)] at hst
    cases hst
  rw [voteKeyParse_raw env t rest w ht h32] at hweight
  dsimp only at hweight
  obtain ⟨h4, hw, hnil⟩ := parse_be_ok 4 _ _ _ hweight
  have hlen : rest.length = 36 := by
    have := congrArg List.length hnil
    simp only [List.length_drop, List.length_nil] at this h4
    omega
  have htake : List.take 4 (List.drop 32 rest) = List.drop 32 rest :=
    List.take_of_length_le (by simp only [List.length_drop]; omega)
  rw [htake] at hw
  subst hw
  refine ⟨hlen, ?_⟩
  unfold delegationHashed delegationParsed
  rw [voteKeyParse_raw env t rest w ht h32]
  dsimp only
  rw [hweight]
  simp only [returned, setStateData_stateData, getDelegation_delegation, voteKeyBytes,
    rawKeyRecord, ht, if_true]
  rw [fixed_of_length _ _ (by rw [List.length_take]; unfold CVOTE_PUBLIC_KEY_LENGTH; omega)]
  rfl

theorem length_eq_four {α : Type} (l : List α) (h : l.length = 4) :
    ∃ b0 b1 b2 b3, l = [b0, b1, b2, b3] := by
  match l, h with
  | [b0, b1, b2, b3], _ => exact ⟨b0, b1, b2, b3, rfl⟩

theorem beValue_four (b0 b1 b2 b3 : uint8_t) :
    beValue [b0, b1, b2, b3] = b0.val * 2 ^ 24 + b1.val * 2 ^ 16 + b2.val * 2 ^ 8 + b3.val := by
  simp only [beValue, List.foldl_cons, List.foldl_nil]
  ring

/-- C24: `_parseVoteKey` throws `ERR_INVALID_DATA` for every tag byte other than the
raw-key and the path tag; for the raw-key tag it consumes exactly the next 32 bytes and
stores them unchanged as `votePubKey`; an accepted VoteKey command with a raw key has
exactly those 32 bytes after the tag and passes them to `addVoteKey`; an accepted
Delegation command with a raw key has 32 key bytes and 4 weight bytes after the tag and
passes the key bytes and the big-endian value of the weight bytes to `addDelegation`. -/
theorem raw_vote_key_parsed_and_hashed (env : Env) (t : uint8_t) (rest : List uint8_t)
    (w : World) :
    (t.val ≠ env.DELEGATION_KEY → t.val ≠ env.DELEGATION_PATH →
      (_parseVoteKey env (t :: rest) w).1.status = Status.thrown Err.ERR_INVALID_DATA) ∧
    (t.val = env.DELEGATION_KEY → 32 ≤ rest.length →
      (_parseVoteKey env (t :: rest) w).1.status = Status.returned ∧
      (_parseVoteKey env (t :: rest) w).2 = rest.drop 32 ∧
      (_parseVoteKey env (t :: rest) w).1.world.subctx.stateData.getDelegation.votePubKey =
        rest.take 32) ∧
    (t.val = env.DELEGATION_KEY →
      (signTxCVoteRegistration_handleVoteKeyAPDU env (t :: rest) w).status =
        Status.returned →
      rest.length = 32 ∧
      hashCalls (signTxCVoteRegistration_handleVoteKeyAPDU env (t :: rest) w).world.trace =
        hashCalls w.trace ++ [HashCall.addVoteKey rest]) ∧
    (t.val = env.DELEGATION_KEY →
      (signTxCVoteRegistration_handleDelegationAPDU env (t :: rest) w).status =
        Status.returned →
      rest.length = 36 ∧
      hashCalls
          (signTxCVoteRegistration_handleDelegationAPDU env (t :: rest) w).world.trace =
        hashCalls w.trace ++
          [HashCall.addDelegation (rest.take 32) (beValue (rest.drop 32))] ∧
      ∃ b0 b1 b2 b3 : uint8_t, rest.drop 32 = [b0, b1, b2, b3] ∧
        beValue (rest.drop 32) =
          b0.val * 2 ^ 24 + b1.val * 2 ^ 16 + b2.val * 2 ^ 8 + b3.val) := by
  refine ⟨parseVoteKey_unknown_tag env t rest w, fun ht h32 => ?_, fun ht hret => ?_,
    fun ht hret => ?_⟩
  · rw [parseVoteKey_raw env t rest w ht, if_pos h32]
    exact ⟨rfl, rfl, rfl⟩
  · obtain ⟨hlen, hform⟩ := handleVoteKeyAPDU_raw env t rest w ht hret
    obtain ⟨hstate, _, _, _, _, _, heq⟩ := handleVoteKeyAPDU_accepted_form env _ w hret
    refine ⟨hlen, ?_⟩
    rw [heq, DriverFrame_hashCalls _ _ _ (handleVoteKey_ui_runStep_frame env _
      (by rw [hform]; exact hstate)), hform]
    simp
  · obtain ⟨hlen, hform⟩ := handleDelegationAPDU_raw env t rest w ht hret
    obtain ⟨hstate, _, _, _, _, _, heq⟩ := handleDelegationAPDU_accepted_form env _ w hret
    refine ⟨hlen, ?_, ?_⟩
    · rw [heq, DriverFrame_hashCalls _ _ _ (handleDelegation_ui_runStep_frame env _
        (by rw [hform]; exact hstate)), hform]
      simp
    · obtain ⟨b0, b1, b2, b3, h4⟩ := length_eq_four (rest.drop 32)
        (by rw [List.length_drop]; omega)
      exact ⟨b0, b1, b2, b3, h4, by rw [h4]; exact beValue_four b0 b1 b2 b3⟩

/-- C24 on a concrete command: the VoteKey command with the raw-key tag and the sample
key is accepted in the sample session and hands exactly the sample key to
`addVoteKey`; the tag 9 makes `_parseVoteKey` throw `ERR_INVALID_DATA`. -/
theorem raw_vote_key_parsed_and_hashed_witness :
    hashCalls (signTxCVoteRegistration_handleVoteKeyAPDU sampleEnv (1 :: sampleKey)
        voteKeyWorld).world.trace =
      hashCalls voteKeyWorld.trace ++ [HashCall.addVoteKey sampleKey] ∧
    (_parseVoteKey sampleEnv (9 :: sampleKey) voteKeyWorld).1.status =
      Status.thrown Err.ERR_INVALID_DATA :=
  ⟨((raw_vote_key_parsed_and_hashed sampleEnv 1 sampleKey voteKeyWorld).2.2.1 rfl rfl).2,
    (raw_vote_key_parsed_and_hashed sampleEnv 9 sampleKey voteKeyWorld).1 (by decide)
      (by decide)⟩


/-! ### C25 -/

theorem displayVoteKey_some (env : Env) (cb : ui_callback_fn_t) (X : World)
    (htype : X.subctx.stateData.getDelegation.type = env.DELEGATION_KEY ∨
      X.subctx.stateData.getDelegation.type = env.DELEGATION_PATH) :
    _displayVoteKey env cb X =
      some (X.display (voteKeyScreen env X.subctx.stateData.getDelegation) cb false) := by
  unfold _displayVoteKey voteKeyScreen
  by_cases hk : X.subctx.stateData.getDelegation.type = env.DELEGATION_KEY
  · simp only [if_pos hk]
  · simp only [if_neg hk, if_pos (htype.resolve_left hk)]

theorem runAccepted_uiConfirm (env : Env) (w : World) (p : PendingScreen) (W : World)
    (evs : List Event) (hp : w.pending = some p)
    (h : runCallback env p.callback { w with pending := none } = returned W) :
    runAccepted env w (Event.uiConfirm :: evs) = runAccepted env W evs := by
  rw [runAccepted_cons_returned env w W _ _ (by decide)]
  rw [step_uiConfirm env w p hp, h]

theorem handleVoteKey_ui_runStep_at_RESPOND (env : Env) (Y : World)
    (hst : Y.subctx.state = STATE_CVOTE_REGISTRATION_VOTE_KEY)
    (hstep : Y.subctx.ui_step = HANDLE_VOTE_KEY_STEP_RESPOND) :
    signTxCVoteRegistration_handleVoteKey_ui_runStep env Y =
      returned (((respondSuccessEmptyMsg Y).setState
        STATE_CVOTE_REGISTRATION_STAKING_KEY).setUiStep HANDLE_VOTE_KEY_STEP_INVALID) := by
  unfold signTxCVoteRegistration_handleVoteKey_ui_runStep
  rw [advanceState_of_VOTE_KEY _ (by simpa using hst)]
  simp [hstep, HANDLE_VOTE_KEY_STEP_RESPOND, HANDLE_VOTE_KEY_STEP_DISPLAY,
    HANDLE_VOTE_KEY_STEP_WARNING]

theorem handleVoteKey_ui_runStep_at_DISPLAY (env : Env) (Y : World)
    (hstep : Y.subctx.ui_step = HANDLE_VOTE_KEY_STEP_DISPLAY)
    (htype : Y.subctx.stateData.getDelegation.type = env.DELEGATION_KEY ∨
      Y.subctx.stateData.getDelegation.type = env.DELEGATION_PATH) :
    signTxCVoteRegistration_handleVoteKey_ui_runStep env Y =
      returned ((Y.display (voteKeyScreen env Y.subctx.stateData.getDelegation)
        ui_callback_fn_t.handleVoteKey_ui_runStep false).setUiStep
        HANDLE_VOTE_KEY_STEP_RESPOND) := by
  unfold signTxCVoteRegistration_handleVoteKey_ui_runStep
  dsimp only
  rw [displayVoteKey_some env _ _ htype]
  simp [hstep, HANDLE_VOTE_KEY_STEP_DISPLAY, HANDLE_VOTE_KEY_STEP_WARNING]

theorem handleVoteKey_ui_runStep_at_WARNING (env : Env) (Y : World)
    (hstep : Y.subctx.ui_step = HANDLE_VOTE_KEY_STEP_WARNING) :
    signTxCVoteRegistration_handleVoteKey_ui_runStep env Y =
      returned ((Y.display (Screen.paginatedText "WARNING:" "unusual vote key")
        ui_callback_fn_t.handleVoteKey_ui_runStep false).setUiStep
        HANDLE_VOTE_KEY_STEP_DISPLAY) := by
  unfold signTxCVoteRegistration_handleVoteKey_ui_runStep
  simp [hstep]

theorem voteKey_driver_run (env : Env) (X : World) (policy : security_policy_t)
    (hp : X.pending = none)
    (hst : X.subctx.state = STATE_CVOTE_REGISTRATION_VOTE_KEY)
    (htype : X.subctx.stateData.getDelegation.type = env.DELEGATION_KEY ∨
      X.subctx.stateData.getDelegation.type = env.DELEGATION_PATH)
    (hm : Mapped3 policy) :
    ∃ W1, signTxCVoteRegistration_handleVoteKey_ui_runStep env
        (X.setUiStep (uiEntry HANDLE_VOTE_KEY_STEP_WARNING HANDLE_VOTE_KEY_STEP_DISPLAY
          HANDLE_VOTE_KEY_STEP_RESPOND policy)) = returned W1 ∧
      runAccepted env W1
          (List.replicate (shownFor policy (voteKeyScreens env X)).length Event.uiConfirm) =
        some (stepFinished X (shownFor policy (voteKeyScreens env X))
          STATE_CVOTE_REGISTRATION_STAKING_KEY HANDLE_VOTE_KEY_STEP_INVALID) := by
  obtain ⟨⟨st, ui, f, n, c, sk, ah, sd⟩, t, p⟩ := X
  simp only at hp hst htype
  subst hp
  subst hst
  rcases hm with rfl | rfl | rfl
  · refine ⟨_, handleVoteKey_ui_runStep_at_WARNING env _ rfl, ?_⟩
    simp only [shownFor, voteKeyScreens, List.length_cons, List.length_nil, List.replicate]
    rw [runAccepted_uiConfirm env _ ⟨ui_callback_fn_t.handleVoteKey_ui_runStep, false⟩ _ _
      rfl (handleVoteKey_ui_runStep_at_DISPLAY env _ rfl htype)]
    rw [runAccepted_uiConfirm env _ ⟨ui_callback_fn_t.handleVoteKey_ui_runStep, false⟩ _ _
      rfl (handleVoteKey_ui_runStep_at_RESPOND env _ rfl rfl)]
    simp [runAccepted, stepFinished, World.display, World.setUiStep, World.setState,
      respondSuccessEmptyMsg, World.emit]
  · refine ⟨_, handleVoteKey_ui_runStep_at_DISPLAY env _ rfl htype, ?_⟩
    simp only [shownFor, voteKeyScreens, List.length_cons, List.length_nil, List.replicate,
      List.drop]
    rw [runAccepted_uiConfirm env _ ⟨ui_callback_fn_t.handleVoteKey_ui_runStep, false⟩ _ _
      rfl (handleVoteKey_ui_runStep_at_RESPOND env _ rfl rfl)]
    simp [runAccepted, stepFinished, World.display, World.setUiStep, World.setState,
      respondSuccessEmptyMsg, World.emit]
  · refine ⟨_, handleVoteKey_ui_runStep_at_RESPOND env _ rfl rfl, ?_⟩
    simp [shownFor, runAccepted, stepFinished, World.display, World.setUiStep, World.setState,
      respondSuccessEmptyMsg, World.emit]

theorem handleStakingKeyAPDU_accepted_form (env : Env) (d : List uint8_t) (w : World)
    (hret : (signTxCVoteRegistration_handleStakingKeyAPDU env d w).status =
      Status.returned) :
    w.subctx.state = STATE_CVOTE_REGISTRATION_STAKING_KEY ∧
    d.length < env.BUFFER_SIZE_PARANOIA ∧
    (∃ size, env.bip44_parseFromWire (make_read_view d) =
      Except.ok (stakingKeyParsed env d, size)) ∧
    Mapped3 (env.policyForCVoteRegistrationStakingKey (stakingKeyParsed env d)) ∧
    signTxCVoteRegistration_handleStakingKeyAPDU env d w =
      signTxCVoteRegistration_handleStakingKey_ui_runStep
        ((stakingKeyHashed env d w).setUiStep
          (uiEntry HANDLE_STAKING_KEY_STEP_WARNING HANDLE_STAKING_KEY_STEP_DISPLAY
            HANDLE_STAKING_KEY_STEP_RESPOND
            (env.policyForCVoteRegistrationStakingKey (stakingKeyParsed env d)))) := by
  unfold signTxCVoteRegistration_handleStakingKeyAPDU at hret ⊢
  by_cases hstate : w.subctx.state = STATE_CVOTE_REGISTRATION_STAKING_KEY
  swap
  · rw [if_pos hstate] at hret
    cases hret
  by_cases hlen : d.length < env.BUFFER_SIZE_PARANOIA
  swap
  · rw [if_neg (not_not.mpr hstate), if_pos hlen] at hret
    cases hret
  rw [if_neg (not_not.mpr hstate), if_neg (not_not.mpr hlen)] at hret ⊢
  dsimp only at hret ⊢
  unfold stakingKeyHashed stakingKeyParsed
  cases hparse : env.bip44_parseFromWire (make_read_view d) with
  | error e =>
    rw [hparse] at hret
    cases hret
  | ok pr =>
    obtain ⟨path, size⟩ := pr
    rw [hparse] at hret
    dsimp only at hret ⊢
    cases hskip : view_skipBytes (make_read_view d) size with
    | error e =>
      rw [hskip] at hret
      cases hret
    | ok view1 =>
      rw [hskip] at hret
      dsimp only at hret ⊢
      by_cases hrem : view_remainingSize view1 ≠ 0
      · rw [if_pos hrem] at hret
        cases hret
      rw [if_neg hrem] at hret ⊢
      simp only [setStakingKeyPath_stakingKeyPath, emit_subctx] at hret ⊢
      by_cases hdeny : env.policyForCVoteRegistrationStakingKey path = POLICY_DENY
      · rw [if_pos hdeny] at hret
        cases hret
      rw [if_neg hdeny] at hret ⊢
      generalize env.policyForCVoteRegistrationStakingKey path = policy at hret hdeny ⊢
      cases policy
      · exact absurd rfl hdeny
      · exact ⟨hstate, hlen, ⟨_, rfl⟩, Or.inr (Or.inr rfl), rfl⟩
      · cases hret
      · exact ⟨hstate, hlen, ⟨_, rfl⟩, Or.inl rfl, rfl⟩
      · exact ⟨hstate, hlen, ⟨_, rfl⟩, Or.inr (Or.inl rfl), rfl⟩

theorem handlePaymentAddressAPDU_accepted_form (env : Env) (d : List uint8_t) (w : World)
    (hret : (signTxCVoteRegistration_handlePaymentAddressAPDU env d w).status =
      Status.returned) :
    w.subctx.state = STATE_CVOTE_REGISTRATION_PAYMENT_ADDRESS ∧
    d.length < env.BUFFER_SIZE_PARANOIA ∧
    (∃ view, env.view_parseDestination (make_read_view d) =
      Except.ok (paymentAddressParsed env d, view)) ∧
    _destinationToAddress env (paymentAddressParsed env d) env.MAX_ADDRESS_SIZE =
      some (addressBytes env (paymentAddressParsed env d)) ∧
    Mapped3 (env.policyForCVoteRegistrationPaymentDestination (paymentAddressParsed env d)
      env.networkId) ∧
    signTxCVoteRegistration_handlePaymentAddressAPDU env d w =
      signTxCVoteRegistration_handlePaymentAddress_ui_runStep env
        ((paymentAddressHashed env d w).setUiStep
          (uiEntry HANDLE_PAYMENT_ADDRESS_PARAMS_STEP_WARNING
            HANDLE_PAYMENT_ADDRESS_PARAMS_STEP_DISPLAY_ADDRESS
            HANDLE_PAYMENT_ADDRESS_PARAMS_STEP_RESPOND
            (env.policyForCVoteRegistrationPaymentDestination (paymentAddressParsed env d)
              env.networkId))) := by
  unfold signTxCVoteRegistration_handlePaymentAddressAPDU at hret ⊢
  by_cases hstate : w.subctx.state = STATE_CVOTE_REGISTRATION_PAYMENT_ADDRESS
  swap
  · rw [if_pos hstate] at hret
    cases hret
  by_cases hlen : d.length < env.BUFFER_SIZE_PARANOIA
  swap
  · rw [if_neg (not_not.mpr hstate), if_pos hlen] at hret
    cases hret
  rw [if_neg (not_not.mpr hstate), if_neg (not_not.mpr hlen)] at hret ⊢
  dsimp only at hret ⊢
  unfold paymentAddressHashed addressBytes paymentAddressParsed
  cases hparse : env.view_parseDestination (make_read_view d) with
  | error e =>
    rw [hparse] at hret
    cases hret
  | ok pr =>
    obtain ⟨destination, view⟩ := pr
    rw [hparse] at hret
    dsimp only at hret ⊢
    by_cases hrem : view_remainingSize view ≠ 0
    · rw [if_pos hrem] at hret
      cases hret
    rw [if_neg hrem] at hret ⊢
    simp only [setStateData_stateData, getPaymentDestination_paymentDestination,
      emit_subctx] at hret ⊢
    by_cases hdeny : env.policyForCVoteRegistrationPaymentDestination destination
        env.networkId = POLICY_DENY
    · rw [if_pos hdeny] at hret
      cases hret
    rw [if_neg hdeny] at hret ⊢
    cases haddr : _destinationToAddress env destination env.MAX_ADDRESS_SIZE with
    | none =>
      rw [haddr] at hret
      cases hret
    | some address =>
      rw [haddr] at hret
      dsimp only at hret ⊢
      generalize env.policyForCVoteRegistrationPaymentDestination destination
        env.networkId = policy at hret hdeny ⊢
      cases policy
      · exact absurd rfl hdeny
      · exact ⟨hstate, hlen, ⟨_, rfl⟩, rfl, Or.inr (Or.inr rfl), rfl⟩
      · cases hret
      · exact ⟨hstate, hlen, ⟨_, rfl⟩, rfl, Or.inl rfl, rfl⟩
      · exact ⟨hstate, hlen, ⟨_, rfl⟩, rfl, Or.inr (Or.inl rfl), rfl⟩

theorem handleStakingKey_ui_runStep_at_RESPOND (Y : World)
    (hst : Y.subctx.state = STATE_CVOTE_REGISTRATION_STAKING_KEY)
    (hstep : Y.subctx.ui_step = HANDLE_STAKING_KEY_STEP_RESPOND) :
    signTxCVoteRegistration_handleStakingKey_ui_runStep Y =
      returned (((respondSuccessEmptyMsg Y).setState
        STATE_CVOTE_REGISTRATION_PAYMENT_ADDRESS).setUiStep
        HANDLE_STAKING_KEY_STEP_INVALID) := by
  unfold signTxCVoteRegistration_handleStakingKey_ui_runStep
  rw [advanceState_of_STAKING_KEY _ (by simpa using hst)]
  simp [hstep, HANDLE_STAKING_KEY_STEP_RESPOND, HANDLE_STAKING_KEY_STEP_DISPLAY,
    HANDLE_STAKING_KEY_STEP_WARNING]

theorem handleStakingKey_ui_runStep_at_DISPLAY (Y : World)
    (hstep : Y.subctx.ui_step = HANDLE_STAKING_KEY_STEP_DISPLAY) :
    signTxCVoteRegistration_handleStakingKey_ui_runStep Y =
      returned ((Y.display (Screen.stakingKey Y.subctx.stakingKeyPath)
        ui_callback_fn_t.handleStakingKey_ui_runStep false).setUiStep
        HANDLE_STAKING_KEY_STEP_RESPOND) := by
  unfold signTxCVoteRegistration_handleStakingKey_ui_runStep
  simp [hstep, HANDLE_STAKING_KEY_STEP_DISPLAY, HANDLE_STAKING_KEY_STEP_WARNING]

theorem handleStakingKey_ui_runStep_at_WARNING (Y : World)
    (hstep : Y.subctx.ui_step = HANDLE_STAKING_KEY_STEP_WARNING) :
    signTxCVoteRegistration_handleStakingKey_ui_runStep Y =
      returned ((Y.display (Screen.paginatedText "Unusual request" "Proceed with care")
        ui_callback_fn_t.handleStakingKey_ui_runStep false).setUiStep
        HANDLE_STAKING_KEY_STEP_DISPLAY) := by
  unfold signTxCVoteRegistration_handleStakingKey_ui_runStep
  simp [hstep]

theorem stakingKey_driver_run (env : Env) (X : World) (policy : security_policy_t)
    (hp : X.pending = none)
    (hst : X.subctx.state = STATE_CVOTE_REGISTRATION_STAKING_KEY)
    (hm : Mapped3 policy) :
    ∃ W1, signTxCVoteRegistration_handleStakingKey_ui_runStep
        (X.setUiStep (uiEntry HANDLE_STAKING_KEY_STEP_WARNING
          HANDLE_STAKING_KEY_STEP_DISPLAY HANDLE_STAKING_KEY_STEP_RESPOND policy)) =
        returned W1 ∧
      runAccepted env W1
          (List.replicate (shownFor policy (stakingKeyScreens X)).length Event.uiConfirm) =
        some (stepFinished X (shownFor policy (stakingKeyScreens X))
          STATE_CVOTE_REGISTRATION_PAYMENT_ADDRESS HANDLE_STAKING_KEY_STEP_INVALID) := by
  obtain ⟨⟨st, ui, f, n, c, sk, ah, sd⟩, t, p⟩ := X
  simp only at hp hst
  subst hp
  subst hst
  rcases hm with rfl | rfl | rfl
  · refine ⟨_, handleStakingKey_ui_runStep_at_WARNING _ rfl, ?_⟩
    simp only [shownFor, stakingKeyScreens, List.length_cons, List.length_nil,
      List.replicate]
    rw [runAccepted_uiConfirm env _ ⟨ui_callback_fn_t.handleStakingKey_ui_runStep, false⟩ _
      _ rfl (handleStakingKey_ui_runStep_at_DISPLAY _ rfl)]
    rw [runAccepted_uiConfirm env _ ⟨ui_callback_fn_t.handleStakingKey_ui_runStep, false⟩ _
      _ rfl (handleStakingKey_ui_runStep_at_RESPOND _ rfl rfl)]
    simp [runAccepted, stepFinished, World.display, World.setUiStep, World.setState,
      respondSuccessEmptyMsg, World.emit]
  · refine ⟨_, handleStakingKey_ui_runStep_at_DISPLAY _ rfl, ?_⟩
    simp only [shownFor, stakingKeyScreens, List.length_cons, List.length_nil,
      List.replicate, List.drop]
    rw [runAccepted_uiConfirm env _ ⟨ui_callback_fn_t.handleStakingKey_ui_runStep, false⟩ _
      _ rfl (handleStakingKey_ui_runStep_at_RESPOND _ rfl rfl)]
    simp [runAccepted, stepFinished, World.display, World.setUiStep, World.setState,
      respondSuccessEmptyMsg, World.emit]
  · refine ⟨_, handleStakingKey_ui_runStep_at_RESPOND _ rfl rfl, ?_⟩
    simp [shownFor, runAccepted, stepFinished, World.display, World.setUiStep, World.setState,
      respondSuccessEmptyMsg, World.emit]

theorem handlePaymentAddress_ui_runStep_at_RESPOND (env : Env) (Y : World)
    (hst : Y.subctx.state = STATE_CVOTE_REGISTRATION_PAYMENT_ADDRESS)
    (hstep : Y.subctx.ui_step = HANDLE_PAYMENT_ADDRESS_PARAMS_STEP_RESPOND) :
    signTxCVoteRegistration_handlePaymentAddress_ui_runStep env Y =
      returned (((respondSuccessEmptyMsg Y).setState
        STATE_CVOTE_REGISTRATION_NONCE).setUiStep
        HANDLE_PAYMENT_ADDRESS_PARAMS_STEP_INVALID) := by
  unfold signTxCVoteRegistration_handlePaymentAddress_ui_runStep
  rw [advanceState_of_PAYMENT_ADDRESS _ (by simpa using hst)]
  simp [hstep, HANDLE_PAYMENT_ADDRESS_PARAMS_STEP_RESPOND,
    HANDLE_PAYMENT_ADDRESS_PARAMS_STEP_DISPLAY_ADDRESS,
    HANDLE_PAYMENT_ADDRESS_PARAMS_STEP_WARNING]

theorem handlePaymentAddress_ui_runStep_at_DISPLAY (env : Env) (Y : World)
    (hstep : Y.subctx.ui_step = HANDLE_PAYMENT_ADDRESS_PARAMS_STEP_DISPLAY_ADDRESS)
    (haddr : _destinationToAddress env Y.subctx.stateData.getPaymentDestination
      env.MAX_ADDRESS_SIZE =
        some (addressBytes env Y.subctx.stateData.getPaymentDestination)) :
    signTxCVoteRegistration_handlePaymentAddress_ui_runStep env Y =
      returned ((Y.display (Screen.address "Rewards go to"
          (addressBytes env Y.subctx.stateData.getPaymentDestination))
        ui_callback_fn_t.handlePaymentAddress_ui_runStep false).setUiStep
        HANDLE_PAYMENT_ADDRESS_PARAMS_STEP_RESPOND) := by
  unfold signTxCVoteRegistration_handlePaymentAddress_ui_runStep
  dsimp only
  rw [haddr]
  simp [hstep, HANDLE_PAYMENT_ADDRESS_PARAMS_STEP_DISPLAY_ADDRESS,
    HANDLE_PAYMENT_ADDRESS_PARAMS_STEP_WARNING]

theorem handlePaymentAddress_ui_runStep_at_WARNING (env : Env) (Y : World)
    (hstep : Y.subctx.ui_step = HANDLE_PAYMENT_ADDRESS_PARAMS_STEP_WARNING) :
    signTxCVoteRegistration_handlePaymentAddress_ui_runStep env Y =
      returned ((Y.display (Screen.paginatedText "Unusual request" "Proceed with care")
        ui_callback_fn_t.handlePaymentAddress_ui_runStep false).setUiStep
        HANDLE_PAYMENT_ADDRESS_PARAMS_STEP_DISPLAY_ADDRESS) := by
  unfold signTxCVoteRegistration_handlePaymentAddress_ui_runStep
  simp [hstep]

theorem paymentAddress_driver_run (env : Env) (X : World) (policy : security_policy_t)
    (hp : X.pending = none)
    (hst : X.subctx.state = STATE_CVOTE_REGISTRATION_PAYMENT_ADDRESS)
    (haddr : _destinationToAddress env X.subctx.stateData.getPaymentDestination
      env.MAX_ADDRESS_SIZE =
        some (addressBytes env X.subctx.stateData.getPaymentDestination))
    (hm : Mapped3 policy) :
    ∃ W1, signTxCVoteRegistration_handlePaymentAddress_ui_runStep env
        (X.setUiStep (uiEntry HANDLE_PAYMENT_ADDRESS_PARAMS_STEP_WARNING
          HANDLE_PAYMENT_ADDRESS_PARAMS_STEP_DISPLAY_ADDRESS
          HANDLE_PAYMENT_ADDRESS_PARAMS_STEP_RESPOND policy)) = returned W1 ∧
      runAccepted env W1
          (List.replicate (shownFor policy (paymentAddressScreens env X)).length
            Event.uiConfirm) =
        some (stepFinished X (shownFor policy (paymentAddressScreens env X))
          STATE_CVOTE_REGISTRATION_NONCE HANDLE_PAYMENT_ADDRESS_PARAMS_STEP_INVALID) := by
  obtain ⟨⟨st, ui, f, n, c, sk, ah, sd⟩, t, p⟩ := X
  simp only at hp hst haddr
  subst hp
  subst hst
  rcases hm with rfl | rfl | rfl
  · refine ⟨_, handlePaymentAddress_ui_runStep_at_WARNING env _ rfl, ?_⟩
    simp only [shownFor, paymentAddressScreens, List.length_cons, List.length_nil,
      List.replicate]
    rw [runAccepted_uiConfirm env _
      ⟨ui_callback_fn_t.handlePaymentAddress_ui_runStep, false⟩ _ _ rfl
      (handlePaymentAddress_ui_runStep_at_DISPLAY env _ rfl haddr)]
    rw [runAccepted_uiConfirm env _
      ⟨ui_callback_fn_t.handlePaymentAddress_ui_runStep, false⟩ _ _ rfl
      (handlePaymentAddress_ui_runStep_at_RESPOND env _ rfl rfl)]
    simp [runAccepted, stepFinished, World.display, World.setUiStep, World.setState,
      respondSuccessEmptyMsg, World.emit]
  · refine ⟨_, handlePaymentAddress_ui_runStep_at_DISPLAY env _ rfl haddr, ?_⟩
    simp only [shownFor, paymentAddressScreens, List.length_cons, List.length_nil,
      List.replicate, List.drop]
    rw [runAccepted_uiConfirm env _
      ⟨ui_callback_fn_t.handlePaymentAddress_ui_runStep, false⟩ _ _ rfl
      (handlePaymentAddress_ui_runStep_at_RESPOND env _ rfl rfl)]
    simp [runAccepted, stepFinished, World.display, World.setUiStep, World.setState,
      respondSuccessEmptyMsg, World.emit]
  · refine ⟨_, handlePaymentAddress_ui_runStep_at_RESPOND env _ rfl rfl, ?_⟩
    simp [shownFor, runAccepted, stepFinished, World.display, World.setUiStep, World.setState,
      respondSuccessEmptyMsg, World.emit]

theorem screens_map_display (l : List Screen) : screens (l.map Effect.display) = l := by
  induction l with
  | nil => rfl
  | cons s l ih => simp [ih]

theorem responses_map_display (l : List Screen) : responses (l.map Effect.display) = [] := by
  induction l with
  | nil => rfl
  | cons s l ih => simp [ih]

theorem StepRan_of (env : Env) (w : World) (p2 : uint8_t) (d : List uint8_t)
    (policy : security_policy_t) (all : List Screen)
    (next : sign_tx_cvote_registration_state_t) (invalidStep : Nat) (X W1 : World)
    (hstep : step env w (Event.apdu p2 d) = some (returned W1))
    (hrun : runAccepted env W1
      (List.replicate (shownFor policy all).length Event.uiConfirm) =
        some (stepFinished X (shownFor policy all) next invalidStep))
    (hscr : screens X.trace = screens w.trace)
    (hresp : responses X.trace = responses w.trace) :
    StepRan env w p2 d policy all next := by
  refine ⟨stepFinished X (shownFor policy all) next invalidStep, ?_, ?_, ?_, ⟨_, rfl⟩, rfl,
    rfl⟩
  · rw [runAccepted_cons_returned env w W1 _ _ (by simp) hstep, hrun]
  · simp [stepFinished, screens_map_display, hscr]
  · simp [stepFinished, responses_map_display, hresp]

theorem step_apdu_idle (env : Env) (w : World) (p2 : uint8_t) (d : List uint8_t)
    (hp : w.pending = none) :
    step env w (Event.apdu p2 d) = some (signTxCVoteRegistration_handleAPDU env p2 d w) := by
  rw [step, hp]

theorem handleAPDU_returned_length (env : Env) (p2 : uint8_t) (d : List uint8_t) (w : World)
    (hret : (signTxCVoteRegistration_handleAPDU env p2 d w).status = Status.returned) :
    d.length < env.BUFFER_SIZE_PARANOIA := by
  by_contra hlen
  unfold signTxCVoteRegistration_handleAPDU at hret
  rw [if_pos hlen] at hret
  cases hret

theorem voteKeyParse_world (env : Env) (d : List uint8_t) (w : World) :
    ∃ sd, (voteKeyParse env d w).1.world = w.setStateData sd := by
  obtain ⟨sd, hsd⟩ := parseVoteKey_frame env (make_read_view d)
    (w.setStateData stateData_t.zeroed)
  exact ⟨sd, hsd⟩

/-- C25: an accepted VoteKey, StakingKey or PaymentAddress command, followed by the
user confirming each screen, runs to completion: the policy outcome is one of
warn-then-show, show-before-response and allow-silent; the screens rendered are the
fixed sequence (warning, display) for warn-then-show, the display alone for
show-before-response and none for allow-silent; then exactly one empty success response
is sent, as the last action, and the state is advanced by one step. -/
theorem three_screen_steps_run (env : Env) (p2 : uint8_t) (wireData : List uint8_t)
    (w : World) (hp : w.pending = none)
    (hret : (signTxCVoteRegistration_handleAPDU env p2 wireData w).status =
      Status.returned) :
    (p2.val = 0x30 →
      Mapped3 (voteKeyOutcome env
        (voteKeyParse env wireData w).1.world.subctx.stateData.getDelegation
        w.subctx.format) ∧
      StepRan env w p2 wireData
        (voteKeyOutcome env
          (voteKeyParse env wireData w).1.world.subctx.stateData.getDelegation
          w.subctx.format)
        (voteKeyScreens env (voteKeyHashed env wireData w))
        STATE_CVOTE_REGISTRATION_STAKING_KEY) ∧
    (p2.val = 0x31 →
      Mapped3 (env.policyForCVoteRegistrationStakingKey (stakingKeyParsed env wireData)) ∧
      StepRan env w p2 wireData
        (env.policyForCVoteRegistrationStakingKey (stakingKeyParsed env wireData))
        (stakingKeyScreens (stakingKeyHashed env wireData w))
        STATE_CVOTE_REGISTRATION_PAYMENT_ADDRESS) ∧
    (p2.val = 0x32 →
      Mapped3 (env.policyForCVoteRegistrationPaymentDestination
        (paymentAddressParsed env wireData) env.networkId) ∧
      StepRan env w p2 wireData
        (env.policyForCVoteRegistrationPaymentDestination
          (paymentAddressParsed env wireData) env.networkId)
        (paymentAddressScreens env (paymentAddressHashed env wireData w))
        STATE_CVOTE_REGISTRATION_NONCE) ∧
    (∀ all : List Screen,
      shownFor POLICY_PROMPT_WARN_UNUSUAL all = all ∧
      shownFor POLICY_SHOW_BEFORE_RESPONSE all = all.drop 1 ∧
      shownFor POLICY_ALLOW_WITHOUT_PROMPT all = []) := by
  have hlen := handleAPDU_returned_length env p2 wireData w hret
  refine ⟨fun h => ?_, fun h => ?_, fun h => ?_, fun all => ⟨rfl, rfl, rfl⟩⟩
  · rw [handleAPDU_dispatch_VoteKey env p2 _ w hlen h] at hret
    obtain ⟨hst, _, _, _, htype, hm, heq⟩ := handleVoteKeyAPDU_accepted_form env _ w hret
    obtain ⟨sd, hsd⟩ := voteKeyParse_world env wireData w
    have hX : voteKeyHashed env wireData w =
        ((w.setStateData sd).emit (Effect.policy (voteKeyQuery env
          (w.setStateData sd).subctx.stateData.getDelegation))).emit
          (Effect.hash (HashCall.addVoteKey (voteKeyBytes env
            (w.setStateData sd).subctx.stateData.getDelegation))) := by
      unfold voteKeyHashed
      rw [hsd]
    obtain ⟨W1, h1, h2⟩ := voteKey_driver_run env (voteKeyHashed env wireData w) _
      (by rw [hX]; exact hp) (by rw [hX]; exact hst)
      (by rw [hX]; rw [hsd] at htype; exact htype) hm
    refine ⟨hm, StepRan_of env w p2 wireData _ _ _ _ _ W1 ?_ h2 ?_ ?_⟩
    · rw [step_apdu_idle env w p2 wireData hp,
        handleAPDU_dispatch_VoteKey env p2 _ w hlen h, heq, h1]
    · rw [hX]
      simp
    · rw [hX]
      simp
  · rw [handleAPDU_dispatch_StakingKey env p2 _ w hlen h] at hret
    obtain ⟨hst, _, _, hm, heq⟩ := handleStakingKeyAPDU_accepted_form env _ w hret
    obtain ⟨W1, h1, h2⟩ := stakingKey_driver_run env (stakingKeyHashed env wireData w) _
      hp hst hm
    refine ⟨hm, StepRan_of env w p2 wireData _ _ _ _ _ W1 ?_ h2 ?_ ?_⟩
    · rw [step_apdu_idle env w p2 wireData hp,
        handleAPDU_dispatch_StakingKey env p2 _ w hlen h, heq, h1]
    · simp [stakingKeyHashed]
    · simp [stakingKeyHashed]
  · rw [handleAPDU_dispatch_PaymentAddress env p2 _ w hlen h] at hret
    obtain ⟨hst, _, _, haddr, hm, heq⟩ :=
      handlePaymentAddressAPDU_accepted_form env _ w hret
    obtain ⟨W1, h1, h2⟩ := paymentAddress_driver_run env
      (paymentAddressHashed env wireData w) _ hp hst haddr hm
    refine ⟨hm, StepRan_of env w p2 wireData _ _ _ _ _ W1 ?_ h2 ?_ ?_⟩
    · rw [step_apdu_idle env w p2 wireData hp,
        handleAPDU_dispatch_PaymentAddress env p2 _ w hlen h, heq, h1]
    · simp [paymentAddressHashed]
    · simp [paymentAddressHashed]

/-- C25 on a concrete command: with the vote-key policy set to warn-then-show, the
sample VoteKey command sent to the sample session runs to completion after two
confirmations, with the warning and the key on screen before the one response. -/
theorem three_screen_steps_run_witness :
    StepRan sampleEnvWarnAll voteKeyWorld 0x30 (1 :: sampleKey)
      (voteKeyOutcome sampleEnvWarnAll
        (voteKeyParse sampleEnvWarnAll (1 :: sampleKey)
          voteKeyWorld).1.world.subctx.stateData.getDelegation
        voteKeyWorld.subctx.format)
      (voteKeyScreens sampleEnvWarnAll
        (voteKeyHashed sampleEnvWarnAll (1 :: sampleKey) voteKeyWorld))
      STATE_CVOTE_REGISTRATION_STAKING_KEY ∧
    voteKeyOutcome sampleEnvWarnAll
        (voteKeyParse sampleEnvWarnAll (1 :: sampleKey)
          voteKeyWorld).1.world.subctx.stateData.getDelegation
        voteKeyWorld.subctx.format = POLICY_PROMPT_WARN_UNUSUAL :=
  ⟨((three_screen_steps_run sampleEnvWarnAll 0x30 (1 :: sampleKey) voteKeyWorld rfl
      rfl).1 rfl).2, rfl⟩


/-! ### C27 -/

theorem hashCalls_map_display (l : List Screen) : hashCalls (l.map Effect.display) = [] := by
  induction l with
  | nil => rfl
  | cons s l ih => simp [ih]

theorem stepFinished_hashCalls (X : World) (shown : List Screen)
    (next : sign_tx_cvote_registration_state_t) (k : Nat) :
    hashCalls (stepFinished X shown next k).trace = hashCalls X.trace := by
  simp [stepFinished, hashCalls_map_display]

theorem stepFinished_screens (X : World) (shown : List Screen)
    (next : sign_tx_cvote_registration_state_t) (k : Nat) :
    screens (stepFinished X shown next k).trace = screens X.trace ++ shown := by
  simp [stepFinished, screens_map_display]

theorem handleDelegation_ui_runStep_at_VOTE_KEY (env : Env) (Y : World)
    (hstep : Y.subctx.ui_step = HANDLE_DELEGATION_STEP_VOTE_KEY)
    (htype : Y.subctx.stateData.getDelegation.type = env.DELEGATION_KEY ∨
      Y.subctx.stateData.getDelegation.type = env.DELEGATION_PATH) :
    signTxCVoteRegistration_handleDelegation_ui_runStep env Y =
      returned ((Y.display (voteKeyScreen env Y.subctx.stateData.getDelegation)
        ui_callback_fn_t.handleDelegation_ui_runStep false).setUiStep
        HANDLE_DELEGATION_STEP_WEIGHT) := by
  unfold signTxCVoteRegistration_handleDelegation_ui_runStep
  dsimp only
  rw [displayVoteKey_some env _ _ htype]
  simp [hstep, HANDLE_DELEGATION_STEP_VOTE_KEY, HANDLE_VOTE_KEY_STEP_WARNING]

theorem handleDelegation_ui_runStep_at_WEIGHT (env : Env) (Y : World)
    (hstep : Y.subctx.ui_step = HANDLE_DELEGATION_STEP_WEIGHT) :
    signTxCVoteRegistration_handleDelegation_ui_runStep env Y =
      returned ((Y.display (Screen.uint64 "Weight" Y.subctx.stateData.getDelegation.weight)
        ui_callback_fn_t.handleDelegation_ui_runStep false).setUiStep
        HANDLE_DELEGATION_STEP_RESPOND) := by
  unfold signTxCVoteRegistration_handleDelegation_ui_runStep
  simp [hstep, HANDLE_DELEGATION_STEP_VOTE_KEY, HANDLE_VOTE_KEY_STEP_WARNING,
    HANDLE_DELEGATION_STEP_WEIGHT]

theorem voteKeyScreen_raw (env : Env) (t : uint8_t) (key : List uint8_t) (weight : Nat)
    (ht : t.val = env.DELEGATION_KEY) (hlen : key.length = 32) :
    voteKeyScreen env (rawKeyRecord t key weight) =
      Screen.bech32 "Vote public key" "cvote_vk" key := by
  unfold voteKeyScreen rawKeyRecord
  simp only [ht, if_true]
  rw [fixed_of_length _ _ (by rw [hlen]; rfl)]

theorem paymentAddress_shown_hashed (env : Env) (d : List uint8_t) (w : World)
    (hp : w.pending = none)
    (hret : (signTxCVoteRegistration_handleAPDU env 0x32 d w).status = Status.returned) :
    ∃ W, runAccepted env w (Event.apdu 0x32 d :: List.replicate
        (shownFor (env.policyForCVoteRegistrationPaymentDestination
          (paymentAddressParsed env d) env.networkId)
          [Screen.paginatedText "Unusual request" "Proceed with care",
           Screen.address "Rewards go to"
             (addressBytes env (paymentAddressParsed env d))]).length
        Event.uiConfirm) = some W ∧
      hashCalls W.trace = hashCalls w.trace ++
        [HashCall.addPaymentAddress (addressBytes env (paymentAddressParsed env d))] ∧
      screens W.trace = screens w.trace ++
        shownFor (env.policyForCVoteRegistrationPaymentDestination
          (paymentAddressParsed env d) env.networkId)
          [Screen.paginatedText "Unusual request" "Proceed with care",
           Screen.address "Rewards go to"
             (addressBytes env (paymentAddressParsed env d))] := by
  have hlen := handleAPDU_returned_length env 0x32 d w hret
  rw [handleAPDU_dispatch_PaymentAddress env 0x32 _ w hlen rfl] at hret
  obtain ⟨hst, _, _, haddr, hm, heq⟩ := handlePaymentAddressAPDU_accepted_form env _ w hret
  obtain ⟨W1, h1, h2⟩ := paymentAddress_driver_run env (paymentAddressHashed env d w) _
    hp hst haddr hm
  have hscr : paymentAddressScreens env (paymentAddressHashed env d w) =
      [Screen.paginatedText "Unusual request" "Proceed with care",
       Screen.address "Rewards go to" (addressBytes env (paymentAddressParsed env d))] := rfl
  rw [hscr] at h2
  rw [runAccepted_cons_returned env w W1 _ _ (by simp)
    (by rw [step_apdu_idle env w _ _ hp,
      handleAPDU_dispatch_PaymentAddress env 0x32 _ w hlen rfl, heq, h1]), h2]
  refine ⟨_, rfl, ?_, ?_⟩
  · rw [stepFinished_hashCalls]
    simp [paymentAddressHashed]
  · rw [stepFinished_screens]
    simp [paymentAddressHashed]

theorem voteKey_raw_shown_hashed (env : Env) (t : uint8_t) (key : List uint8_t) (w : World)
    (hp : w.pending = none) (ht : t.val = env.DELEGATION_KEY)
    (hret : (signTxCVoteRegistration_handleAPDU env 0x30 (t :: key) w).status =
      Status.returned) :
    key.length = 32 ∧
    ∃ W, runAccepted env w (Event.apdu 0x30 (t :: key) :: List.replicate
        (shownFor (voteKeyOutcome env (rawKeyRecord t key 0) w.subctx.format)
          [Screen.paginatedText "WARNING:" "unusual vote key",
           Screen.bech32 "Vote public key" "cvote_vk" key]).length
        Event.uiConfirm) = some W ∧
      hashCalls W.trace = hashCalls w.trace ++ [HashCall.addVoteKey key] ∧
      screens W.trace = screens w.trace ++
        shownFor (voteKeyOutcome env (rawKeyRecord t key 0) w.subctx.format)
          [Screen.paginatedText "WARNING:" "unusual vote key",
           Screen.bech32 "Vote public key" "cvote_vk" key] := by
  have hlen := handleAPDU_returned_length env 0x30 _ w hret
  rw [handleAPDU_dispatch_VoteKey env 0x30 _ w hlen rfl] at hret
  obtain ⟨hst, _, _, _, _, hm, heq⟩ := handleVoteKeyAPDU_accepted_form env _ w hret
  obtain ⟨hk32, hX⟩ := handleVoteKeyAPDU_raw env t key w ht hret
  have hparsed : (voteKeyParse env (t :: key) w).1.world.subctx.stateData.getDelegation =
      rawKeyRecord t key 0 := by
    rw [voteKeyParse_raw env t key w ht (le_of_eq hk32.symm),
      List.take_of_length_le (le_of_eq hk32)]
    rfl
  rw [hparsed] at hm heq
  obtain ⟨W1, h1, h2⟩ := voteKey_driver_run env (voteKeyHashed env (t :: key) w) _
    (by rw [hX]; exact hp) (by rw [hX]; exact hst)
    (by rw [hX]; exact Or.inl ht) hm
  have hscr : voteKeyScreens env (voteKeyHashed env (t :: key) w) =
      [Screen.paginatedText "WARNING:" "unusual vote key",
       Screen.bech32 "Vote public key" "cvote_vk" key] := by
    rw [hX]
    unfold voteKeyScreens
    simp only [emit_subctx, setStateData_stateData, getDelegation_delegation]
    rw [voteKeyScreen_raw env t key 0 ht hk32]
  rw [hscr] at h2
  rw [runAccepted_cons_returned env w W1 _ _ (by simp)
    (by rw [step_apdu_idle env w _ _ hp,
      handleAPDU_dispatch_VoteKey env 0x30 _ w hlen rfl, heq, h1]), h2]
  refine ⟨hk32, _, rfl, ?_, ?_⟩
  · rw [stepFinished_hashCalls, hX]
    simp
  · rw [stepFinished_screens, hX]
    simp

theorem delegation_raw_shown_hashed (env : Env) (t : uint8_t) (rest : List uint8_t)
    (w : World) (hp : w.pending = none) (ht : t.val = env.DELEGATION_KEY)
    (hret : (signTxCVoteRegistration_handleAPDU env 0x37 (t :: rest) w).status =
      Status.returned)
    (hshow : voteKeyOutcome env (rawKeyRecord t (rest.take 32) (beValue (rest.drop 32)))
      w.subctx.format = POLICY_SHOW_BEFORE_RESPONSE) :
    rest.length = 36 ∧
    ∃ W, runAccepted env w [Event.apdu 0x37 (t :: rest), Event.uiConfirm] = some W ∧
      hashCalls W.trace = hashCalls w.trace ++
        [HashCall.addDelegation (rest.take 32) (beValue (rest.drop 32))] ∧
      screens W.trace = screens w.trace ++
        [Screen.bech32 "Vote public key" "cvote_vk" (rest.take 32),
         Screen.uint64 "Weight" (beValue (rest.drop 32))] := by
  have hlen := handleAPDU_returned_length env 0x37 _ w hret
  rw [handleAPDU_dispatch_Delegation env 0x37 _ w hlen rfl] at hret
  obtain ⟨hst, _, _, _, _, _, heq⟩ := handleDelegationAPDU_accepted_form env _ w hret
  obtain ⟨h36, hX⟩ := handleDelegationAPDU_raw env t rest w ht hret
  have hparsed : (delegationParsed env (t :: rest) w).subctx.stateData.getDelegation =
      rawKeyRecord t (rest.take 32) (beValue (rest.drop 32)) := by
    have := congrArg (fun X : World => X.subctx.stateData.getDelegation) hX
    simpa [delegationHashed] using this
  rw [hparsed, hshow, hX] at heq
  have hk32 : (rest.take 32).length = 32 := by
    rw [List.length_take]
    omega
  obtain ⟨⟨st, ui, f, n, c, sk, ah, sd⟩, tr, p⟩ := w
  simp only at hp hst
  subst hp
  subst hst
  have h1 : signTxCVoteRegistration_handleDelegationAPDU env (t :: rest)
      ⟨⟨STATE_CVOTE_REGISTRATION_DELEGATIONS, ui, f, n, c, sk, ah, sd⟩, tr, none⟩ =
      returned _ :=
    heq.trans (handleDelegation_ui_runStep_at_VOTE_KEY env _ rfl (Or.inl ht))
  rw [runAccepted_cons_returned env _ _ _ _ (by simp)
    (by rw [step_apdu_idle env _ _ _ rfl,
      handleAPDU_dispatch_Delegation env 0x37 _ _ hlen rfl, h1])]
  rw [runAccepted_uiConfirm env _ ⟨ui_callback_fn_t.handleDelegation_ui_runStep, false⟩ _
    _ rfl (handleDelegation_ui_runStep_at_WEIGHT env _ rfl)]
  refine ⟨h36, _, rfl, ?_, ?_⟩
  · simp [World.display, World.setUiStep, World.emit, World.setStateData]
  · simp only [World.display, World.setUiStep, World.emit, World.setStateData,
      screens_append, screens_cons_display, screens_cons_policy, screens_cons_hash,
      screens_nil, List.append_assoc, getDelegation_delegation, List.nil_append,
      List.cons_append, List.append_cancel_left_eq, List.cons.injEq, and_true]
    exact ⟨voteKeyScreen_raw env t _ _ ht hk32, rfl⟩

/-- C27: what the user is shown is what is hashed.  On an idle session, an accepted
PaymentAddress command, run to completion, hands to `addPaymentAddress` the same
address bytes that its 'Rewards go to' screen shows (the screens being the warning and
the address under warn-then-show, the address under show-before-response); an accepted
VoteKey command with a raw key hands to `addVoteKey` the 32 bytes its key screen shows;
and an accepted Delegation command with a raw key under show-before-response hands to
`addDelegation` the key and the weight that its two screens show. -/
theorem shown_is_hashed (env : Env) (w : World) (hp : w.pending = none) :
    (∀ d, (signTxCVoteRegistration_handleAPDU env 0x32 d w).status = Status.returned →
      ∃ W address, runAccepted env w (Event.apdu 0x32 d :: List.replicate
          (shownFor (env.policyForCVoteRegistrationPaymentDestination
            (paymentAddressParsed env d) env.networkId)
            [Screen.paginatedText "Unusual request" "Proceed with care",
             Screen.address "Rewards go to" address]).length Event.uiConfirm) = some W ∧
        hashCalls W.trace = hashCalls w.trace ++ [HashCall.addPaymentAddress address] ∧
        screens W.trace = screens w.trace ++
          shownFor (env.policyForCVoteRegistrationPaymentDestination
            (paymentAddressParsed env d) env.networkId)
            [Screen.paginatedText "Unusual request" "Proceed with care",
             Screen.address "Rewards go to" address]) ∧
    (∀ (t : uint8_t) (key : List uint8_t), t.val = env.DELEGATION_KEY →
      (signTxCVoteRegistration_handleAPDU env 0x30 (t :: key) w).status =
        Status.returned →
      key.length = 32 ∧
      ∃ W, runAccepted env w (Event.apdu 0x30 (t :: key) :: List.replicate
          (shownFor (voteKeyOutcome env (rawKeyRecord t key 0) w.subctx.format)
            [Screen.paginatedText "WARNING:" "unusual vote key",
             Screen.bech32 "Vote public key" "cvote_vk" key]).length
          Event.uiConfirm) = some W ∧
        hashCalls W.trace = hashCalls w.trace ++ [HashCall.addVoteKey key] ∧
        screens W.trace = screens w.trace ++
          shownFor (voteKeyOutcome env (rawKeyRecord t key 0) w.subctx.format)
            [Screen.paginatedText "WARNING:" "unusual vote key",
             Screen.bech32 "Vote public key" "cvote_vk" key]) ∧
    (∀ (t : uint8_t) (rest : List uint8_t), t.val = env.DELEGATION_KEY →
      (signTxCVoteRegistration_handleAPDU env 0x37 (t :: rest) w).status =
        Status.returned →
      voteKeyOutcome env (rawKeyRecord t (rest.take 32) (beValue (rest.drop 32)))
        w.subctx.format = POLICY_SHOW_BEFORE_RESPONSE →
      rest.length = 36 ∧
      ∃ W, runAccepted env w [Event.apdu 0x37 (t :: rest), Event.uiConfirm] = some W ∧
        hashCalls W.trace = hashCalls w.trace ++
          [HashCall.addDelegation (rest.take 32) (beValue (rest.drop 32))] ∧
        screens W.trace = screens w.trace ++
          [Screen.bech32 "Vote public key" "cvote_vk" (rest.take 32),
           Screen.uint64 "Weight" (beValue (rest.drop 32))]) := by
  refine ⟨fun d hret => ?_, fun t key ht hret => ?_, fun t rest ht hret hshow => ?_⟩
  · obtain ⟨W, h1, h2, h3⟩ := paymentAddress_shown_hashed env d w hp hret
    exact ⟨W, _, h1, h2, h3⟩
  · exact voteKey_raw_shown_hashed env t key w hp ht hret
  · exact delegation_raw_shown_hashed env t rest w hp ht hret hshow

/-- C27 on a concrete command: with the payment policy set to show-before-response, the
sample PaymentAddress command shows the address bytes 9, 9 and hashes the same
bytes. -/
theorem shown_is_hashed_witness :
    ∃ W address, runAccepted sampleEnvShowAll paymentAddressWorld
        (Event.apdu 0x32 [2, 9, 9] :: List.replicate
          (shownFor (sampleEnvShowAll.policyForCVoteRegistrationPaymentDestination
            (paymentAddressParsed sampleEnvShowAll [2, 9, 9]) sampleEnvShowAll.networkId)
            [Screen.paginatedText "Unusual request" "Proceed with care",
             Screen.address "Rewards go to" address]).length Event.uiConfirm) = some W ∧
      hashCalls W.trace =
        hashCalls paymentAddressWorld.trace ++ [HashCall.addPaymentAddress address] ∧
      screens W.trace = screens paymentAddressWorld.trace ++
        shownFor (sampleEnvShowAll.policyForCVoteRegistrationPaymentDestination
          (paymentAddressParsed sampleEnvShowAll [2, 9, 9]) sampleEnvShowAll.networkId)
          [Screen.paginatedText "Unusual request" "Proceed with care",
           Screen.address "Rewards go to" address] :=
  (shown_is_hashed sampleEnvShowAll paymentAddressWorld rfl).1 [2, 9, 9] rfl


/-! ### C26 -/

theorem runCallback_thrown_world (env : Env) (cb : ui_callback_fn_t) (W : World) (e : Err)
    (hst : W.subctx.state = driverState cb)
    (hdel : cb = ui_callback_fn_t.handleDelegation_ui_runStep →
      W.subctx.currentDelegation < W.subctx.numDelegations ∧
      W.subctx.numDelegations < UINT16_RANGE)
    (h : (runCallback env cb W).status = Status.thrown e) :
    (runCallback env cb W).world = W := by
  have key : ∀ o : Outcome, runCallback env cb W = o →
      ((∃ e, o.status = Status.thrown e ∧ o.world = W) ∨
        o.status = Status.returned) → o.world = W := by
    intro o ho hsum
    rcases hsum with ⟨_, _, hw⟩ | hr
    · exact hw
    · rw [ho, hr] at h
      cases h
  apply key _ rfl
  cases cb
  · rcases handleVoteKey_ui_runStep_summary env W _ rfl hst with h1 | ⟨h1, _⟩ | ⟨h1, _⟩
    · exact Or.inl h1
    · exact Or.inr h1
    · exact Or.inr h1
  · rcases handleDelegation_ui_runStep_summary env W _ rfl hst (hdel rfl).1 (hdel rfl).2
      with h1 | ⟨h1, _⟩ | ⟨h1, _⟩
    · exact Or.inl h1
    · exact Or.inr h1
    · exact Or.inr h1
  · rcases handleStakingKey_ui_runStep_summary W _ rfl hst with h1 | ⟨h1, _⟩ | ⟨h1, _⟩
    · exact Or.inl h1
    · exact Or.inr h1
    · exact Or.inr h1
  · rcases handlePaymentAddress_ui_runStep_summary env W _ rfl hst with
      h1 | ⟨h1, _⟩ | ⟨h1, _⟩
    · exact Or.inl h1
    · exact Or.inr h1
    · exact Or.inr h1
  · rcases handleNonce_ui_runStep_summary W _ rfl hst with h1 | ⟨h1, _⟩ | ⟨h1, _⟩
    · exact Or.inl h1
    · exact Or.inr h1
    · exact Or.inr h1
  · rcases handleVotingPurpose_ui_runStep_summary W _ rfl hst with h1 | ⟨h1, _⟩ | ⟨h1, _⟩
    · exact Or.inl h1
    · exact Or.inr h1
    · exact Or.inr h1
  · rcases handleConfirm_ui_runStep_summary env W _ rfl hst with h1 | ⟨h1, _⟩ | ⟨h1, _⟩
    · exact Or.inl h1
    · exact Or.inr h1
    · exact Or.inr h1

theorem driver_thrown_quiet (env : Env) (cb : ui_callback_fn_t) (w W : World) (e : Err)
    (hst : W.subctx.state = driverState cb)
    (hdel : cb = ui_callback_fn_t.handleDelegation_ui_runStep →
      W.subctx.currentDelegation < W.subctx.numDelegations ∧
      W.subctx.numDelegations < UINT16_RANGE)
    (hresp : responses W.trace = responses w.trace)
    (h : (runCallback env cb W).status = Status.thrown e) :
    responses (runCallback env cb W).world.trace = responses w.trace := by
  rw [runCallback_thrown_world env cb W e hst hdel h, hresp]

theorem handleNonceAPDU_thrown_quiet (env : Env) (d : List uint8_t) (w : World) (e : Err)
    (h : (signTxCVoteRegistration_handleNonceAPDU env d w).status = Status.thrown e) :
    responses (signTxCVoteRegistration_handleNonceAPDU env d w).world.trace =
      responses w.trace := by
  generalize ho : signTxCVoteRegistration_handleNonceAPDU env d w = o at h ⊢
  unfold signTxCVoteRegistration_handleNonceAPDU at ho
  by_cases hstate : w.subctx.state = STATE_CVOTE_REGISTRATION_NONCE
  swap
  · rw [if_pos hstate] at ho
    subst ho
    rfl
  rw [if_neg (not_not.mpr hstate)] at ho
  repeat' (first | split at ho | dsimp only at ho)
  all_goals subst ho
  all_goals first
    | rfl
    | exact driver_thrown_quiet env ui_callback_fn_t.handleNonce_ui_runStep w _ e
        (by simpa using hstate) (fun hc => by cases hc) (by simp) h
    | simp

theorem handleStakingKeyAPDU_thrown_quiet (env : Env) (d : List uint8_t) (w : World) (e : Err)
    (h : (signTxCVoteRegistration_handleStakingKeyAPDU env d w).status = Status.thrown e) :
    responses (signTxCVoteRegistration_handleStakingKeyAPDU env d w).world.trace =
      responses w.trace := by
  generalize ho : signTxCVoteRegistration_handleStakingKeyAPDU env d w = o at h ⊢
  unfold signTxCVoteRegistration_handleStakingKeyAPDU at ho
  by_cases hstate : w.subctx.state = STATE_CVOTE_REGISTRATION_STAKING_KEY
  swap
  · rw [if_pos hstate] at ho
    subst ho
    rfl
  rw [if_neg (not_not.mpr hstate)] at ho
  repeat' (first | split at ho | dsimp only at ho)
  all_goals subst ho
  all_goals first
    | rfl
    | exact driver_thrown_quiet env ui_callback_fn_t.handleStakingKey_ui_runStep w _ e
        (by simpa using hstate) (fun hc => by cases hc) (by simp) h
    | simp

theorem handlePaymentAddressAPDU_thrown_quiet (env : Env) (d : List uint8_t) (w : World) (e : Err)
    (h : (signTxCVoteRegistration_handlePaymentAddressAPDU env d w).status = Status.thrown e) :
    responses (signTxCVoteRegistration_handlePaymentAddressAPDU env d w).world.trace =
      responses w.trace := by
  generalize ho : signTxCVoteRegistration_handlePaymentAddressAPDU env d w = o at h ⊢
  unfold signTxCVoteRegistration_handlePaymentAddressAPDU at ho
  by_cases hstate : w.subctx.state = STATE_CVOTE_REGISTRATION_PAYMENT_ADDRESS
  swap
  · rw [if_pos hstate] at ho
    subst ho
    rfl
  rw [if_neg (not_not.mpr hstate)] at ho
  repeat' (first | split at ho | dsimp only at ho)
  all_goals subst ho
  all_goals first
    | rfl
    | exact driver_thrown_quiet env ui_callback_fn_t.handlePaymentAddress_ui_runStep w _ e
        (by simpa using hstate) (fun hc => by cases hc) (by simp) h
    | simp

theorem handleVotingPurposeAPDU_thrown_quiet (env : Env) (d : List uint8_t) (w : World) (e : Err)
    (h : (signTxCVoteRegistration_handleVotingPurposeAPDU env d w).status = Status.thrown e) :
    responses (signTxCVoteRegistration_handleVotingPurposeAPDU env d w).world.trace =
      responses w.trace := by
  generalize ho : signTxCVoteRegistration_handleVotingPurposeAPDU env d w = o at h ⊢
  unfold signTxCVoteRegistration_handleVotingPurposeAPDU at ho
  by_cases hstate : w.subctx.state = STATE_CVOTE_REGISTRATION_VOTING_PURPOSE
  swap
  · rw [if_pos hstate] at ho
    subst ho
    rfl
  rw [if_neg (not_not.mpr hstate)] at ho
  repeat' (first | split at ho | dsimp only at ho)
  all_goals subst ho
  all_goals first
    | rfl
    | exact driver_thrown_quiet env ui_callback_fn_t.handleVotingPurpose_ui_runStep w _ e
        (by simpa using hstate) (fun hc => by cases hc) (by simp) h
    | (rw [advanceState_of_VOTING_PURPOSE _ (by simpa using hstate)] at h; cases h)
    | simp

theorem handleConfirmAPDU_thrown_quiet (env : Env) (d : List uint8_t) (w : World) (e : Err)
    (h : (signTxCVoteRegistration_handleConfirmAPDU env d w).status = Status.thrown e) :
    responses (signTxCVoteRegistration_handleConfirmAPDU env d w).world.trace =
      responses w.trace := by
  generalize ho : signTxCVoteRegistration_handleConfirmAPDU env d w = o at h ⊢
  unfold signTxCVoteRegistration_handleConfirmAPDU at ho
  by_cases hstate : w.subctx.state = STATE_CVOTE_REGISTRATION_CONFIRM
  swap
  · rw [if_pos hstate] at ho
    subst ho
    rfl
  rw [if_neg (not_not.mpr hstate)] at ho
  repeat' (first | split at ho | dsimp only at ho)
  all_goals subst ho
  all_goals first
    | rfl
    | exact driver_thrown_quiet env ui_callback_fn_t.handleConfirm_ui_runStep w _ e
        (by simpa using hstate) (fun hc => by cases hc) (by simp) h
    | simp

theorem handleInitAPDU_thrown_quiet (env : Env) (d : List uint8_t) (w : World) (e : Err)
    (h : (signTxCVoteRegistration_handleInitAPDU env d w).status = Status.thrown e) :
    responses (signTxCVoteRegistration_handleInitAPDU env d w).world.trace =
      responses w.trace := by
  rcases handleInitAPDU_thrown env d w _ rfl with hr | ⟨_, _, _, ht, _⟩
  · rw [hr] at h
    cases h
  · rw [ht]

theorem handleVoteKeyAPDU_thrown_quiet (env : Env) (d : List uint8_t) (w : World) (e : Err)
    (h : (signTxCVoteRegistration_handleVoteKeyAPDU env d w).status = Status.thrown e) :
    responses (signTxCVoteRegistration_handleVoteKeyAPDU env d w).world.trace =
      responses w.trace := by
  generalize ho : signTxCVoteRegistration_handleVoteKeyAPDU env d w = o at h ⊢
  unfold signTxCVoteRegistration_handleVoteKeyAPDU at ho
  by_cases hstate : w.subctx.state = STATE_CVOTE_REGISTRATION_VOTE_KEY
  swap
  · rw [if_pos hstate] at ho
    subst ho
    rfl
  by_cases hlen : d.length < env.BUFFER_SIZE_PARANOIA
  swap
  · rw [if_neg (not_not.mpr hstate), if_pos hlen] at ho
    subst ho
    rfl
  rw [if_neg (not_not.mpr hstate), if_neg (not_not.mpr hlen)] at ho
  dsimp only at ho
  obtain ⟨sd, hsd⟩ := parseVoteKey_frame env (make_read_view d)
    (w.setStateData stateData_t.zeroed)
  generalize _parseVoteKey env (make_read_view d) (w.setStateData stateData_t.zeroed) = r
    at ho hsd
  obtain ⟨⟨pst, pw⟩, view⟩ := r
  dsimp only at ho hsd
  subst hsd
  cases pst with
  | thrown e =>
    dsimp only at ho
    subst ho
    rfl
  | returned =>
    dsimp only at ho
    split_ifs at ho with hrem
    · subst ho
      rfl
    · cases hpol : _determineVoteKeyPolicy env
          ((w.setStateData stateData_t.zeroed).setStateData sd) with
      | none =>
        rw [hpol] at ho
        dsimp only at ho
        subst ho
        rfl
      | some pr =>
        obtain ⟨policy, w3⟩ := pr
        obtain ⟨q, rfl⟩ := determineVoteKeyPolicy_frame _ _ _ _ hpol
        rw [hpol] at ho
        dsimp only at ho
        split_ifs at ho with hdeny hkey hpath
        all_goals try (subst ho; simp; done)
        all_goals
          dsimp only at ho
          cases policy
          all_goals dsimp only at ho
          all_goals subst ho
          all_goals first
            | exact driver_thrown_quiet env ui_callback_fn_t.handleVoteKey_ui_runStep w _ e
                (by simpa using hstate) (fun hc => by cases hc) (by simp) h
            | simp

theorem handleDelegationAPDU_thrown_quiet (env : Env) (d : List uint8_t) (w : World)
    (e : Err) (hnum : w.subctx.numDelegations < UINT16_RANGE)
    (h : (signTxCVoteRegistration_handleDelegationAPDU env d w).status =
      Status.thrown e) :
    responses (signTxCVoteRegistration_handleDelegationAPDU env d w).world.trace =
      responses w.trace := by
  generalize ho : signTxCVoteRegistration_handleDelegationAPDU env d w = o at h ⊢
  unfold signTxCVoteRegistration_handleDelegationAPDU at ho
  by_cases hstate : w.subctx.state = STATE_CVOTE_REGISTRATION_DELEGATIONS
  swap
  · rw [if_pos hstate] at ho
    subst ho
    rfl
  by_cases hcur : w.subctx.currentDelegation < w.subctx.numDelegations
  swap
  · rw [if_neg (not_not.mpr hstate), if_pos hcur] at ho
    subst ho
    rfl
  rw [if_neg (not_not.mpr hstate), if_neg (not_not.mpr hcur)] at ho
  dsimp only at ho
  obtain ⟨sd, hsd⟩ := parseVoteKey_frame env (make_read_view d)
    (w.setStateData stateData_t.zeroed)
  generalize _parseVoteKey env (make_read_view d) (w.setStateData stateData_t.zeroed) = r
    at ho hsd
  obtain ⟨⟨pst, pw⟩, view⟩ := r
  dsimp only at ho hsd
  subst hsd
  cases pst with
  | thrown e =>
    dsimp only at ho
    subst ho
    rfl
  | returned =>
    dsimp only at ho
    cases hweight : parse_u4be view with
    | error e =>
      rw [hweight] at ho
      dsimp only at ho
      subst ho
      rfl
    | ok pr =>
      obtain ⟨weight, view1⟩ := pr
      rw [hweight] at ho
      dsimp only at ho
      split_ifs at ho with hrem
      · subst ho
        rfl
      · generalize hW : ((w.setStateData stateData_t.zeroed).setStateData sd).setStateData
            (stateData_t.delegation
              { ((w.setStateData stateData_t.zeroed).setStateData
                  sd).subctx.stateData.getDelegation with weight := weight }) = W at ho
        have hWt : W.trace = w.trace := by rw [← hW]; rfl
        have hWs : W.subctx.state = w.subctx.state := by rw [← hW]; rfl
        have hWc : W.subctx.currentDelegation = w.subctx.currentDelegation := by
          rw [← hW]; rfl
        have hWn : W.subctx.numDelegations = w.subctx.numDelegations := by rw [← hW]; rfl
        cases hpol : _determineVoteKeyPolicy env W with
        | none =>
          rw [hpol] at ho
          dsimp only at ho
          subst ho
          simp [hWt]
        | some pr =>
          obtain ⟨policy, w3⟩ := pr
          obtain ⟨q, rfl⟩ := determineVoteKeyPolicy_frame _ _ _ _ hpol
          rw [hpol] at ho
          dsimp only at ho
          split_ifs at ho with hdeny hkey hpath
          all_goals try (subst ho; simp [hWt]; done)
          all_goals
            dsimp only at ho
            cases policy
            all_goals dsimp only at ho
            all_goals subst ho
            all_goals first
              | exact driver_thrown_quiet env ui_callback_fn_t.handleDelegation_ui_runStep w _
                  e (by simpa [hWs] using hstate)
                  (fun _ => ⟨by simpa [hWc, hWn] using hcur, by simpa [hWn] using hnum⟩)
                  (by simp [hWt]) h
              | simp [hWt]

theorem handleAPDU_thrown_quiet (env : Env) (p2 : uint8_t) (d : List uint8_t) (w : World)
    (e : Err) (hnum : w.subctx.numDelegations < UINT16_RANGE)
    (h : (signTxCVoteRegistration_handleAPDU env p2 d w).status = Status.thrown e) :
    responses (signTxCVoteRegistration_handleAPDU env p2 d w).world.trace =
      responses w.trace := by
  rcases handleAPDU_cases env p2 d w with h0 | h0 | h0 | h0 | h0 | h0 | h0 | h0 | h0
  · rw [h0]
    rfl
  · rw [h0] at h ⊢
    exact handleInitAPDU_thrown_quiet env d w e h
  · rw [h0] at h ⊢
    exact handleVoteKeyAPDU_thrown_quiet env d w e h
  · rw [h0] at h ⊢
    exact handleDelegationAPDU_thrown_quiet env d w e hnum h
  · rw [h0] at h ⊢
    exact handleStakingKeyAPDU_thrown_quiet env d w e h
  · rw [h0] at h ⊢
    exact handlePaymentAddressAPDU_thrown_quiet env d w e h
  · rw [h0] at h ⊢
    exact handleNonceAPDU_thrown_quiet env d w e h
  · rw [h0] at h ⊢
    exact handleVotingPurposeAPDU_thrown_quiet env d w e h
  · rw [h0] at h ⊢
    exact handleConfirmAPDU_thrown_quiet env d w e h

theorem step_thrown_quiet (env : Env) (w : World) (ev : Event) (o : Outcome) (e : Err)
    (hinv : SessionInv w) (hs : step env w ev = some o)
    (h : o.status = Status.thrown e) :
    responses o.world.trace = responses w.trace := by
  obtain ⟨_, hnum, _, _, hdel, _, hpi⟩ := hinv
  cases ev with
  | apdu p2 d =>
    unfold step at hs
    cases hp : w.pending with
    | none =>
      rw [hp] at hs
      cases hs
      exact handleAPDU_thrown_quiet env p2 d w e hnum h
    | some p =>
      rw [hp] at hs
      cases hs
  | uiConfirm =>
    unfold step at hs
    cases hp : w.pending with
    | none =>
      rw [hp] at hs
      cases hs
    | some p =>
      rw [hp] at hs
      cases hs
      unfold PendingInv at hpi
      rw [hp] at hpi
      have hst : w.subctx.state = driverState p.callback := hpi.1
      rw [runCallback_thrown_world env p.callback { w with pending := none } e hst
        (fun hc => ⟨hdel (by rw [hst, hc]; rfl), hnum⟩) h]
  | uiReject =>
    unfold step at hs
    cases hp : w.pending with
    | none =>
      rw [hp] at hs
      cases hs
    | some p =>
      rw [hp] at hs
      dsimp only at hs
      split_ifs at hs
      cases hs
      cases h

theorem advanceState_returned_iff (X : World) :
    (advanceState X).status = Status.returned ↔
      (X.subctx.state ≠ STATE_CVOTE_REGISTRATION_FINISHED ∧
        (X.subctx.state = STATE_CVOTE_REGISTRATION_DELEGATIONS →
          X.subctx.currentDelegation = X.subctx.numDelegations)) := by
  unfold advanceState
  cases hst : X.subctx.state <;> simp [returned, THROW] <;> split <;> simp_all

/-- C26: in every session reachable from `signTxCVoteRegistration_init` by wire
commands and UI resumptions, the assertions of the state machine hold where the code
makes them.  In the Delegations state `currentDelegation < numDelegations` (the
assertion of the Delegation handler) and the 16-bit increment of `currentDelegation`
does not wrap.  `advanceState` returns exactly when the state is not Finished and, in
Delegations, `currentDelegation = numDelegations`; a resumed driver runs in its own
state, never in Finished; and no event throws after it has sent a response, so no call
of `advanceState`, which always follows the response, has failed its assertions.
`signTxCVoteRegistration_isFinished` has a case for every state and is true exactly in
Finished. -/
theorem reachable_assertions_hold (env : Env) (w : World) (hw : Reachable env w) :
    (w.subctx.state = STATE_CVOTE_REGISTRATION_DELEGATIONS →
      w.subctx.currentDelegation < w.subctx.numDelegations) ∧
    (w.subctx.state = STATE_CVOTE_REGISTRATION_DELEGATIONS →
      (w.subctx.currentDelegation + 1) % UINT16_RANGE = w.subctx.currentDelegation + 1) ∧
    (∀ X : World, (advanceState X).status = Status.returned ↔
      (X.subctx.state ≠ STATE_CVOTE_REGISTRATION_FINISHED ∧
        (X.subctx.state = STATE_CVOTE_REGISTRATION_DELEGATIONS →
          X.subctx.currentDelegation = X.subctx.numDelegations))) ∧
    (∀ p, w.pending = some p → w.subctx.state = driverState p.callback ∧
      w.subctx.state ≠ STATE_CVOTE_REGISTRATION_FINISHED) ∧
    (∀ ev o e, step env w ev = some o → o.status = Status.thrown e →
      responses o.world.trace = responses w.trace) ∧
    (signTxCVoteRegistration_isFinished w = true ↔
      w.subctx.state = STATE_CVOTE_REGISTRATION_FINISHED) := by
  have hinv := Reachable_SessionInv env w hw
  obtain ⟨_, hnum, _, _, hdel, _, hpi⟩ := hinv
  refine ⟨hdel, fun hs => Nat.mod_eq_of_lt (by have := hdel hs; omega),
    advanceState_returned_iff, fun p hp => ?_,
    fun ev o e hs h => step_thrown_quiet env w ev o e (Reachable_SessionInv env w hw) hs h,
    ?_⟩
  · unfold PendingInv at hpi
    rw [hp] at hpi
    refine ⟨hpi.1, ?_⟩
    rw [hpi.1]
    cases p.callback <;> simp [driverState]
  · unfold signTxCVoteRegistration_isFinished
    cases w.subctx.state <;> simp

/-- C26 at a concrete reachable session: after Init(CIP36, 1 delegation) in the sample
environment the Delegation handler's assertion holds and the increment does not
wrap. -/
theorem reachable_assertions_hold_witness :
    delegationsOpenWorld.subctx.currentDelegation <
      delegationsOpenWorld.subctx.numDelegations ∧
    (delegationsOpenWorld.subctx.currentDelegation + 1) % UINT16_RANGE =
      delegationsOpenWorld.subctx.currentDelegation + 1 :=
  have h := reachable_assertions_hold sampleEnv delegationsOpenWorld
    (Reachable.step signTxCVoteRegistration_init (Event.apdu 0x36 [2, 0, 0, 0, 1]) _
      Reachable.init rfl)
  ⟨h.1 rfl, h.2.1 rfl⟩


/-! ### C22 -/

theorem advanceState_content (w : World)
    (hst : w.subctx.state ≠ STATE_CVOTE_REGISTRATION_INIT) :
    contentOf (advanceState w).world = contentOf w := by
  unfold advanceState
  cases h : w.subctx.state
  · exact absurd h hst
  all_goals (dsimp only; first | rfl | (split <;> rfl))

theorem finishStep_content (k : Nat) (o : Outcome) :
    contentOf (finishStep k o).world = contentOf o.world := by
  unfold finishStep
  split <;> rfl

theorem contentOf_respond (w : World) (r : Response) :
    contentOf (w.emit (Effect.respond r)) = contentOf w := by
  simp [contentOf]

theorem contentOf_display (w : World) (s : Screen) (cb : ui_callback_fn_t) (r : Bool) :
    contentOf (w.display s cb r) = contentOf w := by
  simp [contentOf]

theorem contentOf_setUiStep (w : World) (k : Nat) :
    contentOf (w.setUiStep k) = contentOf w := rfl

theorem runCallback_content (env : Env) (cb : ui_callback_fn_t) (W : World)
    (hst : W.subctx.state = driverState cb) :
    contentOf (runCallback env cb W).world = contentOf W := by
  have hresp : ∀ (k : Nat) (X : World), X.subctx.state = W.subctx.state →
      contentOf X = contentOf W →
      contentOf (finishStep k (advanceState (respondSuccessEmptyMsg X))).world =
        contentOf W := by
    intro k X hX hc
    rw [finishStep_content, advanceState_content _ (by
      rw [respondSuccessEmptyMsg_subctx, hX, hst]
      cases cb <;> simp [driverState]), ← hc]
    exact contentOf_respond X _
  cases cb
  all_goals
    simp only [runCallback]
    first
      | unfold signTxCVoteRegistration_handleVoteKey_ui_runStep
      | unfold signTxCVoteRegistration_handleDelegation_ui_runStep
      | unfold signTxCVoteRegistration_handleStakingKey_ui_runStep
      | unfold signTxCVoteRegistration_handlePaymentAddress_ui_runStep
      | unfold signTxCVoteRegistration_handleNonce_ui_runStep
      | unfold signTxCVoteRegistration_handleVotingPurpose_ui_runStep
      | unfold signTxCVoteRegistration_handleConfirm_ui_runStep
    try unfold handleConfirm_respond
    repeat' (first | split | dsimp only)
    all_goals first
      | rfl
      | exact hresp _ _ rfl rfl
      | (rename_i hd
         obtain ⟨s, rfl⟩ := displayVoteKey_frame _ _ _ _ hd
         simp [contentOf])
      | (rw [finishStep_content, advanceState_content _ (by simp [hst, driverState])]
         simp [contentOf, respondSuccessEmptyMsg])
      | simp [contentOf, respondSuccessEmptyMsg]

theorem parseVoteKey_rebase (env : Env) (view : read_view_t) (w w' : World)
    (h : w.subctx.stateData = w'.subctx.stateData) :
    (_parseVoteKey env view w).1.status = (_parseVoteKey env view w').1.status ∧
    (_parseVoteKey env view w).2 = (_parseVoteKey env view w').2 ∧
    (_parseVoteKey env view w).1.world =
      w.setStateData (_parseVoteKey env view w').1.world.subctx.stateData := by
  unfold _parseVoteKey
  rw [h]
  repeat' (first | split | dsimp only)
  all_goals first
    | exact ⟨rfl, rfl, rfl⟩
    | (refine ⟨rfl, rfl, ?_⟩
       simp only [THROW_world]
       rw [← h]
       rfl)

theorem voteKeyParse_rebase (env : Env) (d : List uint8_t) (w : World) :
    (voteKeyParse env d w).1.status =
      (voteKeyParse env d signTxCVoteRegistration_init).1.status ∧
    (voteKeyParse env d w).2 = (voteKeyParse env d signTxCVoteRegistration_init).2 ∧
    (voteKeyParse env d w).1.world = w.setStateData (voteKeyData env d) := by
  obtain ⟨h1, h2, h3⟩ := parseVoteKey_rebase env (make_read_view d)
    (w.setStateData stateData_t.zeroed)
    (signTxCVoteRegistration_init.setStateData stateData_t.zeroed) rfl
  exact ⟨h1, h2, h3⟩

theorem voteKeyHashed_eq (env : Env) (d : List uint8_t) (w : World) :
    voteKeyHashed env d w =
      ((w.setStateData (voteKeyData env d)).emit (Effect.policy (voteKeyQuery env
        (voteKeyData env d).getDelegation))).emit
      (Effect.hash (HashCall.addVoteKey (voteKeyBytes env
        (voteKeyData env d).getDelegation))) := by
  unfold voteKeyHashed
  rw [(voteKeyParse_rebase env d w).2.2]
  rfl

theorem delegationParsed_eq (env : Env) (d : List uint8_t) (w : World) :
    delegationParsed env d w = w.setStateData (delegationData env d) := by
  unfold delegationData delegationParsed
  rw [(voteKeyParse_rebase env d w).2.2, (voteKeyParse_rebase env d w).2.1]
  cases parse_u4be (voteKeyParse env d signTxCVoteRegistration_init).2 with
  | error e => rfl
  | ok pr => rfl

theorem delegationHashed_eq (env : Env) (d : List uint8_t) (w : World) :
    delegationHashed env d w =
      ((w.setStateData (delegationData env d)).emit (Effect.policy (voteKeyQuery env
        (delegationData env d).getDelegation))).emit
      (Effect.hash (HashCall.addDelegation
        (voteKeyBytes env (delegationData env d).getDelegation)
        (delegationData env d).getDelegation.weight)) := by
  unfold delegationHashed
  rw [delegationParsed_eq]
  rfl

theorem handleVoteKeyAPDU_content (env : Env) (d : List uint8_t) (w : World)
    (hret : (signTxCVoteRegistration_handleVoteKeyAPDU env d w).status = Status.returned) :
    contentOf (signTxCVoteRegistration_handleVoteKeyAPDU env d w).world =
      contentAfterVoteKey env d (contentOf w) := by
  obtain ⟨hst, -, -, -, -, -, hform⟩ := handleVoteKeyAPDU_accepted_form env d w hret
  rw [hform, voteKeyHashed_eq]
  refine (runCallback_content env ui_callback_fn_t.handleVoteKey_ui_runStep _ ?_).trans ?_
  · exact hst
  obtain ⟨⟨st, ui, f, n, c, sk, ah, sd⟩, t, p⟩ := w
  simp [contentOf, contentAfterVoteKey, World.setUiStep, World.emit, World.setStateData]

theorem handleDelegationAPDU_content (env : Env) (d : List uint8_t) (w : World)
    (hret : (signTxCVoteRegistration_handleDelegationAPDU env d w).status =
      Status.returned) :
    contentOf (signTxCVoteRegistration_handleDelegationAPDU env d w).world =
      contentAfterDelegation env d (contentOf w) := by
  obtain ⟨hst, -, -, -, -, -, hform⟩ := handleDelegationAPDU_accepted_form env d w hret
  rw [hform, delegationHashed_eq]
  refine (runCallback_content env ui_callback_fn_t.handleDelegation_ui_runStep _ ?_).trans ?_
  · exact hst
  obtain ⟨⟨st, ui, f, n, c, sk, ah, sd⟩, t, p⟩ := w
  simp [contentOf, contentAfterDelegation, World.setUiStep, World.emit, World.setStateData]

theorem handleStakingKeyAPDU_content (env : Env) (d : List uint8_t) (w : World)
    (hret : (signTxCVoteRegistration_handleStakingKeyAPDU env d w).status =
      Status.returned) :
    contentOf (signTxCVoteRegistration_handleStakingKeyAPDU env d w).world =
      contentAfterStakingKey env d (contentOf w) := by
  obtain ⟨hst, -, -, -, hform⟩ := handleStakingKeyAPDU_accepted_form env d w hret
  rw [hform]
  refine (runCallback_content env ui_callback_fn_t.handleStakingKey_ui_runStep _ ?_).trans ?_
  · exact hst
  obtain ⟨⟨st, ui, f, n, c, sk, ah, sd⟩, t, p⟩ := w
  simp [contentOf, contentAfterStakingKey, stakingKeyHashed, World.setUiStep, World.emit,
    World.setStakingKeyPath]

theorem handlePaymentAddressAPDU_content (env : Env) (d : List uint8_t) (w : World)
    (hret : (signTxCVoteRegistration_handlePaymentAddressAPDU env d w).status =
      Status.returned) :
    contentOf (signTxCVoteRegistration_handlePaymentAddressAPDU env d w).world =
      contentAfterPaymentAddress env d (contentOf w) := by
  obtain ⟨hst, -, -, -, -, hform⟩ := handlePaymentAddressAPDU_accepted_form env d w hret
  rw [hform]
  refine (runCallback_content env ui_callback_fn_t.handlePaymentAddress_ui_runStep _
    ?_).trans ?_
  · exact hst
  obtain ⟨⟨st, ui, f, n, c, sk, ah, sd⟩, t, p⟩ := w
  simp [contentOf, contentAfterPaymentAddress, paymentAddressHashed, World.setUiStep,
    World.emit, World.setStateData]

theorem handleNonceAPDU_content (env : Env) (d : List uint8_t) (w : World)
    (hret : (signTxCVoteRegistration_handleNonceAPDU env d w).status = Status.returned) :
    contentOf (signTxCVoteRegistration_handleNonceAPDU env d w).world =
      contentAfterNonce d (contentOf w) := by
  by_cases hstate : w.subctx.state = STATE_CVOTE_REGISTRATION_NONCE
  swap
  · rw [handleNonceAPDU_wrong_state env d w hstate] at hret
    cases hret
  generalize ho : signTxCVoteRegistration_handleNonceAPDU env d w = o at hret ⊢
  unfold signTxCVoteRegistration_handleNonceAPDU at ho
  rw [if_neg (not_not.mpr hstate)] at ho
  repeat' (first | split at ho | dsimp only at ho)
  all_goals subst ho
  all_goals first
    | (cases hret; done)
    | (refine (runCallback_content env ui_callback_fn_t.handleNonce_ui_runStep _ ?_).trans ?_
       · exact hstate
       · obtain ⟨⟨st, ui, f, n, c, sk, ah, sd⟩, t, p⟩ := w
         simp [contentOf, contentAfterNonce, World.setUiStep, World.emit, World.setStateData,
           stateData_t.getNonce])

theorem handleVotingPurposeAPDU_content (env : Env) (d : List uint8_t) (w : World)
    (hret : (signTxCVoteRegistration_handleVotingPurposeAPDU env d w).status =
      Status.returned) :
    contentOf (signTxCVoteRegistration_handleVotingPurposeAPDU env d w).world =
      contentAfterVotingPurpose env d (contentOf w) := by
  by_cases hstate : w.subctx.state = STATE_CVOTE_REGISTRATION_VOTING_PURPOSE
  swap
  · rw [handleVotingPurposeAPDU_wrong_state env d w hstate] at hret
    cases hret
  generalize ho : signTxCVoteRegistration_handleVotingPurposeAPDU env d w = o at hret ⊢
  unfold signTxCVoteRegistration_handleVotingPurposeAPDU at ho
  rw [if_neg (not_not.mpr hstate)] at ho
  repeat' (first | split at ho | dsimp only at ho)
  all_goals subst ho
  all_goals first
    | (cases hret; done)
    | (refine (runCallback_content env ui_callback_fn_t.handleVotingPurpose_ui_runStep _
         ?_).trans ?_
       · exact hstate
       · obtain ⟨⟨st, ui, f, n, c, sk, ah, sd⟩, t, p⟩ := w
         simp_all [contentOf, contentAfterVotingPurpose, votingPurposeParsed, World.setUiStep,
           World.emit, World.setStateData, stateData_t.getVotingPurpose])
    | (rw [advanceState_content _ (by rw [respondSuccessEmptyMsg_subctx]; simp [hstate]),
         respondSuccessEmptyMsg, contentOf_respond]
       obtain ⟨⟨st, ui, f, n, c, sk, ah, sd⟩, t, p⟩ := w
       simp_all [contentOf, contentAfterVotingPurpose, votingPurposeParsed, World.setUiStep,
         World.emit, World.setStateData, stateData_t.getVotingPurpose])

theorem handleInitAPDU_content (env : Env) (d : List uint8_t) (w : World)
    (hret : (signTxCVoteRegistration_handleInitAPDU env d w).status = Status.returned) :
    contentOf (signTxCVoteRegistration_handleInitAPDU env d w).world =
      contentAfterInit d (contentOf w) := by
  by_cases hstate : w.subctx.state = STATE_CVOTE_REGISTRATION_INIT
  swap
  · rw [handleInitAPDU_wrong_state env d w hstate] at hret
    cases hret
  generalize ho : signTxCVoteRegistration_handleInitAPDU env d w = o at hret ⊢
  unfold signTxCVoteRegistration_handleInitAPDU at ho
  rw [if_neg (not_not.mpr hstate)] at ho
  repeat' (first | split at ho | dsimp only at ho)
  all_goals subst ho
  all_goals first
    | cases hret
    | (unfold advanceState
       obtain ⟨⟨st, ui, f, n, c, sk, ah, sd⟩, t, p⟩ := w
       simp only at hstate
       subst hstate
       simp only [respondSuccessEmptyMsg, World.emit, World.setNumDelegations,
         World.setFormat, World.setStateData]
       split
       all_goals simp_all [contentOf, contentAfterInit, initParsed, World.setState,
         World.emit])

theorem handleConfirmAPDU_content (env : Env) (d : List uint8_t) (w : World)
    (hret : (signTxCVoteRegistration_handleConfirmAPDU env d w).status = Status.returned) :
    contentOf (signTxCVoteRegistration_handleConfirmAPDU env d w).world =
      contentAfterConfirm env (contentOf w) := by
  by_cases hstate : w.subctx.state = STATE_CVOTE_REGISTRATION_CONFIRM
  swap
  · rw [handleConfirmAPDU_wrong_state env d w hstate] at hret
    cases hret
  generalize ho : signTxCVoteRegistration_handleConfirmAPDU env d w = o at hret ⊢
  unfold signTxCVoteRegistration_handleConfirmAPDU at ho
  rw [if_neg (not_not.mpr hstate)] at ho
  repeat' (first | split at ho | dsimp only at ho)
  all_goals subst ho
  all_goals first
    | (cases hret; done)
    | (refine (runCallback_content env ui_callback_fn_t.handleConfirm_ui_runStep _
         ?_).trans ?_
       · exact hstate
       · obtain ⟨⟨st, ui, f, n, c, sk, ah, sd⟩, t, p⟩ := w
         simp [contentOf, contentAfterConfirm, contentSignature, World.setUiStep, World.emit,
           World.setStateData, World.setAuxDataHash,
           stateData_t.getRegistrationSignature])

theorem handleAPDU_content (env : Env) (p2 : uint8_t) (d : List uint8_t) (w : World)
    (hret : (signTxCVoteRegistration_handleAPDU env p2 d w).status = Status.returned) :
    contentOf (signTxCVoteRegistration_handleAPDU env p2 d w).world =
      contentAfter env p2 d (contentOf w) := by
  rcases handleAPDU_by_code env p2 d w with
    e | ⟨hc, e⟩ | ⟨hc, e⟩ | ⟨hc, e⟩ | ⟨hc, e⟩ | ⟨hc, e⟩ | ⟨hc, e⟩ | ⟨hc, e⟩ | ⟨hc, e⟩
  · rw [e] at hret
    cases hret
  · rw [e] at hret ⊢
    rw [handleInitAPDU_content env d w hret]
    simp [contentAfter, hc]
  · rw [e] at hret ⊢
    rw [handleVoteKeyAPDU_content env d w hret]
    simp [contentAfter, hc, APDU_INSTRUCTION_INIT, APDU_INSTRUCTION_VOTE_KEY]
  · rw [e] at hret ⊢
    rw [handleDelegationAPDU_content env d w hret]
    simp [contentAfter, hc, APDU_INSTRUCTION_INIT, APDU_INSTRUCTION_VOTE_KEY,
      APDU_INSTRUCTION_DELEGATION]
  · rw [e] at hret ⊢
    rw [handleStakingKeyAPDU_content env d w hret]
    simp [contentAfter, hc, APDU_INSTRUCTION_INIT, APDU_INSTRUCTION_VOTE_KEY,
      APDU_INSTRUCTION_DELEGATION, APDU_INSTRUCTION_STAKING_KEY]
  · rw [e] at hret ⊢
    rw [handlePaymentAddressAPDU_content env d w hret]
    simp [contentAfter, hc, APDU_INSTRUCTION_INIT, APDU_INSTRUCTION_VOTE_KEY,
      APDU_INSTRUCTION_DELEGATION, APDU_INSTRUCTION_STAKING_KEY,
      APDU_INSTRUCTION_PAYMENT_ADDRESS]
  · rw [e] at hret ⊢
    rw [handleNonceAPDU_content env d w hret]
    simp [contentAfter, hc, APDU_INSTRUCTION_INIT, APDU_INSTRUCTION_VOTE_KEY,
      APDU_INSTRUCTION_DELEGATION, APDU_INSTRUCTION_STAKING_KEY,
      APDU_INSTRUCTION_PAYMENT_ADDRESS, APDU_INSTRUCTION_NONCE]
  · rw [e] at hret ⊢
    rw [handleVotingPurposeAPDU_content env d w hret]
    simp [contentAfter, hc, APDU_INSTRUCTION_INIT, APDU_INSTRUCTION_VOTE_KEY,
      APDU_INSTRUCTION_DELEGATION, APDU_INSTRUCTION_STAKING_KEY,
      APDU_INSTRUCTION_PAYMENT_ADDRESS, APDU_INSTRUCTION_NONCE,
      APDU_INSTRUCTION_VOTING_PURPOSE]
  · rw [e] at hret ⊢
    rw [handleConfirmAPDU_content env d w hret]
    simp [contentAfter, hc, APDU_INSTRUCTION_INIT, APDU_INSTRUCTION_VOTE_KEY,
      APDU_INSTRUCTION_DELEGATION, APDU_INSTRUCTION_STAKING_KEY,
      APDU_INSTRUCTION_PAYMENT_ADDRESS, APDU_INSTRUCTION_NONCE,
      APDU_INSTRUCTION_VOTING_PURPOSE, APDU_INSTRUCTION_CONFIRM]

theorem step_content (env : Env) (w : World) (ev : Event) (o : Outcome)
    (hinv : SessionInv w) (hne : ev ≠ Event.uiReject) (hs : step env w ev = some o)
    (hret : o.status = Status.returned) :
    contentOf o.world = contentAfterAll env (commands [ev]) (contentOf w) := by
  cases ev with
  | apdu p2 d =>
    simp only [step] at hs
    split at hs
    · cases hs
      exact handleAPDU_content env p2 d w hret
    · cases hs
  | uiConfirm =>
    simp only [step] at hs
    split at hs
    · cases hs
    · rename_i p hp
      cases hs
      have hpi := hinv.2.2.2.2.2.2
      unfold PendingInv at hpi
      rw [hp] at hpi
      exact runCallback_content env p.callback { w with pending := none } hpi.1
  | uiReject => exact absurd rfl hne

theorem contentAfterAll_append (env : Env) (a b : List (uint8_t × List uint8_t))
    (c : Content) :
    contentAfterAll env (a ++ b) c = contentAfterAll env b (contentAfterAll env a c) := by
  simp [contentAfterAll, List.foldl_append]

theorem runAccepted_content (env : Env) (evs : List Event) :
    ∀ w w', SessionInv w → runAccepted env w evs = some w' →
      contentOf w' = contentAfterAll env (commands evs) (contentOf w) := by
  induction evs with
  | nil =>
    intro w w' _ hr
    cases hr
    rfl
  | cons ev evs ih =>
    intro w w' hinv hr
    unfold runAccepted at hr
    split_ifs at hr with hrej
    cases hs : step env w ev with
    | none =>
      rw [hs] at hr
      cases hr
    | some o =>
      rw [hs] at hr
      dsimp only at hr
      cases hst : o.status with
      | thrown e =>
        rw [hst] at hr
        cases hr
      | returned =>
        rw [hst] at hr
        dsimp only at hr
        rw [ih o.world w' (step_SessionInv env w ev o hinv hs) hr,
          step_content env w ev o hinv hrej hs hst, ← contentAfterAll_append]
        unfold commands
        rw [← List.filterMap_append]
        rfl

theorem handleConfirm_respond_final (env : Env) (X : World)
    (hst : X.subctx.state = STATE_CVOTE_REGISTRATION_CONFIRM) :
    (responses (handleConfirm_respond env X).world.trace).getLast? =
      some (contentResponse env (contentOf (handleConfirm_respond env X).world)) := by
  rw [handleConfirm_respond_of_CONFIRM env X hst]
  obtain ⟨⟨st, ui, f, n, c, sk, ah, sd⟩, t, p⟩ := X
  simp [returned, contentResponse, contentOf, World.emit, World.setState, World.setUiStep]

theorem handleConfirm_ui_runStep_final (env : Env) (X : World)
    (hst : X.subctx.state = STATE_CVOTE_REGISTRATION_CONFIRM)
    (hfin : (signTxCVoteRegistration_handleConfirm_ui_runStep env X).world.subctx.state =
      STATE_CVOTE_REGISTRATION_FINISHED) :
    (responses (signTxCVoteRegistration_handleConfirm_ui_runStep env X).world.trace).getLast? =
      some (contentResponse env
        (contentOf (signTxCVoteRegistration_handleConfirm_ui_runStep env X).world)) := by
  generalize ho : signTxCVoteRegistration_handleConfirm_ui_runStep env X = o at hfin ⊢
  unfold signTxCVoteRegistration_handleConfirm_ui_runStep at ho
  repeat' (first | split at ho | dsimp only at ho)
  all_goals subst ho
  all_goals first
    | exact handleConfirm_respond_final env _ hst
    | (exfalso
       simp [returned, THROW, World.display, World.setUiStep, hst] at hfin)

theorem handleConfirmAPDU_final (env : Env) (d : List uint8_t) (w : World)
    (hst : w.subctx.state = STATE_CVOTE_REGISTRATION_CONFIRM)
    (hret : (signTxCVoteRegistration_handleConfirmAPDU env d w).status = Status.returned)
    (hfin : (signTxCVoteRegistration_handleConfirmAPDU env d w).world.subctx.state =
      STATE_CVOTE_REGISTRATION_FINISHED) :
    (responses (signTxCVoteRegistration_handleConfirmAPDU env d w).world.trace).getLast? =
      some (contentResponse env
        (contentOf (signTxCVoteRegistration_handleConfirmAPDU env d w).world)) := by
  generalize ho : signTxCVoteRegistration_handleConfirmAPDU env d w = o at hret hfin ⊢
  unfold signTxCVoteRegistration_handleConfirmAPDU at ho
  rw [if_neg (not_not.mpr hst)] at ho
  repeat' (first | split at ho | dsimp only at ho)
  all_goals subst ho
  all_goals first
    | (cases hret; done)
    | exact handleConfirm_ui_runStep_final env _ hst hfin

theorem step_FinalInv (env : Env) (w : World) (ev : Event) (o : Outcome)
    (hinv : SessionInv w) (hs : step env w ev = some o)
    (hret : o.status = Status.returned) : FinalInv env o.world := by
  intro hfin
  have hpi := hinv.2.2.2.2.2.2
  unfold PendingInv at hpi
  have hconf : w.subctx.state = STATE_CVOTE_REGISTRATION_CONFIRM := by
    rcases step_same_or_forward env w ev o hs with h | h
    · exfalso
      rw [hfin] at h
      cases ev with
      | apdu p2 d =>
        simp only [step] at hs
        split at hs
        · cases hs
          rcases handleAPDU_by_code env p2 d w with
            e | ⟨-, e⟩ | ⟨-, e⟩ | ⟨-, e⟩ | ⟨-, e⟩ | ⟨-, e⟩ | ⟨-, e⟩ | ⟨-, e⟩ | ⟨-, e⟩
          · rw [e] at hret
            cases hret
          · rw [e, handleInitAPDU_wrong_state env d w (by rw [← h]; decide)] at hret
            cases hret
          · rw [e, handleVoteKeyAPDU_wrong_state env d w (by rw [← h]; decide)] at hret
            cases hret
          · rw [e, handleDelegationAPDU_wrong_state env d w (by rw [← h]; decide)] at hret
            cases hret
          · rw [e, handleStakingKeyAPDU_wrong_state env d w (by rw [← h]; decide)] at hret
            cases hret
          · rw [e, handlePaymentAddressAPDU_wrong_state env d w (by rw [← h]; decide)]
              at hret
            cases hret
          · rw [e, handleNonceAPDU_wrong_state env d w (by rw [← h]; decide)] at hret
            cases hret
          · rw [e, handleVotingPurposeAPDU_wrong_state env d w (by rw [← h]; decide)]
              at hret
            cases hret
          · rw [e, handleConfirmAPDU_wrong_state env d w (by rw [← h]; decide)] at hret
            cases hret
        · cases hs
      | uiConfirm =>
        cases hp : w.pending with
        | none =>
          simp only [step, hp] at hs
          cases hs
        | some p =>
          rw [hp] at hpi
          have h1 := hpi.1
          rw [← h] at h1
          cases hcb : p.callback <;> rw [hcb] at h1 <;> cases h1
      | uiReject =>
        cases hp : w.pending with
        | none =>
          simp only [step, hp] at hs
          cases hs
        | some p =>
          rw [hp] at hpi
          have h1 := hpi.1
          rw [← h] at h1
          cases hcb : p.callback <;> rw [hcb] at h1 <;> cases h1
    · rw [hfin] at h
      exact MovedForward_to_FINISHED _ h
  cases ev with
  | apdu p2 d =>
    simp only [step] at hs
    split at hs
    · cases hs
      rcases handleAPDU_from_CONFIRM env p2 d w hconf with e | e
      · rw [e, hconf] at hfin
        cases hfin
      · rw [e] at hret hfin ⊢
        exact handleConfirmAPDU_final env d w hconf hret hfin
    · cases hs
  | uiConfirm =>
    cases hp : w.pending with
    | none =>
      simp only [step, hp] at hs
      cases hs
    | some p =>
      simp only [step, hp] at hs
      cases hs
      rw [hp] at hpi
      have h1 := hpi.1
      rw [hconf] at h1
      cases hcb : p.callback <;> rw [hcb] at h1 <;> cases h1
      rw [hcb] at hfin
      exact handleConfirm_ui_runStep_final env _ hconf hfin
  | uiReject =>
    exfalso
    cases hp : w.pending with
    | none =>
      simp only [step, hp] at hs
      cases hs
    | some p =>
      simp only [step, hp] at hs
      split_ifs at hs
      cases hs
      simp [returned, hconf] at hfin

theorem runAccepted_FinalInv (env : Env) (evs : List Event) :
    ∀ w w', SessionInv w → FinalInv env w → runAccepted env w evs = some w' →
      FinalInv env w' := by
  induction evs with
  | nil =>
    intro w w' _ hf hr
    cases hr
    exact hf
  | cons ev evs ih =>
    intro w w' hinv _ hr
    unfold runAccepted at hr
    split_ifs at hr with hrej
    cases hs : step env w ev with
    | none =>
      rw [hs] at hr
      cases hr
    | some o =>
      rw [hs] at hr
      dsimp only at hr
      cases hst : o.status with
      | thrown e =>
        rw [hst] at hr
        cases hr
      | returned =>
        rw [hst] at hr
        dsimp only at hr
        exact ih o.world w' (step_SessionInv env w ev o hinv hs)
          (step_FinalInv env w ev o hinv hs hst) hr

theorem contentAfterAll_withPolicies (env : Env) (P : Policies)
    (cmds : List (uint8_t × List uint8_t)) (c : Content) :
    contentAfterAll (env.withPolicies P) cmds c = contentAfterAll env cmds c := rfl

theorem init_FinalInv (env : Env) : FinalInv env signTxCVoteRegistration_init := by
  intro h
  cases h

theorem runAccepted_final_response (env : Env) (evs : List Event) (w : World)
    (hr : runAccepted env signTxCVoteRegistration_init evs = some w)
    (hfin : w.subctx.state = STATE_CVOTE_REGISTRATION_FINISHED) :
    (responses w.trace).getLast? =
      some (contentResponse env
        (contentAfterAll env (commands evs) (contentOf signTxCVoteRegistration_init))) := by
  rw [runAccepted_FinalInv env evs _ w init_SessionInv (init_FinalInv env) hr hfin,
    runAccepted_content env evs _ w init_SessionInv hr]

/-- C22: two complete accepted runs from the initial session, in environments with the
same parsers, key derivation, signer and digests but any policy outcomes and any
expert-mode flag, that carry the same wire commands (the user confirmations in between
may differ) end with the same response: the Confirm response `auxDataHash ++ signature`
of the content that the commands alone determine. -/
theorem confirm_response_independent_of_policies (env : Env) (P1 P2 : Policies)
    (evs1 evs2 : List Event) (w1 w2 : World)
    (h1 : runAccepted (env.withPolicies P1) signTxCVoteRegistration_init evs1 = some w1)
    (h2 : runAccepted (env.withPolicies P2) signTxCVoteRegistration_init evs2 = some w2)
    (hcmd : commands evs1 = commands evs2)
    (hf1 : w1.subctx.state = STATE_CVOTE_REGISTRATION_FINISHED)
    (hf2 : w2.subctx.state = STATE_CVOTE_REGISTRATION_FINISHED) :
    (responses w1.trace).getLast? =
      some (contentResponse env
        (contentAfterAll env (commands evs1) (contentOf signTxCVoteRegistration_init))) ∧
    (responses w2.trace).getLast? = (responses w1.trace).getLast? := by
  have e1 := runAccepted_final_response (env.withPolicies P1) evs1 w1 h1 hf1
  have e2 := runAccepted_final_response (env.withPolicies P2) evs2 w2 h2 hf2
  rw [contentAfterAll_withPolicies] at e1 e2
  rw [← hcmd] at e2
  exact ⟨e1, e2.trans e1.symm⟩

/-- C22, at a concrete pair of runs: the sample registration run silently, and run with
every value shown (the vote key after a warning), the confirmation prompted and expert
mode on. -/
theorem confirm_response_independent_of_policies_witness :
    (responses (runEvents (sampleEnv.withPolicies samplePoliciesSilent)
        signTxCVoteRegistration_init sampleCompleteRun).trace).getLast? =
      some (contentResponse sampleEnv (contentAfterAll sampleEnv (commands sampleCompleteRun)
        (contentOf signTxCVoteRegistration_init))) ∧
    (responses (runEvents (sampleEnv.withPolicies samplePoliciesShown)
        signTxCVoteRegistration_init sampleCompleteRunShown).trace).getLast? =
      (responses (runEvents (sampleEnv.withPolicies samplePoliciesSilent)
        signTxCVoteRegistration_init sampleCompleteRun).trace).getLast? :=
  confirm_response_independent_of_policies sampleEnv samplePoliciesSilent
    samplePoliciesShown sampleCompleteRun sampleCompleteRunShown
    (runEvents (sampleEnv.withPolicies samplePoliciesSilent) signTxCVoteRegistration_init
      sampleCompleteRun)
    (runEvents (sampleEnv.withPolicies samplePoliciesShown) signTxCVoteRegistration_init
      sampleCompleteRunShown)
    (by decide) (by decide) (by decide) (by decide) (by decide)


/-! ### C2 -/

theorem advanceState_only_state (w : World) :
    (advanceState w).world.subctx =
      { w.subctx with state := (advanceState w).world.subctx.state } ∧
    (advanceState w).world.pending = w.pending := by
  obtain ⟨⟨st, ui, f, n, c, sk, ah, sd⟩, t, p⟩ := w
  cases st <;>
    simp [advanceState, returned, THROW, World.setState, World.emit] <;>
    split_ifs <;> simp_all

theorem step_follows_table (env : Env) (w : World) (ev : Event) (o : Outcome)
    (hinv : SessionInv w) (hs : step env w ev = some o) :
    o.world.subctx.state = w.subctx.state ∨
    specTransition w.subctx.state o.world.subctx.numDelegations
      o.world.subctx.currentDelegation = some o.world.subctx.state := by
  have hinv2 := step_SessionInv env w ev o hinv hs
  rcases step_same_or_forward env w ev o hs with h | ⟨_, v, hv, hret, hto⟩
  · exact Or.inl h
  · right
    obtain ⟨-, -, -, h4, h5, h6, -⟩ := hinv2
    rw [← hv]
    unfold advanceState at hret hto
    cases hst : v.subctx.state <;> simp only [hst] at hret hto
    all_goals try split_ifs at hret hto
    all_goals try (cases hret; done)
    all_goals simp only [returned, setState_state, World.emit] at hto
    all_goals rw [← hto] at h4 h5 h6 ⊢
    all_goals simp [specTransition, stateRank] at h4 h5 h6 ⊢
    all_goals omega

/-- C2: `advanceState` implements the transition table of the specification.  Wherever
the table has an edge to another state, `advanceState` returns with exactly that state
written: Init to Delegations with one `enterDelegations(numDelegations)` call when
`numDelegations > 0`, Init to VoteKey otherwise, VoteKey to StakingKey, Delegations to
StakingKey once `currentDelegation = numDelegations`, StakingKey to PaymentAddress,
PaymentAddress to Nonce, Nonce to VotingPurpose, VotingPurpose to Confirm, Confirm to
Finished.  On the self-loop of Delegations (records still missing) and in Finished,
where the table has no edge to another state, it fails its assertion and the state
stays.  It changes no session field other than `state`, and every change of state
that an event of the program makes is an edge of the table. -/
theorem advanceState_table (env : Env) (w : World) :
    advanceState w =
      (if w.subctx.state = STATE_CVOTE_REGISTRATION_DELEGATIONS ∧
          w.subctx.currentDelegation ≠ w.subctx.numDelegations then
        THROW Err.ERR_ASSERT w
      else
        match specTransition w.subctx.state w.subctx.numDelegations
            w.subctx.currentDelegation with
        | some st =>
          returned { subctx := { w.subctx with state := st },
                     trace := w.trace ++
                       specTransitionCalls w.subctx.state w.subctx.numDelegations,
                     pending := w.pending }
        | none => THROW Err.ERR_ASSERT w) ∧
    (advanceState w).world.subctx.state =
      (specTransition w.subctx.state w.subctx.numDelegations
        w.subctx.currentDelegation).getD w.subctx.state ∧
    (advanceState w).world.subctx =
      { w.subctx with state := (advanceState w).world.subctx.state } ∧
    (advanceState w).world.pending = w.pending ∧
    (∀ ev o, SessionInv w → step env w ev = some o →
      o.world.subctx.state = w.subctx.state ∨
      specTransition w.subctx.state o.world.subctx.numDelegations
        o.world.subctx.currentDelegation = some o.world.subctx.state) := by
  refine ⟨?_, ?_, (advanceState_only_state w).1, (advanceState_only_state w).2,
    fun ev o hinv hs => step_follows_table env w ev o hinv hs⟩
  · obtain ⟨⟨st, ui, f, n, c, sk, ah, sd⟩, t, p⟩ := w
    cases st <;>
      simp [advanceState, specTransition, specTransitionCalls, returned, THROW,
        World.setState, World.emit] <;>
      split_ifs <;> simp_all
  · obtain ⟨⟨st, ui, f, n, c, sk, ah, sd⟩, t, p⟩ := w
    cases st <;>
      simp [advanceState, specTransition, returned, THROW, World.setState, World.emit] <;>
      split_ifs <;> simp_all


/-- C2, at concrete sessions: with the one declared delegation counted, `advanceState`
moves the sample session from Delegations to StakingKey; and the accepted command
Init(CIP36, 1 delegation) moves a fresh session along the table's edge from Init. -/
theorem advanceState_table_witness :
    advanceState delegationsDoneWorld =
      returned (delegationsDoneWorld.setState STATE_CVOTE_REGISTRATION_STAKING_KEY) ∧
    ((signTxCVoteRegistration_handleAPDU sampleEnv 0x36 [2, 0, 0, 0, 1]
        signTxCVoteRegistration_init).world.subctx.state =
        signTxCVoteRegistration_init.subctx.state ∨
      specTransition signTxCVoteRegistration_init.subctx.state
        (signTxCVoteRegistration_handleAPDU sampleEnv 0x36 [2, 0, 0, 0, 1]
          signTxCVoteRegistration_init).world.subctx.numDelegations
        (signTxCVoteRegistration_handleAPDU sampleEnv 0x36 [2, 0, 0, 0, 1]
          signTxCVoteRegistration_init).world.subctx.currentDelegation =
        some (signTxCVoteRegistration_handleAPDU sampleEnv 0x36 [2, 0, 0, 0, 1]
          signTxCVoteRegistration_init).world.subctx.state) :=
  ⟨(advanceState_table sampleEnv delegationsDoneWorld).1.trans (by decide),
    (advanceState_table sampleEnv signTxCVoteRegistration_init).2.2.2.2
      (Event.apdu 0x36 [2, 0, 0, 0, 1]) _ init_SessionInv rfl⟩


/-! ### C16 -/

theorem Operation_step_aborted_apdu (env : Env) (t : List Effect) (p2 : uint8_t)
    (d : List uint8_t) :
    Operation.step env (Operation.aborted t) (Event.apdu p2 d) =
      some ⟨Verdict.refused, Operation.aborted t⟩ := rfl

theorem Operation_step_aborted (env : Env) (t : List Effect) (ev : Event) :
    Operation.step env (Operation.aborted t) ev = none ∨
    Operation.step env (Operation.aborted t) ev =
      some ⟨Verdict.refused, Operation.aborted t⟩ := by
  cases ev
  · exact Or.inr rfl
  · exact Or.inl rfl
  · exact Or.inl rfl

theorem Operation_run_aborted (env : Env) (t : List Effect) (evs : List Event) :
    Operation.run env (Operation.aborted t) evs = Operation.aborted t := by
  induction evs with
  | nil => rfl
  | cons ev evs ih =>
    unfold Operation.run
    rcases Operation_step_aborted env t ev with h | h
    · rw [h]
      exact ih
    · rw [h]
      exact ih

theorem Operation_verdicts_aborted (env : Env) (t : List Effect) (evs : List Event) :
    ∀ v ∈ Operation.verdicts env (Operation.aborted t) evs, v = Verdict.refused := by
  induction evs with
  | nil =>
    intro v hv
    cases hv
  | cons ev evs ih =>
    intro v hv
    unfold Operation.verdicts at hv
    rcases Operation_step_aborted env t ev with h | h
    · rw [h] at hv
      exact ih v hv
    · rw [h] at hv
      rcases List.mem_cons.mp hv with rfl | hv2
      · rfl
      · exact ih v hv2

/-- C16: for every session waiting at a screen that offers the rejection, as the
Confirm prompt does, the user's rejection sends the explicit-deny response, the same
whatever the session holds, and no other response, so no hash and no signature; no
hash-accumulator call and no signing request is made; the operation is aborted, so the
state is not advanced (there is no session in the Finished state, now or after any
further events, and every further command is refused) and the session's transient step
data, which held the signature, is zeroed with the session.  The Confirm command under
a prompt-before-response policy does put the session at such a screen, with the
signature in `stateData`. -/
theorem reject_at_confirm_prompt (env : Env) (v : World) (cb : ui_callback_fn_t)
    (hv : v.pending = some ⟨cb, true⟩) :
    (∃ op, Operation.step env (Operation.running v) Event.uiReject =
        some ⟨Verdict.handled, op⟩ ∧
      op = Operation.aborted (v.trace ++ [Effect.respond Response.userReject]) ∧
      responses op.trace = responses v.trace ++ [Response.userReject] ∧
      hashCalls op.trace = hashCalls v.trace ∧
      signCalls op.trace = signCalls v.trace ∧
      op.state ≠ some STATE_CVOTE_REGISTRATION_FINISHED ∧
      op.stateData = stateData_t.zeroed ∧
      (∀ evs, Operation.run env op evs = op) ∧
      (∀ evs, ∀ x ∈ Operation.verdicts env op evs, x = Verdict.refused)) ∧
    (∀ w : World, w.subctx.state = STATE_CVOTE_REGISTRATION_CONFIRM → w.pending = none →
      0 < env.BUFFER_SIZE_PARANOIA →
      env.policyForCVoteRegistrationConfirm = POLICY_PROMPT_BEFORE_RESPONSE →
      Operation.step env (Operation.running w) (Event.apdu 0x34 []) =
        some ⟨Verdict.handled, Operation.running (confirmPrompted env w)⟩ ∧
      (confirmPrompted env w).pending =
        some ⟨ui_callback_fn_t.handleConfirm_ui_runStep, true⟩ ∧
      (confirmPrompted env w).subctx.state = STATE_CVOTE_REGISTRATION_CONFIRM ∧
      (confirmPrompted env w).subctx.stateData =
        stateData_t.registrationSignature (confirmSignature env w)) := by
  constructor
  · refine ⟨_, ?_, rfl, ?_, ?_, ?_, ?_, rfl, ?_, ?_⟩
    · simp only [Operation.step, hv]
      rfl
    · simp [Operation.trace]
    · simp [Operation.trace]
    · simp [Operation.trace, signCalls, Effect.asSign]
    · intro h
      cases h
    · intro evs
      exact Operation_run_aborted env _ evs
    · intro evs
      exact Operation_verdicts_aborted env _ evs
  · intro w hst hp hlen hpol
    refine ⟨?_, rfl, hst, rfl⟩
    simp only [Operation.step, step_apdu_Confirm_PROMPT env w hst hp hlen hpol]
    rfl

/-- C16, on the prompting sample session: after the Confirm command the signature is in
`stateData` and the prompt is on screen; the rejection is answered with the
explicit-deny response and the step data is zeroed. -/
theorem reject_at_confirm_prompt_witness :
    (confirmPrompted sampleEnvShow samplePromptWorld).subctx.stateData =
      stateData_t.registrationSignature
        (confirmSignature sampleEnvShow samplePromptWorld) ∧
    ∃ op, Operation.step sampleEnvShow
        (Operation.running (confirmPrompted sampleEnvShow samplePromptWorld))
        Event.uiReject = some ⟨Verdict.handled, op⟩ ∧
      responses op.trace =
        responses (confirmPrompted sampleEnvShow samplePromptWorld).trace ++
          [Response.userReject] ∧
      op.stateData = stateData_t.zeroed := by
  obtain ⟨⟨op, h1, _, h3, _, _, _, h7, _⟩, h⟩ :=
    reject_at_confirm_prompt sampleEnvShow (confirmPrompted sampleEnvShow samplePromptWorld)
      ui_callback_fn_t.handleConfirm_ui_runStep rfl
  exact ⟨(h samplePromptWorld rfl rfl (by decide) rfl).2.2.2, op, h1, h3, h7⟩

/-! ### C19 -/

/-- C19: a command that arrives out of the state-mandated order is thrown out by the
state check with the invalid-state error before anything is written; the error aborts
the operation, and from then on the session is unusable: every further command,
whatever its code and payload, so also the command that the state expected, is refused,
and no sequence of events changes that. -/
theorem out_of_order_session_unusable (env : Env) (p2 : uint8_t) (wireData : List uint8_t)
    (w : World) (st : sign_tx_cvote_registration_state_t) (hp : w.pending = none)
    (hlen : wireData.length < env.BUFFER_SIZE_PARANOIA)
    (hexp : specExpectedState p2 = some st) (hne : w.subctx.state ≠ st) :
    signTxCVoteRegistration_handleAPDU env p2 wireData w = THROW Err.ERR_INVALID_STATE w ∧
    Operation.step env (Operation.running w) (Event.apdu p2 wireData) =
      some ⟨Verdict.failed Err.ERR_INVALID_STATE, Operation.aborted w.trace⟩ ∧
    (∀ (q2 : uint8_t) (next : List uint8_t),
      Operation.step env (Operation.aborted w.trace) (Event.apdu q2 next) =
        some ⟨Verdict.refused, Operation.aborted w.trace⟩) ∧
    (∀ evs, Operation.run env (Operation.aborted w.trace) evs = Operation.aborted w.trace) ∧
    (∀ evs, ∀ x ∈ Operation.verdicts env (Operation.aborted w.trace) evs,
      x = Verdict.refused) := by
  have h := handleAPDU_wrong_state env p2 wireData w st hlen hexp hne
  refine ⟨h, ?_, fun q2 next => rfl, fun evs => Operation_run_aborted env _ evs,
    fun evs => Operation_verdicts_aborted env _ evs⟩
  simp only [Operation.step, step, hp, h]
  rfl

/-- C19, on a fresh session: the VoteKey command arrives out of order and fails with the
invalid-state error; the Init command, which the state expected, sent next, is
refused. -/
theorem out_of_order_session_unusable_witness :
    Operation.verdicts sampleEnv (Operation.running signTxCVoteRegistration_init)
        [Event.apdu 0x30 (1 :: sampleKey), Event.apdu 0x36 [2, 0, 0, 0, 0]] =
      [Verdict.failed Err.ERR_INVALID_STATE, Verdict.refused] ∧
    Operation.step sampleEnv (Operation.running signTxCVoteRegistration_init)
        (Event.apdu 0x30 (1 :: sampleKey)) =
      some ⟨Verdict.failed Err.ERR_INVALID_STATE,
        Operation.aborted signTxCVoteRegistration_init.trace⟩ :=
  ⟨by decide,
    (out_of_order_session_unusable sampleEnv 0x30 (1 :: sampleKey)
      signTxCVoteRegistration_init STATE_CVOTE_REGISTRATION_VOTE_KEY rfl (by decide) rfl
      (by decide)).2.1⟩


/-! ### C3 -/

theorem codesOf_idle (w : World) (hp : w.pending = none) :
    codesOf w =
      doneCodes w.subctx.state w.subctx.currentDelegation w.subctx.numDelegations := by
  simp [codesOf, hp]

theorem codesOf_of_Suspended (cb : ui_callback_fn_t) (W W' : World)
    (h : Suspended cb W W') :
    codesOf W' =
      doneCodes W.subctx.state W.subctx.currentDelegation W.subctx.numDelegations ++
        [stateCode W.subctx.state] := by
  obtain ⟨s, r, k, -, rfl⟩ := h
  simp [codesOf, World.display, World.setUiStep]

theorem codesOf_of_Completed (next : sign_tx_cvote_registration_state_t) (W W' : World)
    (hp : W.pending = none) (hc : Completed next W W')
    (hnext : doneCodes next W.subctx.currentDelegation W.subctx.numDelegations =
      doneCodes W.subctx.state W.subctx.currentDelegation W.subctx.numDelegations ++
        [stateCode W.subctx.state]) :
    codesOf W' =
      doneCodes W.subctx.state W.subctx.currentDelegation W.subctx.numDelegations ++
        [stateCode W.subctx.state] := by
  obtain ⟨c1, -, c3, c4, c5, -, -⟩ := hc
  rw [codesOf_idle W' (c5.trans hp), c1, c3, c4]
  exact hnext

theorem codesOf_of_DelegationCompleted (W W' : World) (hp : W.pending = none)
    (hst : W.subctx.state = STATE_CVOTE_REGISTRATION_DELEGATIONS)
    (hc : DelegationCompleted W W') :
    codesOf W' =
      doneCodes W.subctx.state W.subctx.currentDelegation W.subctx.numDelegations ++
        [stateCode W.subctx.state] := by
  obtain ⟨c1, c2, -, c4, c5, -, -⟩ := hc
  rw [codesOf_idle W' (c5.trans hp), c1, c2, c4, hst]
  split_ifs with h
  · simp [doneCodes, keyCodes, stateCode, ← h, List.replicate_succ']
  · simp [doneCodes, stateCode, List.replicate_succ']

theorem runCallback_codes (env : Env) (cb : ui_callback_fn_t) (W : World)
    (h : SessionInv W) (hp : W.pending = none) (hst : W.subctx.state = driverState cb)
    (hret : (runCallback env cb W).status = Status.returned) :
    codesOf (runCallback env cb W).world =
      doneCodes W.subctx.state W.subctx.currentDelegation W.subctx.numDelegations ++
        [stateCode W.subctx.state] := by
  have hvk := h.2.2.2.1
  cases cb
  case handleVoteKey_ui_runStep =>
    rcases handleVoteKey_ui_runStep_summary env W _ rfl hst with
      ⟨e, he, -⟩ | ⟨-, hs⟩ | ⟨-, hc⟩
    · exact absurd (he.symm.trans hret) (by simp)
    · exact codesOf_of_Suspended _ W _ hs
    · refine codesOf_of_Completed _ W _ hp hc ?_
      rw [hst, hvk hst]
      simp [doneCodes, keyCodes, stateCode, driverState]
  case handleDelegation_ui_runStep =>
    rcases handleDelegation_ui_runStep_summary env W _ rfl hst (h.2.2.2.2.1 hst) h.2.1 with
      ⟨e, he, -⟩ | ⟨-, hs⟩ | ⟨-, hc⟩
    · exact absurd (he.symm.trans hret) (by simp)
    · exact codesOf_of_Suspended _ W _ hs
    · exact codesOf_of_DelegationCompleted W _ hp hst hc
  case handleStakingKey_ui_runStep =>
    rcases handleStakingKey_ui_runStep_summary W _ rfl hst with
      ⟨e, he, -⟩ | ⟨-, hs⟩ | ⟨-, hc⟩
    · exact absurd (he.symm.trans hret) (by simp)
    · exact codesOf_of_Suspended _ W _ hs
    · refine codesOf_of_Completed _ W _ hp hc ?_
      rw [hst]
      simp [doneCodes, stateCode, driverState]
  case handlePaymentAddress_ui_runStep =>
    rcases handlePaymentAddress_ui_runStep_summary env W _ rfl hst with
      ⟨e, he, -⟩ | ⟨-, hs⟩ | ⟨-, hc⟩
    · exact absurd (he.symm.trans hret) (by simp)
    · exact codesOf_of_Suspended _ W _ hs
    · refine codesOf_of_Completed _ W _ hp hc ?_
      rw [hst]
      simp [doneCodes, stateCode, driverState]
  case handleNonce_ui_runStep =>
    rcases handleNonce_ui_runStep_summary W _ rfl hst with
      ⟨e, he, -⟩ | ⟨-, hs⟩ | ⟨-, hc⟩
    · exact absurd (he.symm.trans hret) (by simp)
    · exact codesOf_of_Suspended _ W _ hs
    · refine codesOf_of_Completed _ W _ hp hc ?_
      rw [hst]
      simp [doneCodes, stateCode, driverState]
  case handleVotingPurpose_ui_runStep =>
    rcases handleVotingPurpose_ui_runStep_summary W _ rfl hst with
      ⟨e, he, -⟩ | ⟨-, hs⟩ | ⟨-, hc⟩
    · exact absurd (he.symm.trans hret) (by simp)
    · exact codesOf_of_Suspended _ W _ hs
    · refine codesOf_of_Completed _ W _ hp hc ?_
      rw [hst]
      simp [doneCodes, stateCode, driverState]
  case handleConfirm_ui_runStep =>
    rcases handleConfirm_ui_runStep_summary env W _ rfl hst with
      ⟨e, he, -⟩ | ⟨-, hs⟩ | ⟨-, hc⟩
    · exact absurd (he.symm.trans hret) (by simp)
    · exact codesOf_of_Suspended _ W _ hs
    · refine codesOf_of_Completed _ W _ hp hc ?_
      rw [hst]
      simp [doneCodes, stateCode, driverState]

theorem driver_entry_codes (env : Env) (cb : ui_callback_fn_t) (w W : World)
    (hinv : SessionInv w) (hp : w.pending = none) (hc : SameCore w W)
    (hst : w.subctx.state = driverState cb)
    (hret : (runCallback env cb W).status = Status.returned) :
    codesOf (runCallback env cb W).world = codesOf w ++ [stateCode w.subctx.state] := by
  rw [runCallback_codes env cb W (SessionInv_of_SameCore w W hinv hp hc)
    (hc.2.2.2.2.trans hp) (hc.1.trans hst) hret, codesOf_idle w hp, hc.1, hc.2.2.1,
    hc.2.2.2.1]

theorem handleAPDU_codes (env : Env) (p2 : uint8_t) (d : List uint8_t) (w : World)
    (hinv : SessionInv w) (hp : w.pending = none)
    (hret : (signTxCVoteRegistration_handleAPDU env p2 d w).status = Status.returned) :
    codesOf (signTxCVoteRegistration_handleAPDU env p2 d w).world =
      codesOf w ++ [p2.val] := by
  rcases handleAPDU_by_code env p2 d w with
    e | ⟨hc, e⟩ | ⟨hc, e⟩ | ⟨hc, e⟩ | ⟨hc, e⟩ | ⟨hc, e⟩ | ⟨hc, e⟩ | ⟨hc, e⟩ | ⟨hc, e⟩
  · rw [e] at hret
    cases hret
  · rw [e] at hret ⊢
    obtain ⟨f, a, b, c, d', -, hst, -, -, -, -, hs', hcur, hpend, -⟩ :=
      handleInitAPDU_accepted env w d _ rfl hret
    rw [codesOf_idle w hp, codesOf_idle _ (hpend.trans hp), hs', hcur, hinv.2.2.1 hst, hst,
      hc]
    split_ifs <;> simp [doneCodes]
  · rw [e] at hret ⊢
    rcases handleVoteKeyAPDU_summary env d w _ rfl with
      ⟨e', he, -⟩ | ⟨W, hsc, hst, -, -, ho⟩
    · exact absurd (he.symm.trans hret) (by simp)
    · rw [ho] at hret ⊢
      rw [hc]
      exact (driver_entry_codes env ui_callback_fn_t.handleVoteKey_ui_runStep w W hinv hp
        hsc hst hret).trans (by rw [hst]; rfl)
  · rw [e] at hret ⊢
    rcases handleDelegationAPDU_summary env d w _ rfl with
      ⟨e', he, -⟩ | ⟨W, hsc, hst, -, -, -, ho⟩
    · exact absurd (he.symm.trans hret) (by simp)
    · rw [ho] at hret ⊢
      rw [hc]
      exact (driver_entry_codes env ui_callback_fn_t.handleDelegation_ui_runStep w W hinv hp
        hsc hst hret).trans (by rw [hst]; rfl)
  · rw [e] at hret ⊢
    rcases handleStakingKeyAPDU_summary env d w _ rfl with
      ⟨e', he, -⟩ | ⟨W, hsc, hst, -, -, ho⟩
    · exact absurd (he.symm.trans hret) (by simp)
    · rw [ho] at hret ⊢
      rw [hc]
      exact (driver_entry_codes env ui_callback_fn_t.handleStakingKey_ui_runStep w W hinv hp
        hsc hst hret).trans (by rw [hst]; rfl)
  · rw [e] at hret ⊢
    rcases handlePaymentAddressAPDU_summary env d w _ rfl with
      ⟨e', he, -⟩ | ⟨W, hsc, hst, -, -, ho⟩
    · exact absurd (he.symm.trans hret) (by simp)
    · rw [ho] at hret ⊢
      rw [hc]
      exact (driver_entry_codes env ui_callback_fn_t.handlePaymentAddress_ui_runStep w W
        hinv hp hsc hst hret).trans (by rw [hst]; rfl)
  · rw [e] at hret ⊢
    rcases handleNonceAPDU_summary env d w _ rfl with
      ⟨e', he, -⟩ | ⟨W, hsc, hst, -, -, ho⟩
    · exact absurd (he.symm.trans hret) (by simp)
    · rw [ho] at hret ⊢
      rw [hc]
      exact (driver_entry_codes env ui_callback_fn_t.handleNonce_ui_runStep w W hinv hp
        hsc hst hret).trans (by rw [hst]; rfl)
  · rw [e] at hret ⊢
    rcases handleVotingPurposeAPDU_summary env d w _ rfl with
      ⟨e', he, -⟩ | ⟨W, hsc, hst, -, -, -, ho⟩ | ⟨W, hsc, hst, -, -, -, ho⟩
    · exact absurd (he.symm.trans hret) (by simp)
    · rw [ho] at hret ⊢
      rw [hc]
      exact (driver_entry_codes env ui_callback_fn_t.handleVotingPurpose_ui_runStep w W
        hinv hp hsc hst hret).trans (by rw [hst]; rfl)
    · rw [ho, advanceState_of_VOTING_PURPOSE W (hsc.1.trans hst), hc]
      rw [codesOf_idle w hp, codesOf_idle _ (by
        show W.pending = none
        exact hsc.2.2.2.2.trans hp), hst]
      simp [returned, doneCodes, hsc.2.2.1]
  · rw [e] at hret ⊢
    rcases handleConfirmAPDU_summary env d w _ rfl with
      ⟨e', he, -⟩ | ⟨W, hsc, hst, -, -, ho⟩
    · exact absurd (he.symm.trans hret) (by simp)
    · rw [ho] at hret ⊢
      rw [hc]
      exact (driver_entry_codes env ui_callback_fn_t.handleConfirm_ui_runStep w W hinv hp
        hsc hst hret).trans (by rw [hst]; rfl)

theorem step_codes (env : Env) (w : World) (ev : Event) (o : Outcome)
    (hinv : SessionInv w) (hne : ev ≠ Event.uiReject) (hs : step env w ev = some o)
    (hret : o.status = Status.returned) :
    codesOf o.world = codesOf w ++ (commands [ev]).map (fun c => c.1.val) := by
  cases ev with
  | apdu p2 d =>
    cases hp : w.pending with
    | none =>
      simp only [step, hp] at hs
      cases hs
      exact handleAPDU_codes env p2 d w hinv hp hret
    | some p =>
      simp only [step, hp] at hs
      cases hs
  | uiConfirm =>
    cases hp : w.pending with
    | none =>
      simp only [step, hp] at hs
      cases hs
    | some p =>
      simp only [step, hp] at hs
      cases hs
      have hpi := hinv.2.2.2.2.2.2
      unfold PendingInv at hpi
      rw [hp] at hpi
      rw [runCallback_codes env p.callback { w with pending := none }
        (SessionInv_clear_pending w hinv) rfl hpi.1 hret]
      simp [codesOf, hp, commands, Event.asCommand]
  | uiReject => exact absurd rfl hne

theorem runAccepted_codes (env : Env) (evs : List Event) :
    ∀ w w', SessionInv w → runAccepted env w evs = some w' →
      codesOf w' = codesOf w ++ (commands evs).map (fun c => c.1.val) := by
  induction evs with
  | nil =>
    intro w w' _ hr
    cases hr
    simp [commands]
  | cons ev evs ih =>
    intro w w' hinv hr
    unfold runAccepted at hr
    split_ifs at hr with hrej
    cases hs : step env w ev with
    | none =>
      rw [hs] at hr
      cases hr
    | some o =>
      rw [hs] at hr
      dsimp only at hr
      cases hst : o.status with
      | thrown e =>
        rw [hst] at hr
        cases hr
      | returned =>
        rw [hst] at hr
        dsimp only at hr
        rw [ih o.world w' (step_SessionInv env w ev o hinv hs) hr,
          step_codes env w ev o hinv hrej hs hst, List.append_assoc, ← List.map_append]
        unfold commands
        rw [← List.filterMap_append]
        rfl

theorem command_of_code (c : uint8_t × List uint8_t) (k : uint8_t) (h : c.1.val = k.val) :
    c = (k, c.2) := by
  obtain ⟨p, d⟩ := c
  simp only at h
  rw [Fin.ext h]

theorem commands_of_replicate (k : uint8_t) :
    ∀ (l : List (uint8_t × List uint8_t)) (n : Nat),
      l.map (fun c => c.1.val) = List.replicate n k.val →
      l = (l.map Prod.snd).map (fun d => (k, d)) ∧ (l.map Prod.snd).length = n := by
  intro l
  induction l with
  | nil =>
    intro n h
    cases n with
    | zero => exact ⟨rfl, rfl⟩
    | succ n => cases h
  | cons c l ih =>
    intro n h
    cases n with
    | zero => cases h
    | succ n =>
      rw [List.replicate_succ, List.map_cons] at h
      obtain ⟨h1, h2⟩ := List.cons.inj h
      obtain ⟨e1, e2⟩ := ih n h2
      refine ⟨?_, by simp [← e2]⟩
      rw [List.map_cons, List.map_cons, ← e1, ← command_of_code c k h1]

theorem registrationCommands_of_codes (n cur : Nat) (cmds : List (uint8_t × List uint8_t))
    (h : cmds.map (fun c => c.1.val) = doneCodes STATE_CVOTE_REGISTRATION_FINISHED cur n) :
    ∃ dInit dKey dDels dSk dPa dN dVp dC,
      cmds = registrationCommands n dInit dKey dDels dSk dPa dN dVp dC ∧
      dDels.length = n := by
  simp only [doneCodes, List.cons_append] at h
  obtain ⟨c0, rest, rfl, h0, hrest⟩ := List.map_eq_cons_iff.mp h
  obtain ⟨l1, l2, rfl, h1, h2⟩ := List.map_eq_append_iff.mp hrest
  obtain ⟨c1, r1, rfl, k1, h2⟩ := List.map_eq_cons_iff.mp h2
  obtain ⟨c2, r2, rfl, k2, h2⟩ := List.map_eq_cons_iff.mp h2
  obtain ⟨c3, r3, rfl, k3, h2⟩ := List.map_eq_cons_iff.mp h2
  obtain ⟨c4, r4, rfl, k4, h2⟩ := List.map_eq_cons_iff.mp h2
  obtain ⟨c5, r5, rfl, k5, h2⟩ := List.map_eq_cons_iff.mp h2
  obtain rfl := List.map_eq_nil_iff.mp h2
  rw [command_of_code c0 0x36 h0, command_of_code c1 0x31 k1, command_of_code c2 0x32 k2,
    command_of_code c3 0x33 k3, command_of_code c4 0x35 k4, command_of_code c5 0x34 k5]
  unfold keyCodes at h1
  by_cases hn : n = 0
  · rw [if_pos hn] at h1
    obtain ⟨ck, rk, rfl, kk, hk⟩ := List.map_eq_cons_iff.mp h1
    obtain rfl := List.map_eq_nil_iff.mp hk
    rw [command_of_code ck 0x30 kk]
    exact ⟨c0.2, ck.2, [], c1.2, c2.2, c3.2, c4.2, c5.2, by simp [registrationCommands, hn],
      by simp [hn]⟩
  · rw [if_neg hn] at h1
    obtain ⟨e1, e2⟩ := commands_of_replicate 0x37 l1 n h1
    refine ⟨c0.2, [], l1.map Prod.snd, c1.2, c2.2, c3.2, c4.2, c5.2, ?_, e2⟩
    rw [registrationCommands, if_neg hn, ← e1]
    rfl

theorem contentAfter_Init (env : Env) (d : List uint8_t) (c : Content) :
    contentAfter env 0x36 d c = contentAfterInit d c := rfl

theorem contentAfter_VoteKey (env : Env) (d : List uint8_t) (c : Content) :
    contentAfter env 0x30 d c = contentAfterVoteKey env d c := rfl

theorem contentAfter_Delegation (env : Env) (d : List uint8_t) (c : Content) :
    contentAfter env 0x37 d c = contentAfterDelegation env d c := rfl

theorem contentAfter_StakingKey (env : Env) (d : List uint8_t) (c : Content) :
    contentAfter env 0x31 d c = contentAfterStakingKey env d c := rfl

theorem contentAfter_PaymentAddress (env : Env) (d : List uint8_t) (c : Content) :
    contentAfter env 0x32 d c = contentAfterPaymentAddress env d c := rfl

theorem contentAfter_Nonce (env : Env) (d : List uint8_t) (c : Content) :
    contentAfter env 0x33 d c = contentAfterNonce d c := rfl

theorem contentAfter_VotingPurpose (env : Env) (d : List uint8_t) (c : Content) :
    contentAfter env 0x35 d c = contentAfterVotingPurpose env d c := rfl

theorem contentAfter_Confirm (env : Env) (d : List uint8_t) (c : Content) :
    contentAfter env 0x34 d c = contentAfterConfirm env c := rfl

theorem contentAfterAll_delegations (env : Env) (ds : List (List uint8_t)) :
    ∀ c : Content,
      contentAfterAll env (ds.map (fun d => ((0x37 : uint8_t), d))) c =
        { c with
          stateData :=
            (contentAfterAll env (ds.map (fun d => ((0x37 : uint8_t), d))) c).stateData
          calls := c.calls ++ ds.map (fun d =>
            HashCall.addDelegation (hashedDelegation env d).1 (hashedDelegation env d).2) } := by
  induction ds with
  | nil =>
    intro c
    simp [contentAfterAll]
  | cons d ds ih =>
    intro c
    have e : contentAfterAll env ((d :: ds).map (fun d => ((0x37 : uint8_t), d))) c =
        contentAfterAll env (ds.map (fun d => ((0x37 : uint8_t), d)))
          (contentAfterDelegation env d c) := rfl
    rw [e, ih]
    simp [contentAfterDelegation, hashedDelegation]

theorem contentAfterAll_registration (env : Env) (c0 : Content) (dInit dKey : List uint8_t)
    (dDels : List (List uint8_t)) (dSk dPa dN dVp dC : List uint8_t) :
    (contentAfterAll env
      (registrationCommands (initParsed dInit).2 dInit dKey dDels dSk dPa dN dVp dC)
      c0).calls =
      c0.calls ++ specRegistrationCalls env.CIP36 (initParsed dInit).1 (initParsed dInit).2
        (hashedVoteKey env dKey) (dDels.map (hashedDelegation env))
        (env.deriveExtendedPublicKey (stakingKeyParsed env dSk))
        (addressBytes env (paymentAddressParsed env dPa)) (u8be_read dN)
        (votingPurposeParsed env dVp)
        (fixed env.ED25519_SIGNATURE_LENGTH
          (env.getCVoteRegistrationSignature (stakingKeyParsed env dSk)
            (fixed env.CVOTE_REGISTRATION_PAYLOAD_HASH_LENGTH
              (fixed env.AUX_DATA_HASH_LENGTH
                (env.finalizePayloadDigest (c0.calls ++
                  registrationPayloadCalls env dInit dKey dDels dSk dPa dN dVp)))))) := by
  unfold registrationCommands
  by_cases hn : (initParsed dInit).2 = 0
  · simp [contentAfterAll, contentAfter_Init, contentAfter_VoteKey, contentAfter_StakingKey,
      contentAfter_PaymentAddress, contentAfter_Nonce, contentAfter_VotingPurpose,
      contentAfter_Confirm, contentAfterInit, contentAfterVoteKey, contentAfterStakingKey,
      contentAfterPaymentAddress, contentAfterNonce, contentAfterVotingPurpose,
      contentAfterConfirm, contentSignature, specRegistrationCalls, specKeyCalls,
      specVotingPurposeCalls, registrationPayloadCalls, hashedVoteKey, hn]
  · rw [if_neg hn]
    have e : contentAfterAll env
        (((0x36 : uint8_t), dInit) :: (dDels.map (fun d => ((0x37 : uint8_t), d)) ++
          [(0x31, dSk), (0x32, dPa), (0x33, dN), (0x35, dVp), (0x34, dC)])) c0 =
        contentAfterAll env [(0x31, dSk), (0x32, dPa), (0x33, dN), (0x35, dVp), (0x34, dC)]
          (contentAfterAll env (dDels.map (fun d => ((0x37 : uint8_t), d)))
            (contentAfterInit dInit c0)) := by
      simp [contentAfterAll, List.foldl_append, contentAfter_Init]
    rw [List.cons_append, e, contentAfterAll_delegations]
    simp [contentAfterAll, contentAfter_StakingKey,
      contentAfter_PaymentAddress, contentAfter_Nonce, contentAfter_VotingPurpose,
      contentAfter_Confirm, contentAfterInit, contentAfterStakingKey,
      contentAfterPaymentAddress, contentAfterNonce, contentAfterVotingPurpose,
      contentAfterConfirm, contentSignature, specRegistrationCalls, specKeyCalls,
      specVotingPurposeCalls, registrationPayloadCalls, hn, Nat.pos_of_ne_zero hn]
    rfl

theorem contentAfterAll_registration_init (env : Env) (c0 : Content) (n : Nat)
    (dInit dKey : List uint8_t) (dDels : List (List uint8_t))
    (dSk dPa dN dVp dC : List uint8_t) :
    (contentAfterAll env (registrationCommands n dInit dKey dDels dSk dPa dN dVp dC)
      c0).format = (initParsed dInit).1 ∧
    (contentAfterAll env (registrationCommands n dInit dKey dDels dSk dPa dN dVp dC)
      c0).numDelegations = (initParsed dInit).2 := by
  unfold registrationCommands
  by_cases hn : n = 0
  · simp [contentAfterAll, contentAfter_Init, contentAfter_VoteKey, contentAfter_StakingKey,
      contentAfter_PaymentAddress, contentAfter_Nonce, contentAfter_VotingPurpose,
      contentAfter_Confirm, contentAfterInit, contentAfterVoteKey, contentAfterStakingKey,
      contentAfterPaymentAddress, contentAfterNonce, contentAfterVotingPurpose,
      contentAfterConfirm, hn]
  · rw [if_neg hn]
    have e : contentAfterAll env
        (((0x36 : uint8_t), dInit) :: (dDels.map (fun d => ((0x37 : uint8_t), d)) ++
          [(0x31, dSk), (0x32, dPa), (0x33, dN), (0x35, dVp), (0x34, dC)])) c0 =
        contentAfterAll env [(0x31, dSk), (0x32, dPa), (0x33, dN), (0x35, dVp), (0x34, dC)]
          (contentAfterAll env (dDels.map (fun d => ((0x37 : uint8_t), d)))
            (contentAfterInit dInit c0)) := by
      simp [contentAfterAll, List.foldl_append, contentAfter_Init]
    rw [List.cons_append, e, contentAfterAll_delegations]
    simp [contentAfterAll, contentAfter_StakingKey,
      contentAfter_PaymentAddress, contentAfter_Nonce, contentAfter_VotingPurpose,
      contentAfter_Confirm, contentAfterInit, contentAfterStakingKey,
      contentAfterPaymentAddress, contentAfterNonce, contentAfterVotingPurpose,
      contentAfterConfirm]

theorem pending_none_of_FINISHED (w : World) (hinv : SessionInv w)
    (hfin : w.subctx.state = STATE_CVOTE_REGISTRATION_FINISHED) : w.pending = none := by
  have hpi := hinv.2.2.2.2.2.2
  unfold PendingInv at hpi
  cases hp : w.pending with
  | none => rfl
  | some p =>
    rw [hp] at hpi
    have h1 := hpi.1
    rw [hfin] at h1
    cases hcb : p.callback <;> rw [hcb] at h1 <;> cases h1

/-- C3: after a run from the fresh session in which every wire command and UI
resumption was accepted (no throw, no user rejection) and that reached the Finished
state, the wire commands of the run are, in this order, Init, then one VoteKey command
(no delegation declared) or `numDelegations` Delegation commands, StakingKey,
PaymentAddress, Nonce, VotingPurpose, Confirm; and the hash-accumulator calls made are
exactly, in this order: `enter(format)`, `enterPayload`, then `addVoteKey` of the key
of the VoteKey payload, or `enterDelegations(numDelegations)` followed by one
`addDelegation` of the key and the weight of each Delegation payload in command order,
then `addStakingKey` of the key derived from the parsed path, `addPaymentAddress` of
the address of the parsed destination, `addNonce` of the 8 payload bytes,
`addVotingPurpose` of the parsed value exactly when the format is CIP36,
`finalizePayload`, `addSignature` of the signer's result for the staking key path and
the digest of the calls before, `addAuxiliaryScripts`, `finalize`. -/
theorem accepted_run_hash_calls (env : Env) (evs : List Event) (w : World)
    (hrun : runAccepted env signTxCVoteRegistration_init evs = some w)
    (hfin : w.subctx.state = STATE_CVOTE_REGISTRATION_FINISHED) :
    ∃ dInit dKey dDels dSk dPa dN dVp dC,
      commands evs =
        registrationCommands w.subctx.numDelegations dInit dKey dDels dSk dPa dN dVp dC ∧
      dDels.length = w.subctx.numDelegations ∧
      w.subctx.format = (initParsed dInit).1 ∧
      w.subctx.numDelegations = (initParsed dInit).2 ∧
      hashCalls w.trace =
        specRegistrationCalls env.CIP36 w.subctx.format w.subctx.numDelegations
          (hashedVoteKey env dKey) (dDels.map (hashedDelegation env))
          (env.deriveExtendedPublicKey (stakingKeyParsed env dSk))
          (addressBytes env (paymentAddressParsed env dPa)) (u8be_read dN)
          (votingPurposeParsed env dVp)
          (registrationSignatureOf env dInit dKey dDels dSk dPa dN dVp) := by
  have hinv := (runAccepted_invariants env evs _ w init_SessionInv (init_HashInv env) hrun).1
  have hcodes := runAccepted_codes env evs _ w init_SessionInv hrun
  rw [codesOf_idle w (pending_none_of_FINISHED w hinv hfin), hfin] at hcodes
  have h0 : codesOf signTxCVoteRegistration_init = [] := rfl
  rw [h0, List.nil_append] at hcodes
  obtain ⟨dInit, dKey, dDels, dSk, dPa, dN, dVp, dC, hcmds, hlen⟩ :=
    registrationCommands_of_codes _ _ _ hcodes.symm
  have hcont := runAccepted_content env evs _ w init_SessionInv hrun
  rw [hcmds] at hcont
  obtain ⟨hf, hn⟩ := contentAfterAll_registration_init env
    (contentOf signTxCVoteRegistration_init) w.subctx.numDelegations dInit dKey dDels dSk
    dPa dN dVp dC
  rw [← hcont] at hf hn
  have hf' : w.subctx.format = (initParsed dInit).1 := hf
  have hn' : w.subctx.numDelegations = (initParsed dInit).2 := hn
  refine ⟨dInit, dKey, dDels, dSk, dPa, dN, dVp, dC, hcmds, hlen, hf', hn', ?_⟩
  have hcalls : hashCalls w.trace = (contentOf w).calls := rfl
  rw [hcalls, hcont, hn', contentAfterAll_registration, hf']
  simp [contentOf, signTxCVoteRegistration_init, registrationSignatureOf]

/-- C3, at a concrete run: scenario B of the specification in the sample environment,
two delegations, one to a raw key with weight 5 and one to a derivation path with
weight 256. -/
theorem accepted_run_hash_calls_witness :
    (∃ dInit dKey dDels dSk dPa dN dVp dC,
      commands sampleDelegationsRun =
        registrationCommands
          (runEvents sampleEnv signTxCVoteRegistration_init
            sampleDelegationsRun).subctx.numDelegations
          dInit dKey dDels dSk dPa dN dVp dC ∧
      dDels.length =
        (runEvents sampleEnv signTxCVoteRegistration_init
          sampleDelegationsRun).subctx.numDelegations ∧
      (runEvents sampleEnv signTxCVoteRegistration_init
        sampleDelegationsRun).subctx.format = (initParsed dInit).1 ∧
      (runEvents sampleEnv signTxCVoteRegistration_init
        sampleDelegationsRun).subctx.numDelegations = (initParsed dInit).2 ∧
      hashCalls (runEvents sampleEnv signTxCVoteRegistration_init
          sampleDelegationsRun).trace =
        specRegistrationCalls sampleEnv.CIP36
          (runEvents sampleEnv signTxCVoteRegistration_init
            sampleDelegationsRun).subctx.format
          (runEvents sampleEnv signTxCVoteRegistration_init
            sampleDelegationsRun).subctx.numDelegations
          (hashedVoteKey sampleEnv dKey) (dDels.map (hashedDelegation sampleEnv))
          (sampleEnv.deriveExtendedPublicKey (stakingKeyParsed sampleEnv dSk))
          (addressBytes sampleEnv (paymentAddressParsed sampleEnv dPa)) (u8be_read dN)
          (votingPurposeParsed sampleEnv dVp)
          (registrationSignatureOf sampleEnv dInit dKey dDels dSk dPa dN dVp)) ∧
    hashCalls (runEvents sampleEnv signTxCVoteRegistration_init
        sampleDelegationsRun).trace =
      [HashCall.enter 2, HashCall.enterPayload, HashCall.enterDelegations 2,
       HashCall.addDelegation sampleKey 5,
       HashCall.addDelegation (List.replicate 32 1) 256,
       HashCall.addStakingKey (List.replicate 32 2), HashCall.addPaymentAddress [9, 9],
       HashCall.addNonce 256, HashCall.addVotingPurpose 7, HashCall.finalizePayload,
       HashCall.addSignature (List.replicate 64 9), HashCall.addAuxiliaryScripts,
       HashCall.finalize] :=
  ⟨accepted_run_hash_calls sampleEnv sampleDelegationsRun
    (runEvents sampleEnv signTxCVoteRegistration_init sampleDelegationsRun)
    (by decide) (by decide), by decide⟩


/-! ### The sessions of a running operation

The sessions that a running operation goes through are among those that `step`
reaches, so what holds of every reachable session holds of them. -/

theorem Operation_step_running (env : Env) (op : Operation) (ev : Event)
    (r : OperationOutcome) (w' : World) (hs : Operation.step env op ev = some r)
    (hr : r.operation = Operation.running w') :
    ∃ w o, op = Operation.running w ∧ step env w ev = some o ∧
      o.status = Status.returned ∧ o.world = w' := by
  cases op with
  | aborted t =>
    cases ev
    all_goals simp only [Operation.step] at hs
    all_goals first
      | (cases hs; done)
      | (cases hs
         exact absurd hr (by simp))
  | running w =>
    cases ev with
    | apdu p2 d =>
      simp only [Operation.step] at hs
      cases hst : step env w (Event.apdu p2 d) with
      | none =>
        rw [hst] at hs
        cases hs
      | some o =>
        rw [hst] at hs
        dsimp only at hs
        cases hstat : o.status with
        | returned =>
          rw [hstat] at hs
          cases hs
          cases hr
          exact ⟨w, o, rfl, hst, hstat, rfl⟩
        | thrown e =>
          rw [hstat] at hs
          cases hs
          cases hr
    | uiConfirm =>
      simp only [Operation.step] at hs
      cases hst : step env w Event.uiConfirm with
      | none =>
        rw [hst] at hs
        cases hs
      | some o =>
        rw [hst] at hs
        dsimp only at hs
        cases hstat : o.status with
        | returned =>
          rw [hstat] at hs
          cases hs
          cases hr
          exact ⟨w, o, rfl, hst, hstat, rfl⟩
        | thrown e =>
          rw [hstat] at hs
          cases hs
          cases hr
    | uiReject =>
      simp only [Operation.step] at hs
      cases hp : w.pending with
      | none =>
        rw [hp] at hs
        cases hs
      | some p =>
        rw [hp] at hs
        dsimp only at hs
        split_ifs at hs
        cases hs
        cases hr

theorem Operation_run_Reachable (env : Env) (evs : List Event) :
    ∀ (op : Operation) (w' : World),
      (∀ w, op = Operation.running w → Reachable env w) →
      Operation.run env op evs = Operation.running w' → Reachable env w' := by
  induction evs with
  | nil =>
    intro op w' h hr
    exact h w' hr
  | cons ev evs ih =>
    intro op w' h hr
    unfold Operation.run at hr
    cases hs : Operation.step env op ev with
    | none =>
      rw [hs] at hr
      exact ih op w' h hr
    | some r =>
      rw [hs] at hr
      refine ih r.operation w' ?_ hr
      intro w1 hw1
      obtain ⟨w, o, hop, hst, -, hw⟩ := Operation_step_running env op ev r w1 hs hw1
      rw [← hw]
      exact Reachable.step w ev o (h w hop) hst

theorem Operation_running_Reachable (env : Env) (evs : List Event) (w : World)
    (hr : Operation.run env (Operation.running signTxCVoteRegistration_init) evs =
      Operation.running w) : Reachable env w :=
  Operation_run_Reachable env evs _ w
    (fun _ h0 => (Operation.running.inj h0) ▸ Reachable.init) hr


end CVote
